import Mathlib

/-!
# Clover-improved Wilson Dirac operators (`lib/dirac_clover.cpp`)

A shallow embedding of the operator layer of `lib/dirac_clover.cpp`: the four classes
`DiracClover`, `DiracCloverPC`, `DiracCloverHasenbuschTwist` and
`DiracCloverHasenbuschTwistPC`.

* Fields are handles (`ColorSpinorField`) into a store of checkerboard-sized buffers, so that
  aliasing between `out`, `in`, `x` and the scratch fields `tmp1`, `tmp2` is visible.
* The operator object and the memory it works on form one `State`; every method is a state
  transformer that may abort (`errorQuda`), in which case the state reached at the abort is
  kept in the result.
* The stencil kernels are not part of the file: they are the fields of `External`, pure
  functions from the contents of the fields read to the contents of the field written.
  Every kernel launch is logged in `State.trace`.
* `double` is modelled by an exact field `K`, `long long` flop counts by `Nat`.
-/

namespace quda

/-! ## Enumerations -/

/-- Checkerboard parity; `QUDA_EVEN_PARITY = 0`, `QUDA_ODD_PARITY = 1`. -/
inductive QudaParity where
  | QUDA_EVEN_PARITY
  | QUDA_ODD_PARITY
  | QUDA_INVALID_PARITY
  deriving DecidableEq, Repr

/-- Preconditioning tag of an operator. -/
inductive QudaMatPCType where
  | QUDA_MATPC_EVEN_EVEN
  | QUDA_MATPC_ODD_ODD
  | QUDA_MATPC_EVEN_EVEN_ASYMMETRIC
  | QUDA_MATPC_ODD_ODD_ASYMMETRIC
  | QUDA_MATPC_INVALID
  deriving DecidableEq, Repr

/-- Solution type requested from `prepare` / `reconstruct`. -/
inductive QudaSolutionType where
  | QUDA_MAT_SOLUTION
  | QUDA_MATDAG_MAT_SOLUTION
  | QUDA_MATPC_SOLUTION
  | QUDA_MATPC_DAG_SOLUTION
  | QUDA_MATPCDAG_MATPC_SOLUTION
  | QUDA_MATPCDAG_MATPC_SHIFT_SOLUTION
  | QUDA_INVALID_SOLUTION
  deriving DecidableEq, Repr

/-- Operator kind handed to the coarse-operator builder. -/
inductive QudaDiracType where
  | QUDA_CLOVER_DIRAC
  | QUDA_CLOVERPC_DIRAC
  | QUDA_CLOVER_HASENBUSCH_TWIST_DIRAC
  | QUDA_CLOVER_HASENBUSCH_TWISTPC_DIRAC
  deriving DecidableEq, Repr

/-- Whether a field handle covers one checkerboard or the full lattice. -/
inductive QudaSiteSubset where
  | QUDA_PARITY_SITE_SUBSET
  | QUDA_FULL_SITE_SUBSET
  deriving DecidableEq, Repr

/-- The kinds of fatal error raised through `errorQuda`. -/
inductive QudaError where
  /-- Message "Parity spinor volume %d doesn't match clover checkboard volume %d" -/
  | VolumeMismatch
  /-- output and input storage coincide where the kernel needs them distinct -/
  | AliasError
  /-- invalid preconditioning tag, missing clover inverse, wrong solution type -/
  | ConfigurationError
  /-- Message "Not Yet Implemented" -/
  | NotImplemented
  /-- a check of the `Dirac` base class rejected the fields -/
  | FieldMismatch
  /-- dereference of a scratch pointer that is null -/
  | NullPointer
  deriving DecidableEq, Repr

open QudaParity QudaMatPCType QudaSolutionType QudaDiracType QudaSiteSubset

/-- Modelled from the spec: the conversion `static_cast<QudaParity>(n)` of an integer to the
parity enumeration, whose declaration is not in this file; even is 0 and odd is 1. -/
def QudaParity.static_cast : Nat → QudaParity
  | 0 => QUDA_EVEN_PARITY
  | 1 => QUDA_ODD_PARITY
  | _ => QUDA_INVALID_PARITY

/-! ## Fields, clover term, transfer operator -/

/-- Handle of a fermion field: its metadata and where its data lives, as addresses of
checkerboard-sized buffers.  A parity field lives in the buffer `v`; a full field has its
even half in `v` and its odd half in `vOdd`. -/
structure ColorSpinorField where
  siteSubset : QudaSiteSubset
  volume : Nat
  v : Nat
  vOdd : Nat
  deriving DecidableEq, Repr

/-- Modelled from the spec: `ColorSpinorField::Even()`, the non-owning view of the even
checkerboard, sharing storage with the full field and holding half of its sites. -/
def ColorSpinorField.Even (f : ColorSpinorField) : ColorSpinorField :=
  { siteSubset := QUDA_PARITY_SITE_SUBSET, volume := f.volume / 2, v := f.v, vOdd := f.v }

/-- Modelled from the spec: `ColorSpinorField::Odd()`, the non-owning view of the odd
checkerboard, sharing storage with the full field and holding half of its sites. -/
def ColorSpinorField.Odd (f : ColorSpinorField) : ColorSpinorField :=
  { siteSubset := QUDA_PARITY_SITE_SUBSET, volume := f.volume / 2, v := f.vOdd, vOdd := f.vOdd }

/-- The clover field as far as this layer looks at it: the checkerboard volume and whether
the precomputed inverse is present. -/
structure CloverField where
  VolumeCB : Nat
  cloverInv : Bool
  deriving DecidableEq, Repr

/-- Handle of a gauge field (the coarse links `Y`, `X` written by the coarse builder). -/
structure GaugeField where
  id : Nat
  deriving DecidableEq, Repr

/-- The transfer operator as far as this layer looks at it: `T.Vectors().TwistFlavor()`. -/
structure Transfer where
  TwistFlavor : Int
  deriving DecidableEq, Repr

/-- One launch of an external kernel, with the arguments that this layer chooses. -/
inductive KernelCall (K : Type) where
  | ApplyClover (out inp : ColorSpinorField) (inverse : Bool) (parity : QudaParity)
  | ApplyWilson (out inp : ColorSpinorField) (k : K) (x : ColorSpinorField)
      (parity : QudaParity) (dagger : Bool)
  | ApplyWilsonClover (out inp : ColorSpinorField) (k : K) (x : ColorSpinorField)
      (parity : QudaParity) (dagger : Bool)
  | ApplyWilsonCloverTwist (out inp : ColorSpinorField) (k b : K) (x : ColorSpinorField)
      (parity : QudaParity) (dagger : Bool)
  | ApplyWilsonCloverPreconditioned (out inp : ColorSpinorField) (k : K)
      (x : ColorSpinorField) (parity : QudaParity) (dagger : Bool)
  | ApplyWilsonCloverHasenbuschTwist (out inp : ColorSpinorField) (k b : K)
      (x : ColorSpinorField) (parity : QudaParity) (dagger : Bool)
  | ApplyWilsonCloverHasenbuschTwistPCClovInv (out inp : ColorSpinorField) (k b : K)
      (x : ColorSpinorField) (parity : QudaParity) (dagger : Bool)
  | ApplyWilsonCloverHasenbuschTwistPCNoClovInv (out inp : ColorSpinorField) (k b : K)
      (x : ColorSpinorField) (parity : QudaParity) (dagger : Bool)
  | CoarseOp (Y X : GaugeField) (T : Transfer) (kappa a mu_factor : K)
      (dirac : QudaDiracType) (matpc : QudaMatPCType)
  deriving DecidableEq, Repr

/-- What the file consumes and does not define.  The kernels for the gauge and clover field
of the operator, as functions of the contents of `in` and `x` (in this order, with the
scalars between them as in the call) giving the contents of `out`; the field checks of the
`Dirac` base class; the per-site flop count of the base Wilson hopping step. -/
structure External (K F : Type) where
  /-- Kernel `ApplyClover(out, in, clover, inverse, parity)` -/
  ApplyClover : F → Bool → QudaParity → F
  /-- Kernel `ApplyWilson(out, in, gauge, k, x, parity, dagger, ..)`, launched by
  `DiracWilson::DslashXpay` -/
  ApplyWilson : F → K → F → QudaParity → Bool → F
  /-- Kernel `ApplyWilsonClover(out, in, gauge, clover, k, x, parity, dagger, ..)` -/
  ApplyWilsonClover : F → K → F → QudaParity → Bool → F
  /-- Kernel `ApplyWilsonClover(out, in, gauge, clover, k, b, x, parity, dagger, ..)` -/
  ApplyWilsonCloverTwist : F → K → K → F → QudaParity → Bool → F
  /-- Kernel `ApplyWilsonCloverPreconditioned(out, in, gauge, clover, k, x, parity, dagger, ..)` -/
  ApplyWilsonCloverPreconditioned : F → K → F → QudaParity → Bool → F
  /-- Kernel `ApplyWilsonCloverHasenbuschTwist(out, in, gauge, clover, k, b, x, parity, dagger, ..)` -/
  ApplyWilsonCloverHasenbuschTwist : F → K → K → F → QudaParity → Bool → F
  /-- Kernel `ApplyWilsonCloverHasenbuschTwistPCClovInv(out, in, .., k, b, x, parity, dagger, ..)` -/
  ApplyWilsonCloverHasenbuschTwistPCClovInv : F → K → K → F → QudaParity → Bool → F
  /-- Kernel `ApplyWilsonCloverHasenbuschTwistPCNoClovInv(out, in, .., k, b, x, parity, dagger, ..)` -/
  ApplyWilsonCloverHasenbuschTwistPCNoClovInv : F → K → K → F → QudaParity → Bool → F
  /-- Whether `Dirac::checkParitySpinor(out, in)` passes -/
  checkParitySpinor : ColorSpinorField → ColorSpinorField → Bool
  /-- Whether `Dirac::checkFullSpinor(out, in)` passes -/
  checkFullSpinor : ColorSpinorField → ColorSpinorField → Bool
  /-- flops per site added by `DiracWilson::DslashXpay` -/
  wilsonXpayFlops : Nat

/-! ## The operator object and the memory it works on -/

/-- The operator object (`kappa` .. `flops`) together with the field memory (`store`, `brk`)
and the log of kernel launches. `tmp1`, `tmp2` are the scratch pointers (null is `none`),
`dagger` the adjoint flag, `brk` the first address that no field occupies yet. -/
structure State (K F : Type) where
  kappa : K
  mu : K
  matpcType : QudaMatPCType
  dagger : Bool
  clover : CloverField
  tmp1 : Option ColorSpinorField
  tmp2 : Option ColorSpinorField
  flops : Nat
  store : Nat → F
  brk : Nat
  trace : List (KernelCall K)

/-- Outcome of a method: it returned `a` in state `s`, or aborted in state `s`. -/
inductive Result (σ α : Type) where
  | ok (a : α) (s : σ)
  | error (e : QudaError) (s : σ)

/-- The state reached, whether the method returned or aborted. -/
def Result.state {σ α : Type} : Result σ α → σ
  | .ok _ s => s
  | .error _ s => s

/-- The method returned. -/
def Result.isOk {σ α : Type} : Result σ α → Bool
  | .ok _ _ => true
  | .error _ _ => false

/-- A method of an operator: a state transformer that may abort. -/
def Quda (K F α : Type) : Type := State K F → Result (State K F) α

section Methods

variable {K F : Type}

instance : Monad (Quda K F) where
  pure a := fun s => .ok a s
  bind x f := fun s =>
    match x s with
    | .ok a s1 => f a s1
    | .error e s1 => .error e s1

/-- The fatal error exit `errorQuda(..)`. -/
def errorQuda {α : Type} (e : QudaError) : Quda K F α := fun s => .error e s

/-- Read the members of the object. -/
def getState : Quda K F (State K F) := fun s => .ok s s

/-- The statement `flops += n`. -/
def addFlops (n : Nat) : Quda K F Unit := fun s => .ok () { s with flops := s.flops + n }

/-! ### Kernel launches -/

/-- Launch of `ApplyClover`: site-local, reads `in`, writes `out`. -/
def ApplyClover (E : External K F) (out inp : ColorSpinorField) (inverse : Bool)
    (parity : QudaParity) : Quda K F Unit := fun s =>
  .ok () { s with
    store := Function.update s.store out.v (E.ApplyClover (s.store inp.v) inverse parity)
    trace := s.trace ++ [KernelCall.ApplyClover out inp inverse parity] }

/-- Launch of `ApplyWilson` on one checkerboard. -/
def ApplyWilson (E : External K F) (out inp : ColorSpinorField) (k : K)
    (x : ColorSpinorField) (parity : QudaParity) (dagger : Bool) : Quda K F Unit := fun s =>
  .ok () { s with
    store := Function.update s.store out.v
      (E.ApplyWilson (s.store inp.v) k (s.store x.v) parity dagger)
    trace := s.trace ++ [KernelCall.ApplyWilson out inp k x parity dagger] }

/-- Launch of `ApplyWilsonClover`.  With a checkerboard parity it reads `in` and `x` and
writes `out`.  Modelled from the spec: with `QUDA_INVALID_PARITY` it is the single fused call
across both checkerboards of full fields, each half of `out` computed from the opposite half
of `in` and the same half of `x`. -/
def ApplyWilsonClover (E : External K F) (out inp : ColorSpinorField) (k : K)
    (x : ColorSpinorField) (parity : QudaParity) (dagger : Bool) : Quda K F Unit := fun s =>
  match parity with
  | QUDA_INVALID_PARITY =>
    .ok () { s with
      store := Function.update
        (Function.update s.store out.v
          (E.ApplyWilsonClover (s.store inp.vOdd) k (s.store x.v) QUDA_EVEN_PARITY dagger))
        out.vOdd (E.ApplyWilsonClover (s.store inp.v) k (s.store x.vOdd) QUDA_ODD_PARITY dagger)
      trace := s.trace ++ [KernelCall.ApplyWilsonClover out inp k x parity dagger] }
  | p =>
    .ok () { s with
      store := Function.update s.store out.v
        (E.ApplyWilsonClover (s.store inp.v) k (s.store x.v) p dagger)
      trace := s.trace ++ [KernelCall.ApplyWilsonClover out inp k x parity dagger] }

/-- Launch of the `k, b` overload of `ApplyWilsonClover` on one checkerboard. -/
def ApplyWilsonCloverTwist (E : External K F) (out inp : ColorSpinorField) (k b : K)
    (x : ColorSpinorField) (parity : QudaParity) (dagger : Bool) : Quda K F Unit := fun s =>
  .ok () { s with
    store := Function.update s.store out.v
      (E.ApplyWilsonCloverTwist (s.store inp.v) k b (s.store x.v) parity dagger)
    trace := s.trace ++ [KernelCall.ApplyWilsonCloverTwist out inp k b x parity dagger] }

/-- Launch of `ApplyWilsonCloverPreconditioned` on one checkerboard. -/
def ApplyWilsonCloverPreconditioned (E : External K F) (out inp : ColorSpinorField) (k : K)
    (x : ColorSpinorField) (parity : QudaParity) (dagger : Bool) : Quda K F Unit := fun s =>
  .ok () { s with
    store := Function.update s.store out.v
      (E.ApplyWilsonCloverPreconditioned (s.store inp.v) k (s.store x.v) parity dagger)
    trace := s.trace ++ [KernelCall.ApplyWilsonCloverPreconditioned out inp k x parity dagger] }

/-- Launch of `ApplyWilsonCloverHasenbuschTwist` on one checkerboard. -/
def ApplyWilsonCloverHasenbuschTwist (E : External K F) (out inp : ColorSpinorField)
    (k b : K) (x : ColorSpinorField) (parity : QudaParity) (dagger : Bool) :
    Quda K F Unit := fun s =>
  .ok () { s with
    store := Function.update s.store out.v
      (E.ApplyWilsonCloverHasenbuschTwist (s.store inp.v) k b (s.store x.v) parity dagger)
    trace := s.trace ++
      [KernelCall.ApplyWilsonCloverHasenbuschTwist out inp k b x parity dagger] }

/-- Launch of `ApplyWilsonCloverHasenbuschTwistPCClovInv` on one checkerboard. -/
def ApplyWilsonCloverHasenbuschTwistPCClovInv (E : External K F)
    (out inp : ColorSpinorField) (k b : K) (x : ColorSpinorField) (parity : QudaParity)
    (dagger : Bool) : Quda K F Unit := fun s =>
  .ok () { s with
    store := Function.update s.store out.v
      (E.ApplyWilsonCloverHasenbuschTwistPCClovInv (s.store inp.v) k b (s.store x.v)
        parity dagger)
    trace := s.trace ++
      [KernelCall.ApplyWilsonCloverHasenbuschTwistPCClovInv out inp k b x parity dagger] }

/-- Launch of `ApplyWilsonCloverHasenbuschTwistPCNoClovInv` on one checkerboard. -/
def ApplyWilsonCloverHasenbuschTwistPCNoClovInv (E : External K F)
    (out inp : ColorSpinorField) (k b : K) (x : ColorSpinorField) (parity : QudaParity)
    (dagger : Bool) : Quda K F Unit := fun s =>
  .ok () { s with
    store := Function.update s.store out.v
      (E.ApplyWilsonCloverHasenbuschTwistPCNoClovInv (s.store inp.v) k b (s.store x.v)
        parity dagger)
    trace := s.trace ++
      [KernelCall.ApplyWilsonCloverHasenbuschTwistPCNoClovInv out inp k b x parity dagger] }

/-- The coarse-operator builder `CoarseOp(Y, X, T, gauge, clover, kappa, a, mu_factor,
dirac, matpc)`: an external capability, of which only the request is recorded. -/
def CoarseOp (Y X : GaugeField) (T : Transfer) (kappa a mu_factor : K)
    (dirac : QudaDiracType) (matpc : QudaMatPCType) : Quda K F Unit := fun s =>
  .ok () { s with
    trace := s.trace ++ [KernelCall.CoarseOp Y X T kappa a mu_factor dirac matpc] }

/-! ### Scratch fields and the checks of the `Dirac` base class -/

/-- The two scratch pointers of an operator object, as in `&tmp1`, `&tmp2`. -/
inductive TmpSlot where
  | tmp1
  | tmp2
  deriving DecidableEq, Repr

/-- Value of the scratch pointer `slot`. -/
def State.getTmp (s : State K F) : TmpSlot → Option ColorSpinorField
  | .tmp1 => s.tmp1
  | .tmp2 => s.tmp2

/-- Assignment to the scratch pointer `slot`. -/
def State.setTmp (s : State K F) (slot : TmpSlot) (t : Option ColorSpinorField) : State K F :=
  match slot with
  | .tmp1 => { s with tmp1 := t }
  | .tmp2 => { s with tmp2 := t }

/-- Modelled from the spec: `Dirac::newTmp(&tmp, a)`, the lazy allocation of a scratch field
with the metadata of `a`.  If the pointer is already set, nothing happens and the call
reports `false` (the field was supplied by an enclosing call); otherwise a field is allocated
in unoccupied storage and the call reports `true` (this call owns the field). -/
def newTmp (slot : TmpSlot) (a : ColorSpinorField) : Quda K F Bool := fun s =>
  match s.getTmp slot with
  | some _ => .ok false s
  | none =>
    .ok true { s.setTmp slot
        (some { siteSubset := a.siteSubset, volume := a.volume, v := s.brk, vOdd := s.brk + 1 })
      with brk := s.brk + 2 }

/-- Modelled from the spec: `Dirac::deleteTmp(&tmp, reset)`, which frees the scratch field
and nulls the pointer exactly when this call allocated it (`reset`). -/
def deleteTmp (slot : TmpSlot) (reset : Bool) : Quda K F Unit := fun s =>
  if reset then .ok () (s.setTmp slot none) else .ok () s

/-- The dereference `*tmp` of a scratch pointer. -/
def deref (slot : TmpSlot) : Quda K F ColorSpinorField := fun s =>
  match s.getTmp slot with
  | some t => .ok t s
  | none => .error QudaError.NullPointer s

namespace Dirac

/-- The base-class check `Dirac::checkParitySpinor(out, in)`, not part of the file. -/
def checkParitySpinor (E : External K F) (out inp : ColorSpinorField) : Quda K F Unit :=
  if E.checkParitySpinor out inp then pure () else errorQuda QudaError.FieldMismatch

/-- The base-class check `Dirac::checkFullSpinor(out, in)`, not part of the file. -/
def checkFullSpinor (E : External K F) (out inp : ColorSpinorField) : Quda K F Unit :=
  if E.checkFullSpinor out inp then pure () else errorQuda QudaError.FieldMismatch

/-- Modelled from the spec: `Dirac::checkSpinorAlias(a, b)`, which rejects two fields that
are the same storage. -/
def checkSpinorAlias (a b : ColorSpinorField) : Quda K F Unit :=
  if a.v = b.v then errorQuda QudaError.AliasError else pure ()

/-- The statement `dagger = !dagger`. -/
def flipDagger : Quda K F Unit := fun s => .ok () { s with dagger := !s.dagger }

/-- Modelled from the spec: `Dirac::Mdag(out, in)`, the adjoint of the operator: the
(virtual) `M` of the same object applied with the adjoint flag flipped, the flag being
restored afterwards. -/
def Mdag (M : ColorSpinorField → ColorSpinorField → Quda K F Unit)
    (out inp : ColorSpinorField) : Quda K F Unit := do
  flipDagger
  M out inp
  flipDagger

end Dirac

/-- Modelled from the spec: `ColorSpinorField::VolumeCB()`, the number of sites of one
checkerboard: half the volume of a full field, the volume of a parity field. -/
def ColorSpinorField.VolumeCB (f : ColorSpinorField) : Nat :=
  match f.siteSubset with
  | QUDA_FULL_SITE_SUBSET => f.volume / 2
  | QUDA_PARITY_SITE_SUBSET => f.volume

namespace DiracWilson

/-- Modelled from the spec: `DiracWilson::DslashXpay(out, in, parity, x, k)` of the base
class, the fused hopping step `out = x + k D in`, which launches `ApplyWilson` with the
adjoint flag of the object and counts its flops. -/
def DslashXpay (E : External K F) (out inp : ColorSpinorField) (parity : QudaParity)
    (x : ColorSpinorField) (k : K) : Quda K F Unit := do
  ApplyWilson E out inp k x parity (← getState).dagger
  addFlops (E.wilsonXpayFlops * inp.volume)

end DiracWilson

/-! ### `DiracClover` -/

variable [Field K]

/-- Construction parameters (`DiracParam`) read by the constructors of this file. -/
structure DiracParam (K : Type) where
  kappa : K
  mu : K
  matpcType : QudaMatPCType
  dagger : Bool
  clover : CloverField
  tmp1 : Option ColorSpinorField
  tmp2 : Option ColorSpinorField

namespace DiracClover

/-- Constructor `DiracClover::DiracClover(const DiracParam &param)`: copies the parameters, never fails.
The memory the object will work on is given alongside. -/
def new (param : DiracParam K) (store : Nat → F) (brk : Nat) :
    Except QudaError (State K F) :=
  .ok { kappa := param.kappa, mu := param.mu, matpcType := param.matpcType,
        dagger := param.dagger, clover := param.clover, tmp1 := param.tmp1,
        tmp2 := param.tmp2, flops := 0, store := store, brk := brk, trace := [] }

/-- Method `DiracClover::checkParitySpinor(out, in)`. -/
def checkParitySpinor (E : External K F) (out inp : ColorSpinorField) : Quda K F Unit := do
  Dirac.checkParitySpinor E out inp
  if out.volume ≠ (← getState).clover.VolumeCB then
    errorQuda QudaError.VolumeMismatch

/-- Method `DiracClover::DslashXpay(out, in, parity, x, k)`: applies the operator (A + k D). -/
def DslashXpay (E : External K F) (out inp : ColorSpinorField) (parity : QudaParity)
    (x : ColorSpinorField) (k : K) : Quda K F Unit := do
  checkParitySpinor E inp out
  Dirac.checkSpinorAlias inp out
  ApplyWilsonClover E out inp k x parity (← getState).dagger
  addFlops (1872 * inp.volume)

/-- Method `DiracClover::DslashXpay(out, in, parity, x, k, b)`, the overload with `k` and `b`. -/
def DslashXpay_b (E : External K F) (out inp : ColorSpinorField) (parity : QudaParity)
    (x : ColorSpinorField) (k b : K) : Quda K F Unit := do
  checkParitySpinor E inp out
  Dirac.checkSpinorAlias inp out
  ApplyWilsonCloverTwist E out inp k b x parity (← getState).dagger
  addFlops (1872 * inp.volume)

/-- Method `DiracClover::Clover(out, in, parity)`: applies the clover term only. -/
def Clover (E : External K F) (out inp : ColorSpinorField) (parity : QudaParity) :
    Quda K F Unit := do
  checkParitySpinor E inp out
  ApplyClover E out inp false parity
  addFlops (504 * inp.volume)

/-- Method `DiracClover::M(out, in)`. -/
def M (E : External K F) (out inp : ColorSpinorField) : Quda K F Unit := do
  ApplyWilsonClover E out inp (-(← getState).kappa) inp QUDA_INVALID_PARITY (← getState).dagger
  addFlops (1872 * inp.volume)

/-- Method `DiracClover::MdagM(out, in)`. -/
def MdagM (E : External K F) (out inp : ColorSpinorField) : Quda K F Unit := do
  Dirac.checkFullSpinor E out inp
  let reset ← newTmp .tmp1 inp
  Dirac.checkFullSpinor E (← deref .tmp1) inp
  M E (← deref .tmp1) inp
  Dirac.Mdag (M E) out (← deref .tmp1)
  deleteTmp .tmp1 reset

/-- Method `DiracClover::prepare(src, sol, x, b, solType)`; the result is the pair `(src, sol)`. -/
def prepare (x b : ColorSpinorField) (solType : QudaSolutionType) :
    Quda K F (ColorSpinorField × ColorSpinorField) := do
  if solType = QUDA_MATPC_SOLUTION ∨ solType = QUDA_MATPCDAG_MATPC_SOLUTION then
    errorQuda QudaError.ConfigurationError
  let src := b
  let sol := x
  pure (src, sol)

/-- Method `DiracClover::reconstruct(x, b, solType)`: do nothing. -/
def reconstruct (_x _b : ColorSpinorField) (_solType : QudaSolutionType) : Quda K F Unit :=
  pure ()

/-- Method `DiracClover::createCoarseOp(Y, X, T, kappa, mass, mu, mu_factor)`. -/
def createCoarseOp (Y X : GaugeField) (T : Transfer) (kappa _mass mu mu_factor : K) :
    Quda K F Unit := do
  let a : K := 2 * kappa * mu * (T.TwistFlavor : K)
  CoarseOp Y X T kappa a mu_factor QUDA_CLOVER_DIRAC QUDA_MATPC_INVALID

end DiracClover

/-! ### `DiracCloverPC` -/

namespace DiracCloverPC

/-- Constructor `DiracCloverPC::DiracCloverPC(const DiracParam &param)`: the base constructor, then the
check that the inverse of the clover term is present. -/
def new (param : DiracParam K) (store : Nat → F) (brk : Nat) :
    Except QudaError (State K F) := do
  let d ← DiracClover.new param store brk
  if !d.clover.cloverInv then
    throw QudaError.ConfigurationError
  pure d

/-- Method `DiracCloverPC::CloverInv(out, in, parity)`. -/
def CloverInv (E : External K F) (out inp : ColorSpinorField) (parity : QudaParity) :
    Quda K F Unit := do
  DiracClover.checkParitySpinor E inp out
  ApplyClover E out inp true parity
  addFlops (504 * inp.volume)

/-- Method `DiracCloverPC::Dslash(out, in, parity)`: hopping term, then clover inverse. -/
def Dslash (E : External K F) (out inp : ColorSpinorField) (parity : QudaParity) :
    Quda K F Unit := do
  DiracClover.checkParitySpinor E inp out
  Dirac.checkSpinorAlias inp out
  ApplyWilsonCloverPreconditioned E out inp 0 inp parity (← getState).dagger
  addFlops (1824 * inp.volume)

/-- Method `DiracCloverPC::DslashXpay(out, in, parity, x, k)`: xpay version of `Dslash`. -/
def DslashXpay (E : External K F) (out inp : ColorSpinorField) (parity : QudaParity)
    (x : ColorSpinorField) (k : K) : Quda K F Unit := do
  DiracClover.checkParitySpinor E inp out
  Dirac.checkSpinorAlias inp out
  ApplyWilsonCloverPreconditioned E out inp k x parity (← getState).dagger
  addFlops (1872 * inp.volume)

/-- The local `symmetric` of `M`. -/
def symmetric (matpcType : QudaMatPCType) : Bool :=
  if matpcType = QUDA_MATPC_EVEN_EVEN ∨ matpcType = QUDA_MATPC_ODD_ODD then true else false

/-- The local `odd_bit` of `M`. -/
def odd_bit (matpcType : QudaMatPCType) : Nat :=
  if matpcType = QUDA_MATPC_ODD_ODD ∨ matpcType = QUDA_MATPC_ODD_ODD_ASYMMETRIC then 1 else 0

/-- The local array `parity[2]` of `M`, as the pair `(parity[0], parity[1])`. -/
def parity (matpcType : QudaMatPCType) : QudaParity × QudaParity :=
  (QudaParity.static_cast ((1 + odd_bit matpcType) % 2),
   QudaParity.static_cast ((0 + odd_bit matpcType) % 2))

/-- Method `DiracCloverPC::M(out, in)`: the even-odd preconditioned clover-improved operator. -/
def M (E : External K F) (out inp : ColorSpinorField) : Quda K F Unit := do
  let kappa2 : K := -(← getState).kappa * (← getState).kappa
  let reset1 ← newTmp .tmp1 inp
  let symmetric := symmetric (← getState).matpcType
  let parity := parity (← getState).matpcType
  if !symmetric then
    Dslash E (← deref .tmp1) inp parity.1
    DiracClover.DslashXpay E out (← deref .tmp1) parity.2 inp kappa2
  else if !(← getState).dagger then
    Dslash E (← deref .tmp1) inp parity.1
    DslashXpay E out (← deref .tmp1) parity.2 inp kappa2
  else
    CloverInv E out inp parity.2
    Dslash E (← deref .tmp1) out parity.1
    DiracWilson.DslashXpay E out (← deref .tmp1) parity.2 inp kappa2
  deleteTmp .tmp1 reset1

/-- Method `DiracCloverPC::MdagM(out, in)`. -/
def MdagM (E : External K F) (out inp : ColorSpinorField) : Quda K F Unit := do
  let reset ← newTmp .tmp2 inp
  M E (← deref .tmp2) inp
  Dirac.Mdag (M E) out (← deref .tmp2)
  deleteTmp .tmp2 reset

/-- Method `DiracCloverPC::prepare(src, sol, x, b, solType)`; the result is the pair `(src, sol)`. -/
def prepare (E : External K F) (x b : ColorSpinorField) (solType : QudaSolutionType) :
    Quda K F (ColorSpinorField × ColorSpinorField) := do
  if solType = QUDA_MATPC_SOLUTION ∨ solType = QUDA_MATPCDAG_MATPC_SOLUTION then
    let src := b
    let sol := x
    pure (src, sol)
  else
    let reset ← newTmp .tmp1 b.Even
    let r ←
      if (← getState).matpcType = QUDA_MATPC_EVEN_EVEN then do
        let src := x.Odd
        CloverInv E src b.Odd QUDA_ODD_PARITY
        DiracWilson.DslashXpay E (← deref .tmp1) src QUDA_EVEN_PARITY b.Even (← getState).kappa
        CloverInv E src (← deref .tmp1) QUDA_EVEN_PARITY
        let sol := x.Even
        pure (src, sol)
      else if (← getState).matpcType = QUDA_MATPC_ODD_ODD then do
        let src := x.Even
        CloverInv E src b.Even QUDA_EVEN_PARITY
        DiracWilson.DslashXpay E (← deref .tmp1) src QUDA_ODD_PARITY b.Odd (← getState).kappa
        CloverInv E src (← deref .tmp1) QUDA_ODD_PARITY
        let sol := x.Odd
        pure (src, sol)
      else if (← getState).matpcType = QUDA_MATPC_EVEN_EVEN_ASYMMETRIC then do
        let src := x.Odd
        CloverInv E (← deref .tmp1) b.Odd QUDA_ODD_PARITY
        DiracWilson.DslashXpay E src (← deref .tmp1) QUDA_EVEN_PARITY b.Even (← getState).kappa
        let sol := x.Even
        pure (src, sol)
      else if (← getState).matpcType = QUDA_MATPC_ODD_ODD_ASYMMETRIC then do
        let src := x.Even
        CloverInv E (← deref .tmp1) b.Even QUDA_EVEN_PARITY
        DiracWilson.DslashXpay E src (← deref .tmp1) QUDA_ODD_PARITY b.Odd (← getState).kappa
        let sol := x.Odd
        pure (src, sol)
      else
        errorQuda QudaError.ConfigurationError
    deleteTmp .tmp1 reset
    pure r

/-- Method `DiracCloverPC::reconstruct(x, b, solType)`. -/
def reconstruct (E : External K F) (x b : ColorSpinorField) (solType : QudaSolutionType) :
    Quda K F Unit := do
  if solType = QUDA_MATPC_SOLUTION ∨ solType = QUDA_MATPCDAG_MATPC_SOLUTION then
    pure ()
  else
    Dirac.checkFullSpinor E x b
    let reset ← newTmp .tmp1 b.Even
    if (← getState).matpcType = QUDA_MATPC_EVEN_EVEN ∨
        (← getState).matpcType = QUDA_MATPC_EVEN_EVEN_ASYMMETRIC then
      DiracWilson.DslashXpay E (← deref .tmp1) x.Even QUDA_ODD_PARITY b.Odd (← getState).kappa
      CloverInv E x.Odd (← deref .tmp1) QUDA_ODD_PARITY
    else if (← getState).matpcType = QUDA_MATPC_ODD_ODD ∨
        (← getState).matpcType = QUDA_MATPC_ODD_ODD_ASYMMETRIC then
      DiracWilson.DslashXpay E (← deref .tmp1) x.Odd QUDA_EVEN_PARITY b.Even (← getState).kappa
      CloverInv E x.Even (← deref .tmp1) QUDA_EVEN_PARITY
    else
      errorQuda QudaError.ConfigurationError
    deleteTmp .tmp1 reset

/-- Method `DiracCloverPC::createCoarseOp(Y, X, T, kappa, mass, mu, mu_factor)`. -/
def createCoarseOp (Y X : GaugeField) (T : Transfer) (kappa _mass mu mu_factor : K) :
    Quda K F Unit := do
  let a : K := (-2) * kappa * mu * (T.TwistFlavor : K)
  CoarseOp Y X T kappa a (-mu_factor) QUDA_CLOVERPC_DIRAC (← getState).matpcType

end DiracCloverPC

/-! ### `DiracCloverHasenbuschTwist` -/

namespace DiracCloverHasenbuschTwist

/-- Constructor `DiracCloverHasenbuschTwist::DiracCloverHasenbuschTwist(const DiracParam &param)`. -/
def new (param : DiracParam K) (store : Nat → F) (brk : Nat) :
    Except QudaError (State K F) :=
  DiracClover.new param store brk

/-- Method `DiracCloverHasenbuschTwist::M(out, in)`. -/
def M (E : External K F) (out inp : ColorSpinorField) : Quda K F Unit := do
  let d ← getState
  let asymmetric : Bool :=
    (d.matpcType = QUDA_MATPC_ODD_ODD_ASYMMETRIC) || (d.matpcType = QUDA_MATPC_EVEN_EVEN_ASYMMETRIC)
  if !asymmetric then
    if d.matpcType = QUDA_MATPC_EVEN_EVEN then
      ApplyWilsonCloverHasenbuschTwist E out.Even inp.Odd (-d.kappa) d.mu inp.Even
        QUDA_EVEN_PARITY d.dagger
      ApplyWilsonClover E out.Odd inp.Even (-d.kappa) inp.Odd QUDA_ODD_PARITY d.dagger
    else
      ApplyWilsonClover E out.Even inp.Odd (-d.kappa) inp.Even QUDA_EVEN_PARITY d.dagger
      ApplyWilsonCloverHasenbuschTwist E out.Odd inp.Even (-d.kappa) d.mu inp.Odd
        QUDA_ODD_PARITY d.dagger
    addFlops (2 * 1872 * inp.volume + (48 + 504) * inp.VolumeCB)
  else
    if d.matpcType = QUDA_MATPC_ODD_ODD_ASYMMETRIC then
      ApplyWilsonClover E out.Even inp.Odd (-d.kappa) inp.Even QUDA_EVEN_PARITY d.dagger
      ApplyWilsonCloverTwist E out.Odd inp.Even (-d.kappa) d.mu inp.Odd QUDA_ODD_PARITY d.dagger
    else
      ApplyWilsonCloverTwist E out.Even inp.Odd (-d.kappa) d.mu inp.Even QUDA_EVEN_PARITY
        d.dagger
      ApplyWilsonClover E out.Odd inp.Even (-d.kappa) inp.Odd QUDA_ODD_PARITY d.dagger
    addFlops (2 * 1872 * inp.volume + 48 * inp.VolumeCB)

/-- Method `DiracCloverHasenbuschTwist::MdagM(out, in)`. -/
def MdagM (E : External K F) (out inp : ColorSpinorField) : Quda K F Unit := do
  Dirac.checkFullSpinor E out inp
  let reset ← newTmp .tmp1 inp
  Dirac.checkFullSpinor E (← deref .tmp1) inp
  M E (← deref .tmp1) inp
  Dirac.Mdag (M E) out (← deref .tmp1)
  deleteTmp .tmp1 reset

/-- Method `DiracCloverHasenbuschTwist::createCoarseOp(..)`: not yet implemented. -/
def createCoarseOp (_Y _X : GaugeField) (_T : Transfer) (_kappa _mass _mu _mu_factor : K) :
    Quda K F Unit :=
  errorQuda QudaError.NotImplemented

end DiracCloverHasenbuschTwist

/-! ### `DiracCloverHasenbuschTwistPC` -/

namespace DiracCloverHasenbuschTwistPC

/-- Constructor `DiracCloverHasenbuschTwistPC::DiracCloverHasenbuschTwistPC(const DiracParam &param)`. -/
def new (param : DiracParam K) (store : Nat → F) (brk : Nat) :
    Except QudaError (State K F) :=
  DiracCloverPC.new param store brk

/-- Method `DiracCloverHasenbuschTwistPC::DslashXpayTwistClovInv(out, in, parity, x, k, b)`. -/
def DslashXpayTwistClovInv (E : External K F) (out inp : ColorSpinorField)
    (parity : QudaParity) (x : ColorSpinorField) (k b : K) : Quda K F Unit := do
  DiracClover.checkParitySpinor E inp out
  Dirac.checkSpinorAlias inp out
  ApplyWilsonCloverHasenbuschTwistPCClovInv E out inp k b x parity (← getState).dagger
  addFlops ((1872 + 48 + 504) * inp.volume)

/-- Method `DiracCloverHasenbuschTwistPC::DslashXpayTwistNoClovInv(out, in, parity, x, k, b)`. -/
def DslashXpayTwistNoClovInv (E : External K F) (out inp : ColorSpinorField)
    (parity : QudaParity) (x : ColorSpinorField) (k b : K) : Quda K F Unit := do
  DiracClover.checkParitySpinor E inp out
  Dirac.checkSpinorAlias inp out
  ApplyWilsonCloverHasenbuschTwistPCNoClovInv E out inp k b x parity (← getState).dagger
  addFlops ((1872 + 48) * inp.volume)

/-- Method `DiracCloverHasenbuschTwistPC::DslashXpay(out, in, parity, x, k)`. -/
def DslashXpay (E : External K F) (out inp : ColorSpinorField) (parity : QudaParity)
    (x : ColorSpinorField) (k : K) : Quda K F Unit := do
  DiracClover.checkParitySpinor E inp out
  Dirac.checkSpinorAlias inp out
  if parity = QUDA_EVEN_PARITY then
    DiracCloverPC.DslashXpay E out inp parity x k
  else if parity = QUDA_ODD_PARITY then
    DslashXpayTwistClovInv E out inp parity x k (← getState).mu
  addFlops (1872 * inp.volume)

/-- Method `DiracCloverHasenbuschTwistPC::M(out, in)`. -/
def M (E : External K F) (out inp : ColorSpinorField) : Quda K F Unit := do
  let kappa2 : K := -(← getState).kappa * (← getState).kappa
  let reset1 ← newTmp .tmp1 inp
  let symmetric := DiracCloverPC.symmetric (← getState).matpcType
  let parity := DiracCloverPC.parity (← getState).matpcType
  if !symmetric then
    DiracCloverPC.Dslash E (← deref .tmp1) inp parity.1
    DiracClover.DslashXpay_b E out (← deref .tmp1) parity.2 inp kappa2 (← getState).mu
  else if !(← getState).dagger then
    DiracCloverPC.Dslash E (← deref .tmp1) inp parity.1
    DslashXpayTwistClovInv E out (← deref .tmp1) parity.2 inp kappa2 (← getState).mu
  else
    DiracCloverPC.CloverInv E out inp parity.2
    DiracCloverPC.Dslash E (← deref .tmp1) out parity.1
    DslashXpayTwistNoClovInv E out (← deref .tmp1) parity.2 inp kappa2 (← getState).mu
  deleteTmp .tmp1 reset1

/-- Method `DiracCloverHasenbuschTwistPC::MdagM(out, in)`. -/
def MdagM (E : External K F) (out inp : ColorSpinorField) : Quda K F Unit := do
  let reset ← newTmp .tmp2 inp
  M E (← deref .tmp2) inp
  Dirac.Mdag (M E) out (← deref .tmp2)
  deleteTmp .tmp2 reset

/-- Method `DiracCloverHasenbuschTwistPC::createCoarseOp(Y, X, T, kappa, mass, mu, mu_factor)`. -/
def createCoarseOp (Y X : GaugeField) (T : Transfer) (kappa _mass mu mu_factor : K) :
    Quda K F Unit := do
  if (← getState).matpcType ≠ QUDA_MATPC_ODD_ODD then
    errorQuda QudaError.ConfigurationError
  CoarseOp Y X T kappa (1 / 2 * mu) mu_factor QUDA_CLOVER_HASENBUSCH_TWISTPC_DIRAC
    (← getState).matpcType

end DiracCloverHasenbuschTwistPC

end Methods

/-! ## Well-formed inputs -/

section Valid

variable {K F : Type}

/-- The base-class check on parity fields accepts every pair of single-parity fields of
`vol` sites. -/
def External.AcceptsParity (E : External K F) (vol : Nat) : Prop :=
  ∀ a b : ColorSpinorField, a.siteSubset = QUDA_PARITY_SITE_SUBSET →
    b.siteSubset = QUDA_PARITY_SITE_SUBSET → a.volume = vol → b.volume = vol →
    E.checkParitySpinor a b = true

/-- The base-class check on full fields accepts every pair of full fields whose
checkerboards have `vol` sites. -/
def External.AcceptsFull (E : External K F) (vol : Nat) : Prop :=
  ∀ a b : ColorSpinorField, a.siteSubset = QUDA_FULL_SITE_SUBSET →
    b.siteSubset = QUDA_FULL_SITE_SUBSET → a.volume / 2 = vol → b.volume / 2 = vol →
    E.checkFullSpinor a b = true

/-- The handle `f` is a single-parity field of the size of the clover term, in storage
that is occupied (below `brk`). -/
def State.ParityField (s : State K F) (f : ColorSpinorField) : Prop :=
  f.siteSubset = QUDA_PARITY_SITE_SUBSET ∧ f.volume = s.clover.VolumeCB ∧ f.v < s.brk

/-- The handle `f` is a full field whose checkerboards have the size of the clover term and
lie in two different occupied buffers. -/
def State.FullField (s : State K F) (f : ColorSpinorField) : Prop :=
  f.siteSubset = QUDA_FULL_SITE_SUBSET ∧ f.volume / 2 = s.clover.VolumeCB ∧
    f.v < s.brk ∧ f.vOdd < s.brk ∧ f.v ≠ f.vOdd

/-- No scratch field is held: both scratch pointers are null. -/
def State.ScratchFree (s : State K F) : Prop := s.tmp1 = none ∧ s.tmp2 = none

/-- The full fields `x` and `b` share no storage. -/
def ColorSpinorField.Disjoint (x b : ColorSpinorField) : Prop :=
  x.v ≠ b.v ∧ x.v ≠ b.vOdd ∧ x.vOdd ≠ b.v ∧ x.vOdd ≠ b.vOdd

/-- The solution type asks for the solution of the full system, not of the preconditioned
one. -/
def QudaSolutionType.Full (solType : QudaSolutionType) : Prop :=
  solType ≠ QUDA_MATPC_SOLUTION ∧ solType ≠ QUDA_MATPCDAG_MATPC_SOLUTION

/-! ## Operators as maps on field contents -/

/-- The single-parity field of `vol` sites in buffer `a`. -/
def parityField (vol a : Nat) : ColorSpinorField :=
  { siteSubset := QUDA_PARITY_SITE_SUBSET, volume := vol, v := a, vOdd := a }

/-- The full field whose checkerboards have `vol` sites each, in the buffers `a` and `b`. -/
def fullField (vol a b : Nat) : ColorSpinorField :=
  { siteSubset := QUDA_FULL_SITE_SUBSET, volume := 2 * vol, v := a, vOdd := b }

/-- What the method `op(out, in)` of the operator `s` writes to `out` when `in` holds `y`:
the method is run on two new single-parity fields; `none` if it aborts. -/
def applyParity (op : ColorSpinorField → ColorSpinorField → Quda K F Unit) (s : State K F)
    (y : F) : Option F :=
  match op (parityField s.clover.VolumeCB (s.brk + 1)) (parityField s.clover.VolumeCB s.brk)
      { s with store := Function.update s.store s.brk y, brk := s.brk + 2 } with
  | .ok _ s1 => some (s1.store (s.brk + 1))
  | .error _ _ => none

/-- What the method `op(out, in)` of the operator `s` writes to the even and odd half of
`out` when the halves of `in` hold `y.1` and `y.2`: the method is run on two new full
fields; `none` if it aborts. -/
def applyFull (op : ColorSpinorField → ColorSpinorField → Quda K F Unit) (s : State K F)
    (y : F × F) : Option (F × F) :=
  match op (fullField s.clover.VolumeCB (s.brk + 2) (s.brk + 3))
      (fullField s.clover.VolumeCB s.brk (s.brk + 1))
      { s with
        store := Function.update (Function.update s.store s.brk y.1) (s.brk + 1) y.2
        brk := s.brk + 4 } with
  | .ok _ s1 => some (s1.store (s.brk + 2), s1.store (s.brk + 3))
  | .error _ _ => none

/-- The contents of `out` that `DiracCloverPC::M` computes from the contents `y` of `in`:
the kernel functions composed along the branch that `M` takes for the tag, the adjoint flag
and `kappa`. -/
def DiracCloverPC.Mvalue [Field K] (E : External K F) (matpcType : QudaMatPCType)
    (dagger : Bool) (kappa : K) (y : F) : F :=
  if DiracCloverPC.symmetric matpcType = false then
    E.ApplyWilsonClover
      (E.ApplyWilsonCloverPreconditioned y 0 y (DiracCloverPC.parity matpcType).1 dagger)
      (-kappa * kappa) y (DiracCloverPC.parity matpcType).2 dagger
  else if dagger = false then
    E.ApplyWilsonCloverPreconditioned
      (E.ApplyWilsonCloverPreconditioned y 0 y (DiracCloverPC.parity matpcType).1 dagger)
      (-kappa * kappa) y (DiracCloverPC.parity matpcType).2 dagger
  else
    E.ApplyWilson
      (E.ApplyWilsonCloverPreconditioned
        (E.ApplyClover y true (DiracCloverPC.parity matpcType).2) 0
        (E.ApplyClover y true (DiracCloverPC.parity matpcType).2)
        (DiracCloverPC.parity matpcType).1 dagger)
      (-kappa * kappa) y (DiracCloverPC.parity matpcType).2 dagger

/-- The contents of `out` that `DiracCloverHasenbuschTwistPC::M` computes from the contents
`y` of `in`: the kernel functions composed along the branch that `M` takes. -/
def DiracCloverHasenbuschTwistPC.Mvalue [Field K] (E : External K F)
    (matpcType : QudaMatPCType) (dagger : Bool) (kappa mu : K) (y : F) : F :=
  if DiracCloverPC.symmetric matpcType = false then
    E.ApplyWilsonCloverTwist
      (E.ApplyWilsonCloverPreconditioned y 0 y (DiracCloverPC.parity matpcType).1 dagger)
      (-kappa * kappa) mu y (DiracCloverPC.parity matpcType).2 dagger
  else if dagger = false then
    E.ApplyWilsonCloverHasenbuschTwistPCClovInv
      (E.ApplyWilsonCloverPreconditioned y 0 y (DiracCloverPC.parity matpcType).1 dagger)
      (-kappa * kappa) mu y (DiracCloverPC.parity matpcType).2 dagger
  else
    E.ApplyWilsonCloverHasenbuschTwistPCNoClovInv
      (E.ApplyWilsonCloverPreconditioned
        (E.ApplyClover y true (DiracCloverPC.parity matpcType).2) 0
        (E.ApplyClover y true (DiracCloverPC.parity matpcType).2)
        (DiracCloverPC.parity matpcType).1 dagger)
      (-kappa * kappa) mu y (DiracCloverPC.parity matpcType).2 dagger

/-- The contents of the even and odd half of `out` that `DiracClover::M` computes from the
contents `y` of the halves of `in`. -/
def DiracClover.Mvalue [Field K] (E : External K F) (dagger : Bool) (kappa : K) (y : F × F) :
    F × F :=
  (E.ApplyWilsonClover y.2 (-kappa) y.1 QUDA_EVEN_PARITY dagger,
    E.ApplyWilsonClover y.1 (-kappa) y.2 QUDA_ODD_PARITY dagger)

/-- The contents of the even and odd half of `out` that `DiracCloverHasenbuschTwist::M`
computes from the contents `y` of the halves of `in`, along the branch that `M` takes. -/
def DiracCloverHasenbuschTwist.Mvalue [Field K] (E : External K F)
    (matpcType : QudaMatPCType) (dagger : Bool) (kappa mu : K) (y : F × F) : F × F :=
  if matpcType = QUDA_MATPC_EVEN_EVEN then
    (E.ApplyWilsonCloverHasenbuschTwist y.2 (-kappa) mu y.1 QUDA_EVEN_PARITY dagger,
      E.ApplyWilsonClover y.1 (-kappa) y.2 QUDA_ODD_PARITY dagger)
  else if matpcType = QUDA_MATPC_ODD_ODD ∨ matpcType = QUDA_MATPC_INVALID then
    (E.ApplyWilsonClover y.2 (-kappa) y.1 QUDA_EVEN_PARITY dagger,
      E.ApplyWilsonCloverHasenbuschTwist y.1 (-kappa) mu y.2 QUDA_ODD_PARITY dagger)
  else if matpcType = QUDA_MATPC_ODD_ODD_ASYMMETRIC then
    (E.ApplyWilsonClover y.2 (-kappa) y.1 QUDA_EVEN_PARITY dagger,
      E.ApplyWilsonCloverTwist y.1 (-kappa) mu y.2 QUDA_ODD_PARITY dagger)
  else
    (E.ApplyWilsonCloverTwist y.2 (-kappa) mu y.1 QUDA_EVEN_PARITY dagger,
      E.ApplyWilsonClover y.1 (-kappa) y.2 QUDA_ODD_PARITY dagger)

/-! ## The kernels as linear maps -/

/-- The kernels consumed by `DiracCloverPC`, modelled as linear maps under exact arithmetic:
`A p` is the clover term on checkerboard `p`, `Ainv p` its inverse, and `D p dagger` the
hopping term that maps the checkerboard opposite to `p` onto `p` (its adjoint version when
`dagger` is set).  The preconditioned kernel called with `k = 0` applies `A⁻¹ D` alone. -/
structure KernelModel [Field K] [AddCommGroup F] [Module K F] (E : External K F)
    (A Ainv : QudaParity → F →ₗ[K] F) (D : QudaParity → Bool → F →ₗ[K] F) : Prop where
  A_Ainv : ∀ p v, A p (Ainv p v) = v
  Ainv_A : ∀ p v, Ainv p (A p v) = v
  cloverInv : ∀ v p, E.ApplyClover v true p = Ainv p v
  wilson : ∀ v k x p dg, E.ApplyWilson v k x p dg = x + k • D p dg v
  wilsonClover : ∀ v k x p dg, E.ApplyWilsonClover v k x p dg = A p x + k • D p dg v
  preconditioned : ∀ v k x p dg, k ≠ 0 →
    E.ApplyWilsonCloverPreconditioned v k x p dg = x + k • Ainv p (D p dg v)
  preconditioned_zero : ∀ v x p dg,
    E.ApplyWilsonCloverPreconditioned v 0 x p dg = Ainv p (D p dg v)

end Valid

/-! ## The compositions that the specification describes for `DiracCloverPC::M` -/

namespace Spec

variable {K F : Type} [Field K]

/-- Specification of `DiracCloverPC::M`, asymmetric case: `t = DiracCloverPC::Dslash(in, p0)`
in the scratch field, then `out = DiracClover::DslashXpay(t, p1, x = in, k = -kappa*kappa)`,
where `(p0, p1)` is the parity pair of the tag. -/
def M_asymmetric (E : External K F) (out inp : ColorSpinorField) : Quda K F Unit := do
  let s ← getState
  let p := DiracCloverPC.parity s.matpcType
  let reset ← newTmp .tmp1 inp
  let t ← deref .tmp1
  DiracCloverPC.Dslash E t inp p.1
  DiracClover.DslashXpay E out t p.2 inp (-s.kappa * s.kappa)
  deleteTmp .tmp1 reset

/-- Specification of `DiracCloverPC::M`, symmetric non-adjoint case:
`t = DiracCloverPC::Dslash(in, p0)` in the scratch field, then
`out = DiracCloverPC::DslashXpay(t, p1, x = in, k = -kappa*kappa)`. -/
def M_symmetric (E : External K F) (out inp : ColorSpinorField) : Quda K F Unit := do
  let s ← getState
  let p := DiracCloverPC.parity s.matpcType
  let reset ← newTmp .tmp1 inp
  let t ← deref .tmp1
  DiracCloverPC.Dslash E t inp p.1
  DiracCloverPC.DslashXpay E out t p.2 inp (-s.kappa * s.kappa)
  deleteTmp .tmp1 reset

/-- Specification of `DiracCloverPC::M`, symmetric adjoint case, with the final step read as
the clover-improved `DiracClover::DslashXpay` (`out = A x + k D in`): `CloverInv(in)` on
`p1` into `out`, `DiracCloverPC::Dslash` of that on `p0` into the scratch field, then
`DiracClover::DslashXpay` on `p1` with accumulate field `in` and `k = -kappa*kappa`. -/
def M_adjoint_cloverXpay (E : External K F) (out inp : ColorSpinorField) : Quda K F Unit := do
  let s ← getState
  let p := DiracCloverPC.parity s.matpcType
  let reset ← newTmp .tmp1 inp
  let t ← deref .tmp1
  DiracCloverPC.CloverInv E out inp p.2
  DiracCloverPC.Dslash E t out p.1
  DiracClover.DslashXpay E out t p.2 inp (-s.kappa * s.kappa)
  deleteTmp .tmp1 reset

/-- Specification of `DiracCloverPC::M`, symmetric adjoint case, with the final step read as
the hopping-only `DiracWilson::DslashXpay` (`out = x + k D in`). -/
def M_adjoint_wilsonXpay (E : External K F) (out inp : ColorSpinorField) : Quda K F Unit := do
  let s ← getState
  let p := DiracCloverPC.parity s.matpcType
  let reset ← newTmp .tmp1 inp
  let t ← deref .tmp1
  DiracCloverPC.CloverInv E out inp p.2
  DiracCloverPC.Dslash E t out p.1
  DiracWilson.DslashXpay E out t p.2 inp (-s.kappa * s.kappa)
  deleteTmp .tmp1 reset

end Spec

/-! ## A concrete instance: one degree of freedom per checkerboard -/

namespace Example

/-- Clover term of the example: multiplication by 2 on the even and by 4 on the odd sites. -/
def clov : QudaParity → ℚ
  | QUDA_EVEN_PARITY => 2
  | QUDA_ODD_PARITY => 4
  | QUDA_INVALID_PARITY => 1

/-- Hopping term of the example: multiplication by 3 from odd to even and by 5 from even to
odd sites; with the adjoint flag the two are exchanged. -/
def hop : QudaParity → Bool → ℚ
  | QUDA_EVEN_PARITY, false => 3
  | QUDA_ODD_PARITY, false => 5
  | QUDA_EVEN_PARITY, true => 5
  | QUDA_ODD_PARITY, true => 3
  | QUDA_INVALID_PARITY, _ => 0

/-- Kernels of the example, acting on fields with values in `F`. -/
def kernels (F : Type) [DivisionRing F] : External ℚ F where
  ApplyClover v inverse p := if inverse then ((clov p)⁻¹ : ℚ) * v else (clov p : ℚ) * v
  ApplyWilson v k x p dg := x + (k : ℚ) * ((hop p dg : ℚ) * v)
  ApplyWilsonClover v k x p dg := (clov p : ℚ) * x + (k : ℚ) * ((hop p dg : ℚ) * v)
  ApplyWilsonCloverTwist v k b x p dg :=
    (clov p : ℚ) * x + (b : ℚ) * x + (k : ℚ) * ((hop p dg : ℚ) * v)
  ApplyWilsonCloverPreconditioned v k x p dg :=
    if k = 0 then ((clov p)⁻¹ : ℚ) * ((hop p dg : ℚ) * v)
    else x + (k : ℚ) * (((clov p)⁻¹ : ℚ) * ((hop p dg : ℚ) * v))
  ApplyWilsonCloverHasenbuschTwist v k b x p dg :=
    (clov p : ℚ) * x + (b : ℚ) * ((clov p : ℚ) * x) + (k : ℚ) * ((hop p dg : ℚ) * v)
  ApplyWilsonCloverHasenbuschTwistPCClovInv v k b x p dg :=
    x + (b : ℚ) * (((clov p)⁻¹ : ℚ) * x) + (k : ℚ) * (((clov p)⁻¹ : ℚ) * ((hop p dg : ℚ) * v))
  ApplyWilsonCloverHasenbuschTwistPCNoClovInv v k b x p dg :=
    x + (b : ℚ) * x + (k : ℚ) * ((hop p dg : ℚ) * v)
  checkParitySpinor a b :=
    decide (a.siteSubset = QUDA_PARITY_SITE_SUBSET ∧ b.siteSubset = QUDA_PARITY_SITE_SUBSET)
  checkFullSpinor a b :=
    decide (a.siteSubset = QUDA_FULL_SITE_SUBSET ∧ b.siteSubset = QUDA_FULL_SITE_SUBSET)
  wilsonXpayFlops := 1368

/-- The clover term of the example as a linear map. -/
def A (F : Type) [Field F] [CharZero F] (p : QudaParity) : F →ₗ[ℚ] F := (clov p) • LinearMap.id

/-- The inverse clover term of the example as a linear map. -/
def Ainv (F : Type) [Field F] [CharZero F] (p : QudaParity) : F →ₗ[ℚ] F :=
  (clov p)⁻¹ • LinearMap.id

/-- The hopping term of the example as a linear map. -/
def D (F : Type) [Field F] [CharZero F] (p : QudaParity) (dg : Bool) : F →ₗ[ℚ] F :=
  (hop p dg) • LinearMap.id

/-- An operator object of the example: checkerboards of 8 sites, clover inverse present, no
scratch held, buffers 0 to 5 occupied, buffer `a` holding the value `a + 1`. -/
def state (F : Type) [DivisionRing F] (matpcType : QudaMatPCType) (dagger : Bool) (kappa : ℚ) :
    State ℚ F :=
  { kappa := kappa, mu := 1 / 3, matpcType := matpcType, dagger := dagger,
    clover := { VolumeCB := 8, cloverInv := true }, tmp1 := none, tmp2 := none, flops := 0,
    store := fun a => (a : F) + 1, brk := 6, trace := [] }

/-- Construction parameters of the example, with or without the clover inverse. -/
def param (cloverInv : Bool) : DiracParam ℚ :=
  { kappa := 1 / 8, mu := 1 / 3, matpcType := QUDA_MATPC_EVEN_EVEN, dagger := false,
    clover := { VolumeCB := 8, cloverInv := cloverInv }, tmp1 := none, tmp2 := none }

end Example

end quda

/-! ## Reading the log of kernel launches -/

namespace quda

open QudaParity QudaMatPCType QudaSolutionType QudaDiracType QudaSiteSubset

/-- The parity argument of the launch of a kernel that contains the hopping term; `none`
for the site-local `ApplyClover` and for the request to the coarse-operator builder. -/
def KernelCall.hoppingParity {K : Type} : KernelCall K → Option QudaParity
  | .ApplyClover _ _ _ _ => none
  | .ApplyWilson _ _ _ _ parity _ => some parity
  | .ApplyWilsonClover _ _ _ _ parity _ => some parity
  | .ApplyWilsonCloverTwist _ _ _ _ _ parity _ => some parity
  | .ApplyWilsonCloverPreconditioned _ _ _ _ parity _ => some parity
  | .ApplyWilsonCloverHasenbuschTwist _ _ _ _ _ parity _ => some parity
  | .ApplyWilsonCloverHasenbuschTwistPCClovInv _ _ _ _ _ parity _ => some parity
  | .ApplyWilsonCloverHasenbuschTwistPCNoClovInv _ _ _ _ _ parity _ => some parity
  | .CoarseOp _ _ _ _ _ _ _ _ => none

/-- The parities passed to the hopping steps of a log of kernel launches, in the order of
the launches. -/
def hoppingParities {K : Type} (trace : List (KernelCall K)) : List QudaParity :=
  trace.filterMap KernelCall.hoppingParity

/-! ## The compositions that the specification describes for `DiracCloverHasenbuschTwistPC::M` -/

namespace Spec

variable {K F : Type} [Field K]

/-- Specification of `DiracCloverHasenbuschTwistPC::M`, symmetric non-adjoint case:
`t = DiracCloverPC::Dslash(in, p0)` in the scratch field, then
`out = DslashXpayTwistClovInv(t, p1, x = in, k = -kappa*kappa, b = mu)`, where `(p0, p1)` is
the parity pair of the tag as in `DiracCloverPC::M`. -/
def M_twisted_symmetric (E : External K F) (out inp : ColorSpinorField) : Quda K F Unit := do
  let s ← getState
  let p := DiracCloverPC.parity s.matpcType
  let reset ← newTmp .tmp1 inp
  let t ← deref .tmp1
  DiracCloverPC.Dslash E t inp p.1
  DiracCloverHasenbuschTwistPC.DslashXpayTwistClovInv E out t p.2 inp (-s.kappa * s.kappa) s.mu
  deleteTmp .tmp1 reset

/-- Specification of `DiracCloverHasenbuschTwistPC::M`, symmetric adjoint case:
`CloverInv(in)` on `p1` into `out`, `DiracCloverPC::Dslash` of that on `p0` into the scratch
field, then `out = DslashXpayTwistNoClovInv(.., p1, x = in, k = -kappa*kappa, b = mu)`. -/
def M_twisted_adjoint (E : External K F) (out inp : ColorSpinorField) : Quda K F Unit := do
  let s ← getState
  let p := DiracCloverPC.parity s.matpcType
  let reset ← newTmp .tmp1 inp
  let t ← deref .tmp1
  DiracCloverPC.CloverInv E out inp p.2
  DiracCloverPC.Dslash E t out p.1
  DiracCloverHasenbuschTwistPC.DslashXpayTwistNoClovInv E out t p.2 inp (-s.kappa * s.kappa) s.mu
  deleteTmp .tmp1 reset

/-- Specification of `DiracCloverHasenbuschTwistPC::M`, asymmetric case, with the final step
read as the `k, b` overload of `DiracClover::DslashXpay` called with `b = mu`:
`t = DiracCloverPC::Dslash(in, p0)` in the scratch field, then
`out = DiracClover::DslashXpay(t, p1, x = in, k = -kappa*kappa, b = mu)`. -/
def M_twisted_asymmetric (E : External K F) (out inp : ColorSpinorField) : Quda K F Unit := do
  let s ← getState
  let p := DiracCloverPC.parity s.matpcType
  let reset ← newTmp .tmp1 inp
  let t ← deref .tmp1
  DiracCloverPC.Dslash E t inp p.1
  DiracClover.DslashXpay_b E out t p.2 inp (-s.kappa * s.kappa) s.mu
  deleteTmp .tmp1 reset

end Spec

end quda

/-! ## The fused kernels with one convention at `k = 0` -/

namespace quda

open QudaParity QudaMatPCType QudaSolutionType QudaDiracType QudaSiteSubset

/-- The kernels consumed by `DiracCloverPC::M`, modelled as linear maps under exact
arithmetic, with one convention for the two fused kernels that take a coefficient `k` and an
accumulate field `x`: called with `k ≠ 0` they give `x + k • (..)`, called with `k = 0` they
apply the hopping part alone and do not add `x`.  This is the convention that
`DiracCloverPC::Dslash` relies on when it passes `0.0` and `in` to
`ApplyWilsonCloverPreconditioned` to get `A⁻¹ D in`.  `Ainv p` is the inverse clover term on
checkerboard `p` and `D p dagger` the hopping term that maps the checkerboard opposite to
`p` onto `p`. -/
structure XpayKernelModel {K F : Type} [Field K] [AddCommGroup F] [Module K F]
    (E : External K F) (Ainv : QudaParity → F →ₗ[K] F)
    (D : QudaParity → Bool → F →ₗ[K] F) : Prop where
  cloverInv : ∀ v p, E.ApplyClover v true p = Ainv p v
  wilson : ∀ v k x p dg, k ≠ 0 → E.ApplyWilson v k x p dg = x + k • D p dg v
  wilson_zero : ∀ v x p dg, E.ApplyWilson v 0 x p dg = D p dg v
  preconditioned : ∀ v k x p dg, k ≠ 0 →
    E.ApplyWilsonCloverPreconditioned v k x p dg = x + k • Ainv p (D p dg v)
  preconditioned_zero : ∀ v x p dg,
    E.ApplyWilsonCloverPreconditioned v 0 x p dg = Ainv p (D p dg v)

/-- Kernels of the example in which the base Wilson kernel follows the convention of the
preconditioned kernel: called with `k = 0` it applies the hopping term alone. -/
def Example.xpayKernels (F : Type) [DivisionRing F] : External ℚ F :=
  { Example.kernels F with
    ApplyWilson := fun v k x p dg =>
      if k = 0 then (Example.hop p dg : ℚ) * v
      else x + (k : ℚ) * ((Example.hop p dg : ℚ) * v) }

end quda

/-! ## Scratch fields and flop counts of a method call -/

namespace quda

open QudaParity QudaMatPCType QudaSolutionType QudaDiracType QudaSiteSubset

section Discipline

variable {K F α : Type}

/-- The scratch discipline of a method.  When it returns, both scratch pointers are what
they were at entry: what the call acquired has been released.  And a scratch field that is
present at entry is still present, in the same place, in the state in which the method
returns or aborts: the call never frees it. -/
def Quda.ScratchDiscipline (m : Quda K F α) : Prop :=
  ∀ s : State K F,
    ((m s).isOk = true → (m s).state.tmp1 = s.tmp1 ∧ (m s).state.tmp2 = s.tmp2) ∧
    (∀ slot t, s.getTmp slot = some t → (m s).state.getTmp slot = some t)

/-- The rest of a method after `reset = newTmp(&slot, ..)`, up to and including
`deleteTmp(&slot, reset)`.  When it returns, the pointer `slot` is null if `reset` is set
and is what it was otherwise, and the other pointer is what it was; when it aborts, every
scratch field that was present is still present. -/
def Quda.ReleasesScratch (slot : TmpSlot) (reset : Bool) (m : Quda K F α) : Prop :=
  ∀ s : State K F,
    ((m s).isOk = true →
      (m s).state.getTmp slot = (if reset then none else s.getTmp slot) ∧
      ∀ other, other ≠ slot → (m s).state.getTmp other = s.getTmp other) ∧
    ((m s).isOk = false →
      ∀ other t, s.getTmp other = some t → (m s).state.getTmp other = some t)

/-- The method never decreases the flop counter: in the state in which it returns or aborts
the counter is at least what it was at entry. -/
def Quda.FlopsMonotone (m : Quda K F α) : Prop :=
  ∀ s : State K F, s.flops ≤ (m s).state.flops

/-- The call `m` in the state `s` returns, having added exactly `c` flops per site of a
checkerboard: the counter has grown by `c * clover.VolumeCB()`, and so is strictly larger
than before when `c` and the volume are not zero. -/
def Quda.FlopsPerSite (m : Quda K F α) (s : State K F) (c : Nat) : Prop :=
  ∃ a s1, m s = .ok a s1 ∧ s1.flops = s.flops + c * s.clover.VolumeCB ∧
    (0 < c → s.clover.VolumeCB ≠ 0 → s.flops < s1.flops)

end Discipline

end quda

/-! ## Running a method -/

namespace quda

open QudaParity QudaMatPCType QudaSolutionType QudaDiracType QudaSiteSubset

section Run

variable {K F : Type}

@[simp] theorem Quda.bind_run {α β : Type} (x : Quda K F α) (f : α → Quda K F β)
    (s : State K F) :
    (x >>= f) s = match x s with
      | .ok a s1 => f a s1
      | .error e s1 => .error e s1 := rfl

@[simp] theorem Quda.pure_run {α : Type} (a : α) (s : State K F) :
    (pure a : Quda K F α) s = .ok a s := rfl

@[simp] theorem Quda.ite_run {α : Type} (c : Prop) [Decidable c] (x y : Quda K F α)
    (s : State K F) : (if c then x else y) s = if c then x s else y s := by
  split <;> rfl

@[simp] theorem errorQuda_run {α : Type} (e : QudaError) (s : State K F) :
    (errorQuda e : Quda K F α) s = .error e s := rfl

@[simp] theorem getState_run (s : State K F) : getState s = .ok s s := rfl

@[simp] theorem addFlops_run (n : Nat) (s : State K F) :
    addFlops n s = .ok () { s with flops := s.flops + n } := rfl

@[simp] theorem deref_run (slot : TmpSlot) (s : State K F) :
    deref slot s = match s.getTmp slot with
      | some t => .ok t s
      | none => .error QudaError.NullPointer s := rfl

@[simp] theorem deleteTmp_run (slot : TmpSlot) (reset : Bool) (s : State K F) :
    deleteTmp slot reset s = if reset then .ok () (s.setTmp slot none) else .ok () s := rfl

@[simp] theorem newTmp_run (slot : TmpSlot) (a : ColorSpinorField) (s : State K F) :
    newTmp slot a s = match s.getTmp slot with
      | some _ => .ok false s
      | none =>
        .ok true { s.setTmp slot
            (some { siteSubset := a.siteSubset, volume := a.volume, v := s.brk, vOdd := s.brk + 1 })
          with brk := s.brk + 2 } := rfl

@[simp] theorem Dirac.flipDagger_run (s : State K F) :
    Dirac.flipDagger s = .ok () { s with dagger := !s.dagger } := rfl

end Run

/-! ## Constructors and coarse operators -/

section Coarse

variable {K F : Type}

/-- C8: building a `DiracCloverPC` or a `DiracCloverHasenbuschTwistPC` from parameters fails
(with a configuration error, in the constructor) if and only if the clover field carries no
inverse; an object that was built holds a clover field with its inverse. -/
theorem C8_constructor_fails_iff_no_clover_inverse (param : DiracParam K) (store : Nat → F)
    (brk : Nat) :
    ((∃ e, (DiracCloverPC.new param store brk : Except QudaError (State K F)) = .error e) ↔
        param.clover.cloverInv = false) ∧
    ((∃ e, (DiracCloverHasenbuschTwistPC.new param store brk :
        Except QudaError (State K F)) = .error e) ↔ param.clover.cloverInv = false) ∧
    (∀ d : State K F, DiracCloverPC.new param store brk = .ok d →
        d.clover.cloverInv = true ∧ d.clover = param.clover) ∧
    (∀ d : State K F, DiracCloverHasenbuschTwistPC.new param store brk = .ok d →
        d.clover.cloverInv = true ∧ d.clover = param.clover) := by
  cases h : param.clover.cloverInv <;>
    simp [DiracCloverHasenbuschTwistPC.new, DiracCloverPC.new, DiracClover.new, h, bind,
      Except.bind, pure, Except.pure, throw, throwThe, MonadExceptOf.throw]

/-- C8, on the example: without the clover inverse both constructors fail, with it both
build an object. -/
theorem C8_constructor_witness :
    ((∃ e, (DiracCloverPC.new (Example.param false) (fun _ => (0 : ℚ)) 0 :
        Except QudaError (State ℚ ℚ)) = .error e) ↔ (Example.param false).clover.cloverInv = false) ∧
    (∃ d, (DiracCloverPC.new (Example.param true) (fun _ => (0 : ℚ)) 0 :
        Except QudaError (State ℚ ℚ)) = .ok d) :=
  ⟨(C8_constructor_fails_iff_no_clover_inverse (Example.param false) (fun _ => (0 : ℚ)) 0).1,
    ⟨_, rfl⟩⟩

variable [Field K]

/-- C9: `DiracCloverHasenbuschTwist::createCoarseOp` fails for every input without a request
to the coarse builder; `DiracCloverHasenbuschTwistPC::createCoarseOp` returns if and only if
the tag is `QUDA_MATPC_ODD_ODD`, fails without a request to the coarse builder for every
other tag, and for `QUDA_MATPC_ODD_ODD` makes exactly one request. -/
theorem C9_twisted_createCoarseOp (Y X : GaugeField) (T : Transfer)
    (kappa mass mu mu_factor : K) (s : State K F) :
    DiracCloverHasenbuschTwist.createCoarseOp Y X T kappa mass mu mu_factor s =
        .error QudaError.NotImplemented s ∧
    ((∃ s1, DiracCloverHasenbuschTwistPC.createCoarseOp Y X T kappa mass mu mu_factor s =
        .ok () s1) ↔ s.matpcType = QUDA_MATPC_ODD_ODD) ∧
    (s.matpcType ≠ QUDA_MATPC_ODD_ODD →
      DiracCloverHasenbuschTwistPC.createCoarseOp Y X T kappa mass mu mu_factor s =
        .error QudaError.ConfigurationError s) ∧
    (s.matpcType = QUDA_MATPC_ODD_ODD →
      DiracCloverHasenbuschTwistPC.createCoarseOp Y X T kappa mass mu mu_factor s =
        .ok () { s with trace := s.trace ++ [KernelCall.CoarseOp Y X T kappa (1 / 2 * mu)
          mu_factor QUDA_CLOVER_HASENBUSCH_TWISTPC_DIRAC QUDA_MATPC_ODD_ODD] }) := by
  refine ⟨rfl, ?_, ?_, ?_⟩
  · by_cases h : s.matpcType = QUDA_MATPC_ODD_ODD <;>
      simp [DiracCloverHasenbuschTwistPC.createCoarseOp, CoarseOp, h]
  · intro h
    simp [DiracCloverHasenbuschTwistPC.createCoarseOp, CoarseOp, h]
  · intro h
    simp [DiracCloverHasenbuschTwistPC.createCoarseOp, CoarseOp, h]

/-- C9, on the example: with tag `QUDA_MATPC_EVEN_EVEN` the preconditioned twisted operator
refuses to build a coarse operator. -/
theorem C9_twisted_createCoarseOp_witness :
    DiracCloverHasenbuschTwistPC.createCoarseOp ⟨0⟩ ⟨1⟩ ⟨1⟩ (1 / 8 : ℚ) 0 (1 / 3) 1
        (Example.state ℚ QUDA_MATPC_EVEN_EVEN false (1 / 8)) =
      .error QudaError.ConfigurationError (Example.state ℚ QUDA_MATPC_EVEN_EVEN false (1 / 8)) :=
  (C9_twisted_createCoarseOp ⟨0⟩ ⟨1⟩ ⟨1⟩ (1 / 8 : ℚ) 0 (1 / 3) 1
    (Example.state ℚ QUDA_MATPC_EVEN_EVEN false (1 / 8))).2.2.1 (by simp [Example.state])

/-- C10: for the same arguments `DiracClover::createCoarseOp` requests a coarse operator
with the scale `a = 2 kappa mu TwistFlavor(T)`, the factor `mu_factor`, the kind
`QUDA_CLOVER_DIRAC` and the tag `QUDA_MATPC_INVALID`, and `DiracCloverPC::createCoarseOp`
one with `-a`, `-mu_factor`, `QUDA_CLOVERPC_DIRAC` and the tag of the operator; both pass
`kappa` on unchanged and both return. -/
theorem C10_createCoarseOp_arguments (Y X : GaugeField) (T : Transfer)
    (kappa mass mu mu_factor : K) (s : State K F) :
    DiracClover.createCoarseOp Y X T kappa mass mu mu_factor s =
        .ok () { s with trace := s.trace ++ [KernelCall.CoarseOp Y X T kappa
          (2 * kappa * mu * (T.TwistFlavor : K)) mu_factor QUDA_CLOVER_DIRAC
          QUDA_MATPC_INVALID] } ∧
    DiracCloverPC.createCoarseOp Y X T kappa mass mu mu_factor s =
        .ok () { s with trace := s.trace ++ [KernelCall.CoarseOp Y X T kappa
          (-(2 * kappa * mu * (T.TwistFlavor : K))) (-mu_factor) QUDA_CLOVERPC_DIRAC
          s.matpcType] } := by
  refine ⟨rfl, ?_⟩
  simp [DiracCloverPC.createCoarseOp, CoarseOp]

end Coarse

end quda

/-! ## `DiracCloverPC::M` -/

namespace quda

open QudaParity QudaMatPCType QudaSolutionType QudaDiracType QudaSiteSubset

section PCM

variable {K F : Type} [Field K]

/-- The parity pair `(parity[0], parity[1])` of `DiracCloverPC::M` for each tag. -/
theorem DiracCloverPC.parity_cases :
    DiracCloverPC.parity QUDA_MATPC_EVEN_EVEN = (QUDA_ODD_PARITY, QUDA_EVEN_PARITY) ∧
    DiracCloverPC.parity QUDA_MATPC_ODD_ODD = (QUDA_EVEN_PARITY, QUDA_ODD_PARITY) ∧
    DiracCloverPC.parity QUDA_MATPC_EVEN_EVEN_ASYMMETRIC = (QUDA_ODD_PARITY, QUDA_EVEN_PARITY) ∧
    DiracCloverPC.parity QUDA_MATPC_ODD_ODD_ASYMMETRIC = (QUDA_EVEN_PARITY, QUDA_ODD_PARITY) ∧
    DiracCloverPC.parity QUDA_MATPC_INVALID = (QUDA_ODD_PARITY, QUDA_EVEN_PARITY) :=
  ⟨rfl, rfl, rfl, rfl, rfl⟩

/-- The local `symmetric` of `DiracCloverPC::M` for each tag. -/
theorem DiracCloverPC.symmetric_cases :
    DiracCloverPC.symmetric QUDA_MATPC_EVEN_EVEN = true ∧
    DiracCloverPC.symmetric QUDA_MATPC_ODD_ODD = true ∧
    DiracCloverPC.symmetric QUDA_MATPC_EVEN_EVEN_ASYMMETRIC = false ∧
    DiracCloverPC.symmetric QUDA_MATPC_ODD_ODD_ASYMMETRIC = false ∧
    DiracCloverPC.symmetric QUDA_MATPC_INVALID = false :=
  ⟨rfl, rfl, rfl, rfl, rfl⟩

/-- The method `DiracCloverPC::M` and the asymmetric composition of the specification agree in every
state with an ASYMMETRIC tag. -/
theorem DiracCloverPC.M_eq_asymmetric (E : External K F) (out inp : ColorSpinorField)
    (s : State K F) (h : s.matpcType = QUDA_MATPC_EVEN_EVEN_ASYMMETRIC ∨
      s.matpcType = QUDA_MATPC_ODD_ODD_ASYMMETRIC) :
    DiracCloverPC.M E out inp s = Spec.M_asymmetric E out inp s := by
  have hs : DiracCloverPC.symmetric s.matpcType = false := by
    rcases h with h | h <;> simp [h, DiracCloverPC.symmetric]
  cases h1 : s.tmp1 with
  | none =>
    rcases Classical.propComplete (E.checkParitySpinor inp
        { siteSubset := inp.siteSubset, volume := inp.volume, v := s.brk, vOdd := s.brk + 1 } = true) with c1 | c1
    · rcases Classical.propComplete (inp.volume = s.clover.VolumeCB) with c2 | c2
      · rcases Classical.propComplete (inp.v = s.brk) with c3 | c3 <;>
        simp only [DiracCloverPC.M, Spec.M_asymmetric, State.getTmp, State.setTmp, hs, h1, c1, c2, c3,
          DiracCloverPC.Dslash, ApplyWilsonCloverPreconditioned,
          DiracClover.checkParitySpinor, Dirac.checkParitySpinor, Dirac.checkSpinorAlias,
          Quda.bind_run, Quda.pure_run, Quda.ite_run, errorQuda_run, getState_run, addFlops_run,
          deref_run, deleteTmp_run, newTmp_run, ↓reduceIte, Bool.not_false, Bool.not_true, ne_eq,
          not_true_eq_false, not_false_eq_true, Bool.false_eq_true]
      · simp only [DiracCloverPC.M, Spec.M_asymmetric, State.getTmp, State.setTmp, hs, h1, c1, c2,
          DiracCloverPC.Dslash, ApplyWilsonCloverPreconditioned,
          DiracClover.checkParitySpinor, Dirac.checkParitySpinor, Dirac.checkSpinorAlias,
          Quda.bind_run, Quda.pure_run, Quda.ite_run, errorQuda_run, getState_run, addFlops_run,
          deref_run, deleteTmp_run, newTmp_run, ↓reduceIte, Bool.not_false, Bool.not_true, ne_eq,
          not_true_eq_false, not_false_eq_true, Bool.false_eq_true]
    · simp only [DiracCloverPC.M, Spec.M_asymmetric, State.getTmp, State.setTmp, hs, h1, c1,
        DiracCloverPC.Dslash, ApplyWilsonCloverPreconditioned,
        DiracClover.checkParitySpinor, Dirac.checkParitySpinor, Dirac.checkSpinorAlias,
        Quda.bind_run, Quda.pure_run, Quda.ite_run, errorQuda_run, getState_run, addFlops_run,
        deref_run, deleteTmp_run, newTmp_run, ↓reduceIte, Bool.not_false, Bool.not_true, ne_eq,
        not_true_eq_false, not_false_eq_true, Bool.false_eq_true]
  | some t =>
    rcases Classical.propComplete (E.checkParitySpinor inp t = true) with c1 | c1
    · rcases Classical.propComplete (inp.volume = s.clover.VolumeCB) with c2 | c2
      · rcases Classical.propComplete (inp.v = t.v) with c3 | c3 <;>
        simp only [DiracCloverPC.M, Spec.M_asymmetric, State.getTmp, State.setTmp, hs, h1, c1, c2, c3,
          DiracCloverPC.Dslash, ApplyWilsonCloverPreconditioned,
          DiracClover.checkParitySpinor, Dirac.checkParitySpinor, Dirac.checkSpinorAlias,
          Quda.bind_run, Quda.pure_run, Quda.ite_run, errorQuda_run, getState_run, addFlops_run,
          deref_run, deleteTmp_run, newTmp_run, ↓reduceIte, Bool.not_false, Bool.not_true, ne_eq,
          not_true_eq_false, not_false_eq_true, Bool.false_eq_true]
      · simp only [DiracCloverPC.M, Spec.M_asymmetric, State.getTmp, State.setTmp, hs, h1, c1, c2,
          DiracCloverPC.Dslash, ApplyWilsonCloverPreconditioned,
          DiracClover.checkParitySpinor, Dirac.checkParitySpinor, Dirac.checkSpinorAlias,
          Quda.bind_run, Quda.pure_run, Quda.ite_run, errorQuda_run, getState_run, addFlops_run,
          deref_run, deleteTmp_run, newTmp_run, ↓reduceIte, Bool.not_false, Bool.not_true, ne_eq,
          not_true_eq_false, not_false_eq_true, Bool.false_eq_true]
    · simp only [DiracCloverPC.M, Spec.M_asymmetric, State.getTmp, State.setTmp, hs, h1, c1,
        DiracCloverPC.Dslash, ApplyWilsonCloverPreconditioned,
        DiracClover.checkParitySpinor, Dirac.checkParitySpinor, Dirac.checkSpinorAlias,
        Quda.bind_run, Quda.pure_run, Quda.ite_run, errorQuda_run, getState_run, addFlops_run,
        deref_run, deleteTmp_run, newTmp_run, ↓reduceIte, Bool.not_false, Bool.not_true, ne_eq,
        not_true_eq_false, not_false_eq_true, Bool.false_eq_true]

/-- The method `DiracCloverPC::M` and the symmetric non-adjoint composition of the specification agree
in every state with a symmetric tag and the adjoint flag off. -/
theorem DiracCloverPC.M_eq_symmetric (E : External K F) (out inp : ColorSpinorField)
    (s : State K F) (h : s.matpcType = QUDA_MATPC_EVEN_EVEN ∨ s.matpcType = QUDA_MATPC_ODD_ODD)
    (hd : s.dagger = false) :
    DiracCloverPC.M E out inp s = Spec.M_symmetric E out inp s := by
  have hs : DiracCloverPC.symmetric s.matpcType = true := by
    rcases h with h | h <;> simp [h, DiracCloverPC.symmetric]
  cases h1 : s.tmp1 with
  | none =>
    rcases Classical.propComplete (E.checkParitySpinor inp
        { siteSubset := inp.siteSubset, volume := inp.volume, v := s.brk, vOdd := s.brk + 1 } = true) with c1 | c1
    · rcases Classical.propComplete (inp.volume = s.clover.VolumeCB) with c2 | c2
      · rcases Classical.propComplete (inp.v = s.brk) with c3 | c3 <;>
        simp only [DiracCloverPC.M, Spec.M_symmetric, State.getTmp, State.setTmp, hs, hd, h1, c1, c2, c3,
          DiracCloverPC.Dslash, ApplyWilsonCloverPreconditioned,
          DiracClover.checkParitySpinor, Dirac.checkParitySpinor, Dirac.checkSpinorAlias,
          Quda.bind_run, Quda.pure_run, Quda.ite_run, errorQuda_run, getState_run, addFlops_run,
          deref_run, deleteTmp_run, newTmp_run, ↓reduceIte, Bool.not_false, Bool.not_true, ne_eq,
          not_true_eq_false, not_false_eq_true, Bool.false_eq_true]
      · simp only [DiracCloverPC.M, Spec.M_symmetric, State.getTmp, State.setTmp, hs, hd, h1, c1, c2,
          DiracCloverPC.Dslash, ApplyWilsonCloverPreconditioned,
          DiracClover.checkParitySpinor, Dirac.checkParitySpinor, Dirac.checkSpinorAlias,
          Quda.bind_run, Quda.pure_run, Quda.ite_run, errorQuda_run, getState_run, addFlops_run,
          deref_run, deleteTmp_run, newTmp_run, ↓reduceIte, Bool.not_false, Bool.not_true, ne_eq,
          not_true_eq_false, not_false_eq_true, Bool.false_eq_true]
    · simp only [DiracCloverPC.M, Spec.M_symmetric, State.getTmp, State.setTmp, hs, hd, h1, c1,
        DiracCloverPC.Dslash, ApplyWilsonCloverPreconditioned,
        DiracClover.checkParitySpinor, Dirac.checkParitySpinor, Dirac.checkSpinorAlias,
        Quda.bind_run, Quda.pure_run, Quda.ite_run, errorQuda_run, getState_run, addFlops_run,
        deref_run, deleteTmp_run, newTmp_run, ↓reduceIte, Bool.not_false, Bool.not_true, ne_eq,
        not_true_eq_false, not_false_eq_true, Bool.false_eq_true]
  | some t =>
    rcases Classical.propComplete (E.checkParitySpinor inp t = true) with c1 | c1
    · rcases Classical.propComplete (inp.volume = s.clover.VolumeCB) with c2 | c2
      · rcases Classical.propComplete (inp.v = t.v) with c3 | c3 <;>
        simp only [DiracCloverPC.M, Spec.M_symmetric, State.getTmp, State.setTmp, hs, hd, h1, c1, c2, c3,
          DiracCloverPC.Dslash, ApplyWilsonCloverPreconditioned,
          DiracClover.checkParitySpinor, Dirac.checkParitySpinor, Dirac.checkSpinorAlias,
          Quda.bind_run, Quda.pure_run, Quda.ite_run, errorQuda_run, getState_run, addFlops_run,
          deref_run, deleteTmp_run, newTmp_run, ↓reduceIte, Bool.not_false, Bool.not_true, ne_eq,
          not_true_eq_false, not_false_eq_true, Bool.false_eq_true]
      · simp only [DiracCloverPC.M, Spec.M_symmetric, State.getTmp, State.setTmp, hs, hd, h1, c1, c2,
          DiracCloverPC.Dslash, ApplyWilsonCloverPreconditioned,
          DiracClover.checkParitySpinor, Dirac.checkParitySpinor, Dirac.checkSpinorAlias,
          Quda.bind_run, Quda.pure_run, Quda.ite_run, errorQuda_run, getState_run, addFlops_run,
          deref_run, deleteTmp_run, newTmp_run, ↓reduceIte, Bool.not_false, Bool.not_true, ne_eq,
          not_true_eq_false, not_false_eq_true, Bool.false_eq_true]
    · simp only [DiracCloverPC.M, Spec.M_symmetric, State.getTmp, State.setTmp, hs, hd, h1, c1,
        DiracCloverPC.Dslash, ApplyWilsonCloverPreconditioned,
        DiracClover.checkParitySpinor, Dirac.checkParitySpinor, Dirac.checkSpinorAlias,
        Quda.bind_run, Quda.pure_run, Quda.ite_run, errorQuda_run, getState_run, addFlops_run,
        deref_run, deleteTmp_run, newTmp_run, ↓reduceIte, Bool.not_false, Bool.not_true, ne_eq,
        not_true_eq_false, not_false_eq_true, Bool.false_eq_true]

/-- On valid fields, with no scratch field held, `DiracCloverPC::M` returns; the final
state is given for each of the three branches. -/
theorem DiracCloverPC.M_run (E : External K F) (out inp : ColorSpinorField) (s : State K F)
    (hE : E.AcceptsParity s.clover.VolumeCB) (hin : s.ParityField inp)
    (hout : s.ParityField out) (hne : inp.v ≠ out.v) (h1 : s.tmp1 = none) :
    DiracCloverPC.M E out inp s = .ok ()
      (if DiracCloverPC.symmetric s.matpcType = false then
        { s with
          store := Function.update (Function.update s.store s.brk
              (E.ApplyWilsonCloverPreconditioned (s.store inp.v) 0 (s.store inp.v)
                (DiracCloverPC.parity s.matpcType).1 s.dagger)) out.v
            (E.ApplyWilsonClover
              (E.ApplyWilsonCloverPreconditioned (s.store inp.v) 0 (s.store inp.v)
                (DiracCloverPC.parity s.matpcType).1 s.dagger)
              (-s.kappa * s.kappa) (s.store inp.v) (DiracCloverPC.parity s.matpcType).2 s.dagger)
          flops := s.flops + 1824 * inp.volume + 1872 * inp.volume
          brk := s.brk + 2
          trace := s.trace ++
            [KernelCall.ApplyWilsonCloverPreconditioned
                { siteSubset := inp.siteSubset, volume := inp.volume, v := s.brk, vOdd := s.brk + 1 }
                inp 0 inp (DiracCloverPC.parity s.matpcType).1 s.dagger,
              KernelCall.ApplyWilsonClover out
                { siteSubset := inp.siteSubset, volume := inp.volume, v := s.brk, vOdd := s.brk + 1 }
                (-s.kappa * s.kappa) inp (DiracCloverPC.parity s.matpcType).2 s.dagger] }
      else if s.dagger = false then
        { s with
          store := Function.update (Function.update s.store s.brk
              (E.ApplyWilsonCloverPreconditioned (s.store inp.v) 0 (s.store inp.v)
                (DiracCloverPC.parity s.matpcType).1 s.dagger)) out.v
            (E.ApplyWilsonCloverPreconditioned
              (E.ApplyWilsonCloverPreconditioned (s.store inp.v) 0 (s.store inp.v)
                (DiracCloverPC.parity s.matpcType).1 s.dagger)
              (-s.kappa * s.kappa) (s.store inp.v) (DiracCloverPC.parity s.matpcType).2 s.dagger)
          flops := s.flops + 1824 * inp.volume + 1872 * inp.volume
          brk := s.brk + 2
          trace := s.trace ++
            [KernelCall.ApplyWilsonCloverPreconditioned
                { siteSubset := inp.siteSubset, volume := inp.volume, v := s.brk, vOdd := s.brk + 1 }
                inp 0 inp (DiracCloverPC.parity s.matpcType).1 s.dagger,
              KernelCall.ApplyWilsonCloverPreconditioned out
                { siteSubset := inp.siteSubset, volume := inp.volume, v := s.brk, vOdd := s.brk + 1 }
                (-s.kappa * s.kappa) inp (DiracCloverPC.parity s.matpcType).2 s.dagger] }
      else
        { s with
          store := Function.update (Function.update (Function.update s.store out.v
              (E.ApplyClover (s.store inp.v) true (DiracCloverPC.parity s.matpcType).2)) s.brk
              (E.ApplyWilsonCloverPreconditioned
                (E.ApplyClover (s.store inp.v) true (DiracCloverPC.parity s.matpcType).2) 0
                (E.ApplyClover (s.store inp.v) true (DiracCloverPC.parity s.matpcType).2)
                (DiracCloverPC.parity s.matpcType).1 s.dagger)) out.v
            (E.ApplyWilson
              (E.ApplyWilsonCloverPreconditioned
                (E.ApplyClover (s.store inp.v) true (DiracCloverPC.parity s.matpcType).2) 0
                (E.ApplyClover (s.store inp.v) true (DiracCloverPC.parity s.matpcType).2)
                (DiracCloverPC.parity s.matpcType).1 s.dagger)
              (-s.kappa * s.kappa) (s.store inp.v) (DiracCloverPC.parity s.matpcType).2 s.dagger)
          flops := s.flops + 504 * inp.volume + 1824 * inp.volume +
            E.wilsonXpayFlops * inp.volume
          brk := s.brk + 2
          trace := s.trace ++
            [KernelCall.ApplyClover out inp true (DiracCloverPC.parity s.matpcType).2,
              KernelCall.ApplyWilsonCloverPreconditioned
                { siteSubset := inp.siteSubset, volume := inp.volume, v := s.brk, vOdd := s.brk + 1 }
                out 0 out (DiracCloverPC.parity s.matpcType).1 s.dagger,
              KernelCall.ApplyWilson out
                { siteSubset := inp.siteSubset, volume := inp.volume, v := s.brk, vOdd := s.brk + 1 }
                (-s.kappa * s.kappa) inp (DiracCloverPC.parity s.matpcType).2 s.dagger] }) := by
  obtain ⟨hi1, hi2, hi3⟩ := hin
  obtain ⟨ho1, ho2, ho3⟩ := hout
  have a1 : ¬ inp.v = s.brk := by omega
  have a2 : ¬ out.v = s.brk := by omega
  have a3 : ¬ s.brk = out.v := by omega
  have a4 : ¬ s.brk = inp.v := by omega
  have a5 : ¬ out.v = inp.v := fun h => hne h.symm
  unfold External.AcceptsParity at hE
  cases ht : s.matpcType <;> cases hd : s.dagger <;>
    simp only [DiracCloverPC.M, State.getTmp, State.setTmp, ht, hd, h1,
      DiracCloverPC.parity_cases, DiracCloverPC.symmetric_cases,
      DiracCloverPC.Dslash, DiracCloverPC.DslashXpay, DiracCloverPC.CloverInv,
      DiracClover.DslashXpay, DiracWilson.DslashXpay,
      DiracClover.checkParitySpinor, Dirac.checkParitySpinor,
      Dirac.checkSpinorAlias, ApplyWilsonCloverPreconditioned, ApplyWilsonClover, ApplyWilson,
      ApplyClover, Quda.bind_run, Quda.pure_run,
      Quda.ite_run, errorQuda_run, getState_run, addFlops_run, deref_run, deleteTmp_run, newTmp_run,
      ↓reduceIte, Bool.not_false, Bool.not_true, ne_eq, not_true_eq_false, not_false_eq_true,
      Bool.false_eq_true, hE, hi1, hi2, ho1, ho2, a1, a2, a3, a4, a5, hne,
      Function.update_same, Function.update_noteq, List.append_assoc, List.singleton_append,
      List.cons_append, List.nil_append, Nat.add_assoc, Bool.true_eq_false]

/-- The method `DiracCloverPC::M` and the symmetric adjoint composition ending in
`DiracWilson::DslashXpay` agree in every state with a symmetric tag and the adjoint flag
on. -/
theorem DiracCloverPC.M_eq_adjoint (E : External K F) (out inp : ColorSpinorField)
    (s : State K F) (h : s.matpcType = QUDA_MATPC_EVEN_EVEN ∨ s.matpcType = QUDA_MATPC_ODD_ODD)
    (hd : s.dagger = true) :
    DiracCloverPC.M E out inp s = Spec.M_adjoint_wilsonXpay E out inp s := by
  have hs : DiracCloverPC.symmetric s.matpcType = true := by
    rcases h with h | h <;> simp [h, DiracCloverPC.symmetric]
  cases h1 : s.tmp1 with
  | none =>
    rcases Classical.propComplete (E.checkParitySpinor inp out = true) with c1 | c1
    · rcases Classical.propComplete (inp.volume = s.clover.VolumeCB) with c2 | c2
      · rcases Classical.propComplete (E.checkParitySpinor out
        { siteSubset := inp.siteSubset, volume := inp.volume, v := s.brk, vOdd := s.brk + 1 } = true) with c3 | c3
        · rcases Classical.propComplete (out.volume = s.clover.VolumeCB) with c4 | c4
          · rcases Classical.propComplete (out.v = s.brk) with c5 | c5 <;>
            simp only [DiracCloverPC.M, Spec.M_adjoint_wilsonXpay, State.getTmp, State.setTmp, hs, hd, h1, c1, c2, c3, c4, c5,
              DiracCloverPC.Dslash, DiracCloverPC.CloverInv, ApplyWilsonCloverPreconditioned, ApplyClover,
              DiracClover.checkParitySpinor, Dirac.checkParitySpinor, Dirac.checkSpinorAlias,
              Quda.bind_run, Quda.pure_run, Quda.ite_run, errorQuda_run, getState_run, addFlops_run,
              deref_run, deleteTmp_run, newTmp_run, ↓reduceIte, Bool.not_false, Bool.not_true, ne_eq,
              not_true_eq_false, not_false_eq_true, Bool.false_eq_true]
          · simp only [DiracCloverPC.M, Spec.M_adjoint_wilsonXpay, State.getTmp, State.setTmp, hs, hd, h1, c1, c2, c3, c4,
              DiracCloverPC.Dslash, DiracCloverPC.CloverInv, ApplyWilsonCloverPreconditioned, ApplyClover,
              DiracClover.checkParitySpinor, Dirac.checkParitySpinor, Dirac.checkSpinorAlias,
              Quda.bind_run, Quda.pure_run, Quda.ite_run, errorQuda_run, getState_run, addFlops_run,
              deref_run, deleteTmp_run, newTmp_run, ↓reduceIte, Bool.not_false, Bool.not_true, ne_eq,
              not_true_eq_false, not_false_eq_true, Bool.false_eq_true]
        · simp only [DiracCloverPC.M, Spec.M_adjoint_wilsonXpay, State.getTmp, State.setTmp, hs, hd, h1, c1, c2, c3,
            DiracCloverPC.Dslash, DiracCloverPC.CloverInv, ApplyWilsonCloverPreconditioned, ApplyClover,
            DiracClover.checkParitySpinor, Dirac.checkParitySpinor, Dirac.checkSpinorAlias,
            Quda.bind_run, Quda.pure_run, Quda.ite_run, errorQuda_run, getState_run, addFlops_run,
            deref_run, deleteTmp_run, newTmp_run, ↓reduceIte, Bool.not_false, Bool.not_true, ne_eq,
            not_true_eq_false, not_false_eq_true, Bool.false_eq_true]
      · simp only [DiracCloverPC.M, Spec.M_adjoint_wilsonXpay, State.getTmp, State.setTmp, hs, hd, h1, c1, c2,
          DiracCloverPC.Dslash, DiracCloverPC.CloverInv, ApplyWilsonCloverPreconditioned, ApplyClover,
          DiracClover.checkParitySpinor, Dirac.checkParitySpinor, Dirac.checkSpinorAlias,
          Quda.bind_run, Quda.pure_run, Quda.ite_run, errorQuda_run, getState_run, addFlops_run,
          deref_run, deleteTmp_run, newTmp_run, ↓reduceIte, Bool.not_false, Bool.not_true, ne_eq,
          not_true_eq_false, not_false_eq_true, Bool.false_eq_true]
    · simp only [DiracCloverPC.M, Spec.M_adjoint_wilsonXpay, State.getTmp, State.setTmp, hs, hd, h1, c1,
        DiracCloverPC.Dslash, DiracCloverPC.CloverInv, ApplyWilsonCloverPreconditioned, ApplyClover,
        DiracClover.checkParitySpinor, Dirac.checkParitySpinor, Dirac.checkSpinorAlias,
        Quda.bind_run, Quda.pure_run, Quda.ite_run, errorQuda_run, getState_run, addFlops_run,
        deref_run, deleteTmp_run, newTmp_run, ↓reduceIte, Bool.not_false, Bool.not_true, ne_eq,
        not_true_eq_false, not_false_eq_true, Bool.false_eq_true]
  | some t =>
    rcases Classical.propComplete (E.checkParitySpinor inp out = true) with c1 | c1
    · rcases Classical.propComplete (inp.volume = s.clover.VolumeCB) with c2 | c2
      · rcases Classical.propComplete (E.checkParitySpinor out t = true) with c3 | c3
        · rcases Classical.propComplete (out.volume = s.clover.VolumeCB) with c4 | c4
          · rcases Classical.propComplete (out.v = t.v) with c5 | c5 <;>
            simp only [DiracCloverPC.M, Spec.M_adjoint_wilsonXpay, State.getTmp, State.setTmp, hs, hd, h1, c1, c2, c3, c4, c5,
              DiracCloverPC.Dslash, DiracCloverPC.CloverInv, ApplyWilsonCloverPreconditioned, ApplyClover,
              DiracClover.checkParitySpinor, Dirac.checkParitySpinor, Dirac.checkSpinorAlias,
              Quda.bind_run, Quda.pure_run, Quda.ite_run, errorQuda_run, getState_run, addFlops_run,
              deref_run, deleteTmp_run, newTmp_run, ↓reduceIte, Bool.not_false, Bool.not_true, ne_eq,
              not_true_eq_false, not_false_eq_true, Bool.false_eq_true]
          · simp only [DiracCloverPC.M, Spec.M_adjoint_wilsonXpay, State.getTmp, State.setTmp, hs, hd, h1, c1, c2, c3, c4,
              DiracCloverPC.Dslash, DiracCloverPC.CloverInv, ApplyWilsonCloverPreconditioned, ApplyClover,
              DiracClover.checkParitySpinor, Dirac.checkParitySpinor, Dirac.checkSpinorAlias,
              Quda.bind_run, Quda.pure_run, Quda.ite_run, errorQuda_run, getState_run, addFlops_run,
              deref_run, deleteTmp_run, newTmp_run, ↓reduceIte, Bool.not_false, Bool.not_true, ne_eq,
              not_true_eq_false, not_false_eq_true, Bool.false_eq_true]
        · simp only [DiracCloverPC.M, Spec.M_adjoint_wilsonXpay, State.getTmp, State.setTmp, hs, hd, h1, c1, c2, c3,
            DiracCloverPC.Dslash, DiracCloverPC.CloverInv, ApplyWilsonCloverPreconditioned, ApplyClover,
            DiracClover.checkParitySpinor, Dirac.checkParitySpinor, Dirac.checkSpinorAlias,
            Quda.bind_run, Quda.pure_run, Quda.ite_run, errorQuda_run, getState_run, addFlops_run,
            deref_run, deleteTmp_run, newTmp_run, ↓reduceIte, Bool.not_false, Bool.not_true, ne_eq,
            not_true_eq_false, not_false_eq_true, Bool.false_eq_true]
      · simp only [DiracCloverPC.M, Spec.M_adjoint_wilsonXpay, State.getTmp, State.setTmp, hs, hd, h1, c1, c2,
          DiracCloverPC.Dslash, DiracCloverPC.CloverInv, ApplyWilsonCloverPreconditioned, ApplyClover,
          DiracClover.checkParitySpinor, Dirac.checkParitySpinor, Dirac.checkSpinorAlias,
          Quda.bind_run, Quda.pure_run, Quda.ite_run, errorQuda_run, getState_run, addFlops_run,
          deref_run, deleteTmp_run, newTmp_run, ↓reduceIte, Bool.not_false, Bool.not_true, ne_eq,
          not_true_eq_false, not_false_eq_true, Bool.false_eq_true]
    · simp only [DiracCloverPC.M, Spec.M_adjoint_wilsonXpay, State.getTmp, State.setTmp, hs, hd, h1, c1,
        DiracCloverPC.Dslash, DiracCloverPC.CloverInv, ApplyWilsonCloverPreconditioned, ApplyClover,
        DiracClover.checkParitySpinor, Dirac.checkParitySpinor, Dirac.checkSpinorAlias,
        Quda.bind_run, Quda.pure_run, Quda.ite_run, errorQuda_run, getState_run, addFlops_run,
        deref_run, deleteTmp_run, newTmp_run, ↓reduceIte, Bool.not_false, Bool.not_true, ne_eq,
        not_true_eq_false, not_false_eq_true, Bool.false_eq_true]

/-- C4: `DiracCloverPC::M` is, for either ASYMMETRIC tag and either value of the adjoint
flag, `DiracCloverPC::Dslash(in, p0)` into the scratch field followed by
`DiracClover::DslashXpay(.., p1, x = in, k = -kappa*kappa)`, and for the tags EVEN_EVEN and
ODD_ODD without the adjoint flag `DiracCloverPC::Dslash(in, p0)` followed by
`DiracCloverPC::DslashXpay(.., p1, x = in, k = -kappa*kappa)`: the same outcome as these
compositions in every state.  On valid fields the method returns, `out` holds the value of
the second kernel at the value of the first, and exactly these two kernels were launched, in
this order. -/
theorem C4_M_asymmetric_and_symmetric (E : External K F) (out inp : ColorSpinorField)
    (s : State K F) :
    ((s.matpcType = QUDA_MATPC_EVEN_EVEN_ASYMMETRIC ∨
        s.matpcType = QUDA_MATPC_ODD_ODD_ASYMMETRIC) →
      DiracCloverPC.M E out inp s = Spec.M_asymmetric E out inp s ∧
      (E.AcceptsParity s.clover.VolumeCB → s.ParityField inp → s.ParityField out →
        inp.v ≠ out.v → s.tmp1 = none →
        ∃ s1, DiracCloverPC.M E out inp s = .ok () s1 ∧
          s1.store out.v = E.ApplyWilsonClover
            (E.ApplyWilsonCloverPreconditioned (s.store inp.v) 0 (s.store inp.v)
              (DiracCloverPC.parity s.matpcType).1 s.dagger)
            (-s.kappa * s.kappa) (s.store inp.v) (DiracCloverPC.parity s.matpcType).2 s.dagger ∧
          s1.trace = s.trace ++
            [KernelCall.ApplyWilsonCloverPreconditioned
                { siteSubset := inp.siteSubset, volume := inp.volume, v := s.brk, vOdd := s.brk + 1 }
                inp 0 inp (DiracCloverPC.parity s.matpcType).1 s.dagger,
              KernelCall.ApplyWilsonClover out
                { siteSubset := inp.siteSubset, volume := inp.volume, v := s.brk, vOdd := s.brk + 1 }
                (-s.kappa * s.kappa) inp (DiracCloverPC.parity s.matpcType).2 s.dagger])) ∧
    ((s.matpcType = QUDA_MATPC_EVEN_EVEN ∨ s.matpcType = QUDA_MATPC_ODD_ODD) →
      s.dagger = false →
      DiracCloverPC.M E out inp s = Spec.M_symmetric E out inp s ∧
      (E.AcceptsParity s.clover.VolumeCB → s.ParityField inp → s.ParityField out →
        inp.v ≠ out.v → s.tmp1 = none →
        ∃ s1, DiracCloverPC.M E out inp s = .ok () s1 ∧
          s1.store out.v = E.ApplyWilsonCloverPreconditioned
            (E.ApplyWilsonCloverPreconditioned (s.store inp.v) 0 (s.store inp.v)
              (DiracCloverPC.parity s.matpcType).1 s.dagger)
            (-s.kappa * s.kappa) (s.store inp.v) (DiracCloverPC.parity s.matpcType).2 s.dagger ∧
          s1.trace = s.trace ++
            [KernelCall.ApplyWilsonCloverPreconditioned
                { siteSubset := inp.siteSubset, volume := inp.volume, v := s.brk, vOdd := s.brk + 1 }
                inp 0 inp (DiracCloverPC.parity s.matpcType).1 s.dagger,
              KernelCall.ApplyWilsonCloverPreconditioned out
                { siteSubset := inp.siteSubset, volume := inp.volume, v := s.brk, vOdd := s.brk + 1 }
                (-s.kappa * s.kappa) inp (DiracCloverPC.parity s.matpcType).2 s.dagger])) := by
  constructor
  · intro h
    refine ⟨DiracCloverPC.M_eq_asymmetric E out inp s h, fun hE hin hout hne h1 => ?_⟩
    have hs : DiracCloverPC.symmetric s.matpcType = false := by
      rcases h with h | h <;> simp [h, DiracCloverPC.symmetric]
    refine ⟨_, DiracCloverPC.M_run E out inp s hE hin hout hne h1, ?_, ?_⟩ <;>
      simp only [hs, ↓reduceIte, Function.update_same]
  · intro h hd
    refine ⟨DiracCloverPC.M_eq_symmetric E out inp s h hd, fun hE hin hout hne h1 => ?_⟩
    have hs : DiracCloverPC.symmetric s.matpcType = true := by
      rcases h with h | h <;> simp [h, DiracCloverPC.symmetric]
    refine ⟨_, DiracCloverPC.M_run E out inp s hE hin hout hne h1, ?_, ?_⟩ <;>
      simp only [hs, hd, ↓reduceIte, Function.update_same, Bool.true_eq_false]

/-- The example kernels pass the base-class check on every pair of parity fields. -/
theorem Example.acceptsParity (F : Type) [DivisionRing F] (vol : Nat) :
    (Example.kernels F).AcceptsParity vol := by
  intro a b ha hb _ _
  simp [Example.kernels, ha, hb]

/-- The example kernels pass the base-class check on every pair of full fields. -/
theorem Example.acceptsFull (F : Type) [DivisionRing F] (vol : Nat) :
    (Example.kernels F).AcceptsFull vol := by
  intro a b ha hb _ _
  simp [Example.kernels, ha, hb]

/-- C4, on the example: with tag EVEN_EVEN_ASYMMETRIC, `kappa = 1/8` and `in` holding 1,
`DiracCloverPC::M` returns with `out` holding `2 * 1 - (1/64) * 3 * (5/4)`. -/
theorem C4_M_witness :
    ∃ s1, DiracCloverPC.M (Example.kernels ℚ) (parityField 8 1) (parityField 8 0)
        (Example.state ℚ QUDA_MATPC_EVEN_EVEN_ASYMMETRIC false (1 / 8)) = .ok () s1 ∧
      s1.store 1 = 2 - 15 / 256 := by
  obtain ⟨s1, h1, h2, _⟩ :=
    ((C4_M_asymmetric_and_symmetric (Example.kernels ℚ) (parityField 8 1) (parityField 8 0)
      (Example.state ℚ QUDA_MATPC_EVEN_EVEN_ASYMMETRIC false (1 / 8))).1 (Or.inl rfl)).2
      (Example.acceptsParity ℚ 8) ⟨rfl, rfl, by decide⟩ ⟨rfl, rfl, by decide⟩ (by decide) rfl
  refine ⟨s1, h1, ?_⟩
  rw [show (parityField 8 1).v = 1 from rfl] at h2
  rw [h2]
  simp [Example.kernels, Example.state, parityField, DiracCloverPC.parity_cases, Example.clov,
    Example.hop]
  norm_num

end PCM

end quda

namespace quda

open QudaParity QudaMatPCType QudaSolutionType QudaDiracType QudaSiteSubset

section PCMadjoint

/-- C5, as stated, fails on the example (tag EVEN_EVEN, adjoint flag on, `kappa = 1/8`, `in`
holding 1): `DiracCloverPC::M` leaves `1 - (1/64) * 5 * (3/8)` in `out`, the composition that
ends in the clover-improved `DiracClover::DslashXpay` leaves `2 * 1 - (1/64) * 5 * (3/8)`. -/
theorem C5_M_adjoint_counterexample :
    (DiracCloverPC.M (Example.kernels ℚ) (parityField 8 1) (parityField 8 0)
        (Example.state ℚ QUDA_MATPC_EVEN_EVEN true (1 / 8))).state.store 1 = 497 / 512 ∧
    (Spec.M_adjoint_cloverXpay (Example.kernels ℚ) (parityField 8 1) (parityField 8 0)
        (Example.state ℚ QUDA_MATPC_EVEN_EVEN true (1 / 8))).state.store 1 = 1009 / 512 ∧
    DiracCloverPC.M (Example.kernels ℚ) (parityField 8 1) (parityField 8 0)
        (Example.state ℚ QUDA_MATPC_EVEN_EVEN true (1 / 8)) ≠
      Spec.M_adjoint_cloverXpay (Example.kernels ℚ) (parityField 8 1) (parityField 8 0)
        (Example.state ℚ QUDA_MATPC_EVEN_EVEN true (1 / 8)) := by
  have h1 : (DiracCloverPC.M (Example.kernels ℚ) (parityField 8 1) (parityField 8 0)
        (Example.state ℚ QUDA_MATPC_EVEN_EVEN true (1 / 8))).state.store 1 = 497 / 512 := by
    rw [DiracCloverPC.M_run _ _ _ _ (Example.acceptsParity ℚ 8) ⟨rfl, rfl, by decide⟩
      ⟨rfl, rfl, by decide⟩ (by decide) rfl]
    simp [Result.state, Example.state, Example.kernels, parityField,
      DiracCloverPC.parity_cases, DiracCloverPC.symmetric_cases, Example.clov, Example.hop]
    norm_num
  have h2 : (Spec.M_adjoint_cloverXpay (Example.kernels ℚ) (parityField 8 1) (parityField 8 0)
        (Example.state ℚ QUDA_MATPC_EVEN_EVEN true (1 / 8))).state.store 1 = 1009 / 512 := by
    simp [Spec.M_adjoint_cloverXpay, Result.state, Example.state, Example.kernels, parityField,
      DiracCloverPC.parity_cases, Example.clov, Example.hop, State.getTmp, State.setTmp,
      DiracCloverPC.CloverInv, DiracCloverPC.Dslash, DiracClover.DslashXpay,
      DiracClover.checkParitySpinor, Dirac.checkParitySpinor, Dirac.checkSpinorAlias,
      ApplyClover, ApplyWilsonCloverPreconditioned, ApplyWilsonClover]
    norm_num
  refine ⟨h1, h2, fun h => ?_⟩
  rw [h] at h1
  rw [h1] at h2
  norm_num at h2

variable {K F : Type} [Field K]

/-- C5 (amended): for the tags EVEN_EVEN and ODD_ODD with the adjoint flag on,
`DiracCloverPC::M` is `CloverInv(in)` on `p1` into `out`, then `DiracCloverPC::Dslash` of
that on `p0` into the scratch field, then the hopping-only `DiracWilson::DslashXpay`
(`out = x + k D in`) on `p1` with accumulate field `in` and `k = -kappa*kappa`: the same
outcome as this composition in every state.  On valid fields the method returns, `out` holds
the value of `ApplyWilson` at the values of the two kernels before it, and exactly these
three kernels were launched, in this order; the last one is not the `ApplyWilsonClover` that
ends the asymmetric case. -/
theorem C5_M_symmetric_adjoint (E : External K F) (out inp : ColorSpinorField)
    (s : State K F)
    (h : s.matpcType = QUDA_MATPC_EVEN_EVEN ∨ s.matpcType = QUDA_MATPC_ODD_ODD)
    (hd : s.dagger = true) :
    DiracCloverPC.M E out inp s = Spec.M_adjoint_wilsonXpay E out inp s ∧
    (E.AcceptsParity s.clover.VolumeCB → s.ParityField inp → s.ParityField out →
      inp.v ≠ out.v → s.tmp1 = none →
      ∃ s1, DiracCloverPC.M E out inp s = .ok () s1 ∧
        s1.store out.v = E.ApplyWilson
          (E.ApplyWilsonCloverPreconditioned
            (E.ApplyClover (s.store inp.v) true (DiracCloverPC.parity s.matpcType).2) 0
            (E.ApplyClover (s.store inp.v) true (DiracCloverPC.parity s.matpcType).2)
            (DiracCloverPC.parity s.matpcType).1 true)
          (-s.kappa * s.kappa) (s.store inp.v) (DiracCloverPC.parity s.matpcType).2 true ∧
        s1.trace = s.trace ++
          [KernelCall.ApplyClover out inp true (DiracCloverPC.parity s.matpcType).2,
            KernelCall.ApplyWilsonCloverPreconditioned
              { siteSubset := inp.siteSubset, volume := inp.volume, v := s.brk, vOdd := s.brk + 1 }
              out 0 out (DiracCloverPC.parity s.matpcType).1 true,
            KernelCall.ApplyWilson out
              { siteSubset := inp.siteSubset, volume := inp.volume, v := s.brk, vOdd := s.brk + 1 }
              (-s.kappa * s.kappa) inp (DiracCloverPC.parity s.matpcType).2 true]) := by
  refine ⟨DiracCloverPC.M_eq_adjoint E out inp s h hd, fun hE hin hout hne h1 => ?_⟩
  have hs : DiracCloverPC.symmetric s.matpcType = true := by
    rcases h with h | h <;> simp [h, DiracCloverPC.symmetric]
  refine ⟨_, DiracCloverPC.M_run E out inp s hE hin hout hne h1, ?_, ?_⟩ <;>
    simp only [hs, hd, ↓reduceIte, Function.update_same, Bool.true_eq_false]

/-- C5 (amended), on the example: with tag EVEN_EVEN, the adjoint flag on, `kappa = 1/8` and
`in` holding 1, `DiracCloverPC::M` returns with `out` holding `1 - (1/64) * 5 * (3/8)`. -/
theorem C5_M_symmetric_adjoint_witness :
    ∃ s1, DiracCloverPC.M (Example.kernels ℚ) (parityField 8 1) (parityField 8 0)
        (Example.state ℚ QUDA_MATPC_EVEN_EVEN true (1 / 8)) = .ok () s1 ∧
      s1.store 1 = 497 / 512 := by
  obtain ⟨s1, h1, h2, _⟩ :=
    (C5_M_symmetric_adjoint (Example.kernels ℚ) (parityField 8 1) (parityField 8 0)
      (Example.state ℚ QUDA_MATPC_EVEN_EVEN true (1 / 8)) (Or.inl rfl) rfl).2
      (Example.acceptsParity ℚ 8) ⟨rfl, rfl, by decide⟩ ⟨rfl, rfl, by decide⟩ (by decide) rfl
  refine ⟨s1, h1, ?_⟩
  rw [show (parityField 8 1).v = 1 from rfl] at h2
  rw [h2]
  simp [Example.kernels, Example.state, parityField, DiracCloverPC.parity_cases, Example.clov,
    Example.hop]
  norm_num

end PCMadjoint

end quda

/-! ## `DiracCloverPC::prepare` and `DiracCloverPC::reconstruct` -/

namespace quda

open QudaParity QudaMatPCType QudaSolutionType QudaDiracType QudaSiteSubset

section Schur

variable {K F : Type}

/-- On valid, disjoint full fields, with no scratch field held and a full-system solution
type, `DiracCloverPC::prepare` returns for the tag `QUDA_MATPC_EVEN_EVEN`; the final state. -/
theorem DiracCloverPC.prepare_run_EVEN_EVEN (E : External K F) (x b : ColorSpinorField)
    (solType : QudaSolutionType) (s : State K F) (hE : E.AcceptsParity s.clover.VolumeCB)
    (hx : s.FullField x) (hb : s.FullField b) (hxb : x.Disjoint b) (h1 : s.tmp1 = none)
    (hsol : solType.Full) (ht : s.matpcType = QUDA_MATPC_EVEN_EVEN) :
    DiracCloverPC.prepare E x b solType s = .ok (x.Odd, x.Even)
      { s with
        store := Function.update (Function.update (Function.update s.store x.vOdd (E.ApplyClover (s.store b.vOdd) true QUDA_ODD_PARITY)) s.brk
            (E.ApplyWilson (E.ApplyClover (s.store b.vOdd) true QUDA_ODD_PARITY) s.kappa (s.store b.v) QUDA_EVEN_PARITY s.dagger)) x.vOdd
          (E.ApplyClover (E.ApplyWilson (E.ApplyClover (s.store b.vOdd) true QUDA_ODD_PARITY) s.kappa (s.store b.v) QUDA_EVEN_PARITY s.dagger) true QUDA_EVEN_PARITY)
        flops := s.flops + 504 * (b.volume / 2) + E.wilsonXpayFlops * (b.volume / 2) + 504 * (b.volume / 2)
        brk := s.brk + 2
        trace := s.trace ++
          [KernelCall.ApplyClover x.Odd b.Odd true QUDA_ODD_PARITY,
            KernelCall.ApplyWilson { siteSubset := QUDA_PARITY_SITE_SUBSET, volume := b.volume / 2, v := s.brk, vOdd := s.brk + 1 }
              x.Odd s.kappa b.Even QUDA_EVEN_PARITY s.dagger,
            KernelCall.ApplyClover x.Odd
              { siteSubset := QUDA_PARITY_SITE_SUBSET, volume := b.volume / 2, v := s.brk, vOdd := s.brk + 1 }
              true QUDA_EVEN_PARITY] } := by
  obtain ⟨hx1, hx2, hx3, hx4, hx5⟩ := hx
  obtain ⟨hb1, hb2, hb3, hb4, hb5⟩ := hb
  obtain ⟨d1, d2, d3, d4⟩ := hxb
  obtain ⟨t1, t2⟩ := hsol
  have a1 : ¬ x.v = s.brk := by omega
  have a2 : ¬ x.vOdd = s.brk := by omega
  have a3 : ¬ b.v = s.brk := by omega
  have a4 : ¬ b.vOdd = s.brk := by omega
  have a5 : ¬ s.brk = x.v := by omega
  have a6 : ¬ s.brk = x.vOdd := by omega
  have a7 : ¬ s.brk = b.v := by omega
  have a8 : ¬ s.brk = b.vOdd := by omega
  have e1 : ¬ b.v = x.v := fun h => d1 h.symm
  have e2 : ¬ b.vOdd = x.v := fun h => d2 h.symm
  have e3 : ¬ b.v = x.vOdd := fun h => d3 h.symm
  have e4 : ¬ b.vOdd = x.vOdd := fun h => d4 h.symm
  have e5 : ¬ x.vOdd = x.v := fun h => hx5 h.symm
  unfold External.AcceptsParity at hE
  simp only [DiracCloverPC.prepare, ColorSpinorField.Even, ColorSpinorField.Odd, State.getTmp,
    State.setTmp, ht, h1, t1, t2, or_self, reduceCtorEq,
    DiracCloverPC.CloverInv, DiracWilson.DslashXpay, DiracClover.checkParitySpinor,
    Dirac.checkParitySpinor, ApplyWilson, ApplyClover, hE, hx2, hb2,
    a1, a2, a3, a4, a5, a6, a7, a8, d1, d2, d3, d4, e1, e2, e3, e4, e5, hx5, hb5,
    Function.update_same, Function.update_noteq, List.append_assoc, List.singleton_append,
    List.cons_append, List.nil_append, Nat.add_assoc,
    Quda.bind_run, Quda.pure_run, Quda.ite_run, errorQuda_run, getState_run, addFlops_run,
    deref_run, deleteTmp_run, newTmp_run, ↓reduceIte, Bool.not_false, Bool.not_true, ne_eq,
    not_true_eq_false, not_false_eq_true, Bool.false_eq_true, Bool.true_eq_false]

/-- On valid, disjoint full fields, with no scratch field held and a full-system solution
type, `DiracCloverPC::prepare` returns for the tag `QUDA_MATPC_ODD_ODD`; the final state. -/
theorem DiracCloverPC.prepare_run_ODD_ODD (E : External K F) (x b : ColorSpinorField)
    (solType : QudaSolutionType) (s : State K F) (hE : E.AcceptsParity s.clover.VolumeCB)
    (hx : s.FullField x) (hb : s.FullField b) (hxb : x.Disjoint b) (h1 : s.tmp1 = none)
    (hsol : solType.Full) (ht : s.matpcType = QUDA_MATPC_ODD_ODD) :
    DiracCloverPC.prepare E x b solType s = .ok (x.Even, x.Odd)
      { s with
        store := Function.update (Function.update (Function.update s.store x.v (E.ApplyClover (s.store b.v) true QUDA_EVEN_PARITY)) s.brk
            (E.ApplyWilson (E.ApplyClover (s.store b.v) true QUDA_EVEN_PARITY) s.kappa (s.store b.vOdd) QUDA_ODD_PARITY s.dagger)) x.v
          (E.ApplyClover (E.ApplyWilson (E.ApplyClover (s.store b.v) true QUDA_EVEN_PARITY) s.kappa (s.store b.vOdd) QUDA_ODD_PARITY s.dagger) true QUDA_ODD_PARITY)
        flops := s.flops + 504 * (b.volume / 2) + E.wilsonXpayFlops * (b.volume / 2) + 504 * (b.volume / 2)
        brk := s.brk + 2
        trace := s.trace ++
          [KernelCall.ApplyClover x.Even b.Even true QUDA_EVEN_PARITY,
            KernelCall.ApplyWilson { siteSubset := QUDA_PARITY_SITE_SUBSET, volume := b.volume / 2, v := s.brk, vOdd := s.brk + 1 }
              x.Even s.kappa b.Odd QUDA_ODD_PARITY s.dagger,
            KernelCall.ApplyClover x.Even
              { siteSubset := QUDA_PARITY_SITE_SUBSET, volume := b.volume / 2, v := s.brk, vOdd := s.brk + 1 }
              true QUDA_ODD_PARITY] } := by
  obtain ⟨hx1, hx2, hx3, hx4, hx5⟩ := hx
  obtain ⟨hb1, hb2, hb3, hb4, hb5⟩ := hb
  obtain ⟨d1, d2, d3, d4⟩ := hxb
  obtain ⟨t1, t2⟩ := hsol
  have a1 : ¬ x.v = s.brk := by omega
  have a2 : ¬ x.vOdd = s.brk := by omega
  have a3 : ¬ b.v = s.brk := by omega
  have a4 : ¬ b.vOdd = s.brk := by omega
  have a5 : ¬ s.brk = x.v := by omega
  have a6 : ¬ s.brk = x.vOdd := by omega
  have a7 : ¬ s.brk = b.v := by omega
  have a8 : ¬ s.brk = b.vOdd := by omega
  have e1 : ¬ b.v = x.v := fun h => d1 h.symm
  have e2 : ¬ b.vOdd = x.v := fun h => d2 h.symm
  have e3 : ¬ b.v = x.vOdd := fun h => d3 h.symm
  have e4 : ¬ b.vOdd = x.vOdd := fun h => d4 h.symm
  have e5 : ¬ x.vOdd = x.v := fun h => hx5 h.symm
  unfold External.AcceptsParity at hE
  simp only [DiracCloverPC.prepare, ColorSpinorField.Even, ColorSpinorField.Odd, State.getTmp,
    State.setTmp, ht, h1, t1, t2, or_self, reduceCtorEq,
    DiracCloverPC.CloverInv, DiracWilson.DslashXpay, DiracClover.checkParitySpinor,
    Dirac.checkParitySpinor, ApplyWilson, ApplyClover, hE, hx2, hb2,
    a1, a2, a3, a4, a5, a6, a7, a8, d1, d2, d3, d4, e1, e2, e3, e4, e5, hx5, hb5,
    Function.update_same, Function.update_noteq, List.append_assoc, List.singleton_append,
    List.cons_append, List.nil_append, Nat.add_assoc,
    Quda.bind_run, Quda.pure_run, Quda.ite_run, errorQuda_run, getState_run, addFlops_run,
    deref_run, deleteTmp_run, newTmp_run, ↓reduceIte, Bool.not_false, Bool.not_true, ne_eq,
    not_true_eq_false, not_false_eq_true, Bool.false_eq_true, Bool.true_eq_false]

/-- On valid, disjoint full fields, with no scratch field held and a full-system solution
type, `DiracCloverPC::prepare` returns for the tag `QUDA_MATPC_EVEN_EVEN_ASYMMETRIC`; the final state. -/
theorem DiracCloverPC.prepare_run_EVEN_EVEN_ASYMMETRIC (E : External K F) (x b : ColorSpinorField)
    (solType : QudaSolutionType) (s : State K F) (hE : E.AcceptsParity s.clover.VolumeCB)
    (hx : s.FullField x) (hb : s.FullField b) (hxb : x.Disjoint b) (h1 : s.tmp1 = none)
    (hsol : solType.Full) (ht : s.matpcType = QUDA_MATPC_EVEN_EVEN_ASYMMETRIC) :
    DiracCloverPC.prepare E x b solType s = .ok (x.Odd, x.Even)
      { s with
        store := Function.update (Function.update s.store s.brk (E.ApplyClover (s.store b.vOdd) true QUDA_ODD_PARITY)) x.vOdd
          (E.ApplyWilson (E.ApplyClover (s.store b.vOdd) true QUDA_ODD_PARITY) s.kappa (s.store b.v) QUDA_EVEN_PARITY s.dagger)
        flops := s.flops + 504 * (b.volume / 2) + E.wilsonXpayFlops * (b.volume / 2)
        brk := s.brk + 2
        trace := s.trace ++
          [KernelCall.ApplyClover { siteSubset := QUDA_PARITY_SITE_SUBSET, volume := b.volume / 2, v := s.brk, vOdd := s.brk + 1 }
              b.Odd true QUDA_ODD_PARITY,
            KernelCall.ApplyWilson x.Odd
              { siteSubset := QUDA_PARITY_SITE_SUBSET, volume := b.volume / 2, v := s.brk, vOdd := s.brk + 1 }
              s.kappa b.Even QUDA_EVEN_PARITY s.dagger] } := by
  obtain ⟨hx1, hx2, hx3, hx4, hx5⟩ := hx
  obtain ⟨hb1, hb2, hb3, hb4, hb5⟩ := hb
  obtain ⟨d1, d2, d3, d4⟩ := hxb
  obtain ⟨t1, t2⟩ := hsol
  have a1 : ¬ x.v = s.brk := by omega
  have a2 : ¬ x.vOdd = s.brk := by omega
  have a3 : ¬ b.v = s.brk := by omega
  have a4 : ¬ b.vOdd = s.brk := by omega
  have a5 : ¬ s.brk = x.v := by omega
  have a6 : ¬ s.brk = x.vOdd := by omega
  have a7 : ¬ s.brk = b.v := by omega
  have a8 : ¬ s.brk = b.vOdd := by omega
  have e1 : ¬ b.v = x.v := fun h => d1 h.symm
  have e2 : ¬ b.vOdd = x.v := fun h => d2 h.symm
  have e3 : ¬ b.v = x.vOdd := fun h => d3 h.symm
  have e4 : ¬ b.vOdd = x.vOdd := fun h => d4 h.symm
  have e5 : ¬ x.vOdd = x.v := fun h => hx5 h.symm
  unfold External.AcceptsParity at hE
  simp only [DiracCloverPC.prepare, ColorSpinorField.Even, ColorSpinorField.Odd, State.getTmp,
    State.setTmp, ht, h1, t1, t2, or_self, reduceCtorEq,
    DiracCloverPC.CloverInv, DiracWilson.DslashXpay, DiracClover.checkParitySpinor,
    Dirac.checkParitySpinor, ApplyWilson, ApplyClover, hE, hx2, hb2,
    a1, a2, a3, a4, a5, a6, a7, a8, d1, d2, d3, d4, e1, e2, e3, e4, e5, hx5, hb5,
    Function.update_same, Function.update_noteq, List.append_assoc, List.singleton_append,
    List.cons_append, List.nil_append, Nat.add_assoc,
    Quda.bind_run, Quda.pure_run, Quda.ite_run, errorQuda_run, getState_run, addFlops_run,
    deref_run, deleteTmp_run, newTmp_run, ↓reduceIte, Bool.not_false, Bool.not_true, ne_eq,
    not_true_eq_false, not_false_eq_true, Bool.false_eq_true, Bool.true_eq_false]

/-- On valid, disjoint full fields, with no scratch field held and a full-system solution
type, `DiracCloverPC::prepare` returns for the tag `QUDA_MATPC_ODD_ODD_ASYMMETRIC`; the final state. -/
theorem DiracCloverPC.prepare_run_ODD_ODD_ASYMMETRIC (E : External K F) (x b : ColorSpinorField)
    (solType : QudaSolutionType) (s : State K F) (hE : E.AcceptsParity s.clover.VolumeCB)
    (hx : s.FullField x) (hb : s.FullField b) (hxb : x.Disjoint b) (h1 : s.tmp1 = none)
    (hsol : solType.Full) (ht : s.matpcType = QUDA_MATPC_ODD_ODD_ASYMMETRIC) :
    DiracCloverPC.prepare E x b solType s = .ok (x.Even, x.Odd)
      { s with
        store := Function.update (Function.update s.store s.brk (E.ApplyClover (s.store b.v) true QUDA_EVEN_PARITY)) x.v
          (E.ApplyWilson (E.ApplyClover (s.store b.v) true QUDA_EVEN_PARITY) s.kappa (s.store b.vOdd) QUDA_ODD_PARITY s.dagger)
        flops := s.flops + 504 * (b.volume / 2) + E.wilsonXpayFlops * (b.volume / 2)
        brk := s.brk + 2
        trace := s.trace ++
          [KernelCall.ApplyClover { siteSubset := QUDA_PARITY_SITE_SUBSET, volume := b.volume / 2, v := s.brk, vOdd := s.brk + 1 }
              b.Even true QUDA_EVEN_PARITY,
            KernelCall.ApplyWilson x.Even
              { siteSubset := QUDA_PARITY_SITE_SUBSET, volume := b.volume / 2, v := s.brk, vOdd := s.brk + 1 }
              s.kappa b.Odd QUDA_ODD_PARITY s.dagger] } := by
  obtain ⟨hx1, hx2, hx3, hx4, hx5⟩ := hx
  obtain ⟨hb1, hb2, hb3, hb4, hb5⟩ := hb
  obtain ⟨d1, d2, d3, d4⟩ := hxb
  obtain ⟨t1, t2⟩ := hsol
  have a1 : ¬ x.v = s.brk := by omega
  have a2 : ¬ x.vOdd = s.brk := by omega
  have a3 : ¬ b.v = s.brk := by omega
  have a4 : ¬ b.vOdd = s.brk := by omega
  have a5 : ¬ s.brk = x.v := by omega
  have a6 : ¬ s.brk = x.vOdd := by omega
  have a7 : ¬ s.brk = b.v := by omega
  have a8 : ¬ s.brk = b.vOdd := by omega
  have e1 : ¬ b.v = x.v := fun h => d1 h.symm
  have e2 : ¬ b.vOdd = x.v := fun h => d2 h.symm
  have e3 : ¬ b.v = x.vOdd := fun h => d3 h.symm
  have e4 : ¬ b.vOdd = x.vOdd := fun h => d4 h.symm
  have e5 : ¬ x.vOdd = x.v := fun h => hx5 h.symm
  unfold External.AcceptsParity at hE
  simp only [DiracCloverPC.prepare, ColorSpinorField.Even, ColorSpinorField.Odd, State.getTmp,
    State.setTmp, ht, h1, t1, t2, or_self, reduceCtorEq,
    DiracCloverPC.CloverInv, DiracWilson.DslashXpay, DiracClover.checkParitySpinor,
    Dirac.checkParitySpinor, ApplyWilson, ApplyClover, hE, hx2, hb2,
    a1, a2, a3, a4, a5, a6, a7, a8, d1, d2, d3, d4, e1, e2, e3, e4, e5, hx5, hb5,
    Function.update_same, Function.update_noteq, List.append_assoc, List.singleton_append,
    List.cons_append, List.nil_append, Nat.add_assoc,
    Quda.bind_run, Quda.pure_run, Quda.ite_run, errorQuda_run, getState_run, addFlops_run,
    deref_run, deleteTmp_run, newTmp_run, ↓reduceIte, Bool.not_false, Bool.not_true, ne_eq,
    not_true_eq_false, not_false_eq_true, Bool.false_eq_true, Bool.true_eq_false]

/-- On valid, disjoint full fields, with no scratch field held and a full-system solution
type, `DiracCloverPC::reconstruct` returns for the tags `QUDA_MATPC_EVEN_EVEN` and
`QUDA_MATPC_EVEN_EVEN_ASYMMETRIC`; the final state. -/
theorem DiracCloverPC.reconstruct_run_EVEN (E : External K F) (x b : ColorSpinorField)
    (solType : QudaSolutionType) (s : State K F) (hE : E.AcceptsParity s.clover.VolumeCB)
    (hF : E.checkFullSpinor x b = true)
    (hx : s.FullField x) (hb : s.FullField b) (hxb : x.Disjoint b) (h1 : s.tmp1 = none)
    (hsol : solType.Full)
    (ht : s.matpcType = QUDA_MATPC_EVEN_EVEN ∨ s.matpcType = QUDA_MATPC_EVEN_EVEN_ASYMMETRIC) :
    DiracCloverPC.reconstruct E x b solType s = .ok ()
      { s with
        store := Function.update (Function.update s.store s.brk
            (E.ApplyWilson (s.store x.v) s.kappa (s.store b.vOdd) QUDA_ODD_PARITY s.dagger)) x.vOdd
          (E.ApplyClover (E.ApplyWilson (s.store x.v) s.kappa (s.store b.vOdd) QUDA_ODD_PARITY s.dagger) true QUDA_ODD_PARITY)
        flops := s.flops + E.wilsonXpayFlops * (x.volume / 2) + 504 * (b.volume / 2)
        brk := s.brk + 2
        trace := s.trace ++
          [KernelCall.ApplyWilson { siteSubset := QUDA_PARITY_SITE_SUBSET, volume := b.volume / 2, v := s.brk, vOdd := s.brk + 1 }
              x.Even s.kappa b.Odd QUDA_ODD_PARITY s.dagger,
            KernelCall.ApplyClover x.Odd
              { siteSubset := QUDA_PARITY_SITE_SUBSET, volume := b.volume / 2, v := s.brk, vOdd := s.brk + 1 }
              true QUDA_ODD_PARITY] } := by
  obtain ⟨hx1, hx2, hx3, hx4, hx5⟩ := hx
  obtain ⟨hb1, hb2, hb3, hb4, hb5⟩ := hb
  obtain ⟨d1, d2, d3, d4⟩ := hxb
  obtain ⟨t1, t2⟩ := hsol
  have a1 : ¬ x.v = s.brk := by omega
  have a2 : ¬ x.vOdd = s.brk := by omega
  have a3 : ¬ b.v = s.brk := by omega
  have a4 : ¬ b.vOdd = s.brk := by omega
  have a5 : ¬ s.brk = x.v := by omega
  have a6 : ¬ s.brk = x.vOdd := by omega
  have a7 : ¬ s.brk = b.v := by omega
  have a8 : ¬ s.brk = b.vOdd := by omega
  have e1 : ¬ b.v = x.v := fun h => d1 h.symm
  have e2 : ¬ b.vOdd = x.v := fun h => d2 h.symm
  have e3 : ¬ b.v = x.vOdd := fun h => d3 h.symm
  have e4 : ¬ b.vOdd = x.vOdd := fun h => d4 h.symm
  have e5 : ¬ x.vOdd = x.v := fun h => hx5 h.symm
  unfold External.AcceptsParity at hE
  rcases ht with ht | ht <;>
  simp only [DiracCloverPC.reconstruct, ColorSpinorField.Even, ColorSpinorField.Odd, State.getTmp,
    State.setTmp, ht, h1, t1, t2, or_self, or_true, true_or, or_false, false_or, reduceCtorEq,
    DiracCloverPC.CloverInv, DiracWilson.DslashXpay, DiracClover.checkParitySpinor,
    Dirac.checkParitySpinor, Dirac.checkFullSpinor, ApplyWilson, ApplyClover, hE, hF, hx2, hb2,
    a1, a2, a3, a4, a5, a6, a7, a8, d1, d2, d3, d4, e1, e2, e3, e4, e5, hx5, hb5,
    Function.update_same, Function.update_noteq, List.append_assoc, List.singleton_append,
    List.cons_append, List.nil_append, Nat.add_assoc,
    Quda.bind_run, Quda.pure_run, Quda.ite_run, errorQuda_run, getState_run, addFlops_run,
    deref_run, deleteTmp_run, newTmp_run, ↓reduceIte, Bool.not_false, Bool.not_true, ne_eq,
    not_true_eq_false, not_false_eq_true, Bool.false_eq_true, Bool.true_eq_false]

/-- On valid, disjoint full fields, with no scratch field held and a full-system solution
type, `DiracCloverPC::reconstruct` returns for the tags `QUDA_MATPC_ODD_ODD` and
`QUDA_MATPC_ODD_ODD_ASYMMETRIC`; the final state. -/
theorem DiracCloverPC.reconstruct_run_ODD (E : External K F) (x b : ColorSpinorField)
    (solType : QudaSolutionType) (s : State K F) (hE : E.AcceptsParity s.clover.VolumeCB)
    (hF : E.checkFullSpinor x b = true)
    (hx : s.FullField x) (hb : s.FullField b) (hxb : x.Disjoint b) (h1 : s.tmp1 = none)
    (hsol : solType.Full)
    (ht : s.matpcType = QUDA_MATPC_ODD_ODD ∨ s.matpcType = QUDA_MATPC_ODD_ODD_ASYMMETRIC) :
    DiracCloverPC.reconstruct E x b solType s = .ok ()
      { s with
        store := Function.update (Function.update s.store s.brk
            (E.ApplyWilson (s.store x.vOdd) s.kappa (s.store b.v) QUDA_EVEN_PARITY s.dagger)) x.v
          (E.ApplyClover (E.ApplyWilson (s.store x.vOdd) s.kappa (s.store b.v) QUDA_EVEN_PARITY s.dagger) true QUDA_EVEN_PARITY)
        flops := s.flops + E.wilsonXpayFlops * (x.volume / 2) + 504 * (b.volume / 2)
        brk := s.brk + 2
        trace := s.trace ++
          [KernelCall.ApplyWilson { siteSubset := QUDA_PARITY_SITE_SUBSET, volume := b.volume / 2, v := s.brk, vOdd := s.brk + 1 }
              x.Odd s.kappa b.Even QUDA_EVEN_PARITY s.dagger,
            KernelCall.ApplyClover x.Even
              { siteSubset := QUDA_PARITY_SITE_SUBSET, volume := b.volume / 2, v := s.brk, vOdd := s.brk + 1 }
              true QUDA_EVEN_PARITY] } := by
  obtain ⟨hx1, hx2, hx3, hx4, hx5⟩ := hx
  obtain ⟨hb1, hb2, hb3, hb4, hb5⟩ := hb
  obtain ⟨d1, d2, d3, d4⟩ := hxb
  obtain ⟨t1, t2⟩ := hsol
  have a1 : ¬ x.v = s.brk := by omega
  have a2 : ¬ x.vOdd = s.brk := by omega
  have a3 : ¬ b.v = s.brk := by omega
  have a4 : ¬ b.vOdd = s.brk := by omega
  have a5 : ¬ s.brk = x.v := by omega
  have a6 : ¬ s.brk = x.vOdd := by omega
  have a7 : ¬ s.brk = b.v := by omega
  have a8 : ¬ s.brk = b.vOdd := by omega
  have e1 : ¬ b.v = x.v := fun h => d1 h.symm
  have e2 : ¬ b.vOdd = x.v := fun h => d2 h.symm
  have e3 : ¬ b.v = x.vOdd := fun h => d3 h.symm
  have e4 : ¬ b.vOdd = x.vOdd := fun h => d4 h.symm
  have e5 : ¬ x.vOdd = x.v := fun h => hx5 h.symm
  unfold External.AcceptsParity at hE
  rcases ht with ht | ht <;>
  simp only [DiracCloverPC.reconstruct, ColorSpinorField.Even, ColorSpinorField.Odd, State.getTmp,
    State.setTmp, ht, h1, t1, t2, or_self, or_true, true_or, or_false, false_or, reduceCtorEq,
    DiracCloverPC.CloverInv, DiracWilson.DslashXpay, DiracClover.checkParitySpinor,
    Dirac.checkParitySpinor, Dirac.checkFullSpinor, ApplyWilson, ApplyClover, hE, hF, hx2, hb2,
    a1, a2, a3, a4, a5, a6, a7, a8, d1, d2, d3, d4, e1, e2, e3, e4, e5, hx5, hb5,
    Function.update_same, Function.update_noteq, List.append_assoc, List.singleton_append,
    List.cons_append, List.nil_append, Nat.add_assoc,
    Quda.bind_run, Quda.pure_run, Quda.ite_run, errorQuda_run, getState_run, addFlops_run,
    deref_run, deleteTmp_run, newTmp_run, ↓reduceIte, Bool.not_false, Bool.not_true, ne_eq,
    not_true_eq_false, not_false_eq_true, Bool.false_eq_true, Bool.true_eq_false]

end Schur

end quda

/-! ## The operators as maps on field contents -/

namespace quda

open QudaParity QudaMatPCType QudaSolutionType QudaDiracType QudaSiteSubset

section Values

variable {K F : Type} [Field K]

/-- With no scratch field held, `DiracCloverPC::M` run on new fields returns and computes
`DiracCloverPC.Mvalue`. -/
theorem DiracCloverPC.applyParity_M (E : External K F) (s : State K F) (y : F)
    (hE : E.AcceptsParity s.clover.VolumeCB) (h1 : s.tmp1 = none) :
    applyParity (DiracCloverPC.M E) s y =
      some (DiracCloverPC.Mvalue E s.matpcType s.dagger s.kappa y) := by
  have h := DiracCloverPC.M_run E (parityField s.clover.VolumeCB (s.brk + 1))
    (parityField s.clover.VolumeCB s.brk)
    { s with store := Function.update s.store s.brk y, brk := s.brk + 2 } hE
    ⟨rfl, rfl, by simp [parityField]⟩ ⟨rfl, rfl, by simp [parityField]⟩
    (by simp [parityField]) h1
  unfold applyParity
  rw [h]
  cases hs : DiracCloverPC.symmetric s.matpcType <;> cases hd : s.dagger <;>
    simp [DiracCloverPC.Mvalue, hs, hd, parityField]

/-- The method `DiracClover::M` run on new full fields returns and computes `DiracClover.Mvalue`: for
each half of `out`, `ApplyWilsonClover` of the opposite half of `in` with the same half as
accumulate field and the coefficient `-kappa`. -/
theorem DiracClover.applyFull_M (E : External K F) (s : State K F) (y : F × F) :
    applyFull (DiracClover.M E) s y = some (DiracClover.Mvalue E s.dagger s.kappa y) := by
  simp [applyFull, DiracClover.M, ApplyWilsonClover, fullField, DiracClover.Mvalue]

end Values

end quda

/-! ## Schur reduction: `prepare`, `reconstruct` and the round trip -/

namespace quda

open QudaParity QudaMatPCType QudaSolutionType QudaDiracType QudaSiteSubset

section SchurClaims

variable {K F : Type} [Field K] [AddCommGroup F] [Module K F]

/-- C6: for a full-system solution type, valid disjoint full fields `x`, `b` and each of the
four tags, `DiracCloverPC::prepare` returns with `sol` the half of `x` of the primary parity
of the tag and `src` the opposite half of `x`, which holds
`A_ee^-1 (b_e + kappa D_eo A_oo^-1 b_o)` for EVEN_EVEN, `A_oo^-1 (b_o + kappa D_oe A_ee^-1 b_e)`
for ODD_ODD, `b_e + kappa D_eo A_oo^-1 b_o` for EVEN_EVEN_ASYMMETRIC and
`b_o + kappa D_oe A_ee^-1 b_e` for ODD_ODD_ASYMMETRIC; `b` is not modified. -/
theorem C6_prepare_postcondition (E : External K F) (A Ainv : QudaParity → F →ₗ[K] F)
    (D : QudaParity → Bool → F →ₗ[K] F) (hK : KernelModel E A Ainv D)
    (x b : ColorSpinorField) (solType : QudaSolutionType) (s : State K F)
    (hE : E.AcceptsParity s.clover.VolumeCB) (hx : s.FullField x) (hb : s.FullField b)
    (hxb : x.Disjoint b) (h1 : s.tmp1 = none) (hsol : solType.Full)
    (ht : s.matpcType ≠ QUDA_MATPC_INVALID) :
    ∃ src sol s1, DiracCloverPC.prepare E x b solType s = .ok (src, sol) s1 ∧
      s1.store b.v = s.store b.v ∧ s1.store b.vOdd = s.store b.vOdd ∧
      (s.matpcType = QUDA_MATPC_EVEN_EVEN → src = x.Odd ∧ sol = x.Even ∧
        s1.store x.vOdd = Ainv QUDA_EVEN_PARITY (s.store b.v +
          s.kappa • D QUDA_EVEN_PARITY s.dagger (Ainv QUDA_ODD_PARITY (s.store b.vOdd)))) ∧
      (s.matpcType = QUDA_MATPC_ODD_ODD → src = x.Even ∧ sol = x.Odd ∧
        s1.store x.v = Ainv QUDA_ODD_PARITY (s.store b.vOdd +
          s.kappa • D QUDA_ODD_PARITY s.dagger (Ainv QUDA_EVEN_PARITY (s.store b.v)))) ∧
      (s.matpcType = QUDA_MATPC_EVEN_EVEN_ASYMMETRIC → src = x.Odd ∧ sol = x.Even ∧
        s1.store x.vOdd = s.store b.v +
          s.kappa • D QUDA_EVEN_PARITY s.dagger (Ainv QUDA_ODD_PARITY (s.store b.vOdd))) ∧
      (s.matpcType = QUDA_MATPC_ODD_ODD_ASYMMETRIC → src = x.Even ∧ sol = x.Odd ∧
        s1.store x.v = s.store b.vOdd +
          s.kappa • D QUDA_ODD_PARITY s.dagger (Ainv QUDA_EVEN_PARITY (s.store b.v))) := by
  have a3 : ¬ b.v = s.brk := by have := hb.2.2.1; omega
  have a4 : ¬ b.vOdd = s.brk := by have := hb.2.2.2.1; omega
  have e1 : ¬ b.v = x.v := fun h => hxb.1 h.symm
  have e2 : ¬ b.vOdd = x.v := fun h => hxb.2.1 h.symm
  have e3 : ¬ b.v = x.vOdd := fun h => hxb.2.2.1 h.symm
  have e4 : ¬ b.vOdd = x.vOdd := fun h => hxb.2.2.2 h.symm
  cases h : s.matpcType with
  | QUDA_MATPC_EVEN_EVEN =>
    refine ⟨_, _, _, DiracCloverPC.prepare_run_EVEN_EVEN E x b solType s hE hx hb hxb h1 hsol h,
      ?_, ?_, ?_, ?_, ?_, ?_⟩ <;>
      simp [Function.update_noteq, a3, a4, e1, e2, e3, e4, hK.cloverInv, hK.wilson]
  | QUDA_MATPC_ODD_ODD =>
    refine ⟨_, _, _, DiracCloverPC.prepare_run_ODD_ODD E x b solType s hE hx hb hxb h1 hsol h,
      ?_, ?_, ?_, ?_, ?_, ?_⟩ <;>
      simp [Function.update_noteq, a3, a4, e1, e2, e3, e4, hK.cloverInv, hK.wilson]
  | QUDA_MATPC_EVEN_EVEN_ASYMMETRIC =>
    refine ⟨_, _, _,
      DiracCloverPC.prepare_run_EVEN_EVEN_ASYMMETRIC E x b solType s hE hx hb hxb h1 hsol h,
      ?_, ?_, ?_, ?_, ?_, ?_⟩ <;>
      simp [Function.update_noteq, a3, a4, e1, e2, e3, e4, hK.cloverInv, hK.wilson]
  | QUDA_MATPC_ODD_ODD_ASYMMETRIC =>
    refine ⟨_, _, _,
      DiracCloverPC.prepare_run_ODD_ODD_ASYMMETRIC E x b solType s hE hx hb hxb h1 hsol h,
      ?_, ?_, ?_, ?_, ?_, ?_⟩ <;>
      simp [Function.update_noteq, a3, a4, e1, e2, e3, e4, hK.cloverInv, hK.wilson]
  | QUDA_MATPC_INVALID => exact absurd h ht

/-- C7: for a full-system solution type and valid disjoint full fields `x`, `b`,
`DiracCloverPC::reconstruct` returns, for the tags EVEN_EVEN and EVEN_EVEN_ASYMMETRIC with
`x_o = A_oo^-1 (b_o + kappa D_oe x_e)` and `x_e` unchanged, for the tags ODD_ODD and
ODD_ODD_ASYMMETRIC with `x_e = A_ee^-1 (b_e + kappa D_eo x_o)` and `x_o` unchanged; for a
preconditioned solution type it returns in the state it was called in, for every tag; `b`
is never modified. -/
theorem C7_reconstruct_postcondition (E : External K F) (A Ainv : QudaParity → F →ₗ[K] F)
    (D : QudaParity → Bool → F →ₗ[K] F) (hK : KernelModel E A Ainv D)
    (x b : ColorSpinorField) (solType : QudaSolutionType) (s : State K F) :
    ((solType = QUDA_MATPC_SOLUTION ∨ solType = QUDA_MATPCDAG_MATPC_SOLUTION) →
      DiracCloverPC.reconstruct E x b solType s = .ok () s) ∧
    (solType.Full → E.AcceptsParity s.clover.VolumeCB → E.checkFullSpinor x b = true →
      s.FullField x → s.FullField b → x.Disjoint b → s.tmp1 = none →
      ((s.matpcType = QUDA_MATPC_EVEN_EVEN ∨ s.matpcType = QUDA_MATPC_EVEN_EVEN_ASYMMETRIC) →
        ∃ s1, DiracCloverPC.reconstruct E x b solType s = .ok () s1 ∧
          s1.store x.vOdd = Ainv QUDA_ODD_PARITY (s.store b.vOdd +
            s.kappa • D QUDA_ODD_PARITY s.dagger (s.store x.v)) ∧
          s1.store x.v = s.store x.v ∧
          s1.store b.v = s.store b.v ∧ s1.store b.vOdd = s.store b.vOdd) ∧
      ((s.matpcType = QUDA_MATPC_ODD_ODD ∨ s.matpcType = QUDA_MATPC_ODD_ODD_ASYMMETRIC) →
        ∃ s1, DiracCloverPC.reconstruct E x b solType s = .ok () s1 ∧
          s1.store x.v = Ainv QUDA_EVEN_PARITY (s.store b.v +
            s.kappa • D QUDA_EVEN_PARITY s.dagger (s.store x.vOdd)) ∧
          s1.store x.vOdd = s.store x.vOdd ∧
          s1.store b.v = s.store b.v ∧ s1.store b.vOdd = s.store b.vOdd)) := by
  constructor
  · intro h
    simp [DiracCloverPC.reconstruct, h]
  · intro hsol hE hF hx hb hxb h1
    have a1 : ¬ x.v = s.brk := by have := hx.2.2.1; omega
    have a2 : ¬ x.vOdd = s.brk := by have := hx.2.2.2.1; omega
    have a3 : ¬ b.v = s.brk := by have := hb.2.2.1; omega
    have a4 : ¬ b.vOdd = s.brk := by have := hb.2.2.2.1; omega
    have e1 : ¬ b.v = x.v := fun h => hxb.1 h.symm
    have e2 : ¬ b.vOdd = x.v := fun h => hxb.2.1 h.symm
    have e3 : ¬ b.v = x.vOdd := fun h => hxb.2.2.1 h.symm
    have e4 : ¬ b.vOdd = x.vOdd := fun h => hxb.2.2.2 h.symm
    have e5 : ¬ x.v = x.vOdd := hx.2.2.2.2
    have e6 : ¬ x.vOdd = x.v := fun h => e5 h.symm
    constructor
    · intro ht
      refine ⟨_, DiracCloverPC.reconstruct_run_EVEN E x b solType s hE hF hx hb hxb h1 hsol ht,
        ?_, ?_, ?_, ?_⟩ <;>
        simp [Function.update_noteq, a1, a2, a3, a4, e1, e2, e3, e4, e5, e6, hK.cloverInv,
          hK.wilson]
    · intro ht
      refine ⟨_, DiracCloverPC.reconstruct_run_ODD E x b solType s hE hF hx hb hxb h1 hsol ht,
        ?_, ?_, ?_, ?_⟩ <;>
        simp [Function.update_noteq, a1, a2, a3, a4, e1, e2, e3, e4, e5, e6, hK.cloverInv,
          hK.wilson]

end SchurClaims

end quda

/-! ## The Schur round trip -/

namespace quda

open QudaParity QudaMatPCType QudaSolutionType QudaDiracType QudaSiteSubset

section RoundTrip

variable {K F : Type} [Field K] [AddCommGroup F] [Module K F]

/-- Round trip for the tag `QUDA_MATPC_EVEN_EVEN`: `prepare`, any solution `y` of the preconditioned
system written to `sol`, then `reconstruct`, give a field `x` with `DiracClover::M(x) = b`. -/
theorem DiracCloverPC.roundtrip_EVEN_EVEN (E : External K F) (A Ainv : QudaParity → F →ₗ[K] F)
    (D : QudaParity → Bool → F →ₗ[K] F) (hK : KernelModel E A Ainv D)
    (x b : ColorSpinorField) (solType : QudaSolutionType) (s : State K F)
    (hE : E.AcceptsParity s.clover.VolumeCB) (hF : E.checkFullSpinor x b = true)
    (hx : s.FullField x) (hb : s.FullField b) (hxb : x.Disjoint b) (h1 : s.tmp1 = none)
    (hsol : solType.Full) (hd : s.dagger = false) (hκ : s.kappa ≠ 0) 
    (ht : s.matpcType = QUDA_MATPC_EVEN_EVEN) :
    ∃ src sol s1, DiracCloverPC.prepare E x b solType s = .ok (src, sol) s1 ∧
      ∀ y : F, applyParity (DiracCloverPC.M E) s1 y = some (s1.store src.v) →
        ∃ s3, DiracCloverPC.reconstruct E x b solType
            { s1 with store := Function.update s1.store sol.v y } = .ok () s3 ∧
          applyFull (DiracClover.M E) s3 (s3.store x.v, s3.store x.vOdd) =
            some (s.store b.v, s.store b.vOdd) := by
  have hx' := hx
  have hb' := hb
  obtain ⟨hx1, hx2, hx3, hx4, hx5⟩ := hx'
  obtain ⟨hb1, hb2, hb3, hb4, hb5⟩ := hb'
  have a1 : ¬ x.v = s.brk := by omega
  have a2 : ¬ x.vOdd = s.brk := by omega
  have a3 : ¬ b.v = s.brk := by omega
  have a4 : ¬ b.vOdd = s.brk := by omega
  have a5 : ¬ x.v = s.brk + 2 := by omega
  have a6 : ¬ x.vOdd = s.brk + 2 := by omega
  have a7 : ¬ b.v = s.brk + 2 := by omega
  have a8 : ¬ b.vOdd = s.brk + 2 := by omega
  have e1 : ¬ b.v = x.v := fun h => hxb.1 h.symm
  have e2 : ¬ b.vOdd = x.v := fun h => hxb.2.1 h.symm
  have e3 : ¬ b.v = x.vOdd := fun h => hxb.2.2.1 h.symm
  have e4 : ¬ b.vOdd = x.vOdd := fun h => hxb.2.2.2 h.symm
  have e6 : ¬ x.vOdd = x.v := fun h => hx5 h.symm
  have hk2 : -s.kappa * s.kappa ≠ 0 := by
    simpa using hκ
  refine ⟨_, _, _, DiracCloverPC.prepare_run_EVEN_EVEN E x b solType s hE hx hb hxb h1 hsol ht,
    fun y hy => ?_⟩
  rw [DiracCloverPC.applyParity_M E _ y ?_ ?_] at hy
  rotate_left
  · exact hE
  · exact h1
  refine ⟨_, DiracCloverPC.reconstruct_run_EVEN E x b solType _ ?_ hF ?_ ?_ hxb ?_ hsol ?_, ?_⟩
  · exact hE
  · exact ⟨hx1, hx2, by show x.v < s.brk + 2; omega, by show x.vOdd < s.brk + 2; omega, hx5⟩
  · exact ⟨hb1, hb2, by show b.v < s.brk + 2; omega, by show b.vOdd < s.brk + 2; omega, hb5⟩
  · exact h1
  · exact Or.inl ht
  rw [DiracClover.applyFull_M]
  simp only [Option.some.injEq, DiracCloverPC.Mvalue, DiracClover.Mvalue, ht, hd, DiracCloverPC.symmetric_cases,
    DiracCloverPC.parity_cases, ColorSpinorField.Odd, ColorSpinorField.Even,
    Function.update_same, Function.update_noteq, ne_eq, not_false_eq_true,
    a1, a2, a3, a4, a5, a6, a7, a8, e1, e2, e3, e4, e6, hx5,
    ↓reduceIte, Bool.true_eq_false, hK.cloverInv, hK.wilson, hK.wilsonClover,
    hK.preconditioned_zero, hK.preconditioned _ _ _ _ _ hk2, Prod.mk.injEq] at hy ⊢
  have hy2 := congrArg (A QUDA_EVEN_PARITY) hy
  simp only [map_add, map_smul, hK.A_Ainv] at hy2 ⊢
  constructor <;> first
    | module
    | (rw [eq_sub_of_add_eq hy2.symm]; module)

/-- Round trip for the tag `QUDA_MATPC_ODD_ODD`: `prepare`, any solution `y` of the preconditioned
system written to `sol`, then `reconstruct`, give a field `x` with `DiracClover::M(x) = b`. -/
theorem DiracCloverPC.roundtrip_ODD_ODD (E : External K F) (A Ainv : QudaParity → F →ₗ[K] F)
    (D : QudaParity → Bool → F →ₗ[K] F) (hK : KernelModel E A Ainv D)
    (x b : ColorSpinorField) (solType : QudaSolutionType) (s : State K F)
    (hE : E.AcceptsParity s.clover.VolumeCB) (hF : E.checkFullSpinor x b = true)
    (hx : s.FullField x) (hb : s.FullField b) (hxb : x.Disjoint b) (h1 : s.tmp1 = none)
    (hsol : solType.Full) (hd : s.dagger = false) (hκ : s.kappa ≠ 0) 
    (ht : s.matpcType = QUDA_MATPC_ODD_ODD) :
    ∃ src sol s1, DiracCloverPC.prepare E x b solType s = .ok (src, sol) s1 ∧
      ∀ y : F, applyParity (DiracCloverPC.M E) s1 y = some (s1.store src.v) →
        ∃ s3, DiracCloverPC.reconstruct E x b solType
            { s1 with store := Function.update s1.store sol.v y } = .ok () s3 ∧
          applyFull (DiracClover.M E) s3 (s3.store x.v, s3.store x.vOdd) =
            some (s.store b.v, s.store b.vOdd) := by
  have hx' := hx
  have hb' := hb
  obtain ⟨hx1, hx2, hx3, hx4, hx5⟩ := hx'
  obtain ⟨hb1, hb2, hb3, hb4, hb5⟩ := hb'
  have a1 : ¬ x.v = s.brk := by omega
  have a2 : ¬ x.vOdd = s.brk := by omega
  have a3 : ¬ b.v = s.brk := by omega
  have a4 : ¬ b.vOdd = s.brk := by omega
  have a5 : ¬ x.v = s.brk + 2 := by omega
  have a6 : ¬ x.vOdd = s.brk + 2 := by omega
  have a7 : ¬ b.v = s.brk + 2 := by omega
  have a8 : ¬ b.vOdd = s.brk + 2 := by omega
  have e1 : ¬ b.v = x.v := fun h => hxb.1 h.symm
  have e2 : ¬ b.vOdd = x.v := fun h => hxb.2.1 h.symm
  have e3 : ¬ b.v = x.vOdd := fun h => hxb.2.2.1 h.symm
  have e4 : ¬ b.vOdd = x.vOdd := fun h => hxb.2.2.2 h.symm
  have e6 : ¬ x.vOdd = x.v := fun h => hx5 h.symm
  have hk2 : -s.kappa * s.kappa ≠ 0 := by
    simpa using hκ
  refine ⟨_, _, _, DiracCloverPC.prepare_run_ODD_ODD E x b solType s hE hx hb hxb h1 hsol ht,
    fun y hy => ?_⟩
  rw [DiracCloverPC.applyParity_M E _ y ?_ ?_] at hy
  rotate_left
  · exact hE
  · exact h1
  refine ⟨_, DiracCloverPC.reconstruct_run_ODD E x b solType _ ?_ hF ?_ ?_ hxb ?_ hsol ?_, ?_⟩
  · exact hE
  · exact ⟨hx1, hx2, by show x.v < s.brk + 2; omega, by show x.vOdd < s.brk + 2; omega, hx5⟩
  · exact ⟨hb1, hb2, by show b.v < s.brk + 2; omega, by show b.vOdd < s.brk + 2; omega, hb5⟩
  · exact h1
  · exact Or.inl ht
  rw [DiracClover.applyFull_M]
  simp only [Option.some.injEq, DiracCloverPC.Mvalue, DiracClover.Mvalue, ht, hd, DiracCloverPC.symmetric_cases,
    DiracCloverPC.parity_cases, ColorSpinorField.Odd, ColorSpinorField.Even,
    Function.update_same, Function.update_noteq, ne_eq, not_false_eq_true,
    a1, a2, a3, a4, a5, a6, a7, a8, e1, e2, e3, e4, e6, hx5,
    ↓reduceIte, Bool.true_eq_false, hK.cloverInv, hK.wilson, hK.wilsonClover,
    hK.preconditioned_zero, hK.preconditioned _ _ _ _ _ hk2, Prod.mk.injEq] at hy ⊢
  have hy2 := congrArg (A QUDA_ODD_PARITY) hy
  simp only [map_add, map_smul, hK.A_Ainv] at hy2 ⊢
  constructor <;> first
    | module
    | (rw [eq_sub_of_add_eq hy2.symm]; module)

/-- Round trip for the tag `QUDA_MATPC_EVEN_EVEN_ASYMMETRIC`: `prepare`, any solution `y` of the preconditioned
system written to `sol`, then `reconstruct`, give a field `x` with `DiracClover::M(x) = b`. -/
theorem DiracCloverPC.roundtrip_EVEN_EVEN_ASYMMETRIC (E : External K F) (A Ainv : QudaParity → F →ₗ[K] F)
    (D : QudaParity → Bool → F →ₗ[K] F) (hK : KernelModel E A Ainv D)
    (x b : ColorSpinorField) (solType : QudaSolutionType) (s : State K F)
    (hE : E.AcceptsParity s.clover.VolumeCB) (hF : E.checkFullSpinor x b = true)
    (hx : s.FullField x) (hb : s.FullField b) (hxb : x.Disjoint b) (h1 : s.tmp1 = none)
    (hsol : solType.Full) (hd : s.dagger = false) 
    (ht : s.matpcType = QUDA_MATPC_EVEN_EVEN_ASYMMETRIC) :
    ∃ src sol s1, DiracCloverPC.prepare E x b solType s = .ok (src, sol) s1 ∧
      ∀ y : F, applyParity (DiracCloverPC.M E) s1 y = some (s1.store src.v) →
        ∃ s3, DiracCloverPC.reconstruct E x b solType
            { s1 with store := Function.update s1.store sol.v y } = .ok () s3 ∧
          applyFull (DiracClover.M E) s3 (s3.store x.v, s3.store x.vOdd) =
            some (s.store b.v, s.store b.vOdd) := by
  have hx' := hx
  have hb' := hb
  obtain ⟨hx1, hx2, hx3, hx4, hx5⟩ := hx'
  obtain ⟨hb1, hb2, hb3, hb4, hb5⟩ := hb'
  have a1 : ¬ x.v = s.brk := by omega
  have a2 : ¬ x.vOdd = s.brk := by omega
  have a3 : ¬ b.v = s.brk := by omega
  have a4 : ¬ b.vOdd = s.brk := by omega
  have a5 : ¬ x.v = s.brk + 2 := by omega
  have a6 : ¬ x.vOdd = s.brk + 2 := by omega
  have a7 : ¬ b.v = s.brk + 2 := by omega
  have a8 : ¬ b.vOdd = s.brk + 2 := by omega
  have e1 : ¬ b.v = x.v := fun h => hxb.1 h.symm
  have e2 : ¬ b.vOdd = x.v := fun h => hxb.2.1 h.symm
  have e3 : ¬ b.v = x.vOdd := fun h => hxb.2.2.1 h.symm
  have e4 : ¬ b.vOdd = x.vOdd := fun h => hxb.2.2.2 h.symm
  have e6 : ¬ x.vOdd = x.v := fun h => hx5 h.symm
  refine ⟨_, _, _, DiracCloverPC.prepare_run_EVEN_EVEN_ASYMMETRIC E x b solType s hE hx hb hxb h1 hsol ht,
    fun y hy => ?_⟩
  rw [DiracCloverPC.applyParity_M E _ y ?_ ?_] at hy
  rotate_left
  · exact hE
  · exact h1
  refine ⟨_, DiracCloverPC.reconstruct_run_EVEN E x b solType _ ?_ hF ?_ ?_ hxb ?_ hsol ?_, ?_⟩
  · exact hE
  · exact ⟨hx1, hx2, by show x.v < s.brk + 2; omega, by show x.vOdd < s.brk + 2; omega, hx5⟩
  · exact ⟨hb1, hb2, by show b.v < s.brk + 2; omega, by show b.vOdd < s.brk + 2; omega, hb5⟩
  · exact h1
  · exact Or.inr ht
  rw [DiracClover.applyFull_M]
  simp only [Option.some.injEq, DiracCloverPC.Mvalue, DiracClover.Mvalue, ht, hd, DiracCloverPC.symmetric_cases,
    DiracCloverPC.parity_cases, ColorSpinorField.Odd, ColorSpinorField.Even,
    Function.update_same, Function.update_noteq, ne_eq, not_false_eq_true,
    a1, a2, a3, a4, a5, a6, a7, a8, e1, e2, e3, e4, e6, hx5,
    ↓reduceIte, Bool.true_eq_false, hK.cloverInv, hK.wilson, hK.wilsonClover,
    hK.preconditioned_zero, Prod.mk.injEq] at hy ⊢
  simp only [map_add, map_smul, hK.A_Ainv] at hy ⊢
  constructor <;> first
    | module
    | (rw [eq_sub_of_add_eq hy.symm]; module)

/-- Round trip for the tag `QUDA_MATPC_ODD_ODD_ASYMMETRIC`: `prepare`, any solution `y` of the preconditioned
system written to `sol`, then `reconstruct`, give a field `x` with `DiracClover::M(x) = b`. -/
theorem DiracCloverPC.roundtrip_ODD_ODD_ASYMMETRIC (E : External K F) (A Ainv : QudaParity → F →ₗ[K] F)
    (D : QudaParity → Bool → F →ₗ[K] F) (hK : KernelModel E A Ainv D)
    (x b : ColorSpinorField) (solType : QudaSolutionType) (s : State K F)
    (hE : E.AcceptsParity s.clover.VolumeCB) (hF : E.checkFullSpinor x b = true)
    (hx : s.FullField x) (hb : s.FullField b) (hxb : x.Disjoint b) (h1 : s.tmp1 = none)
    (hsol : solType.Full) (hd : s.dagger = false) 
    (ht : s.matpcType = QUDA_MATPC_ODD_ODD_ASYMMETRIC) :
    ∃ src sol s1, DiracCloverPC.prepare E x b solType s = .ok (src, sol) s1 ∧
      ∀ y : F, applyParity (DiracCloverPC.M E) s1 y = some (s1.store src.v) →
        ∃ s3, DiracCloverPC.reconstruct E x b solType
            { s1 with store := Function.update s1.store sol.v y } = .ok () s3 ∧
          applyFull (DiracClover.M E) s3 (s3.store x.v, s3.store x.vOdd) =
            some (s.store b.v, s.store b.vOdd) := by
  have hx' := hx
  have hb' := hb
  obtain ⟨hx1, hx2, hx3, hx4, hx5⟩ := hx'
  obtain ⟨hb1, hb2, hb3, hb4, hb5⟩ := hb'
  have a1 : ¬ x.v = s.brk := by omega
  have a2 : ¬ x.vOdd = s.brk := by omega
  have a3 : ¬ b.v = s.brk := by omega
  have a4 : ¬ b.vOdd = s.brk := by omega
  have a5 : ¬ x.v = s.brk + 2 := by omega
  have a6 : ¬ x.vOdd = s.brk + 2 := by omega
  have a7 : ¬ b.v = s.brk + 2 := by omega
  have a8 : ¬ b.vOdd = s.brk + 2 := by omega
  have e1 : ¬ b.v = x.v := fun h => hxb.1 h.symm
  have e2 : ¬ b.vOdd = x.v := fun h => hxb.2.1 h.symm
  have e3 : ¬ b.v = x.vOdd := fun h => hxb.2.2.1 h.symm
  have e4 : ¬ b.vOdd = x.vOdd := fun h => hxb.2.2.2 h.symm
  have e6 : ¬ x.vOdd = x.v := fun h => hx5 h.symm
  refine ⟨_, _, _, DiracCloverPC.prepare_run_ODD_ODD_ASYMMETRIC E x b solType s hE hx hb hxb h1 hsol ht,
    fun y hy => ?_⟩
  rw [DiracCloverPC.applyParity_M E _ y ?_ ?_] at hy
  rotate_left
  · exact hE
  · exact h1
  refine ⟨_, DiracCloverPC.reconstruct_run_ODD E x b solType _ ?_ hF ?_ ?_ hxb ?_ hsol ?_, ?_⟩
  · exact hE
  · exact ⟨hx1, hx2, by show x.v < s.brk + 2; omega, by show x.vOdd < s.brk + 2; omega, hx5⟩
  · exact ⟨hb1, hb2, by show b.v < s.brk + 2; omega, by show b.vOdd < s.brk + 2; omega, hb5⟩
  · exact h1
  · exact Or.inr ht
  rw [DiracClover.applyFull_M]
  simp only [Option.some.injEq, DiracCloverPC.Mvalue, DiracClover.Mvalue, ht, hd, DiracCloverPC.symmetric_cases,
    DiracCloverPC.parity_cases, ColorSpinorField.Odd, ColorSpinorField.Even,
    Function.update_same, Function.update_noteq, ne_eq, not_false_eq_true,
    a1, a2, a3, a4, a5, a6, a7, a8, e1, e2, e3, e4, e6, hx5,
    ↓reduceIte, Bool.true_eq_false, hK.cloverInv, hK.wilson, hK.wilsonClover,
    hK.preconditioned_zero, Prod.mk.injEq] at hy ⊢
  simp only [map_add, map_smul, hK.A_Ainv] at hy ⊢
  constructor <;> first
    | module
    | (rw [eq_sub_of_add_eq hy.symm]; module)

/-- C1 (amended): Schur round trip under exact arithmetic with the kernels as linear maps.
For each of the four tags, the adjoint flag off and a full-system solution type, with
`kappa ≠ 0` when the tag is EVEN_EVEN or ODD_ODD: `DiracCloverPC::prepare(x, b)` returns
`(src, sol)`; if the half of `x` designated by `sol` is then set to any `y` with
`DiracCloverPC::M(y) = src`, `DiracCloverPC::reconstruct(x, b)` returns and the full field
`x` satisfies `DiracClover::M(x) = b`. -/
theorem C1_schur_round_trip (E : External K F) (A Ainv : QudaParity → F →ₗ[K] F)
    (D : QudaParity → Bool → F →ₗ[K] F) (hK : KernelModel E A Ainv D)
    (x b : ColorSpinorField) (solType : QudaSolutionType) (s : State K F)
    (hE : E.AcceptsParity s.clover.VolumeCB) (hF : E.checkFullSpinor x b = true)
    (hx : s.FullField x) (hb : s.FullField b) (hxb : x.Disjoint b) (h1 : s.tmp1 = none)
    (hsol : solType.Full) (hd : s.dagger = false) (ht : s.matpcType ≠ QUDA_MATPC_INVALID)
    (hκ : DiracCloverPC.symmetric s.matpcType = true → s.kappa ≠ 0) :
    ∃ src sol s1, DiracCloverPC.prepare E x b solType s = .ok (src, sol) s1 ∧
      ∀ y : F, applyParity (DiracCloverPC.M E) s1 y = some (s1.store src.v) →
        ∃ s3, DiracCloverPC.reconstruct E x b solType
            { s1 with store := Function.update s1.store sol.v y } = .ok () s3 ∧
          applyFull (DiracClover.M E) s3 (s3.store x.v, s3.store x.vOdd) =
            some (s.store b.v, s.store b.vOdd) := by
  cases h : s.matpcType with
  | QUDA_MATPC_EVEN_EVEN =>
    exact DiracCloverPC.roundtrip_EVEN_EVEN E A Ainv D hK x b solType s hE hF hx hb hxb h1 hsol
      hd (hκ (by rw [h]; rfl)) h
  | QUDA_MATPC_ODD_ODD =>
    exact DiracCloverPC.roundtrip_ODD_ODD E A Ainv D hK x b solType s hE hF hx hb hxb h1 hsol
      hd (hκ (by rw [h]; rfl)) h
  | QUDA_MATPC_EVEN_EVEN_ASYMMETRIC =>
    exact DiracCloverPC.roundtrip_EVEN_EVEN_ASYMMETRIC E A Ainv D hK x b solType s hE hF hx hb
      hxb h1 hsol hd h
  | QUDA_MATPC_ODD_ODD_ASYMMETRIC =>
    exact DiracCloverPC.roundtrip_ODD_ODD_ASYMMETRIC E A Ainv D hK x b solType s hE hF hx hb
      hxb h1 hsol hd h
  | QUDA_MATPC_INVALID => exact absurd h ht

end RoundTrip

/-- The example kernels are the linear maps `Example.A`, `Example.Ainv`, `Example.D`. -/
theorem Example.kernelModel (F : Type) [Field F] [CharZero F] :
    KernelModel (Example.kernels F) (Example.A F) (Example.Ainv F) (Example.D F) where
  A_Ainv p v := by
    cases p <;> simp [Example.A, Example.Ainv, Example.clov, smul_smul]
  Ainv_A p v := by
    cases p <;> simp [Example.A, Example.Ainv, Example.clov, smul_smul]
  cloverInv v p := by
    simp [Example.kernels, Example.Ainv, Rat.smul_def]
  wilson v k x p dg := by
    simp [Example.kernels, Example.D, Rat.smul_def]
  wilsonClover v k x p dg := by
    simp [Example.kernels, Example.D, Example.A, Rat.smul_def]
  preconditioned v k x p dg hk := by
    simp [Example.kernels, Example.D, Example.Ainv, Rat.smul_def, hk]
  preconditioned_zero v x p dg := by
    simp [Example.kernels, Example.D, Example.Ainv, Rat.smul_def]

end quda

/-! ## Adjoint consistency of `DiracCloverPC::M` -/

namespace quda

open QudaParity QudaMatPCType QudaSolutionType QudaDiracType QudaSiteSubset

section Adjoint

variable {K 𝕜 F : Type} [Field K] [RCLike 𝕜] [Algebra K 𝕜] [NormedAddCommGroup F]
  [InnerProductSpace 𝕜 F] [Module K F] [IsScalarTower K 𝕜 F]

/-- C3: adjoint consistency of `DiracCloverPC::M` for the tags EVEN_EVEN and ODD_ODD, for
every `kappa`.  The kernels are linear maps on an inner-product space, with one convention
for the fused kernels at `k = 0` (the hopping part alone, as `DiracCloverPC::Dslash` relies
on); the hopping kernel with the adjoint flag on is the adjoint of the hopping kernel with
the flag off on the opposite parity block, the clover inverse is self-adjoint and `kappa` is
real.  Then for all fields `x`, `y`, `M` returns with either value of the flag and
`<y, M(x)>` computed with the flag off equals `<M(y), x>` computed with the flag on. -/
theorem C3_adjoint_consistency (E : External K F) (Ainv : QudaParity → F →ₗ[K] F)
    (D : QudaParity → Bool → F →ₗ[K] F) (hK : XpayKernelModel E Ainv D)
    (hA : ∀ p u v, (inner (Ainv p u) v : 𝕜) = inner u (Ainv p v))
    (hDe : ∀ u v, (inner (D QUDA_EVEN_PARITY true u) v : 𝕜) = inner u (D QUDA_ODD_PARITY false v))
    (hDo : ∀ u v, (inner (D QUDA_ODD_PARITY true u) v : 𝕜) = inner u (D QUDA_EVEN_PARITY false v))
    (s : State K F) (hE : E.AcceptsParity s.clover.VolumeCB) (h1 : s.tmp1 = none)
    (ht : s.matpcType = QUDA_MATPC_EVEN_EVEN ∨ s.matpcType = QUDA_MATPC_ODD_ODD)
    (hreal : (starRingEnd 𝕜) (algebraMap K 𝕜 s.kappa) = algebraMap K 𝕜 s.kappa)
    (x y : F) :
    ∃ mx my, applyParity (DiracCloverPC.M E) { s with dagger := false } x = some mx ∧
      applyParity (DiracCloverPC.M E) { s with dagger := true } y = some my ∧
      (inner y mx : 𝕜) = inner my x := by
  have hsm : ∀ (k : K) (u : F), k • u = (algebraMap K 𝕜 k) • u := fun k u =>
    (algebraMap_smul 𝕜 k u).symm
  refine ⟨_, _, DiracCloverPC.applyParity_M E _ x hE h1,
    DiracCloverPC.applyParity_M E _ y hE h1, ?_⟩
  by_cases hκ : s.kappa = 0
  · rcases ht with ht | ht <;>
      simp only [DiracCloverPC.Mvalue, ht, DiracCloverPC.symmetric_cases,
        DiracCloverPC.parity_cases, ↓reduceIte, Bool.true_eq_false, Bool.false_eq_true,
        hκ, neg_zero, mul_zero, hK.cloverInv, hK.wilson_zero, hK.preconditioned_zero,
        hA, hDe, hDo]
  · have hk2 : -s.kappa * s.kappa ≠ 0 := by
      simpa using hκ
    rcases ht with ht | ht <;>
      simp only [DiracCloverPC.Mvalue, ht, DiracCloverPC.symmetric_cases,
        DiracCloverPC.parity_cases, ↓reduceIte, Bool.true_eq_false, Bool.false_eq_true,
        hK.cloverInv, hK.wilson _ _ _ _ _ hk2, hK.preconditioned_zero,
        hK.preconditioned _ _ _ _ _ hk2, hsm, inner_add_left, inner_add_right,
        inner_smul_left, inner_smul_right, hA, hDe, hDo, map_neg, map_mul, hreal]

end Adjoint

/-- The kernels `Example.xpayKernels` are the linear maps `Example.Ainv`, `Example.D`, with
the hopping part alone at `k = 0`. -/
theorem Example.xpayKernelModel (F : Type) [Field F] [CharZero F] :
    XpayKernelModel (Example.xpayKernels F) (Example.Ainv F) (Example.D F) where
  cloverInv v p := by
    simp [Example.xpayKernels, Example.kernels, Example.Ainv, Rat.smul_def]
  wilson v k x p dg hk := by
    simp [Example.xpayKernels, Example.D, Rat.smul_def, hk]
  wilson_zero v x p dg := by
    simp [Example.xpayKernels, Example.D, Rat.smul_def]
  preconditioned v k x p dg hk := by
    simp [Example.xpayKernels, Example.kernels, Example.D, Example.Ainv, Rat.smul_def, hk]
  preconditioned_zero v x p dg := by
    simp [Example.xpayKernels, Example.kernels, Example.D, Example.Ainv, Rat.smul_def]

/-- The kernels `Example.xpayKernels` pass the base-class check on every pair of parity
fields. -/
theorem Example.xpayAcceptsParity (F : Type) [DivisionRing F] (vol : Nat) :
    (Example.xpayKernels F).AcceptsParity vol := by
  intro a b ha hb _ _
  simp [Example.xpayKernels, Example.kernels, ha, hb]

end quda

/-! ## `MdagM` is `Mdag` after `M` -/

namespace quda

open QudaParity QudaMatPCType QudaSolutionType QudaDiracType QudaSiteSubset

section MdagM

variable {K F : Type}

/-- The method `Dirac::Mdag` run on new parity fields computes what `M` computes with the adjoint flag
flipped. -/
theorem Dirac.applyParity_Mdag (M : ColorSpinorField → ColorSpinorField → Quda K F Unit)
    (s : State K F) (y : F) :
    applyParity (Dirac.Mdag M) s y = applyParity M { s with dagger := !s.dagger } y := by
  simp only [applyParity, Dirac.Mdag, Quda.bind_run, Dirac.flipDagger_run]
  cases M (parityField s.clover.VolumeCB (s.brk + 1)) (parityField s.clover.VolumeCB s.brk)
    { s with dagger := !s.dagger, store := Function.update s.store s.brk y, brk := s.brk + 2 } <;>
    rfl

/-- The method `Dirac::Mdag` run on new full fields computes what `M` computes with the adjoint flag
flipped. -/
theorem Dirac.applyFull_Mdag (M : ColorSpinorField → ColorSpinorField → Quda K F Unit)
    (s : State K F) (y : F × F) :
    applyFull (Dirac.Mdag M) s y = applyFull M { s with dagger := !s.dagger } y := by
  simp only [applyFull, Dirac.Mdag, Quda.bind_run, Dirac.flipDagger_run]
  cases M (fullField s.clover.VolumeCB (s.brk + 2) (s.brk + 3))
    (fullField s.clover.VolumeCB s.brk (s.brk + 1))
    { s with dagger := !s.dagger,
             store := Function.update (Function.update s.store s.brk y.1) (s.brk + 1) y.2,
             brk := s.brk + 4 } <;>
    rfl

variable [Field K]

/-- With no scratch field held, `DiracCloverPC::MdagM` run on new fields returns and
computes `M` with the adjoint flag flipped after `M`. -/
theorem DiracCloverPC.applyParity_MdagM (E : External K F) (s : State K F) (y : F)
    (hE : E.AcceptsParity s.clover.VolumeCB) (hs : s.ScratchFree) :
    applyParity (DiracCloverPC.MdagM E) s y =
      some (DiracCloverPC.Mvalue E s.matpcType (!s.dagger) s.kappa
        (DiracCloverPC.Mvalue E s.matpcType s.dagger s.kappa y)) := by
  obtain ⟨h1, h2⟩ := hs
  cases ht : s.matpcType <;> cases hd : s.dagger <;>
  · simp only [applyParity, parityField, DiracCloverPC.MdagM, State.getTmp, State.setTmp, h2,
      Quda.bind_run, deref_run, newTmp_run]
    rw [DiracCloverPC.M_run E _ _ _ ?_ ?_ ?_ ?_ ?_]
    rotate_left
    · exact hE
    · exact ⟨rfl, rfl, by dsimp only; omega⟩
    · exact ⟨rfl, rfl, by dsimp only; omega⟩
    · dsimp only; omega
    · exact h1
    simp only [ht, hd, DiracCloverPC.symmetric_cases, DiracCloverPC.parity_cases, ↓reduceIte,
      Bool.true_eq_false, Bool.false_eq_true, Dirac.Mdag, Dirac.flipDagger_run, Quda.bind_run,
      deref_run, State.getTmp, Bool.not_false, Bool.not_true]
    rw [DiracCloverPC.M_run E _ _ _ ?_ ?_ ?_ ?_ ?_]
    rotate_left
    · exact hE
    · exact ⟨rfl, rfl, by dsimp only; omega⟩
    · exact ⟨rfl, rfl, by dsimp only; omega⟩
    · dsimp only; omega
    · exact h1
    simp [ht, hd, DiracCloverPC.symmetric_cases, DiracCloverPC.parity_cases,
      DiracCloverPC.Mvalue, State.setTmp]

end MdagM

end quda

/-! ## `DiracCloverHasenbuschTwistPC::M` and the `MdagM` of the other classes -/

namespace quda

open QudaParity QudaMatPCType QudaSolutionType QudaDiracType QudaSiteSubset

section Twisted

variable {K F : Type} [Field K]

/-- On valid fields, with no scratch field held, `DiracCloverHasenbuschTwistPC::M` returns;
the final state is given for each of the three branches. -/
theorem DiracCloverHasenbuschTwistPC.M_twisted_run (E : External K F) (out inp : ColorSpinorField)
    (s : State K F) (hE : E.AcceptsParity s.clover.VolumeCB) (hin : s.ParityField inp)
    (hout : s.ParityField out) (hne : inp.v ≠ out.v) (h1 : s.tmp1 = none) :
    DiracCloverHasenbuschTwistPC.M E out inp s = .ok ()
      (if DiracCloverPC.symmetric s.matpcType = false then
        { s with
          store := Function.update (Function.update s.store s.brk
              (E.ApplyWilsonCloverPreconditioned (s.store inp.v) 0 (s.store inp.v)
                (DiracCloverPC.parity s.matpcType).1 s.dagger)) out.v
            (E.ApplyWilsonCloverTwist
              (E.ApplyWilsonCloverPreconditioned (s.store inp.v) 0 (s.store inp.v)
                (DiracCloverPC.parity s.matpcType).1 s.dagger)
              (-s.kappa * s.kappa) s.mu (s.store inp.v) (DiracCloverPC.parity s.matpcType).2 s.dagger)
          flops := s.flops + 1824 * inp.volume + 1872 * inp.volume
          brk := s.brk + 2
          trace := s.trace ++
            [KernelCall.ApplyWilsonCloverPreconditioned
                { siteSubset := inp.siteSubset, volume := inp.volume, v := s.brk, vOdd := s.brk + 1 }
                inp 0 inp (DiracCloverPC.parity s.matpcType).1 s.dagger,
              KernelCall.ApplyWilsonCloverTwist out
                { siteSubset := inp.siteSubset, volume := inp.volume, v := s.brk, vOdd := s.brk + 1 }
                (-s.kappa * s.kappa) s.mu inp (DiracCloverPC.parity s.matpcType).2 s.dagger] }
      else if s.dagger = false then
        { s with
          store := Function.update (Function.update s.store s.brk
              (E.ApplyWilsonCloverPreconditioned (s.store inp.v) 0 (s.store inp.v)
                (DiracCloverPC.parity s.matpcType).1 s.dagger)) out.v
            (E.ApplyWilsonCloverHasenbuschTwistPCClovInv
              (E.ApplyWilsonCloverPreconditioned (s.store inp.v) 0 (s.store inp.v)
                (DiracCloverPC.parity s.matpcType).1 s.dagger)
              (-s.kappa * s.kappa) s.mu (s.store inp.v) (DiracCloverPC.parity s.matpcType).2 s.dagger)
          flops := s.flops + 1824 * inp.volume + (1872 + 48 + 504) * inp.volume
          brk := s.brk + 2
          trace := s.trace ++
            [KernelCall.ApplyWilsonCloverPreconditioned
                { siteSubset := inp.siteSubset, volume := inp.volume, v := s.brk, vOdd := s.brk + 1 }
                inp 0 inp (DiracCloverPC.parity s.matpcType).1 s.dagger,
              KernelCall.ApplyWilsonCloverHasenbuschTwistPCClovInv out
                { siteSubset := inp.siteSubset, volume := inp.volume, v := s.brk, vOdd := s.brk + 1 }
                (-s.kappa * s.kappa) s.mu inp (DiracCloverPC.parity s.matpcType).2 s.dagger] }
      else
        { s with
          store := Function.update (Function.update (Function.update s.store out.v
              (E.ApplyClover (s.store inp.v) true (DiracCloverPC.parity s.matpcType).2)) s.brk
              (E.ApplyWilsonCloverPreconditioned
                (E.ApplyClover (s.store inp.v) true (DiracCloverPC.parity s.matpcType).2) 0
                (E.ApplyClover (s.store inp.v) true (DiracCloverPC.parity s.matpcType).2)
                (DiracCloverPC.parity s.matpcType).1 s.dagger)) out.v
            (E.ApplyWilsonCloverHasenbuschTwistPCNoClovInv
              (E.ApplyWilsonCloverPreconditioned
                (E.ApplyClover (s.store inp.v) true (DiracCloverPC.parity s.matpcType).2) 0
                (E.ApplyClover (s.store inp.v) true (DiracCloverPC.parity s.matpcType).2)
                (DiracCloverPC.parity s.matpcType).1 s.dagger)
              (-s.kappa * s.kappa) s.mu (s.store inp.v) (DiracCloverPC.parity s.matpcType).2 s.dagger)
          flops := s.flops + 504 * inp.volume + 1824 * inp.volume + (1872 + 48) * inp.volume
          brk := s.brk + 2
          trace := s.trace ++
            [KernelCall.ApplyClover out inp true (DiracCloverPC.parity s.matpcType).2,
              KernelCall.ApplyWilsonCloverPreconditioned
                { siteSubset := inp.siteSubset, volume := inp.volume, v := s.brk, vOdd := s.brk + 1 }
                out 0 out (DiracCloverPC.parity s.matpcType).1 s.dagger,
              KernelCall.ApplyWilsonCloverHasenbuschTwistPCNoClovInv out
                { siteSubset := inp.siteSubset, volume := inp.volume, v := s.brk, vOdd := s.brk + 1 }
                (-s.kappa * s.kappa) s.mu inp (DiracCloverPC.parity s.matpcType).2 s.dagger] }) := by
  obtain ⟨hi1, hi2, hi3⟩ := hin
  obtain ⟨ho1, ho2, ho3⟩ := hout
  have a1 : ¬ inp.v = s.brk := by omega
  have a2 : ¬ out.v = s.brk := by omega
  have a3 : ¬ s.brk = out.v := by omega
  have a4 : ¬ s.brk = inp.v := by omega
  have a5 : ¬ out.v = inp.v := fun h => hne h.symm
  unfold External.AcceptsParity at hE
  cases ht : s.matpcType <;> cases hd : s.dagger <;>
    simp only [DiracCloverHasenbuschTwistPC.M, State.getTmp, State.setTmp, ht, hd, h1,
      DiracCloverPC.parity_cases, DiracCloverPC.symmetric_cases,
      DiracCloverPC.Dslash, DiracCloverPC.CloverInv, DiracClover.DslashXpay_b,
      DiracCloverHasenbuschTwistPC.DslashXpayTwistClovInv,
      DiracCloverHasenbuschTwistPC.DslashXpayTwistNoClovInv,
      DiracClover.checkParitySpinor, Dirac.checkParitySpinor,
      Dirac.checkSpinorAlias, ApplyWilsonCloverPreconditioned, ApplyWilsonCloverTwist,
      ApplyWilsonCloverHasenbuschTwistPCClovInv, ApplyWilsonCloverHasenbuschTwistPCNoClovInv,
      ApplyClover, Quda.bind_run, Quda.pure_run,
      Quda.ite_run, errorQuda_run, getState_run, addFlops_run, deref_run, deleteTmp_run, newTmp_run,
      ↓reduceIte, Bool.not_false, Bool.not_true, ne_eq, not_true_eq_false, not_false_eq_true,
      Bool.false_eq_true, hE, hi1, hi2, ho1, ho2, a1, a2, a3, a4, a5, hne,
      Function.update_same, Function.update_noteq, List.append_assoc, List.singleton_append,
      List.cons_append, List.nil_append, Nat.add_assoc, Bool.true_eq_false]

/-- With no scratch field held, `DiracCloverHasenbuschTwistPC::M` run on new fields returns
and computes `DiracCloverHasenbuschTwistPC.Mvalue`. -/
theorem DiracCloverHasenbuschTwistPC.applyParity_M_twisted (E : External K F) (s : State K F) (y : F)
    (hE : E.AcceptsParity s.clover.VolumeCB) (h1 : s.tmp1 = none) :
    applyParity (DiracCloverHasenbuschTwistPC.M E) s y =
      some (DiracCloverHasenbuschTwistPC.Mvalue E s.matpcType s.dagger s.kappa s.mu y) := by
  have h := DiracCloverHasenbuschTwistPC.M_twisted_run E (parityField s.clover.VolumeCB (s.brk + 1))
    (parityField s.clover.VolumeCB s.brk)
    { s with store := Function.update s.store s.brk y, brk := s.brk + 2 } hE
    ⟨rfl, rfl, by simp [parityField]⟩ ⟨rfl, rfl, by simp [parityField]⟩
    (by simp [parityField]) h1
  unfold applyParity
  rw [h]
  cases hs : DiracCloverPC.symmetric s.matpcType <;> cases hd : s.dagger <;>
    simp [DiracCloverHasenbuschTwistPC.Mvalue, hs, hd, parityField]

/-- With no scratch field held, `DiracCloverHasenbuschTwistPC::MdagM` run on new fields
returns and computes `M` with the adjoint flag flipped after `M`. -/
theorem DiracCloverHasenbuschTwistPC.applyParity_MdagM_twisted (E : External K F) (s : State K F)
    (y : F) (hE : E.AcceptsParity s.clover.VolumeCB) (hs : s.ScratchFree) :
    applyParity (DiracCloverHasenbuschTwistPC.MdagM E) s y =
      some (DiracCloverHasenbuschTwistPC.Mvalue E s.matpcType (!s.dagger) s.kappa s.mu
        (DiracCloverHasenbuschTwistPC.Mvalue E s.matpcType s.dagger s.kappa s.mu y)) := by
  obtain ⟨h1, h2⟩ := hs
  cases ht : s.matpcType <;> cases hd : s.dagger <;>
  · simp only [applyParity, parityField, DiracCloverHasenbuschTwistPC.MdagM, State.getTmp,
      State.setTmp, h2, Quda.bind_run, deref_run, newTmp_run]
    rw [DiracCloverHasenbuschTwistPC.M_twisted_run E _ _ _ ?_ ?_ ?_ ?_ ?_]
    rotate_left
    · exact hE
    · exact ⟨rfl, rfl, by dsimp only; omega⟩
    · exact ⟨rfl, rfl, by dsimp only; omega⟩
    · dsimp only; omega
    · exact h1
    simp only [ht, hd, DiracCloverPC.symmetric_cases, DiracCloverPC.parity_cases, ↓reduceIte,
      Bool.true_eq_false, Bool.false_eq_true, Dirac.Mdag, Dirac.flipDagger_run, Quda.bind_run,
      deref_run, State.getTmp, Bool.not_false, Bool.not_true]
    rw [DiracCloverHasenbuschTwistPC.M_twisted_run E _ _ _ ?_ ?_ ?_ ?_ ?_]
    rotate_left
    · exact hE
    · exact ⟨rfl, rfl, by dsimp only; omega⟩
    · exact ⟨rfl, rfl, by dsimp only; omega⟩
    · dsimp only; omega
    · exact h1
    simp [ht, hd, DiracCloverPC.symmetric_cases, DiracCloverPC.parity_cases,
      DiracCloverHasenbuschTwistPC.Mvalue, State.setTmp]

/-- The method `DiracCloverHasenbuschTwist::M` run on new full fields returns and computes
`DiracCloverHasenbuschTwist.Mvalue`. -/
theorem DiracCloverHasenbuschTwist.applyFull_M_twisted (E : External K F) (s : State K F)
    (y : F × F) :
    applyFull (DiracCloverHasenbuschTwist.M E) s y =
      some (DiracCloverHasenbuschTwist.Mvalue E s.matpcType s.dagger s.kappa s.mu y) := by
  cases ht : s.matpcType <;>
    simp [applyFull, DiracCloverHasenbuschTwist.M, DiracCloverHasenbuschTwist.Mvalue,
      ApplyWilsonClover, ApplyWilsonCloverHasenbuschTwist, ApplyWilsonCloverTwist, fullField,
      ColorSpinorField.Even, ColorSpinorField.Odd, ht]

/-- With no scratch field held and the full-field check passing, `DiracClover::MdagM` run on
new full fields returns and computes `M` with the adjoint flag flipped after `M`. -/
theorem DiracClover.applyFull_MdagM (E : External K F) (s : State K F) (y : F × F)
    (hF : E.AcceptsFull s.clover.VolumeCB) (h1 : s.tmp1 = none) :
    applyFull (DiracClover.MdagM E) s y =
      some (DiracClover.Mvalue E (!s.dagger) s.kappa (DiracClover.Mvalue E s.dagger s.kappa y)) := by
  unfold External.AcceptsFull at hF
  simp [applyFull, DiracClover.MdagM, DiracClover.M, DiracClover.Mvalue, Dirac.Mdag,
    Dirac.checkFullSpinor, ApplyWilsonClover, fullField, State.getTmp, State.setTmp, h1, hF]

/-- With no scratch field held and the full-field check passing,
`DiracCloverHasenbuschTwist::MdagM` run on new full fields returns and computes `M` with the
adjoint flag flipped after `M`. -/
theorem DiracCloverHasenbuschTwist.applyFull_MdagM_twisted (E : External K F) (s : State K F)
    (y : F × F) (hF : E.AcceptsFull s.clover.VolumeCB) (h1 : s.tmp1 = none) :
    applyFull (DiracCloverHasenbuschTwist.MdagM E) s y =
      some (DiracCloverHasenbuschTwist.Mvalue E s.matpcType (!s.dagger) s.kappa s.mu
        (DiracCloverHasenbuschTwist.Mvalue E s.matpcType s.dagger s.kappa s.mu y)) := by
  unfold External.AcceptsFull at hF
  cases ht : s.matpcType <;>
    simp [applyFull, DiracCloverHasenbuschTwist.MdagM, DiracCloverHasenbuschTwist.M,
      DiracCloverHasenbuschTwist.Mvalue, Dirac.Mdag, Dirac.checkFullSpinor,
      ApplyWilsonClover, ApplyWilsonCloverHasenbuschTwist, ApplyWilsonCloverTwist, fullField,
      ColorSpinorField.Even, ColorSpinorField.Odd, State.getTmp, State.setTmp, h1, hF, ht]

end Twisted

end quda

namespace quda

open QudaParity QudaMatPCType QudaSolutionType QudaDiracType QudaSiteSubset

section MdagMClaim

variable {K F : Type} [Field K]

/-- C2: for each of the four classes and every input field, with valid fields and no scratch
field held, `MdagM(out, in)` returns and the field it writes to `out` is the field obtained by
first computing `t = M(in)` and then `Mdag(t)` with the same operator.  (The scratch field of
`MdagM` is `tmp2` where `M` uses `tmp1`, and `tmp1` where `M` uses none, so the intermediate
field survives the second application.) -/
theorem C2_MdagM_is_Mdag_after_M (E : External K F) (s : State K F)
    (hP : E.AcceptsParity s.clover.VolumeCB) (hF : E.AcceptsFull s.clover.VolumeCB)
    (hs : s.ScratchFree) :
    (∀ y : F × F, ∃ r, applyFull (DiracClover.MdagM E) s y = some r ∧
      (applyFull (DiracClover.M E) s y).bind
        (applyFull (Dirac.Mdag (DiracClover.M E)) s) = some r) ∧
    (∀ y : F, ∃ r, applyParity (DiracCloverPC.MdagM E) s y = some r ∧
      (applyParity (DiracCloverPC.M E) s y).bind
        (applyParity (Dirac.Mdag (DiracCloverPC.M E)) s) = some r) ∧
    (∀ y : F × F, ∃ r, applyFull (DiracCloverHasenbuschTwist.MdagM E) s y = some r ∧
      (applyFull (DiracCloverHasenbuschTwist.M E) s y).bind
        (applyFull (Dirac.Mdag (DiracCloverHasenbuschTwist.M E)) s) = some r) ∧
    (∀ y : F, ∃ r, applyParity (DiracCloverHasenbuschTwistPC.MdagM E) s y = some r ∧
      (applyParity (DiracCloverHasenbuschTwistPC.M E) s y).bind
        (applyParity (Dirac.Mdag (DiracCloverHasenbuschTwistPC.M E)) s) = some r) := by
  refine ⟨fun y => ⟨_, DiracClover.applyFull_MdagM E s y hF hs.1, ?_⟩,
    fun y => ⟨_, DiracCloverPC.applyParity_MdagM E s y hP hs, ?_⟩,
    fun y => ⟨_, DiracCloverHasenbuschTwist.applyFull_MdagM_twisted E s y hF hs.1, ?_⟩,
    fun y => ⟨_, DiracCloverHasenbuschTwistPC.applyParity_MdagM_twisted E s y hP hs, ?_⟩⟩
  · rw [DiracClover.applyFull_M, Option.some_bind, Dirac.applyFull_Mdag,
      DiracClover.applyFull_M]
  · rw [DiracCloverPC.applyParity_M E s y hP hs.1, Option.some_bind, Dirac.applyParity_Mdag]
    exact DiracCloverPC.applyParity_M E _ _ hP hs.1
  · rw [DiracCloverHasenbuschTwist.applyFull_M_twisted, Option.some_bind, Dirac.applyFull_Mdag,
      DiracCloverHasenbuschTwist.applyFull_M_twisted]
  · rw [DiracCloverHasenbuschTwistPC.applyParity_M_twisted E s y hP hs.1, Option.some_bind,
      Dirac.applyParity_Mdag]
    exact DiracCloverHasenbuschTwistPC.applyParity_M_twisted E _ _ hP hs.1

/-- C2, on the example with tag EVEN_EVEN and `kappa = 1/8`: `DiracCloverPC::MdagM` applied
to the field 1 returns the same field as `Mdag` applied to `M` of it. -/
theorem C2_MdagM_witness :
    ∃ r : ℚ, applyParity (DiracCloverPC.MdagM (Example.kernels ℚ))
        (Example.state ℚ QUDA_MATPC_EVEN_EVEN false (1 / 8)) 1 = some r ∧
      (applyParity (DiracCloverPC.M (Example.kernels ℚ))
        (Example.state ℚ QUDA_MATPC_EVEN_EVEN false (1 / 8)) 1).bind
        (applyParity (Dirac.Mdag (DiracCloverPC.M (Example.kernels ℚ)))
          (Example.state ℚ QUDA_MATPC_EVEN_EVEN false (1 / 8))) = some r :=
  (C2_MdagM_is_Mdag_after_M (Example.kernels ℚ)
    (Example.state ℚ QUDA_MATPC_EVEN_EVEN false (1 / 8)) (Example.acceptsParity ℚ 8)
    (Example.acceptsFull ℚ 8) ⟨rfl, rfl⟩).2.1 1

end MdagMClaim

end quda

/-! ## The claims on the example -/

namespace quda

open QudaParity QudaMatPCType QudaSolutionType QudaDiracType QudaSiteSubset

section OnExample

/-- The full fields of the example are valid: `x` in the buffers 0 and 1, `b` in 2 and 3. -/
theorem Example.fullField_valid (m : QudaMatPCType) (dg : Bool) (kappa : ℚ) :
    (Example.state ℚ m dg kappa).FullField (fullField 8 0 1) ∧
    (Example.state ℚ m dg kappa).FullField (fullField 8 2 3) ∧
    (fullField 8 0 1).Disjoint (fullField 8 2 3) ∧
    (Example.kernels ℚ).checkFullSpinor (fullField 8 0 1) (fullField 8 2 3) = true :=
  ⟨⟨rfl, rfl, by simp [Example.state, fullField], by simp [Example.state, fullField],
      by decide⟩,
    ⟨rfl, rfl, by simp [Example.state, fullField], by simp [Example.state, fullField],
      by decide⟩,
    ⟨by decide, by decide, by decide, by decide⟩, rfl⟩

/-- C1, as stated, fails on the example for `kappa = 0` and the tag EVEN_EVEN: the kernels
are linear maps as the claim models them, `prepare` returns `src = 3/2` in the odd half of
`x`, the field `y = 4/5` satisfies `DiracCloverPC::M(y) = src`, `reconstruct` returns, and
yet `DiracClover::M(x) = (8/5, 4)` while `b = (3, 4)`. -/
theorem C1_round_trip_counterexample :
    KernelModel (Example.kernels ℚ) (Example.A ℚ) (Example.Ainv ℚ) (Example.D ℚ) ∧
    ∃ s1 s3, DiracCloverPC.prepare (Example.kernels ℚ) (fullField 8 0 1) (fullField 8 2 3)
        QUDA_MAT_SOLUTION (Example.state ℚ QUDA_MATPC_EVEN_EVEN false 0) =
        .ok ((fullField 8 0 1).Odd, (fullField 8 0 1).Even) s1 ∧
      applyParity (DiracCloverPC.M (Example.kernels ℚ)) s1 (4 / 5) =
        some (s1.store (fullField 8 0 1).Odd.v) ∧
      DiracCloverPC.reconstruct (Example.kernels ℚ) (fullField 8 0 1) (fullField 8 2 3)
        QUDA_MAT_SOLUTION
        { s1 with store := Function.update s1.store (fullField 8 0 1).Even.v (4 / 5) } =
        .ok () s3 ∧
      applyFull (DiracClover.M (Example.kernels ℚ)) s3
        (s3.store (fullField 8 0 1).v, s3.store (fullField 8 0 1).vOdd) = some (8 / 5, 4) ∧
      ((Example.state ℚ QUDA_MATPC_EVEN_EVEN false 0).store (fullField 8 2 3).v,
        (Example.state ℚ QUDA_MATPC_EVEN_EVEN false 0).store (fullField 8 2 3).vOdd) = (3, 4) ∧
      (8 / 5 : ℚ) ≠ 3 := by
  obtain ⟨hx, hb, hxb, hF⟩ := Example.fullField_valid QUDA_MATPC_EVEN_EVEN false 0
  refine ⟨Example.kernelModel ℚ, _, _,
    DiracCloverPC.prepare_run_EVEN_EVEN (Example.kernels ℚ) _ _ QUDA_MAT_SOLUTION _
      (Example.acceptsParity ℚ 8) hx hb hxb rfl ⟨by decide, by decide⟩ rfl, ?_,
    DiracCloverPC.reconstruct_run_EVEN (Example.kernels ℚ) _ _ QUDA_MAT_SOLUTION _
      (Example.acceptsParity ℚ 8) hF ⟨rfl, rfl, by decide, by decide, by decide⟩
      ⟨rfl, rfl, by decide, by decide, by decide⟩ hxb rfl ⟨by decide, by decide⟩ (Or.inl rfl),
    ?_, ?_, ?_⟩
  · rw [DiracCloverPC.applyParity_M _ _ _ (Example.acceptsParity ℚ 8) rfl]
    simp [DiracCloverPC.Mvalue, DiracCloverPC.symmetric_cases, DiracCloverPC.parity_cases,
      Example.state, Example.kernels, Example.clov, Example.hop, fullField,
      ColorSpinorField.Odd, ColorSpinorField.Even]
    norm_num
  · rw [DiracClover.applyFull_M]
    simp [DiracClover.Mvalue, Example.state, Example.kernels, Example.clov, Example.hop, fullField,
      ColorSpinorField.Odd, ColorSpinorField.Even]
    norm_num
  · simp [Example.state, fullField]
    norm_num
  · norm_num

/-- C1 (amended), on the example with tag EVEN_EVEN and `kappa = 1/8`: `prepare` returns,
and for every solution `y` of the preconditioned system `reconstruct` returns and the full
field satisfies `DiracClover::M(x) = b`. -/
theorem C1_schur_round_trip_witness :
    ∃ src sol s1, DiracCloverPC.prepare (Example.kernels ℚ) (fullField 8 0 1) (fullField 8 2 3) QUDA_MAT_SOLUTION
        (Example.state ℚ QUDA_MATPC_EVEN_EVEN false (1 / 8)) = .ok (src, sol) s1 ∧
      ∀ y : ℚ, applyParity (DiracCloverPC.M (Example.kernels ℚ)) s1 y = some (s1.store src.v) →
        ∃ s3, DiracCloverPC.reconstruct (Example.kernels ℚ) (fullField 8 0 1) (fullField 8 2 3) QUDA_MAT_SOLUTION
            { s1 with store := Function.update s1.store sol.v y } = .ok () s3 ∧
          applyFull (DiracClover.M (Example.kernels ℚ)) s3 (s3.store (fullField 8 0 1).v, s3.store (fullField 8 0 1).vOdd) =
            some ((Example.state ℚ QUDA_MATPC_EVEN_EVEN false (1 / 8)).store (fullField 8 2 3).v,
              (Example.state ℚ QUDA_MATPC_EVEN_EVEN false (1 / 8)).store (fullField 8 2 3).vOdd) :=
  C1_schur_round_trip (Example.kernels ℚ) (Example.A ℚ) (Example.Ainv ℚ) (Example.D ℚ)
    (Example.kernelModel ℚ) (fullField 8 0 1) (fullField 8 2 3) QUDA_MAT_SOLUTION
    (Example.state ℚ QUDA_MATPC_EVEN_EVEN false (1 / 8)) (Example.acceptsParity ℚ 8)
    (Example.fullField_valid QUDA_MATPC_EVEN_EVEN false (1 / 8)).2.2.2
    (Example.fullField_valid QUDA_MATPC_EVEN_EVEN false (1 / 8)).1
    (Example.fullField_valid QUDA_MATPC_EVEN_EVEN false (1 / 8)).2.1
    (Example.fullField_valid QUDA_MATPC_EVEN_EVEN false (1 / 8)).2.2.1
    rfl ⟨by decide, by decide⟩ rfl (by decide) (fun _ => by norm_num [Example.state])

/-- C6, on the example with tag EVEN_EVEN and `kappa = 1/8`: `prepare` returns with
`src = A_ee^-1 (b_e + kappa D_eo A_oo^-1 b_o) = (1/2) (3 + (1/8) 3 (1/4) 4) = 27/16` in the odd
half of `x`, and `b` still holds `(3, 4)`. -/
theorem C6_prepare_witness :
    ∃ s1, DiracCloverPC.prepare (Example.kernels ℚ) (fullField 8 0 1) (fullField 8 2 3) QUDA_MAT_SOLUTION
        (Example.state ℚ QUDA_MATPC_EVEN_EVEN false (1 / 8)) = .ok ((fullField 8 0 1).Odd, (fullField 8 0 1).Even) s1 ∧
      s1.store 1 = 27 / 16 ∧ s1.store 2 = 3 ∧ s1.store 3 = 4 := by
  obtain ⟨src, sol, s1, h, hb1, hb2, hee, -⟩ :=
    C6_prepare_postcondition (Example.kernels ℚ) (Example.A ℚ) (Example.Ainv ℚ) (Example.D ℚ)
      (Example.kernelModel ℚ) (fullField 8 0 1) (fullField 8 2 3) QUDA_MAT_SOLUTION
      (Example.state ℚ QUDA_MATPC_EVEN_EVEN false (1 / 8)) (Example.acceptsParity ℚ 8)
      (Example.fullField_valid QUDA_MATPC_EVEN_EVEN false (1 / 8)).1
      (Example.fullField_valid QUDA_MATPC_EVEN_EVEN false (1 / 8)).2.1
      (Example.fullField_valid QUDA_MATPC_EVEN_EVEN false (1 / 8)).2.2.1
      rfl ⟨by decide, by decide⟩ (by decide)
  obtain ⟨rfl, rfl, hv⟩ := hee rfl
  refine ⟨s1, h, ?_, ?_, ?_⟩
  · rw [show (1 : Nat) = (fullField 8 0 1).vOdd from rfl, hv]
    simp [Example.state, Example.Ainv, Example.D, Example.clov, Example.hop, fullField]
    norm_num
  · rw [show (2 : Nat) = (fullField 8 2 3).v from rfl, hb1]
    simp [Example.state, fullField]
    norm_num
  · rw [show (3 : Nat) = (fullField 8 2 3).vOdd from rfl, hb2]
    simp [Example.state, fullField]
    norm_num

/-- C7, on the example with tag EVEN_EVEN and `kappa = 1/8`: `reconstruct` returns with
`x_o = A_oo^-1 (b_o + kappa D_oe x_e) = (1/4) (4 + (1/8) 5 1) = 37/32` and `x_e = 1`
unchanged. -/
theorem C7_reconstruct_witness :
    ∃ s1, DiracCloverPC.reconstruct (Example.kernels ℚ) (fullField 8 0 1) (fullField 8 2 3) QUDA_MAT_SOLUTION
        (Example.state ℚ QUDA_MATPC_EVEN_EVEN false (1 / 8)) = .ok () s1 ∧
      s1.store 1 = 37 / 32 ∧ s1.store 0 = 1 := by
  obtain ⟨s1, h, hv, hx, -⟩ :=
    ((C7_reconstruct_postcondition (Example.kernels ℚ) (Example.A ℚ) (Example.Ainv ℚ) (Example.D ℚ)
      (Example.kernelModel ℚ) (fullField 8 0 1) (fullField 8 2 3) QUDA_MAT_SOLUTION
      (Example.state ℚ QUDA_MATPC_EVEN_EVEN false (1 / 8))).2 ⟨by decide, by decide⟩
      (Example.acceptsParity ℚ 8)
      (Example.fullField_valid QUDA_MATPC_EVEN_EVEN false (1 / 8)).2.2.2
      (Example.fullField_valid QUDA_MATPC_EVEN_EVEN false (1 / 8)).1
      (Example.fullField_valid QUDA_MATPC_EVEN_EVEN false (1 / 8)).2.1
      (Example.fullField_valid QUDA_MATPC_EVEN_EVEN false (1 / 8)).2.2.1 rfl).1 (Or.inl rfl)
  refine ⟨s1, h, ?_, ?_⟩
  · rw [show (1 : Nat) = (fullField 8 0 1).vOdd from rfl, hv]
    simp [Example.state, Example.Ainv, Example.D, Example.clov, Example.hop, fullField]
    norm_num
  · rw [show (0 : Nat) = (fullField 8 0 1).v from rfl, hx]
    simp [Example.state, fullField]

/-- C10, on the example: with `kappa = 1/8`, `mu = 1/3`, `mu_factor = 2` and twist flavour 1
the unpreconditioned operator requests the scale `1/12` and the factor `2`. -/
theorem C10_createCoarseOp_witness :
    DiracClover.createCoarseOp ⟨0⟩ ⟨1⟩ ⟨1⟩ (1 / 8 : ℚ) 0 (1 / 3) 2
        (Example.state ℚ QUDA_MATPC_ODD_ODD false (1 / 8)) =
      .ok () { (Example.state ℚ QUDA_MATPC_ODD_ODD false (1 / 8)) with
        trace := [KernelCall.CoarseOp ⟨0⟩ ⟨1⟩ ⟨1⟩ (1 / 8) (2 * (1 / 8) * (1 / 3) * ((1 : Int) : ℚ)) 2
          QUDA_CLOVER_DIRAC QUDA_MATPC_INVALID] } :=
  (C10_createCoarseOp_arguments ⟨0⟩ ⟨1⟩ ⟨1⟩ (1 / 8 : ℚ) 0 (1 / 3) 2
    (Example.state ℚ QUDA_MATPC_ODD_ODD false (1 / 8))).1

/-- On the real line the inverse clover term of the example is self-adjoint and its hopping
term with the adjoint flag on is the adjoint of the hopping term of the opposite parity. -/
theorem Example.adjoint_real :
    (∀ p (u v : ℝ), (inner (Example.Ainv ℝ p u) v : ℝ) = inner u (Example.Ainv ℝ p v)) ∧
    (∀ u v : ℝ, (inner (Example.D ℝ QUDA_EVEN_PARITY true u) v : ℝ) =
      inner u (Example.D ℝ QUDA_ODD_PARITY false v)) ∧
    (∀ u v : ℝ, (inner (Example.D ℝ QUDA_ODD_PARITY true u) v : ℝ) =
      inner u (Example.D ℝ QUDA_EVEN_PARITY false v)) := by
  refine ⟨fun p u v => ?_, fun u v => ?_, fun u v => ?_⟩ <;>
    simp [Example.Ainv, Example.D, Example.hop, Rat.smul_def] <;> ring

/-- C3, on the example with tag EVEN_EVEN, `kappa = 0` and real fields: `M` returns with
either value of the adjoint flag, and `<3, M(2)>` with the flag off equals `<M(3), 2>` with
the flag on. -/
theorem C3_adjoint_consistency_witness :
    ∃ mx my : ℝ, applyParity (DiracCloverPC.M (Example.xpayKernels ℝ))
        { Example.state ℝ QUDA_MATPC_EVEN_EVEN false 0 with dagger := false } 2 = some mx ∧
      applyParity (DiracCloverPC.M (Example.xpayKernels ℝ))
        { Example.state ℝ QUDA_MATPC_EVEN_EVEN false 0 with dagger := true } 3 = some my ∧
      (inner (3 : ℝ) mx : ℝ) = inner my (2 : ℝ) :=
  C3_adjoint_consistency (Example.xpayKernels ℝ) (Example.Ainv ℝ) (Example.D ℝ)
    (Example.xpayKernelModel ℝ) Example.adjoint_real.1 Example.adjoint_real.2.1
    Example.adjoint_real.2.2 (Example.state ℝ QUDA_MATPC_EVEN_EVEN false 0)
    (Example.xpayAcceptsParity ℝ 8) rfl (Or.inl rfl) (by simp) 2 3

end OnExample

end quda

/-! ## The tag `QUDA_MATPC_INVALID` on a preconditioned operator -/

namespace quda

open QudaParity QudaMatPCType QudaSolutionType QudaDiracType QudaSiteSubset

section InvalidTag

/-- C11, as stated, fails on the example (a preconditioned operator with tag INVALID):
`DiracCloverPC::M`, `DiracCloverPC::MdagM`, `DiracCloverHasenbuschTwistPC::M` and
`DiracCloverHasenbuschTwistPC::MdagM` return on valid fields, and `DiracCloverPC::prepare`
and `DiracCloverPC::reconstruct` return when asked for `QUDA_MATPC_SOLUTION`. -/
theorem C11_invalid_tag_counterexample :
    (DiracCloverPC.M (Example.kernels ℚ) (parityField 8 1) (parityField 8 0)
        (Example.state ℚ QUDA_MATPC_INVALID false (1 / 8))).isOk = true ∧
    (applyParity (DiracCloverPC.MdagM (Example.kernels ℚ))
        (Example.state ℚ QUDA_MATPC_INVALID false (1 / 8)) 1).isSome = true ∧
    (DiracCloverHasenbuschTwistPC.M (Example.kernels ℚ) (parityField 8 1) (parityField 8 0)
        (Example.state ℚ QUDA_MATPC_INVALID false (1 / 8))).isOk = true ∧
    (applyParity (DiracCloverHasenbuschTwistPC.MdagM (Example.kernels ℚ))
        (Example.state ℚ QUDA_MATPC_INVALID false (1 / 8)) 1).isSome = true ∧
    (DiracCloverPC.prepare (Example.kernels ℚ) (fullField 8 0 1) (fullField 8 2 3)
        QUDA_MATPC_SOLUTION (Example.state ℚ QUDA_MATPC_INVALID false (1 / 8))).isOk = true ∧
    (DiracCloverPC.reconstruct (Example.kernels ℚ) (fullField 8 0 1) (fullField 8 2 3)
        QUDA_MATPC_SOLUTION (Example.state ℚ QUDA_MATPC_INVALID false (1 / 8))).isOk = true := by
  refine ⟨?_, ?_, ?_, ?_, rfl, rfl⟩
  · rw [DiracCloverPC.M_run _ _ _ _ (Example.acceptsParity ℚ 8) ⟨rfl, rfl, by decide⟩
      ⟨rfl, rfl, by decide⟩ (by decide) rfl]
    rfl
  · rw [DiracCloverPC.applyParity_MdagM _ _ _ (Example.acceptsParity ℚ 8) ⟨rfl, rfl⟩]
    rfl
  · rw [DiracCloverHasenbuschTwistPC.M_twisted_run _ _ _ _ (Example.acceptsParity ℚ 8)
      ⟨rfl, rfl, by decide⟩ ⟨rfl, rfl, by decide⟩ (by decide) rfl]
    rfl
  · rw [DiracCloverHasenbuschTwistPC.applyParity_MdagM_twisted _ _ _
      (Example.acceptsParity ℚ 8) ⟨rfl, rfl⟩]
    rfl

variable {K F : Type} [Field K]

/-- C11 (amended): for a preconditioned operator whose tag is INVALID (the methods
`prepare` and `reconstruct` of `DiracCloverPC` are also those of
`DiracCloverHasenbuschTwistPC`).  Asked for a full-system solution type, `prepare` aborts
with a configuration error for every input, after acquiring the scratch field, and
`reconstruct` aborts for every input, with a configuration error when the base-class check
of `x` against `b` passes.  Asked for a preconditioned solution type, both return in the
unchanged state, `prepare` with `(src, sol) = (b, x)`.  `M` and `MdagM` of both classes do
not look for an invalid tag: with the base-class check accepting parity fields and no
scratch field held, run on new fields they return, and what they write is what they write
for the tag EVEN_EVEN_ASYMMETRIC. -/
theorem C11_invalid_tag (E : External K F) (x b : ColorSpinorField)
    (solType : QudaSolutionType) (s : State K F) (y : F)
    (ht : s.matpcType = QUDA_MATPC_INVALID) :
    (solType.Full →
      DiracCloverPC.prepare E x b solType s =
        .error QudaError.ConfigurationError (newTmp .tmp1 b.Even s).state ∧
      (DiracCloverPC.reconstruct E x b solType s).isOk = false ∧
      (E.checkFullSpinor x b = true →
        DiracCloverPC.reconstruct E x b solType s =
          .error QudaError.ConfigurationError (newTmp .tmp1 b.Even s).state)) ∧
    (¬ solType.Full →
      DiracCloverPC.prepare E x b solType s = .ok (b, x) s ∧
      DiracCloverPC.reconstruct E x b solType s = .ok () s) ∧
    (E.AcceptsParity s.clover.VolumeCB → s.ScratchFree →
      applyParity (DiracCloverPC.M E) s y =
        some (DiracCloverPC.Mvalue E QUDA_MATPC_EVEN_EVEN_ASYMMETRIC s.dagger s.kappa y) ∧
      applyParity (DiracCloverPC.MdagM E) s y =
        some (DiracCloverPC.Mvalue E QUDA_MATPC_EVEN_EVEN_ASYMMETRIC (!s.dagger) s.kappa
          (DiracCloverPC.Mvalue E QUDA_MATPC_EVEN_EVEN_ASYMMETRIC s.dagger s.kappa y)) ∧
      applyParity (DiracCloverHasenbuschTwistPC.M E) s y =
        some (DiracCloverHasenbuschTwistPC.Mvalue E QUDA_MATPC_EVEN_EVEN_ASYMMETRIC s.dagger
          s.kappa s.mu y) ∧
      applyParity (DiracCloverHasenbuschTwistPC.MdagM E) s y =
        some (DiracCloverHasenbuschTwistPC.Mvalue E QUDA_MATPC_EVEN_EVEN_ASYMMETRIC
          (!s.dagger) s.kappa s.mu
          (DiracCloverHasenbuschTwistPC.Mvalue E QUDA_MATPC_EVEN_EVEN_ASYMMETRIC s.dagger
            s.kappa s.mu y))) := by
  refine ⟨fun hf => ?_, fun hf => ?_, fun hE hs => ?_⟩
  · have c : ¬ (solType = QUDA_MATPC_SOLUTION ∨ solType = QUDA_MATPCDAG_MATPC_SOLUTION) :=
      fun h => h.elim hf.1 hf.2
    have hp : DiracCloverPC.prepare E x b solType s =
        .error QudaError.ConfigurationError (newTmp .tmp1 b.Even s).state := by
      cases h1 : s.tmp1 <;>
        simp only [DiracCloverPC.prepare, Quda.bind_run, Quda.ite_run, Quda.pure_run,
          errorQuda_run, getState_run, newTmp_run, State.getTmp, State.setTmp, h1, ht, c,
          ↓reduceIte, reduceCtorEq, Result.state]
    refine ⟨hp, ?_, fun hc => ?_⟩
    · rcases Classical.propComplete (E.checkFullSpinor x b = true) with hc | hc <;>
      cases h1 : s.tmp1 <;>
        simp only [DiracCloverPC.reconstruct, Dirac.checkFullSpinor, Quda.bind_run,
          Quda.ite_run, Quda.pure_run, errorQuda_run, getState_run, newTmp_run, State.getTmp,
          State.setTmp, h1, ht, c, hc, ↓reduceIte, reduceCtorEq, Result.isOk, or_self]
    · cases h1 : s.tmp1 <;>
        simp only [DiracCloverPC.reconstruct, Dirac.checkFullSpinor, Quda.bind_run,
          Quda.ite_run, Quda.pure_run, errorQuda_run, getState_run, newTmp_run, State.getTmp,
          State.setTmp, h1, ht, c, hc, ↓reduceIte, reduceCtorEq, Result.state, or_self]
  · have c : solType = QUDA_MATPC_SOLUTION ∨ solType = QUDA_MATPCDAG_MATPC_SOLUTION := by
      by_contra h
      exact hf ⟨fun h1 => h (Or.inl h1), fun h2 => h (Or.inr h2)⟩
    constructor
    · simp only [DiracCloverPC.prepare, Quda.ite_run, Quda.pure_run, if_pos c]
    · simp only [DiracCloverPC.reconstruct, Quda.ite_run, Quda.pure_run, if_pos c]
  · rw [DiracCloverPC.applyParity_M E s y hE hs.1, DiracCloverPC.applyParity_MdagM E s y hE hs,
      DiracCloverHasenbuschTwistPC.applyParity_M_twisted E s y hE hs.1,
      DiracCloverHasenbuschTwistPC.applyParity_MdagM_twisted E s y hE hs, ht]
    exact ⟨rfl, rfl, rfl, rfl⟩

/-- C11 (amended), on the example with tag INVALID: `prepare` and `reconstruct` asked for
`QUDA_MAT_SOLUTION` abort with a configuration error, and `M` run on a new field holding 1
returns `2 * 1 - (1/64) * 3 * (5/4)`. -/
theorem C11_invalid_tag_witness :
    (∃ s1, DiracCloverPC.prepare (Example.kernels ℚ) (fullField 8 0 1) (fullField 8 2 3)
        QUDA_MAT_SOLUTION (Example.state ℚ QUDA_MATPC_INVALID false (1 / 8)) =
          .error QudaError.ConfigurationError s1) ∧
    (∃ s1, DiracCloverPC.reconstruct (Example.kernels ℚ) (fullField 8 0 1) (fullField 8 2 3)
        QUDA_MAT_SOLUTION (Example.state ℚ QUDA_MATPC_INVALID false (1 / 8)) =
          .error QudaError.ConfigurationError s1) ∧
    applyParity (DiracCloverPC.M (Example.kernels ℚ))
        (Example.state ℚ QUDA_MATPC_INVALID false (1 / 8)) 1 = some (2 - 15 / 256) := by
  have h := C11_invalid_tag (Example.kernels ℚ) (fullField 8 0 1) (fullField 8 2 3)
    QUDA_MAT_SOLUTION (Example.state ℚ QUDA_MATPC_INVALID false (1 / 8)) 1 rfl
  have hf : QUDA_MAT_SOLUTION.Full := ⟨by decide, by decide⟩
  refine ⟨⟨_, (h.1 hf).1⟩, ⟨_, (h.1 hf).2.2 rfl⟩, ?_⟩
  rw [(h.2.2 (Example.acceptsParity ℚ 8) ⟨rfl, rfl⟩).1]
  simp [DiracCloverPC.Mvalue, Example.kernels, Example.state, DiracCloverPC.parity_cases,
    DiracCloverPC.symmetric_cases, Example.clov, Example.hop]
  norm_num

end InvalidTag

end quda

/-! ## Validation and error exits of the unpreconditioned operator -/

namespace quda

open QudaParity QudaMatPCType QudaSolutionType QudaDiracType QudaSiteSubset

section Validation

variable {K F : Type}

/-- C12: in every state, `DiracClover::prepare` aborts with a configuration error, in the
unchanged state, when `solType` is `QUDA_MATPC_SOLUTION` or `QUDA_MATPCDAG_MATPC_SOLUTION`,
and otherwise returns `src = b` and `sol = x` in the unchanged state (no field is written);
so it fails if and only if `solType` is one of the two.  `DiracClover::reconstruct` returns
in the unchanged state for every solution type, so that the contents of `x` and `b` are
what they were. -/
theorem C12_unpreconditioned_prepare_reconstruct (x b : ColorSpinorField)
    (solType : QudaSolutionType) (s : State K F) :
    DiracClover.prepare x b solType s =
      (if solType = QUDA_MATPC_SOLUTION ∨ solType = QUDA_MATPCDAG_MATPC_SOLUTION then
        .error QudaError.ConfigurationError s
      else .ok (b, x) s) ∧
    ((DiracClover.prepare x b solType s).isOk = false ↔
      (solType = QUDA_MATPC_SOLUTION ∨ solType = QUDA_MATPCDAG_MATPC_SOLUTION)) ∧
    (DiracClover.prepare x b solType s).state = s ∧
    DiracClover.reconstruct x b solType s = .ok () s := by
  have h : DiracClover.prepare x b solType s =
      (if solType = QUDA_MATPC_SOLUTION ∨ solType = QUDA_MATPCDAG_MATPC_SOLUTION then
        .error QudaError.ConfigurationError s
      else .ok (b, x) s) := by
    by_cases c : solType = QUDA_MATPC_SOLUTION ∨ solType = QUDA_MATPCDAG_MATPC_SOLUTION
    · simp only [DiracClover.prepare, Quda.bind_run, Quda.ite_run, errorQuda_run, if_pos c]
    · simp only [DiracClover.prepare, Quda.bind_run, Quda.ite_run, Quda.pure_run, if_neg c]
  refine ⟨h, ?_, ?_, rfl⟩
  · rw [h]
    by_cases c : solType = QUDA_MATPC_SOLUTION ∨ solType = QUDA_MATPCDAG_MATPC_SOLUTION
    · rw [if_pos c]
      exact ⟨fun _ => c, fun _ => rfl⟩
    · rw [if_neg c]
      exact ⟨fun h0 => absurd h0 (by simp [Result.isOk]), fun h0 => absurd h0 c⟩
  · rw [h]
    by_cases c : solType = QUDA_MATPC_SOLUTION ∨ solType = QUDA_MATPCDAG_MATPC_SOLUTION
    · rw [if_pos c]
      rfl
    · rw [if_neg c]
      rfl

/-- C12, on the example: with `QUDA_MAT_SOLUTION` the method `DiracClover::prepare` returns
`(b, x)`, with `QUDA_MATPC_SOLUTION` it aborts. -/
theorem C12_prepare_witness :
    DiracClover.prepare (fullField 8 0 1) (fullField 8 2 3) QUDA_MAT_SOLUTION
        (Example.state ℚ QUDA_MATPC_INVALID false (1 / 8)) =
      .ok (fullField 8 2 3, fullField 8 0 1) (Example.state ℚ QUDA_MATPC_INVALID false (1 / 8)) ∧
    (DiracClover.prepare (fullField 8 0 1) (fullField 8 2 3) QUDA_MATPC_SOLUTION
        (Example.state ℚ QUDA_MATPC_INVALID false (1 / 8))).isOk = false :=
  ⟨(C12_unpreconditioned_prepare_reconstruct (fullField 8 0 1) (fullField 8 2 3)
      QUDA_MAT_SOLUTION (Example.state ℚ QUDA_MATPC_INVALID false (1 / 8))).1.trans
      (if_neg (by decide)),
    (C12_unpreconditioned_prepare_reconstruct (fullField 8 0 1) (fullField 8 2 3)
      QUDA_MATPC_SOLUTION (Example.state ℚ QUDA_MATPC_INVALID false (1 / 8))).2.1.mpr
      (Or.inl rfl)⟩

/-- The checks of `DiracClover::checkParitySpinor(in, out)` as the callers of this file
invoke it: the base-class check first, then the comparison of `in.Volume()` with the
checkerboard volume of the clover term; the state is never changed. -/
theorem DiracClover.checkParitySpinor_run (E : External K F) (out inp : ColorSpinorField)
    (s : State K F) :
    DiracClover.checkParitySpinor E inp out s =
      (if E.checkParitySpinor inp out = true then
        (if inp.volume = s.clover.VolumeCB then .ok () s
         else .error QudaError.VolumeMismatch s)
      else .error QudaError.FieldMismatch s) := by
  rcases Classical.propComplete (E.checkParitySpinor inp out = true) with c | c <;>
  rcases Classical.propComplete (inp.volume = s.clover.VolumeCB) with d | d <;>
    simp only [DiracClover.checkParitySpinor, Dirac.checkParitySpinor, Quda.bind_run,
      Quda.pure_run, Quda.ite_run, errorQuda_run, getState_run, c, d, ↓reduceIte, ne_eq,
      not_true_eq_false, not_false_eq_true]

/-- Outcome of `DiracClover::Clover` in every state. -/
theorem DiracClover.Clover_run (E : External K F) (out inp : ColorSpinorField)
    (parity : QudaParity) (s : State K F) :
    DiracClover.Clover E out inp parity s =
      (if E.checkParitySpinor inp out = true then
        (if inp.volume = s.clover.VolumeCB then
          .ok () { s with
            store := Function.update s.store out.v (E.ApplyClover (s.store inp.v) false parity)
            flops := s.flops + 504 * inp.volume
            trace := s.trace ++ [KernelCall.ApplyClover out inp false parity] }
         else .error QudaError.VolumeMismatch s)
      else .error QudaError.FieldMismatch s) := by
  rcases Classical.propComplete (E.checkParitySpinor inp out = true) with c | c <;>
  rcases Classical.propComplete (inp.volume = s.clover.VolumeCB) with d | d <;>
    simp only [DiracClover.Clover, DiracClover.checkParitySpinor_run, ApplyClover,
      Quda.bind_run, addFlops_run, c, d, ↓reduceIte]

/-- Outcome of `DiracClover::DslashXpay(out, in, parity, x, k)` in every state. -/
theorem DiracClover.DslashXpay_run (E : External K F) (out inp : ColorSpinorField)
    (parity : QudaParity) (x : ColorSpinorField) (k : K) (s : State K F) :
    DiracClover.DslashXpay E out inp parity x k s =
      (if E.checkParitySpinor inp out = true then
        (if inp.volume = s.clover.VolumeCB then
          (if inp.v = out.v then .error QudaError.AliasError s
           else .ok ()
            { (ApplyWilsonClover E out inp k x parity s.dagger s).state with
              flops := s.flops + 1872 * inp.volume })
         else .error QudaError.VolumeMismatch s)
      else .error QudaError.FieldMismatch s) := by
  rcases Classical.propComplete (E.checkParitySpinor inp out = true) with c | c <;>
  rcases Classical.propComplete (inp.volume = s.clover.VolumeCB) with d | d <;>
  rcases Classical.propComplete (inp.v = out.v) with a | a <;>
    simp only [DiracClover.DslashXpay, DiracClover.checkParitySpinor_run,
      Dirac.checkSpinorAlias, Quda.bind_run, Quda.ite_run, Quda.pure_run, errorQuda_run,
      getState_run, addFlops_run, c, d, a, ↓reduceIte]
  cases parity <;> rfl

/-- Outcome of the `k, b` overload of `DiracClover::DslashXpay` in every state. -/
theorem DiracClover.DslashXpay_b_run (E : External K F) (out inp : ColorSpinorField)
    (parity : QudaParity) (x : ColorSpinorField) (k b : K) (s : State K F) :
    DiracClover.DslashXpay_b E out inp parity x k b s =
      (if E.checkParitySpinor inp out = true then
        (if inp.volume = s.clover.VolumeCB then
          (if inp.v = out.v then .error QudaError.AliasError s
           else .ok () { s with
            store := Function.update s.store out.v
              (E.ApplyWilsonCloverTwist (s.store inp.v) k b (s.store x.v) parity s.dagger)
            flops := s.flops + 1872 * inp.volume
            trace := s.trace ++
              [KernelCall.ApplyWilsonCloverTwist out inp k b x parity s.dagger] })
         else .error QudaError.VolumeMismatch s)
      else .error QudaError.FieldMismatch s) := by
  rcases Classical.propComplete (E.checkParitySpinor inp out = true) with c | c <;>
  rcases Classical.propComplete (inp.volume = s.clover.VolumeCB) with d | d <;>
  rcases Classical.propComplete (inp.v = out.v) with a | a <;>
    simp only [DiracClover.DslashXpay_b, DiracClover.checkParitySpinor_run,
      Dirac.checkSpinorAlias, ApplyWilsonCloverTwist, Quda.bind_run, Quda.ite_run,
      Quda.pure_run, errorQuda_run, getState_run, addFlops_run, c, d, a, ↓reduceIte]

/-- C13: in every state, `DiracClover::Clover` and both overloads of
`DiracClover::DslashXpay` abort when `in.Volume()` differs from `clover.VolumeCB()`, and
both overloads of `DslashXpay` abort when `out` and `in` are the same storage.  The state at
each of these aborts is the state before the call; and whenever one of the three methods
aborts, for whatever reason, the state is the state before the call: no kernel was launched
(`trace`), no field was written (`store`) and the flop counter is what it was. -/
theorem C13_validation_precedes_computation (E : External K F) (out inp x : ColorSpinorField)
    (parity : QudaParity) (k b : K) (s : State K F) :
    (inp.volume ≠ s.clover.VolumeCB →
      (∃ e, DiracClover.Clover E out inp parity s = .error e s) ∧
      (∃ e, DiracClover.DslashXpay E out inp parity x k s = .error e s) ∧
      (∃ e, DiracClover.DslashXpay_b E out inp parity x k b s = .error e s)) ∧
    (inp.v = out.v →
      (∃ e, DiracClover.DslashXpay E out inp parity x k s = .error e s) ∧
      (∃ e, DiracClover.DslashXpay_b E out inp parity x k b s = .error e s)) ∧
    (∀ e s1, DiracClover.Clover E out inp parity s = .error e s1 →
      s1 = s ∧ s1.trace = s.trace ∧ s1.store = s.store ∧ s1.flops = s.flops) ∧
    (∀ e s1, DiracClover.DslashXpay E out inp parity x k s = .error e s1 →
      s1 = s ∧ s1.trace = s.trace ∧ s1.store = s.store ∧ s1.flops = s.flops) ∧
    (∀ e s1, DiracClover.DslashXpay_b E out inp parity x k b s = .error e s1 →
      s1 = s ∧ s1.trace = s.trace ∧ s1.store = s.store ∧ s1.flops = s.flops) := by
  refine ⟨fun hv => ⟨?_, ?_, ?_⟩, fun ha => ⟨?_, ?_⟩, ?_, ?_, ?_⟩
  · rw [DiracClover.Clover_run]
    by_cases c : E.checkParitySpinor inp out = true
    · exact ⟨_, by rw [if_pos c, if_neg hv]⟩
    · exact ⟨_, by rw [if_neg c]⟩
  · rw [DiracClover.DslashXpay_run]
    by_cases c : E.checkParitySpinor inp out = true
    · exact ⟨_, by rw [if_pos c, if_neg hv]⟩
    · exact ⟨_, by rw [if_neg c]⟩
  · rw [DiracClover.DslashXpay_b_run]
    by_cases c : E.checkParitySpinor inp out = true
    · exact ⟨_, by rw [if_pos c, if_neg hv]⟩
    · exact ⟨_, by rw [if_neg c]⟩
  · rw [DiracClover.DslashXpay_run]
    by_cases c : E.checkParitySpinor inp out = true
    · by_cases d : inp.volume = s.clover.VolumeCB
      · exact ⟨_, by rw [if_pos c, if_pos d, if_pos ha]⟩
      · exact ⟨_, by rw [if_pos c, if_neg d]⟩
    · exact ⟨_, by rw [if_neg c]⟩
  · rw [DiracClover.DslashXpay_b_run]
    by_cases c : E.checkParitySpinor inp out = true
    · by_cases d : inp.volume = s.clover.VolumeCB
      · exact ⟨_, by rw [if_pos c, if_pos d, if_pos ha]⟩
      · exact ⟨_, by rw [if_pos c, if_neg d]⟩
    · exact ⟨_, by rw [if_neg c]⟩
  · intro e s1 h
    rw [DiracClover.Clover_run] at h
    have : s1 = s := by
      split at h
      · split at h
        · cases h
        · cases h; rfl
      · cases h; rfl
    subst this
    exact ⟨rfl, rfl, rfl, rfl⟩
  · intro e s1 h
    rw [DiracClover.DslashXpay_run] at h
    have : s1 = s := by
      split at h
      · split at h
        · split at h
          · cases h; rfl
          · cases h
        · cases h; rfl
      · cases h; rfl
    subst this
    exact ⟨rfl, rfl, rfl, rfl⟩
  · intro e s1 h
    rw [DiracClover.DslashXpay_b_run] at h
    have : s1 = s := by
      split at h
      · split at h
        · split at h
          · cases h; rfl
          · cases h
        · cases h; rfl
      · cases h; rfl
    subst this
    exact ⟨rfl, rfl, rfl, rfl⟩

/-- C13, on the example: a parity field `in` of 5 sites against a clover term of 8 sites per
checkerboard makes `DiracClover::Clover` and `DiracClover::DslashXpay` abort in the
unchanged state, and so does `DslashXpay` with `out` and `in` in the same buffer. -/
theorem C13_validation_witness :
    ((∃ e, DiracClover.Clover (Example.kernels ℚ) (parityField 8 1) (parityField 5 0)
        QUDA_EVEN_PARITY (Example.state ℚ QUDA_MATPC_INVALID false (1 / 8)) =
          .error e (Example.state ℚ QUDA_MATPC_INVALID false (1 / 8))) ∧
      (∃ e, DiracClover.DslashXpay (Example.kernels ℚ) (parityField 8 1) (parityField 5 0)
        QUDA_EVEN_PARITY (parityField 8 2) (1 / 8)
        (Example.state ℚ QUDA_MATPC_INVALID false (1 / 8)) =
          .error e (Example.state ℚ QUDA_MATPC_INVALID false (1 / 8))) ∧
      (∃ e, DiracClover.DslashXpay_b (Example.kernels ℚ) (parityField 8 1) (parityField 5 0)
        QUDA_EVEN_PARITY (parityField 8 2) (1 / 8) (1 / 3)
        (Example.state ℚ QUDA_MATPC_INVALID false (1 / 8)) =
          .error e (Example.state ℚ QUDA_MATPC_INVALID false (1 / 8)))) ∧
    ((∃ e, DiracClover.DslashXpay (Example.kernels ℚ) (parityField 8 1) (parityField 8 1)
        QUDA_EVEN_PARITY (parityField 8 2) (1 / 8)
        (Example.state ℚ QUDA_MATPC_INVALID false (1 / 8)) =
          .error e (Example.state ℚ QUDA_MATPC_INVALID false (1 / 8))) ∧
      (∃ e, DiracClover.DslashXpay_b (Example.kernels ℚ) (parityField 8 1) (parityField 8 1)
        QUDA_EVEN_PARITY (parityField 8 2) (1 / 8) (1 / 3)
        (Example.state ℚ QUDA_MATPC_INVALID false (1 / 8)) =
          .error e (Example.state ℚ QUDA_MATPC_INVALID false (1 / 8)))) :=
  ⟨(C13_validation_precedes_computation (Example.kernels ℚ) (parityField 8 1)
      (parityField 5 0) (parityField 8 2) QUDA_EVEN_PARITY (1 / 8) (1 / 3)
      (Example.state ℚ QUDA_MATPC_INVALID false (1 / 8))).1 (by decide),
    (C13_validation_precedes_computation (Example.kernels ℚ) (parityField 8 1)
      (parityField 8 1) (parityField 8 2) QUDA_EVEN_PARITY (1 / 8) (1 / 3)
      (Example.state ℚ QUDA_MATPC_INVALID false (1 / 8))).2.1 rfl⟩

end Validation

end quda

/-! ## The twisted operators: which kernel goes where -/

namespace quda

open QudaParity QudaMatPCType QudaSolutionType QudaDiracType QudaSiteSubset

section TwistedHalves

variable {K F : Type} [Field K]

/-- C14: for every tag, `DiracCloverHasenbuschTwist::M` returns after exactly two kernel
launches, the first writing the even half of `out` from the odd half of `in` with accumulate
field the even half of `in`, the second writing the odd half of `out` from the even half of
`in` with accumulate field the odd half of `in`, both with coefficient `-kappa`.  One of the
two is a kernel that takes `mu` (`ApplyWilsonCloverHasenbuschTwist`, or the `k, b` overload
of `ApplyWilsonClover`), the other is the plain `ApplyWilsonClover`; the kernel with `mu` is
the one on the even half if and only if the tag is EVEN_EVEN or EVEN_EVEN_ASYMMETRIC.  Run
on new full fields, the two halves of `out` hold the values of these two kernels. -/
theorem C14_twist_on_one_half (E : External K F) (out inp : ColorSpinorField)
    (s : State K F) (y : F × F) :
    ∃ (twCall : ColorSpinorField → ColorSpinorField → K → K → ColorSpinorField →
        QudaParity → Bool → KernelCall K)
      (tw : F → K → K → F → QudaParity → Bool → F),
      ((twCall = KernelCall.ApplyWilsonCloverHasenbuschTwist ∧
          tw = E.ApplyWilsonCloverHasenbuschTwist) ∨
        (twCall = KernelCall.ApplyWilsonCloverTwist ∧ tw = E.ApplyWilsonCloverTwist)) ∧
      (∃ s1, DiracCloverHasenbuschTwist.M E out inp s = .ok () s1 ∧
        s1.trace = s.trace ++
          (if s.matpcType = QUDA_MATPC_EVEN_EVEN ∨
              s.matpcType = QUDA_MATPC_EVEN_EVEN_ASYMMETRIC then
            [twCall out.Even inp.Odd (-s.kappa) s.mu inp.Even QUDA_EVEN_PARITY s.dagger,
              KernelCall.ApplyWilsonClover out.Odd inp.Even (-s.kappa) inp.Odd
                QUDA_ODD_PARITY s.dagger]
          else
            [KernelCall.ApplyWilsonClover out.Even inp.Odd (-s.kappa) inp.Even
                QUDA_EVEN_PARITY s.dagger,
              twCall out.Odd inp.Even (-s.kappa) s.mu inp.Odd QUDA_ODD_PARITY s.dagger])) ∧
      applyFull (DiracCloverHasenbuschTwist.M E) s y =
        some
          (if s.matpcType = QUDA_MATPC_EVEN_EVEN ∨
              s.matpcType = QUDA_MATPC_EVEN_EVEN_ASYMMETRIC then
            (tw y.2 (-s.kappa) s.mu y.1 QUDA_EVEN_PARITY s.dagger,
              E.ApplyWilsonClover y.1 (-s.kappa) y.2 QUDA_ODD_PARITY s.dagger)
          else
            (E.ApplyWilsonClover y.2 (-s.kappa) y.1 QUDA_EVEN_PARITY s.dagger,
              tw y.1 (-s.kappa) s.mu y.2 QUDA_ODD_PARITY s.dagger)) := by
  rw [DiracCloverHasenbuschTwist.applyFull_M_twisted]
  cases ht : s.matpcType
  case QUDA_MATPC_EVEN_EVEN_ASYMMETRIC | QUDA_MATPC_ODD_ODD_ASYMMETRIC =>
    refine ⟨KernelCall.ApplyWilsonCloverTwist, E.ApplyWilsonCloverTwist,
      Or.inr ⟨rfl, rfl⟩, ?_, ?_⟩
    · simp only [DiracCloverHasenbuschTwist.M, ht, Quda.bind_run, getState_run, Quda.ite_run,
        addFlops_run, ApplyWilsonClover, ApplyWilsonCloverTwist, reduceCtorEq, decide_False,
        decide_True, Bool.or_true, Bool.true_or, Bool.or_false, Bool.not_true, Bool.not_false,
        ↓reduceIte, Bool.false_eq_true, or_true, or_false, or_self]
      exact ⟨_, rfl, by simp only [List.append_assoc, List.singleton_append]⟩
    · simp [DiracCloverHasenbuschTwist.Mvalue]
  all_goals
    refine ⟨KernelCall.ApplyWilsonCloverHasenbuschTwist, E.ApplyWilsonCloverHasenbuschTwist,
      Or.inl ⟨rfl, rfl⟩, ?_, ?_⟩
    · simp only [DiracCloverHasenbuschTwist.M, ht, Quda.bind_run, getState_run, Quda.ite_run,
        addFlops_run, ApplyWilsonClover, ApplyWilsonCloverHasenbuschTwist, reduceCtorEq,
        decide_False, decide_True, Bool.or_true, Bool.true_or, Bool.or_false, Bool.not_true,
        Bool.not_false, Bool.or_self, ↓reduceIte, Bool.false_eq_true, or_true, or_false,
        or_self, true_or]
      exact ⟨_, rfl, by simp only [List.append_assoc, List.singleton_append]⟩
    · simp [DiracCloverHasenbuschTwist.Mvalue]

end TwistedHalves

end quda

/-! ## Dispatch of `DiracCloverHasenbuschTwistPC::DslashXpay` -/

namespace quda

open QudaParity QudaMatPCType QudaSolutionType QudaDiracType QudaSiteSubset

section Dispatch

variable {K F : Type}

/-- Outcome of `DiracCloverPC::DslashXpay` in every state. -/
theorem DiracCloverPC.DslashXpay_pc_run (E : External K F) (out inp : ColorSpinorField)
    (parity : QudaParity) (x : ColorSpinorField) (k : K) (s : State K F) :
    DiracCloverPC.DslashXpay E out inp parity x k s =
      (if E.checkParitySpinor inp out = true then
        (if inp.volume = s.clover.VolumeCB then
          (if inp.v = out.v then .error QudaError.AliasError s
           else .ok () { s with
            store := Function.update s.store out.v
              (E.ApplyWilsonCloverPreconditioned (s.store inp.v) k (s.store x.v) parity s.dagger)
            flops := s.flops + 1872 * inp.volume
            trace := s.trace ++
              [KernelCall.ApplyWilsonCloverPreconditioned out inp k x parity s.dagger] })
         else .error QudaError.VolumeMismatch s)
      else .error QudaError.FieldMismatch s) := by
  rcases Classical.propComplete (E.checkParitySpinor inp out = true) with c | c <;>
  rcases Classical.propComplete (inp.volume = s.clover.VolumeCB) with d | d <;>
  rcases Classical.propComplete (inp.v = out.v) with a | a <;>
    simp only [DiracCloverPC.DslashXpay, DiracClover.checkParitySpinor_run,
      Dirac.checkSpinorAlias, ApplyWilsonCloverPreconditioned, Quda.bind_run, Quda.ite_run,
      Quda.pure_run, errorQuda_run, getState_run, addFlops_run, c, d, a, ↓reduceIte]

/-- Outcome of `DiracCloverHasenbuschTwistPC::DslashXpayTwistClovInv` in every state. -/
theorem DiracCloverHasenbuschTwistPC.DslashXpayTwistClovInv_run (E : External K F)
    (out inp : ColorSpinorField) (parity : QudaParity) (x : ColorSpinorField) (k b : K)
    (s : State K F) :
    DiracCloverHasenbuschTwistPC.DslashXpayTwistClovInv E out inp parity x k b s =
      (if E.checkParitySpinor inp out = true then
        (if inp.volume = s.clover.VolumeCB then
          (if inp.v = out.v then .error QudaError.AliasError s
           else .ok () { s with
            store := Function.update s.store out.v
              (E.ApplyWilsonCloverHasenbuschTwistPCClovInv (s.store inp.v) k b (s.store x.v)
                parity s.dagger)
            flops := s.flops + (1872 + 48 + 504) * inp.volume
            trace := s.trace ++
              [KernelCall.ApplyWilsonCloverHasenbuschTwistPCClovInv out inp k b x parity
                s.dagger] })
         else .error QudaError.VolumeMismatch s)
      else .error QudaError.FieldMismatch s) := by
  rcases Classical.propComplete (E.checkParitySpinor inp out = true) with c | c <;>
  rcases Classical.propComplete (inp.volume = s.clover.VolumeCB) with d | d <;>
  rcases Classical.propComplete (inp.v = out.v) with a | a <;>
    simp only [DiracCloverHasenbuschTwistPC.DslashXpayTwistClovInv,
      DiracClover.checkParitySpinor_run, Dirac.checkSpinorAlias,
      ApplyWilsonCloverHasenbuschTwistPCClovInv, Quda.bind_run, Quda.ite_run,
      Quda.pure_run, errorQuda_run, getState_run, addFlops_run, c, d, a, ↓reduceIte]

/-- Outcome of `DiracCloverHasenbuschTwistPC::DslashXpay` in every state: the checks, the
method chosen by `parity` (none for `QUDA_INVALID_PARITY`), then `1872` flops per site on
top of what the chosen method counted. -/
theorem DiracCloverHasenbuschTwistPC.DslashXpay_twisted_run (E : External K F)
    (out inp : ColorSpinorField) (parity : QudaParity) (x : ColorSpinorField) (k : K)
    (s : State K F) :
    DiracCloverHasenbuschTwistPC.DslashXpay E out inp parity x k s =
      (if E.checkParitySpinor inp out = true then
        (if inp.volume = s.clover.VolumeCB then
          (if inp.v = out.v then .error QudaError.AliasError s
           else .ok ()
            (match parity with
            | QUDA_EVEN_PARITY => { s with
              store := Function.update s.store out.v
                (E.ApplyWilsonCloverPreconditioned (s.store inp.v) k (s.store x.v)
                  QUDA_EVEN_PARITY s.dagger)
              flops := s.flops + 1872 * inp.volume + 1872 * inp.volume
              trace := s.trace ++
                [KernelCall.ApplyWilsonCloverPreconditioned out inp k x QUDA_EVEN_PARITY
                  s.dagger] }
            | QUDA_ODD_PARITY => { s with
              store := Function.update s.store out.v
                (E.ApplyWilsonCloverHasenbuschTwistPCClovInv (s.store inp.v) k s.mu
                  (s.store x.v) QUDA_ODD_PARITY s.dagger)
              flops := s.flops + (1872 + 48 + 504) * inp.volume + 1872 * inp.volume
              trace := s.trace ++
                [KernelCall.ApplyWilsonCloverHasenbuschTwistPCClovInv out inp k s.mu x
                  QUDA_ODD_PARITY s.dagger] }
            | QUDA_INVALID_PARITY => { s with flops := s.flops + 1872 * inp.volume }))
         else .error QudaError.VolumeMismatch s)
      else .error QudaError.FieldMismatch s) := by
  rcases Classical.propComplete (E.checkParitySpinor inp out = true) with c | c <;>
  rcases Classical.propComplete (inp.volume = s.clover.VolumeCB) with d | d <;>
  rcases Classical.propComplete (inp.v = out.v) with a | a <;>
  cases parity <;>
    simp only [DiracCloverHasenbuschTwistPC.DslashXpay,
      DiracCloverHasenbuschTwistPC.DslashXpayTwistClovInv_run, DiracCloverPC.DslashXpay_pc_run,
      DiracClover.checkParitySpinor_run, Dirac.checkSpinorAlias,
      Quda.bind_run, Quda.ite_run, Quda.pure_run, errorQuda_run, getState_run, addFlops_run,
      c, d, a, ↓reduceIte, reduceCtorEq]

/-- C15: `DiracCloverHasenbuschTwistPC::DslashXpay` dispatches by parity.  In every state,
with `QUDA_EVEN_PARITY` it returns exactly when `DiracCloverPC::DslashXpay` on the same
arguments does, and leaves the same field contents and the same kernel launches; with
`QUDA_ODD_PARITY` the same holds with `DslashXpayTwistClovInv(out, in, parity, x, k, mu)`,
`mu` the twist parameter of the object.  When the checks pass it returns, and `out` holds
the value of `ApplyWilsonCloverPreconditioned` (even) resp. of
`ApplyWilsonCloverHasenbuschTwistPCClovInv` with `b = mu` (odd).  In both cases the flop
counter ends `1872` flops per site above that of the method dispatched to. -/
theorem C15_DslashXpay_dispatch_by_parity (E : External K F) (out inp x : ColorSpinorField)
    (k : K) (s : State K F) :
    ((DiracCloverHasenbuschTwistPC.DslashXpay E out inp QUDA_EVEN_PARITY x k s).isOk =
        (DiracCloverPC.DslashXpay E out inp QUDA_EVEN_PARITY x k s).isOk ∧
      (DiracCloverHasenbuschTwistPC.DslashXpay E out inp QUDA_EVEN_PARITY x k s).state.store =
        (DiracCloverPC.DslashXpay E out inp QUDA_EVEN_PARITY x k s).state.store ∧
      (DiracCloverHasenbuschTwistPC.DslashXpay E out inp QUDA_EVEN_PARITY x k s).state.trace =
        (DiracCloverPC.DslashXpay E out inp QUDA_EVEN_PARITY x k s).state.trace) ∧
    ((DiracCloverHasenbuschTwistPC.DslashXpay E out inp QUDA_ODD_PARITY x k s).isOk =
        (DiracCloverHasenbuschTwistPC.DslashXpayTwistClovInv E out inp QUDA_ODD_PARITY x k
          s.mu s).isOk ∧
      (DiracCloverHasenbuschTwistPC.DslashXpay E out inp QUDA_ODD_PARITY x k s).state.store =
        (DiracCloverHasenbuschTwistPC.DslashXpayTwistClovInv E out inp QUDA_ODD_PARITY x k
          s.mu s).state.store ∧
      (DiracCloverHasenbuschTwistPC.DslashXpay E out inp QUDA_ODD_PARITY x k s).state.trace =
        (DiracCloverHasenbuschTwistPC.DslashXpayTwistClovInv E out inp QUDA_ODD_PARITY x k
          s.mu s).state.trace) ∧
    (E.checkParitySpinor inp out = true → inp.volume = s.clover.VolumeCB → inp.v ≠ out.v →
      (∃ s1 s2, DiracCloverHasenbuschTwistPC.DslashXpay E out inp QUDA_EVEN_PARITY x k s =
            .ok () s1 ∧
          DiracCloverPC.DslashXpay E out inp QUDA_EVEN_PARITY x k s = .ok () s2 ∧
          s1.store out.v = E.ApplyWilsonCloverPreconditioned (s.store inp.v) k (s.store x.v)
            QUDA_EVEN_PARITY s.dagger ∧
          s1.store = s2.store ∧ s1.flops = s2.flops + 1872 * inp.volume) ∧
      (∃ s1 s2, DiracCloverHasenbuschTwistPC.DslashXpay E out inp QUDA_ODD_PARITY x k s =
            .ok () s1 ∧
          DiracCloverHasenbuschTwistPC.DslashXpayTwistClovInv E out inp QUDA_ODD_PARITY x k
            s.mu s = .ok () s2 ∧
          s1.store out.v = E.ApplyWilsonCloverHasenbuschTwistPCClovInv (s.store inp.v) k s.mu
            (s.store x.v) QUDA_ODD_PARITY s.dagger ∧
          s1.store = s2.store ∧ s1.flops = s2.flops + 1872 * inp.volume)) := by
  rw [DiracCloverHasenbuschTwistPC.DslashXpay_twisted_run,
    DiracCloverHasenbuschTwistPC.DslashXpay_twisted_run, DiracCloverPC.DslashXpay_pc_run,
    DiracCloverHasenbuschTwistPC.DslashXpayTwistClovInv_run]
  refine ⟨?_, ?_, ?_⟩
  · rcases Classical.propComplete (E.checkParitySpinor inp out = true) with c | c <;>
    rcases Classical.propComplete (inp.volume = s.clover.VolumeCB) with d | d <;>
    rcases Classical.propComplete (inp.v = out.v) with a | a <;>
      simp only [c, d, a, ↓reduceIte, Result.isOk, Result.state, and_self]
  · rcases Classical.propComplete (E.checkParitySpinor inp out = true) with c | c <;>
    rcases Classical.propComplete (inp.volume = s.clover.VolumeCB) with d | d <;>
    rcases Classical.propComplete (inp.v = out.v) with a | a <;>
      simp only [c, d, a, ↓reduceIte, Result.isOk, Result.state, and_self]
  · intro c d a
    simp only [c, d, a, ↓reduceIte]
    exact ⟨⟨_, _, rfl, rfl, Function.update_same _ _ _, rfl, rfl⟩,
      ⟨_, _, rfl, rfl, Function.update_same _ _ _, rfl, rfl⟩⟩

/-- C15, on the example: with `in` holding 1 and `x` holding 3, `kappa = 1/8`, `mu = 1/3`
and `k = 2`, the even call leaves `3 + 2 * (3/2)` in `out` and the odd call
`3 + (1/3) * (3/4) + 2 * (5/4)`. -/
theorem C15_DslashXpay_dispatch_witness :
    (∃ s1, DiracCloverHasenbuschTwistPC.DslashXpay (Example.kernels ℚ) (parityField 8 1)
        (parityField 8 0) QUDA_EVEN_PARITY (parityField 8 2) 2
        (Example.state ℚ QUDA_MATPC_EVEN_EVEN false (1 / 8)) = .ok () s1 ∧
      s1.store 1 = 6) ∧
    (∃ s1, DiracCloverHasenbuschTwistPC.DslashXpay (Example.kernels ℚ) (parityField 8 1)
        (parityField 8 0) QUDA_ODD_PARITY (parityField 8 2) 2
        (Example.state ℚ QUDA_MATPC_EVEN_EVEN false (1 / 8)) = .ok () s1 ∧
      s1.store 1 = 23 / 4) := by
  obtain ⟨⟨s1, _, h1, _, h2, _⟩, ⟨t1, _, g1, _, g2, _⟩⟩ :=
    (C15_DslashXpay_dispatch_by_parity (Example.kernels ℚ) (parityField 8 1)
      (parityField 8 0) (parityField 8 2) 2
      (Example.state ℚ QUDA_MATPC_EVEN_EVEN false (1 / 8))).2.2 rfl rfl (by decide)
  refine ⟨⟨s1, h1, ?_⟩, ⟨t1, g1, ?_⟩⟩
  · rw [show (parityField 8 1).v = 1 from rfl] at h2
    rw [h2]
    simp [Example.kernels, Example.state, parityField, Example.clov, Example.hop]
    norm_num
  · rw [show (parityField 8 1).v = 1 from rfl] at g2
    rw [g2]
    simp [Example.kernels, Example.state, parityField, Example.clov, Example.hop]
    norm_num

end Dispatch

end quda

/-! ## Parity selection -/

namespace quda

open QudaParity QudaMatPCType QudaSolutionType QudaDiracType QudaSiteSubset

section Parity

/-- C16, as stated, fails on the example (tag EVEN_EVEN, `in` and `out` valid): the parity
passed to the first hopping step of `DiracCloverPC::M` is odd and the one passed to the
final step is even, not the pair (EVEN, ODD); the same holds for
`DiracCloverHasenbuschTwistPC::M`, and the local array `parity` of `M` is (ODD, EVEN) for
this tag. -/
theorem C16_parity_counterexample :
    hoppingParities (DiracCloverPC.M (Example.kernels ℚ) (parityField 8 1) (parityField 8 0)
        (Example.state ℚ QUDA_MATPC_EVEN_EVEN false (1 / 8))).state.trace =
      [QUDA_ODD_PARITY, QUDA_EVEN_PARITY] ∧
    hoppingParities (DiracCloverHasenbuschTwistPC.M (Example.kernels ℚ) (parityField 8 1)
        (parityField 8 0) (Example.state ℚ QUDA_MATPC_EVEN_EVEN false (1 / 8))).state.trace =
      [QUDA_ODD_PARITY, QUDA_EVEN_PARITY] ∧
    hoppingParities (DiracCloverPC.M (Example.kernels ℚ) (parityField 8 1) (parityField 8 0)
        (Example.state ℚ QUDA_MATPC_EVEN_EVEN false (1 / 8))).state.trace ≠
      [QUDA_EVEN_PARITY, QUDA_ODD_PARITY] ∧
    DiracCloverPC.parity QUDA_MATPC_EVEN_EVEN = (QUDA_ODD_PARITY, QUDA_EVEN_PARITY) := by
  have h1 : hoppingParities (DiracCloverPC.M (Example.kernels ℚ) (parityField 8 1)
      (parityField 8 0) (Example.state ℚ QUDA_MATPC_EVEN_EVEN false (1 / 8))).state.trace =
      [QUDA_ODD_PARITY, QUDA_EVEN_PARITY] := by
    rw [DiracCloverPC.M_run _ _ _ _ (Example.acceptsParity ℚ 8) ⟨rfl, rfl, by decide⟩
      ⟨rfl, rfl, by decide⟩ (by decide) rfl]
    simp [Result.state, Example.state, hoppingParities, KernelCall.hoppingParity,
      DiracCloverPC.parity_cases, DiracCloverPC.symmetric_cases]
  refine ⟨h1, ?_, ?_, rfl⟩
  · rw [DiracCloverHasenbuschTwistPC.M_twisted_run _ _ _ _ (Example.acceptsParity ℚ 8)
      ⟨rfl, rfl, by decide⟩ ⟨rfl, rfl, by decide⟩ (by decide) rfl]
    simp [Result.state, Example.state, hoppingParities, KernelCall.hoppingParity,
      DiracCloverPC.parity_cases, DiracCloverPC.symmetric_cases]
  · rw [h1]
    decide

variable {K F : Type} [Field K]

/-- C16 (amended): on valid fields with no scratch field held, `DiracCloverPC::M` and
`DiracCloverHasenbuschTwistPC::M` return after exactly two launches of kernels with a
hopping term, the first with parity `p0` and the final one with parity `p1`, where
`(p0, p1)` is (ODD, EVEN) for the tags EVEN_EVEN and EVEN_EVEN_ASYMMETRIC and (EVEN, ODD)
for the tags ODD_ODD and ODD_ODD_ASYMMETRIC: the first hopping step lands on the
checkerboard opposite to the one named by the tag, the final step on the one named. -/
theorem C16_parity_selection (E : External K F) (out inp : ColorSpinorField) (s : State K F)
    (hE : E.AcceptsParity s.clover.VolumeCB) (hin : s.ParityField inp)
    (hout : s.ParityField out) (hne : inp.v ≠ out.v) (h1 : s.tmp1 = none) :
    ∃ p0 p1 : QudaParity,
      (DiracCloverPC.M E out inp s).isOk = true ∧
      (DiracCloverHasenbuschTwistPC.M E out inp s).isOk = true ∧
      hoppingParities (DiracCloverPC.M E out inp s).state.trace =
        hoppingParities s.trace ++ [p0, p1] ∧
      hoppingParities (DiracCloverHasenbuschTwistPC.M E out inp s).state.trace =
        hoppingParities s.trace ++ [p0, p1] ∧
      (p0, p1) = DiracCloverPC.parity s.matpcType ∧
      ((s.matpcType = QUDA_MATPC_EVEN_EVEN ∨ s.matpcType = QUDA_MATPC_EVEN_EVEN_ASYMMETRIC) →
        p0 = QUDA_ODD_PARITY ∧ p1 = QUDA_EVEN_PARITY) ∧
      ((s.matpcType = QUDA_MATPC_ODD_ODD ∨ s.matpcType = QUDA_MATPC_ODD_ODD_ASYMMETRIC) →
        p0 = QUDA_EVEN_PARITY ∧ p1 = QUDA_ODD_PARITY) := by
  refine ⟨(DiracCloverPC.parity s.matpcType).1, (DiracCloverPC.parity s.matpcType).2,
    ?_, ?_, ?_, ?_, rfl, ?_, ?_⟩
  · rw [DiracCloverPC.M_run E out inp s hE hin hout hne h1]; rfl
  · rw [DiracCloverHasenbuschTwistPC.M_twisted_run E out inp s hE hin hout hne h1]; rfl
  · rw [DiracCloverPC.M_run E out inp s hE hin hout hne h1]
    cases ht : s.matpcType <;> cases hd : s.dagger <;>
      simp [Result.state, hoppingParities, KernelCall.hoppingParity,
        DiracCloverPC.parity_cases, DiracCloverPC.symmetric_cases, List.filterMap_append]
  · rw [DiracCloverHasenbuschTwistPC.M_twisted_run E out inp s hE hin hout hne h1]
    cases ht : s.matpcType <;> cases hd : s.dagger <;>
      simp [Result.state, hoppingParities, KernelCall.hoppingParity,
        DiracCloverPC.parity_cases, DiracCloverPC.symmetric_cases, List.filterMap_append]
  · rintro (h | h) <;> rw [h] <;> exact ⟨rfl, rfl⟩
  · rintro (h | h) <;> rw [h] <;> exact ⟨rfl, rfl⟩

/-- C16 (amended), on the example: with tag ODD_ODD both methods pass (EVEN, ODD). -/
theorem C16_parity_selection_witness :
    hoppingParities (DiracCloverPC.M (Example.kernels ℚ) (parityField 8 1) (parityField 8 0)
        (Example.state ℚ QUDA_MATPC_ODD_ODD false (1 / 8))).state.trace =
      [QUDA_EVEN_PARITY, QUDA_ODD_PARITY] ∧
    hoppingParities (DiracCloverHasenbuschTwistPC.M (Example.kernels ℚ) (parityField 8 1)
        (parityField 8 0) (Example.state ℚ QUDA_MATPC_ODD_ODD false (1 / 8))).state.trace =
      [QUDA_EVEN_PARITY, QUDA_ODD_PARITY] := by
  obtain ⟨p0, p1, _, _, h1, h2, _, _, h3⟩ :=
    C16_parity_selection (Example.kernels ℚ) (parityField 8 1) (parityField 8 0)
      (Example.state ℚ QUDA_MATPC_ODD_ODD false (1 / 8)) (Example.acceptsParity ℚ 8)
      ⟨rfl, rfl, by decide⟩ ⟨rfl, rfl, by decide⟩ (by decide) rfl
  obtain ⟨rfl, rfl⟩ := h3 (Or.inl rfl)
  exact ⟨h1, h2⟩

end Parity

end quda

/-! ## The branches of `DiracCloverHasenbuschTwistPC::M` -/

namespace quda

open QudaParity QudaMatPCType QudaSolutionType QudaDiracType QudaSiteSubset

section TwistedBranches

variable {K F : Type}

/-- Outcome of `DiracCloverPC::CloverInv` in every state. -/
theorem DiracCloverPC.CloverInv_run (E : External K F) (out inp : ColorSpinorField)
    (parity : QudaParity) (s : State K F) :
    DiracCloverPC.CloverInv E out inp parity s =
      (if E.checkParitySpinor inp out = true then
        (if inp.volume = s.clover.VolumeCB then
          .ok () { s with
            store := Function.update s.store out.v (E.ApplyClover (s.store inp.v) true parity)
            flops := s.flops + 504 * inp.volume
            trace := s.trace ++ [KernelCall.ApplyClover out inp true parity] }
         else .error QudaError.VolumeMismatch s)
      else .error QudaError.FieldMismatch s) := by
  rcases Classical.propComplete (E.checkParitySpinor inp out = true) with c | c <;>
  rcases Classical.propComplete (inp.volume = s.clover.VolumeCB) with d | d <;>
    simp only [DiracCloverPC.CloverInv, DiracClover.checkParitySpinor_run, ApplyClover,
      Quda.bind_run, addFlops_run, c, d, ↓reduceIte]

variable [Field K]

/-- Outcome of `DiracCloverPC::Dslash` in every state. -/
theorem DiracCloverPC.Dslash_run (E : External K F) (out inp : ColorSpinorField)
    (parity : QudaParity) (s : State K F) :
    DiracCloverPC.Dslash E out inp parity s =
      (if E.checkParitySpinor inp out = true then
        (if inp.volume = s.clover.VolumeCB then
          (if inp.v = out.v then .error QudaError.AliasError s
           else .ok () { s with
            store := Function.update s.store out.v
              (E.ApplyWilsonCloverPreconditioned (s.store inp.v) 0 (s.store inp.v) parity
                s.dagger)
            flops := s.flops + 1824 * inp.volume
            trace := s.trace ++
              [KernelCall.ApplyWilsonCloverPreconditioned out inp 0 inp parity s.dagger] })
         else .error QudaError.VolumeMismatch s)
      else .error QudaError.FieldMismatch s) := by
  rcases Classical.propComplete (E.checkParitySpinor inp out = true) with c | c <;>
  rcases Classical.propComplete (inp.volume = s.clover.VolumeCB) with d | d <;>
  rcases Classical.propComplete (inp.v = out.v) with a | a <;>
    simp only [DiracCloverPC.Dslash, DiracClover.checkParitySpinor_run,
      Dirac.checkSpinorAlias, ApplyWilsonCloverPreconditioned, Quda.bind_run, Quda.ite_run,
      Quda.pure_run, errorQuda_run, getState_run, addFlops_run, c, d, a, ↓reduceIte]

/-- The method `DiracCloverHasenbuschTwistPC::M` and the symmetric non-adjoint composition
of the specification agree in every state with a symmetric tag and the adjoint flag off. -/
theorem DiracCloverHasenbuschTwistPC.M_eq_twisted_symmetric (E : External K F)
    (out inp : ColorSpinorField) (s : State K F)
    (h : s.matpcType = QUDA_MATPC_EVEN_EVEN ∨ s.matpcType = QUDA_MATPC_ODD_ODD)
    (hd : s.dagger = false) :
    DiracCloverHasenbuschTwistPC.M E out inp s = Spec.M_twisted_symmetric E out inp s := by
  have hs : DiracCloverPC.symmetric s.matpcType = true := by
    rcases h with h | h <;> simp [h, DiracCloverPC.symmetric]
  cases h1 : s.tmp1 <;>
    simp only [DiracCloverHasenbuschTwistPC.M, Spec.M_twisted_symmetric, State.getTmp,
      State.setTmp, hs, hd, h1, DiracCloverPC.Dslash_run,
      Quda.bind_run, Quda.pure_run, Quda.ite_run, errorQuda_run, getState_run, addFlops_run,
      deref_run, deleteTmp_run, newTmp_run, ↓reduceIte, Bool.not_false, Bool.not_true, ne_eq,
      not_true_eq_false, not_false_eq_true, Bool.false_eq_true] <;>
    split_ifs <;> rfl

/-- The method `DiracCloverHasenbuschTwistPC::M` and the symmetric adjoint composition of
the specification agree in every state with a symmetric tag and the adjoint flag on. -/
theorem DiracCloverHasenbuschTwistPC.M_eq_twisted_adjoint (E : External K F)
    (out inp : ColorSpinorField) (s : State K F)
    (h : s.matpcType = QUDA_MATPC_EVEN_EVEN ∨ s.matpcType = QUDA_MATPC_ODD_ODD)
    (hd : s.dagger = true) :
    DiracCloverHasenbuschTwistPC.M E out inp s = Spec.M_twisted_adjoint E out inp s := by
  have hs : DiracCloverPC.symmetric s.matpcType = true := by
    rcases h with h | h <;> simp [h, DiracCloverPC.symmetric]
  cases h1 : s.tmp1 with
  | none =>
    rcases Classical.propComplete (E.checkParitySpinor inp out = true) with c1 | c1
    · rcases Classical.propComplete (inp.volume = s.clover.VolumeCB) with c2 | c2
      · rcases Classical.propComplete (E.checkParitySpinor out
        { siteSubset := inp.siteSubset, volume := inp.volume, v := s.brk,
          vOdd := s.brk + 1 } = true) with c3 | c3
        · rcases Classical.propComplete (out.volume = s.clover.VolumeCB) with c4 | c4
          · rcases Classical.propComplete (out.v = s.brk) with c5 | c5 <;>
            simp only [DiracCloverHasenbuschTwistPC.M, Spec.M_twisted_adjoint, State.getTmp,
              State.setTmp, hs, hd, h1, c1, c2, c3, c4, c5,
              DiracCloverPC.Dslash, DiracCloverPC.CloverInv, ApplyWilsonCloverPreconditioned,
                ApplyClover,
              DiracClover.checkParitySpinor, Dirac.checkParitySpinor, Dirac.checkSpinorAlias,
              Quda.bind_run, Quda.pure_run, Quda.ite_run, errorQuda_run, getState_run, addFlops_run,
              deref_run, deleteTmp_run, newTmp_run, ↓reduceIte, Bool.not_false, Bool.not_true,
                ne_eq,
              not_true_eq_false, not_false_eq_true, Bool.false_eq_true]
          · simp only [DiracCloverHasenbuschTwistPC.M, Spec.M_twisted_adjoint, State.getTmp,
            State.setTmp, hs, hd, h1, c1, c2, c3, c4,
              DiracCloverPC.Dslash, DiracCloverPC.CloverInv, ApplyWilsonCloverPreconditioned,
                ApplyClover,
              DiracClover.checkParitySpinor, Dirac.checkParitySpinor, Dirac.checkSpinorAlias,
              Quda.bind_run, Quda.pure_run, Quda.ite_run, errorQuda_run, getState_run, addFlops_run,
              deref_run, deleteTmp_run, newTmp_run, ↓reduceIte, Bool.not_false, Bool.not_true,
                ne_eq,
              not_true_eq_false, not_false_eq_true, Bool.false_eq_true]
        · simp only [DiracCloverHasenbuschTwistPC.M, Spec.M_twisted_adjoint, State.getTmp,
          State.setTmp, hs, hd, h1, c1, c2, c3,
            DiracCloverPC.Dslash, DiracCloverPC.CloverInv, ApplyWilsonCloverPreconditioned,
              ApplyClover,
            DiracClover.checkParitySpinor, Dirac.checkParitySpinor, Dirac.checkSpinorAlias,
            Quda.bind_run, Quda.pure_run, Quda.ite_run, errorQuda_run, getState_run, addFlops_run,
            deref_run, deleteTmp_run, newTmp_run, ↓reduceIte, Bool.not_false, Bool.not_true, ne_eq,
            not_true_eq_false, not_false_eq_true, Bool.false_eq_true]
      · simp only [DiracCloverHasenbuschTwistPC.M, Spec.M_twisted_adjoint, State.getTmp,
        State.setTmp, hs, hd, h1, c1, c2,
          DiracCloverPC.Dslash, DiracCloverPC.CloverInv, ApplyWilsonCloverPreconditioned,
            ApplyClover,
          DiracClover.checkParitySpinor, Dirac.checkParitySpinor, Dirac.checkSpinorAlias,
          Quda.bind_run, Quda.pure_run, Quda.ite_run, errorQuda_run, getState_run, addFlops_run,
          deref_run, deleteTmp_run, newTmp_run, ↓reduceIte, Bool.not_false, Bool.not_true, ne_eq,
          not_true_eq_false, not_false_eq_true, Bool.false_eq_true]
    · simp only [DiracCloverHasenbuschTwistPC.M, Spec.M_twisted_adjoint, State.getTmp,
      State.setTmp, hs, hd, h1, c1,
        DiracCloverPC.Dslash, DiracCloverPC.CloverInv, ApplyWilsonCloverPreconditioned, ApplyClover,
        DiracClover.checkParitySpinor, Dirac.checkParitySpinor, Dirac.checkSpinorAlias,
        Quda.bind_run, Quda.pure_run, Quda.ite_run, errorQuda_run, getState_run, addFlops_run,
        deref_run, deleteTmp_run, newTmp_run, ↓reduceIte, Bool.not_false, Bool.not_true, ne_eq,
        not_true_eq_false, not_false_eq_true, Bool.false_eq_true]
  | some t =>
    rcases Classical.propComplete (E.checkParitySpinor inp out = true) with c1 | c1
    · rcases Classical.propComplete (inp.volume = s.clover.VolumeCB) with c2 | c2
      · rcases Classical.propComplete (E.checkParitySpinor out t = true) with c3 | c3
        · rcases Classical.propComplete (out.volume = s.clover.VolumeCB) with c4 | c4
          · rcases Classical.propComplete (out.v = t.v) with c5 | c5 <;>
            simp only [DiracCloverHasenbuschTwistPC.M, Spec.M_twisted_adjoint, State.getTmp,
              State.setTmp, hs, hd, h1, c1, c2, c3, c4, c5,
              DiracCloverPC.Dslash, DiracCloverPC.CloverInv, ApplyWilsonCloverPreconditioned,
                ApplyClover,
              DiracClover.checkParitySpinor, Dirac.checkParitySpinor, Dirac.checkSpinorAlias,
              Quda.bind_run, Quda.pure_run, Quda.ite_run, errorQuda_run, getState_run, addFlops_run,
              deref_run, deleteTmp_run, newTmp_run, ↓reduceIte, Bool.not_false, Bool.not_true,
                ne_eq,
              not_true_eq_false, not_false_eq_true, Bool.false_eq_true]
          · simp only [DiracCloverHasenbuschTwistPC.M, Spec.M_twisted_adjoint, State.getTmp,
            State.setTmp, hs, hd, h1, c1, c2, c3, c4,
              DiracCloverPC.Dslash, DiracCloverPC.CloverInv, ApplyWilsonCloverPreconditioned,
                ApplyClover,
              DiracClover.checkParitySpinor, Dirac.checkParitySpinor, Dirac.checkSpinorAlias,
              Quda.bind_run, Quda.pure_run, Quda.ite_run, errorQuda_run, getState_run, addFlops_run,
              deref_run, deleteTmp_run, newTmp_run, ↓reduceIte, Bool.not_false, Bool.not_true,
                ne_eq,
              not_true_eq_false, not_false_eq_true, Bool.false_eq_true]
        · simp only [DiracCloverHasenbuschTwistPC.M, Spec.M_twisted_adjoint, State.getTmp,
          State.setTmp, hs, hd, h1, c1, c2, c3,
            DiracCloverPC.Dslash, DiracCloverPC.CloverInv, ApplyWilsonCloverPreconditioned,
              ApplyClover,
            DiracClover.checkParitySpinor, Dirac.checkParitySpinor, Dirac.checkSpinorAlias,
            Quda.bind_run, Quda.pure_run, Quda.ite_run, errorQuda_run, getState_run, addFlops_run,
            deref_run, deleteTmp_run, newTmp_run, ↓reduceIte, Bool.not_false, Bool.not_true, ne_eq,
            not_true_eq_false, not_false_eq_true, Bool.false_eq_true]
      · simp only [DiracCloverHasenbuschTwistPC.M, Spec.M_twisted_adjoint, State.getTmp,
        State.setTmp, hs, hd, h1, c1, c2,
          DiracCloverPC.Dslash, DiracCloverPC.CloverInv, ApplyWilsonCloverPreconditioned,
            ApplyClover,
          DiracClover.checkParitySpinor, Dirac.checkParitySpinor, Dirac.checkSpinorAlias,
          Quda.bind_run, Quda.pure_run, Quda.ite_run, errorQuda_run, getState_run, addFlops_run,
          deref_run, deleteTmp_run, newTmp_run, ↓reduceIte, Bool.not_false, Bool.not_true, ne_eq,
          not_true_eq_false, not_false_eq_true, Bool.false_eq_true]
    · simp only [DiracCloverHasenbuschTwistPC.M, Spec.M_twisted_adjoint, State.getTmp,
      State.setTmp, hs, hd, h1, c1,
        DiracCloverPC.Dslash, DiracCloverPC.CloverInv, ApplyWilsonCloverPreconditioned, ApplyClover,
        DiracClover.checkParitySpinor, Dirac.checkParitySpinor, Dirac.checkSpinorAlias,
        Quda.bind_run, Quda.pure_run, Quda.ite_run, errorQuda_run, getState_run, addFlops_run,
        deref_run, deleteTmp_run, newTmp_run, ↓reduceIte, Bool.not_false, Bool.not_true, ne_eq,
        not_true_eq_false, not_false_eq_true, Bool.false_eq_true]

/-- The method `DiracCloverHasenbuschTwistPC::M` and the asymmetric composition ending in
the `k, b` overload of `DiracClover::DslashXpay` agree in every state with an ASYMMETRIC
tag. -/
theorem DiracCloverHasenbuschTwistPC.M_eq_twisted_asymmetric (E : External K F)
    (out inp : ColorSpinorField) (s : State K F)
    (h : s.matpcType = QUDA_MATPC_EVEN_EVEN_ASYMMETRIC ∨
      s.matpcType = QUDA_MATPC_ODD_ODD_ASYMMETRIC) :
    DiracCloverHasenbuschTwistPC.M E out inp s = Spec.M_twisted_asymmetric E out inp s := by
  have hs : DiracCloverPC.symmetric s.matpcType = false := by
    rcases h with h | h <;> simp [h, DiracCloverPC.symmetric]
  cases h1 : s.tmp1 <;>
    simp only [DiracCloverHasenbuschTwistPC.M, Spec.M_twisted_asymmetric, State.getTmp,
      State.setTmp, hs, h1, DiracCloverPC.Dslash_run,
      Quda.bind_run, Quda.pure_run, Quda.ite_run, errorQuda_run, getState_run, addFlops_run,
      deref_run, deleteTmp_run, newTmp_run, ↓reduceIte, Bool.not_false, Bool.not_true, ne_eq,
      not_true_eq_false, not_false_eq_true, Bool.false_eq_true] <;>
    split_ifs <;> rfl

/-- C17: for the tags EVEN_EVEN and ODD_ODD, with `(p0, p1)` the parity pair of
`DiracCloverPC::M`, the method `DiracCloverHasenbuschTwistPC::M` is, without the adjoint
flag, `DiracCloverPC::Dslash(in, p0)` into the scratch field followed by
`DslashXpayTwistClovInv(.., p1, x = in, k = -kappa*kappa, b = mu)`, and with the adjoint flag
`CloverInv(in, p1)` into `out`, `DiracCloverPC::Dslash` of that on `p0` into the scratch
field, then `DslashXpayTwistNoClovInv(.., p1, x = in, k = -kappa*kappa, b = mu)`: the same
outcome as these compositions in every state.  On valid fields it returns, `out` holds the
value of the twisted kernel at the values of the kernels before it, and its kernel launches
are those of `DiracCloverPC::M` in the same state with the final one replaced: the launches
before the final one are the same, and the final one has the same fields, coefficient and
parity, with the twisted kernel and `mu` in place of the plain kernel. -/
theorem C17_twisted_symmetric_branches (E : External K F) (out inp : ColorSpinorField)
    (s : State K F)
    (h : s.matpcType = QUDA_MATPC_EVEN_EVEN ∨ s.matpcType = QUDA_MATPC_ODD_ODD) :
    (s.dagger = false →
      DiracCloverHasenbuschTwistPC.M E out inp s = Spec.M_twisted_symmetric E out inp s ∧
      (E.AcceptsParity s.clover.VolumeCB → s.ParityField inp → s.ParityField out →
        inp.v ≠ out.v → s.tmp1 = none →
        ∃ s1 s2, DiracCloverHasenbuschTwistPC.M E out inp s = .ok () s1 ∧
          DiracCloverPC.M E out inp s = .ok () s2 ∧
          s1.store out.v = E.ApplyWilsonCloverHasenbuschTwistPCClovInv
            (E.ApplyWilsonCloverPreconditioned (s.store inp.v) 0 (s.store inp.v) (DiracCloverPC.parity s.matpcType).1 false)
            (-s.kappa * s.kappa) s.mu (s.store inp.v) (DiracCloverPC.parity s.matpcType).2 false ∧
          s1.trace = s.trace ++
            [KernelCall.ApplyWilsonCloverPreconditioned
                { siteSubset := inp.siteSubset, volume := inp.volume, v := s.brk, vOdd := s.brk + 1 }
                inp 0 inp (DiracCloverPC.parity s.matpcType).1 false,
              KernelCall.ApplyWilsonCloverHasenbuschTwistPCClovInv out
                { siteSubset := inp.siteSubset, volume := inp.volume, v := s.brk, vOdd := s.brk + 1 }
                (-s.kappa * s.kappa) s.mu inp (DiracCloverPC.parity s.matpcType).2 false] ∧
          s2.trace = s.trace ++
            [KernelCall.ApplyWilsonCloverPreconditioned
                { siteSubset := inp.siteSubset, volume := inp.volume, v := s.brk, vOdd := s.brk + 1 }
                inp 0 inp (DiracCloverPC.parity s.matpcType).1 false,
              KernelCall.ApplyWilsonCloverPreconditioned out
                { siteSubset := inp.siteSubset, volume := inp.volume, v := s.brk, vOdd := s.brk + 1 }
                (-s.kappa * s.kappa) inp (DiracCloverPC.parity s.matpcType).2 false])) ∧
    (s.dagger = true →
      DiracCloverHasenbuschTwistPC.M E out inp s = Spec.M_twisted_adjoint E out inp s ∧
      (E.AcceptsParity s.clover.VolumeCB → s.ParityField inp → s.ParityField out →
        inp.v ≠ out.v → s.tmp1 = none →
        ∃ s1 s2, DiracCloverHasenbuschTwistPC.M E out inp s = .ok () s1 ∧
          DiracCloverPC.M E out inp s = .ok () s2 ∧
          s1.store out.v = E.ApplyWilsonCloverHasenbuschTwistPCNoClovInv
            (E.ApplyWilsonCloverPreconditioned
              (E.ApplyClover (s.store inp.v) true (DiracCloverPC.parity s.matpcType).2) 0
              (E.ApplyClover (s.store inp.v) true (DiracCloverPC.parity s.matpcType).2) (DiracCloverPC.parity s.matpcType).1 true)
            (-s.kappa * s.kappa) s.mu (s.store inp.v) (DiracCloverPC.parity s.matpcType).2 true ∧
          s1.trace = s.trace ++
            [KernelCall.ApplyClover out inp true (DiracCloverPC.parity s.matpcType).2,
              KernelCall.ApplyWilsonCloverPreconditioned
                { siteSubset := inp.siteSubset, volume := inp.volume, v := s.brk, vOdd := s.brk + 1 }
                out 0 out (DiracCloverPC.parity s.matpcType).1 true,
              KernelCall.ApplyWilsonCloverHasenbuschTwistPCNoClovInv out
                { siteSubset := inp.siteSubset, volume := inp.volume, v := s.brk, vOdd := s.brk + 1 }
                (-s.kappa * s.kappa) s.mu inp (DiracCloverPC.parity s.matpcType).2 true] ∧
          s2.trace = s.trace ++
            [KernelCall.ApplyClover out inp true (DiracCloverPC.parity s.matpcType).2,
              KernelCall.ApplyWilsonCloverPreconditioned
                { siteSubset := inp.siteSubset, volume := inp.volume, v := s.brk, vOdd := s.brk + 1 }
                out 0 out (DiracCloverPC.parity s.matpcType).1 true,
              KernelCall.ApplyWilson out
                { siteSubset := inp.siteSubset, volume := inp.volume, v := s.brk, vOdd := s.brk + 1 }
                (-s.kappa * s.kappa) inp (DiracCloverPC.parity s.matpcType).2 true])) := by
  have hs : DiracCloverPC.symmetric s.matpcType = true := by
    rcases h with h | h <;> simp [h, DiracCloverPC.symmetric]
  constructor
  · intro hd
    refine ⟨DiracCloverHasenbuschTwistPC.M_eq_twisted_symmetric E out inp s h hd,
      fun hE hin hout hne h1 => ?_⟩
    refine ⟨_, _, DiracCloverHasenbuschTwistPC.M_twisted_run E out inp s hE hin hout hne h1,
      DiracCloverPC.M_run E out inp s hE hin hout hne h1, ?_, ?_, ?_⟩ <;>
      simp only [hs, hd, ↓reduceIte, Function.update_same, Bool.true_eq_false]
  · intro hd
    refine ⟨DiracCloverHasenbuschTwistPC.M_eq_twisted_adjoint E out inp s h hd,
      fun hE hin hout hne h1 => ?_⟩
    refine ⟨_, _, DiracCloverHasenbuschTwistPC.M_twisted_run E out inp s hE hin hout hne h1,
      DiracCloverPC.M_run E out inp s hE hin hout hne h1, ?_, ?_, ?_⟩ <;>
      simp only [hs, hd, ↓reduceIte, Function.update_same, Bool.true_eq_false]

/-- C17, on the example: with tag EVEN_EVEN, `kappa = 1/8`, `mu = 1/3` and `in` holding 1,
`DiracCloverHasenbuschTwistPC::M` returns with `out` holding
`1 + (1/3) * (1/2) - (1/64) * (1/2) * 3 * (5/4)` without the adjoint flag and
`1 + 1/3 - (1/64) * 5 * (1/4) * 3 * (1/2)` with it. -/
theorem C17_twisted_symmetric_witness :
    (∃ s1, DiracCloverHasenbuschTwistPC.M (Example.kernels ℚ) (parityField 8 1)
        (parityField 8 0) (Example.state ℚ QUDA_MATPC_EVEN_EVEN false (1 / 8)) = .ok () s1 ∧
      s1.store 1 = 1 + 1 / 6 - 15 / 512) ∧
    (∃ s1, DiracCloverHasenbuschTwistPC.M (Example.kernels ℚ) (parityField 8 1)
        (parityField 8 0) (Example.state ℚ QUDA_MATPC_EVEN_EVEN true (1 / 8)) = .ok () s1 ∧
      s1.store 1 = 1 + 1 / 3 - 15 / 512) := by
  obtain ⟨s1, _, h1, _, h2, _⟩ :=
    ((C17_twisted_symmetric_branches (Example.kernels ℚ) (parityField 8 1) (parityField 8 0)
      (Example.state ℚ QUDA_MATPC_EVEN_EVEN false (1 / 8)) (Or.inl rfl)).1 rfl).2
      (Example.acceptsParity ℚ 8) ⟨rfl, rfl, by decide⟩ ⟨rfl, rfl, by decide⟩ (by decide) rfl
  obtain ⟨t1, _, g1, _, g2, _⟩ :=
    ((C17_twisted_symmetric_branches (Example.kernels ℚ) (parityField 8 1) (parityField 8 0)
      (Example.state ℚ QUDA_MATPC_EVEN_EVEN true (1 / 8)) (Or.inl rfl)).2 rfl).2
      (Example.acceptsParity ℚ 8) ⟨rfl, rfl, by decide⟩ ⟨rfl, rfl, by decide⟩ (by decide) rfl
  refine ⟨⟨s1, h1, ?_⟩, ⟨t1, g1, ?_⟩⟩
  · rw [show (parityField 8 1).v = 1 from rfl] at h2
    rw [h2]
    simp [Example.kernels, Example.state, parityField, DiracCloverPC.parity_cases,
      Example.clov, Example.hop]
    norm_num
  · rw [show (parityField 8 1).v = 1 from rfl] at g2
    rw [g2]
    simp [Example.kernels, Example.state, parityField, DiracCloverPC.parity_cases,
      Example.clov, Example.hop]
    norm_num

end TwistedBranches

end quda

/-! ## The asymmetric branch of `DiracCloverHasenbuschTwistPC::M` -/

namespace quda

open QudaParity QudaMatPCType QudaSolutionType QudaDiracType QudaSiteSubset

section TwistedAsymmetric

/-- C18, as stated, fails on the example (tag EVEN_EVEN_ASYMMETRIC, `kappa = 1/8`,
`mu = 1/3`, `in` holding 1): the final kernel launch of `DiracCloverHasenbuschTwistPC::M` is
the `k, b` overload of `ApplyWilsonClover` with `b = mu`, that of `DiracCloverPC::M` the
plain `ApplyWilsonClover`, so the two logs of kernel launches differ; and with the example
kernels `out` holds `2 + 1/3 - 15/256` after the first and `2 - 15/256` after the second. -/
theorem C18_asymmetric_counterexample :
    (DiracCloverHasenbuschTwistPC.M (Example.kernels ℚ) (parityField 8 1) (parityField 8 0)
        (Example.state ℚ QUDA_MATPC_EVEN_EVEN_ASYMMETRIC false (1 / 8))).state.trace =
      [KernelCall.ApplyWilsonCloverPreconditioned
          { siteSubset := QUDA_PARITY_SITE_SUBSET, volume := 8, v := 6, vOdd := 7 }
          (parityField 8 0) 0 (parityField 8 0) QUDA_ODD_PARITY false,
        KernelCall.ApplyWilsonCloverTwist (parityField 8 1)
          { siteSubset := QUDA_PARITY_SITE_SUBSET, volume := 8, v := 6, vOdd := 7 }
          (-(1 / 8) * (1 / 8)) (1 / 3) (parityField 8 0) QUDA_EVEN_PARITY false] ∧
    (DiracCloverPC.M (Example.kernels ℚ) (parityField 8 1) (parityField 8 0)
        (Example.state ℚ QUDA_MATPC_EVEN_EVEN_ASYMMETRIC false (1 / 8))).state.trace =
      [KernelCall.ApplyWilsonCloverPreconditioned
          { siteSubset := QUDA_PARITY_SITE_SUBSET, volume := 8, v := 6, vOdd := 7 }
          (parityField 8 0) 0 (parityField 8 0) QUDA_ODD_PARITY false,
        KernelCall.ApplyWilsonClover (parityField 8 1)
          { siteSubset := QUDA_PARITY_SITE_SUBSET, volume := 8, v := 6, vOdd := 7 }
          (-(1 / 8) * (1 / 8)) (parityField 8 0) QUDA_EVEN_PARITY false] ∧
    (DiracCloverHasenbuschTwistPC.M (Example.kernels ℚ) (parityField 8 1) (parityField 8 0)
        (Example.state ℚ QUDA_MATPC_EVEN_EVEN_ASYMMETRIC false (1 / 8))).state.trace ≠
      (DiracCloverPC.M (Example.kernels ℚ) (parityField 8 1) (parityField 8 0)
        (Example.state ℚ QUDA_MATPC_EVEN_EVEN_ASYMMETRIC false (1 / 8))).state.trace ∧
    (DiracCloverHasenbuschTwistPC.M (Example.kernels ℚ) (parityField 8 1) (parityField 8 0)
        (Example.state ℚ QUDA_MATPC_EVEN_EVEN_ASYMMETRIC false (1 / 8))).state.store 1 =
      2 + 1 / 3 - 15 / 256 ∧
    (DiracCloverPC.M (Example.kernels ℚ) (parityField 8 1) (parityField 8 0)
        (Example.state ℚ QUDA_MATPC_EVEN_EVEN_ASYMMETRIC false (1 / 8))).state.store 1 =
      2 - 15 / 256 ∧
    (DiracCloverHasenbuschTwistPC.M (Example.kernels ℚ) (parityField 8 1) (parityField 8 0)
        (Example.state ℚ QUDA_MATPC_EVEN_EVEN_ASYMMETRIC false (1 / 8))).state.store 1 ≠
      (DiracCloverPC.M (Example.kernels ℚ) (parityField 8 1) (parityField 8 0)
        (Example.state ℚ QUDA_MATPC_EVEN_EVEN_ASYMMETRIC false (1 / 8))).state.store 1 := by
  rw [DiracCloverHasenbuschTwistPC.M_twisted_run _ _ _ _ (Example.acceptsParity ℚ 8)
      ⟨rfl, rfl, by decide⟩ ⟨rfl, rfl, by decide⟩ (by decide) rfl,
    DiracCloverPC.M_run _ _ _ _ (Example.acceptsParity ℚ 8) ⟨rfl, rfl, by decide⟩
      ⟨rfl, rfl, by decide⟩ (by decide) rfl]
  simp only [DiracCloverPC.symmetric_cases, DiracCloverPC.parity_cases, Example.state,
    ↓reduceIte, Result.state, List.nil_append, parityField, Function.update_same]
  refine ⟨trivial, trivial, ?_, ?_, ?_, ?_⟩
  · intro h
    simp only [List.cons.injEq, reduceCtorEq, and_false, false_and] at h
  · simp [Example.kernels, Example.clov, Example.hop]
    norm_num
  · simp [Example.kernels, Example.clov, Example.hop]
    norm_num
  · simp [Example.kernels, Example.clov, Example.hop]

variable {K F : Type} [Field K]

/-- C18 (amended): for the tags EVEN_EVEN_ASYMMETRIC and ODD_ODD_ASYMMETRIC,
`DiracCloverHasenbuschTwistPC::M` is `DiracCloverPC::Dslash(in, p0)` into the scratch field
followed by the `k, b` overload `DiracClover::DslashXpay(.., p1, x = in, k = -kappa*kappa,
b = mu)`: the same outcome as this composition in every state.  On valid fields it returns
and so does `DiracCloverPC::M`; the first kernel launch of the two methods is the same, with
the same arguments, and leaves the same contents in the scratch field; the final launch has
the same fields, coefficient, parity and adjoint flag in both, but is the `k, b` overload of
`ApplyWilsonClover` with `b = mu` in the twisted method and the plain `ApplyWilsonClover` in
`DiracCloverPC::M`, and `out` holds the value of the respective kernel. -/
theorem C18_twisted_asymmetric_branch (E : External K F) (out inp : ColorSpinorField)
    (s : State K F)
    (h : s.matpcType = QUDA_MATPC_EVEN_EVEN_ASYMMETRIC ∨
      s.matpcType = QUDA_MATPC_ODD_ODD_ASYMMETRIC) :
    DiracCloverHasenbuschTwistPC.M E out inp s = Spec.M_twisted_asymmetric E out inp s ∧
    (E.AcceptsParity s.clover.VolumeCB → s.ParityField inp → s.ParityField out →
      inp.v ≠ out.v → s.tmp1 = none →
      ∃ s1 s2, DiracCloverHasenbuschTwistPC.M E out inp s = .ok () s1 ∧
        DiracCloverPC.M E out inp s = .ok () s2 ∧
        s1.trace = s.trace ++
          [KernelCall.ApplyWilsonCloverPreconditioned
              { siteSubset := inp.siteSubset, volume := inp.volume, v := s.brk, vOdd := s.brk + 1 }
              inp 0 inp (DiracCloverPC.parity s.matpcType).1 s.dagger,
            KernelCall.ApplyWilsonCloverTwist out
              { siteSubset := inp.siteSubset, volume := inp.volume, v := s.brk, vOdd := s.brk + 1 }
              (-s.kappa * s.kappa) s.mu inp (DiracCloverPC.parity s.matpcType).2 s.dagger] ∧
        s2.trace = s.trace ++
          [KernelCall.ApplyWilsonCloverPreconditioned
              { siteSubset := inp.siteSubset, volume := inp.volume, v := s.brk, vOdd := s.brk + 1 }
              inp 0 inp (DiracCloverPC.parity s.matpcType).1 s.dagger,
            KernelCall.ApplyWilsonClover out
              { siteSubset := inp.siteSubset, volume := inp.volume, v := s.brk, vOdd := s.brk + 1 }
              (-s.kappa * s.kappa) inp (DiracCloverPC.parity s.matpcType).2 s.dagger] ∧
        s1.store s.brk = s2.store s.brk ∧
        s1.store out.v = E.ApplyWilsonCloverTwist
          (E.ApplyWilsonCloverPreconditioned (s.store inp.v) 0 (s.store inp.v)
            (DiracCloverPC.parity s.matpcType).1 s.dagger)
          (-s.kappa * s.kappa) s.mu (s.store inp.v) (DiracCloverPC.parity s.matpcType).2 s.dagger ∧
        s2.store out.v = E.ApplyWilsonClover
          (E.ApplyWilsonCloverPreconditioned (s.store inp.v) 0 (s.store inp.v)
            (DiracCloverPC.parity s.matpcType).1 s.dagger)
          (-s.kappa * s.kappa) (s.store inp.v) (DiracCloverPC.parity s.matpcType).2 s.dagger) := by
  have hs : DiracCloverPC.symmetric s.matpcType = false := by
    rcases h with h | h <;> simp [h, DiracCloverPC.symmetric]
  refine ⟨DiracCloverHasenbuschTwistPC.M_eq_twisted_asymmetric E out inp s h,
    fun hE hin hout hne h1 => ?_⟩
  have a3 : s.brk ≠ out.v := by
    have := hout.2.2
    omega
  refine ⟨_, _, DiracCloverHasenbuschTwistPC.M_twisted_run E out inp s hE hin hout hne h1,
    DiracCloverPC.M_run E out inp s hE hin hout hne h1, ?_, ?_, ?_, ?_, ?_⟩ <;>
    simp only [hs, ↓reduceIte, Function.update_same, ne_eq, a3, not_false_eq_true,
      Function.update_noteq]

/-- C18 (amended), on the example: with tag EVEN_EVEN_ASYMMETRIC, `kappa = 1/8`,
`mu = 1/3` and `in` holding 1, `DiracCloverHasenbuschTwistPC::M` returns with `out` holding
`2 + 1/3 - (1/64) * 3 * (5/4)`. -/
theorem C18_twisted_asymmetric_witness :
    ∃ s1, DiracCloverHasenbuschTwistPC.M (Example.kernels ℚ) (parityField 8 1)
        (parityField 8 0) (Example.state ℚ QUDA_MATPC_EVEN_EVEN_ASYMMETRIC false (1 / 8)) =
          .ok () s1 ∧
      s1.store 1 = 2 + 1 / 3 - 15 / 256 := by
  obtain ⟨s1, _, h1, _, _, _, _, h2, _⟩ :=
    (C18_twisted_asymmetric_branch (Example.kernels ℚ) (parityField 8 1) (parityField 8 0)
      (Example.state ℚ QUDA_MATPC_EVEN_EVEN_ASYMMETRIC false (1 / 8)) (Or.inl rfl)).2
      (Example.acceptsParity ℚ 8) ⟨rfl, rfl, by decide⟩ ⟨rfl, rfl, by decide⟩ (by decide) rfl
  refine ⟨s1, h1, ?_⟩
  rw [show (parityField 8 1).v = 1 from rfl] at h2
  rw [h2]
  simp [Example.kernels, Example.state, parityField, DiracCloverPC.parity_cases,
    Example.clov, Example.hop]
  norm_num

end TwistedAsymmetric

end quda

/-! ## Scratch lifecycle -/

namespace quda

open QudaParity QudaMatPCType QudaSolutionType QudaDiracType QudaSiteSubset

section Scratch

variable {K F α β : Type}

/-- A method that leaves both scratch pointers alone, whether it returns or aborts, keeps the
scratch discipline. -/
theorem Quda.ScratchDiscipline.scratch_of_frame (m : Quda K F α)
    (h : ∀ s, (m s).state.tmp1 = s.tmp1 ∧ (m s).state.tmp2 = s.tmp2) :
    Quda.ScratchDiscipline m := by
  intro s
  refine ⟨fun _ => h s, fun slot t hs => ?_⟩
  cases slot
  · simpa only [State.getTmp, (h s).1] using hs
  · simpa only [State.getTmp, (h s).2] using hs

/-- The scratch discipline is kept by sequencing. -/
theorem Quda.ScratchDiscipline.scratch_bind (x : Quda K F α) (f : α → Quda K F β)
    (hx : Quda.ScratchDiscipline x) (hf : ∀ a, Quda.ScratchDiscipline (f a)) :
    Quda.ScratchDiscipline (x >>= f) := by
  intro s
  rw [Quda.bind_run]
  have h0 := hx s
  cases hxs : x s with
  | error e s1 =>
    rw [hxs] at h0
    exact ⟨fun h => absurd h (by simp [Result.isOk]), h0.2⟩
  | ok a s1 =>
    rw [hxs] at h0
    obtain ⟨h1, h2⟩ := h0.1 rfl
    have g := hf a s1
    have e1 : s1.tmp1 = s.tmp1 := h1
    have e2 : s1.tmp2 = s.tmp2 := h2
    refine ⟨fun h => ?_, fun slot t hs => ?_⟩
    · have := g.1 h
      exact ⟨this.1.trans e1, this.2.trans e2⟩
    · refine g.2 slot t ?_
      cases slot
      · simpa only [State.getTmp, e1] using hs
      · simpa only [State.getTmp, e2] using hs

/-- The scratch discipline is kept by a conditional. -/
theorem Quda.ScratchDiscipline.scratch_ite (c : Prop) [Decidable c] (x y : Quda K F α)
    (hx : Quda.ScratchDiscipline x) (hy : Quda.ScratchDiscipline y) :
    Quda.ScratchDiscipline (if c then x else y) := by
  split
  · exact hx
  · exact hy

/-- Sequencing a method that keeps the scratch discipline before the release. -/
theorem Quda.ReleasesScratch.release_bind (slot : TmpSlot) (reset : Bool) (x : Quda K F α)
    (f : α → Quda K F β) (hx : Quda.ScratchDiscipline x)
    (hf : ∀ a, Quda.ReleasesScratch slot reset (f a)) :
    Quda.ReleasesScratch slot reset (x >>= f) := by
  intro s
  rw [Quda.bind_run]
  have h0 := hx s
  cases hxs : x s with
  | error e s1 =>
    rw [hxs] at h0
    exact ⟨fun h => absurd h (by simp [Result.isOk]), fun _ => h0.2⟩
  | ok a s1 =>
    rw [hxs] at h0
    obtain ⟨h1, h2⟩ := h0.1 rfl
    have g := hf a s1
    have e1 : s1.tmp1 = s.tmp1 := h1
    have e2 : s1.tmp2 = s.tmp2 := h2
    have e : ∀ other, s1.getTmp other = s.getTmp other := by
      intro other
      cases other
      · exact e1
      · exact e2
    refine ⟨fun h => ?_, fun h other t hs => ?_⟩
    · have := g.1 h
      refine ⟨by rw [this.1, e], fun other ho => by rw [this.2 other ho, e]⟩
    · exact g.2 h other t (by rw [e]; exact hs)

/-- The release is kept by a conditional. -/
theorem Quda.ReleasesScratch.release_ite (slot : TmpSlot) (reset : Bool) (c : Prop) [Decidable c]
    (x y : Quda K F α) (hx : Quda.ReleasesScratch slot reset x)
    (hy : Quda.ReleasesScratch slot reset y) :
    Quda.ReleasesScratch slot reset (if c then x else y) := by
  split
  · exact hx
  · exact hy

/-- The call `deleteTmp(&slot, reset)` is a release. -/
theorem Quda.ReleasesScratch.release_deleteTmp (slot : TmpSlot) (reset : Bool) :
    Quda.ReleasesScratch slot reset (deleteTmp slot reset : Quda K F Unit) := by
  intro s
  rw [deleteTmp_run]
  cases reset
  · exact ⟨fun _ => ⟨rfl, fun _ _ => rfl⟩, fun h => absurd h (by simp [Result.isOk])⟩
  · refine ⟨fun _ => ⟨?_, fun other ho => ?_⟩, fun h => absurd h (by simp [Result.isOk])⟩
    · cases slot <;> rfl
    · cases slot <;> cases other <;> first | rfl | exact absurd rfl ho

/-- A release followed by returning a value is a release. -/
theorem Quda.ReleasesScratch.release_then_pure (slot : TmpSlot) (reset : Bool) (x : Quda K F α)
    (b : β) (hx : Quda.ReleasesScratch slot reset x) :
    Quda.ReleasesScratch slot reset (x >>= fun _ => (pure b : Quda K F β)) := by
  intro s
  rw [Quda.bind_run]
  have h0 := hx s
  cases hxs : x s with
  | error e s1 =>
    rw [hxs] at h0
    exact ⟨fun h => absurd h (by simp [Result.isOk]), h0.2⟩
  | ok a s1 =>
    rw [hxs] at h0
    exact ⟨fun _ => h0.1 rfl, fun h => absurd h (by simp [Result.isOk])⟩

/-- Acquisition with `newTmp(&slot, ..)` followed by a release keeps the scratch
discipline. -/
theorem Quda.ScratchDiscipline.scratch_newTmp (slot : TmpSlot) (a : ColorSpinorField)
    (g : Bool → Quda K F α) (hg : ∀ reset, Quda.ReleasesScratch slot reset (g reset)) :
    Quda.ScratchDiscipline (newTmp slot a >>= g) := by
  have key : ∀ (s1 s : State K F),
      (∀ other, other ≠ slot → s1.getTmp other = s.getTmp other) →
      ∀ u : State K F, u.getTmp slot = s.getTmp slot →
        (∀ other, other ≠ slot → u.getTmp other = s1.getTmp other) →
        u.tmp1 = s.tmp1 ∧ u.tmp2 = s.tmp2 := by
    intro s1 s h1 u hu ho
    cases slot
    · exact ⟨hu, (ho .tmp2 (by decide)).trans (h1 .tmp2 (by decide))⟩
    · exact ⟨(ho .tmp1 (by decide)).trans (h1 .tmp1 (by decide)), hu⟩
  intro s
  rw [Quda.bind_run, newTmp_run]
  cases hs : s.getTmp slot with
  | some t0 =>
    have g0 := hg false s
    simp only [Bool.false_eq_true, ↓reduceIte] at g0
    refine ⟨fun h => ?_, fun other t ht => ?_⟩
    · obtain ⟨a1, a2⟩ := g0.1 h
      exact key s s (fun _ _ => rfl) _ a1 a2
    · cases hok : (g false s).isOk
      · exact g0.2 hok other t ht
      · obtain ⟨a1, a2⟩ := g0.1 hok
        by_cases ho : other = slot
        · subst ho
          show (g false s).state.getTmp other = some t
          rw [a1]; exact ht
        · show (g false s).state.getTmp other = some t
          rw [a2 other ho]; exact ht
  | none =>
    have g1 := hg true
      { s.setTmp slot
          (some { siteSubset := a.siteSubset, volume := a.volume, v := s.brk, vOdd := s.brk + 1 })
        with brk := s.brk + 2 }
    simp only [↓reduceIte] at g1
    have hother : ∀ other, other ≠ slot →
        State.getTmp { s.setTmp slot
          (some { siteSubset := a.siteSubset, volume := a.volume, v := s.brk, vOdd := s.brk + 1 })
          with brk := s.brk + 2 } other = s.getTmp other := by
      intro other ho
      cases slot <;> cases other <;> first | rfl | exact absurd rfl ho
    refine ⟨fun h => ?_, fun other t ht => ?_⟩
    · obtain ⟨a1, a2⟩ := g1.1 h
      exact key _ s hother _ (a1.trans hs.symm) a2
    · have ho : other ≠ slot := by
        intro e
        rw [e, hs] at ht
        cases ht
      cases hok : (g true _).isOk
      · exact g1.2 hok other t (by rw [hother other ho]; exact ht)
      · obtain ⟨a1, a2⟩ := g1.1 hok
        show (g true _).state.getTmp other = some t
        rw [a2 other ho, hother other ho]; exact ht

/-- The step `pure` leaves the scratch pointers alone. -/
theorem scratch_pure (a : α) : Quda.ScratchDiscipline (pure a : Quda K F α) :=
  Quda.ScratchDiscipline.scratch_of_frame _ (fun _ => ⟨rfl, rfl⟩)

/-- The step `errorQuda` leaves the scratch pointers alone. -/
theorem scratch_errorQuda (e : QudaError) : Quda.ScratchDiscipline (errorQuda e : Quda K F α) :=
  Quda.ScratchDiscipline.scratch_of_frame _ (fun _ => ⟨rfl, rfl⟩)

/-- The step `getState` leaves the scratch pointers alone. -/
theorem scratch_getState : Quda.ScratchDiscipline (getState : Quda K F (State K F)) :=
  Quda.ScratchDiscipline.scratch_of_frame _ (fun _ => ⟨rfl, rfl⟩)

/-- The step `addFlops` leaves the scratch pointers alone. -/
theorem scratch_addFlops (n : Nat) : Quda.ScratchDiscipline (addFlops n : Quda K F Unit) :=
  Quda.ScratchDiscipline.scratch_of_frame _ (fun _ => ⟨rfl, rfl⟩)

/-- The step `flipDagger` leaves the scratch pointers alone. -/
theorem scratch_flipDagger : Quda.ScratchDiscipline (Dirac.flipDagger : Quda K F Unit) :=
  Quda.ScratchDiscipline.scratch_of_frame _ (fun _ => ⟨rfl, rfl⟩)

/-- The step `ApplyClover` leaves the scratch pointers alone. -/
theorem scratch_ApplyClover (E : External K F) (out inp : ColorSpinorField) (inverse : Bool)
    (parity : QudaParity) : Quda.ScratchDiscipline (ApplyClover E out inp inverse parity) :=
  Quda.ScratchDiscipline.scratch_of_frame _ (fun _ => ⟨rfl, rfl⟩)

/-- The step `ApplyWilson` leaves the scratch pointers alone. -/
theorem scratch_ApplyWilson (E : External K F) (out inp : ColorSpinorField) (k : K) (x :
    ColorSpinorField) (parity : QudaParity) (dagger : Bool) : Quda.ScratchDiscipline (ApplyWilson
    E out inp k x parity dagger) :=
  Quda.ScratchDiscipline.scratch_of_frame _ (fun _ => ⟨rfl, rfl⟩)

/-- The step `ApplyWilsonClover` leaves the scratch pointers alone. -/
theorem scratch_ApplyWilsonClover (E : External K F) (out inp : ColorSpinorField) (k : K) (x :
    ColorSpinorField) (parity : QudaParity) (dagger : Bool) : Quda.ScratchDiscipline
    (ApplyWilsonClover E out inp k x parity dagger) :=
  Quda.ScratchDiscipline.scratch_of_frame _ (fun _ => by cases parity <;> exact ⟨rfl, rfl⟩)

/-- The step `ApplyWilsonCloverTwist` leaves the scratch pointers alone. -/
theorem scratch_ApplyWilsonCloverTwist (E : External K F) (out inp : ColorSpinorField) (k b : K)
    (x : ColorSpinorField) (parity : QudaParity) (dagger : Bool) : Quda.ScratchDiscipline
    (ApplyWilsonCloverTwist E out inp k b x parity dagger) :=
  Quda.ScratchDiscipline.scratch_of_frame _ (fun _ => ⟨rfl, rfl⟩)

/-- The step `ApplyWilsonCloverPreconditioned` leaves the scratch pointers alone. -/
theorem scratch_ApplyWilsonCloverPreconditioned (E : External K F) (out inp : ColorSpinorField)
    (k : K) (x : ColorSpinorField) (parity : QudaParity) (dagger : Bool) : Quda.ScratchDiscipline
    (ApplyWilsonCloverPreconditioned E out inp k x parity dagger) :=
  Quda.ScratchDiscipline.scratch_of_frame _ (fun _ => ⟨rfl, rfl⟩)

/-- The step `ApplyWilsonCloverHasenbuschTwist` leaves the scratch pointers alone. -/
theorem scratch_ApplyWilsonCloverHasenbuschTwist (E : External K F) (out inp : ColorSpinorField)
    (k b : K) (x : ColorSpinorField) (parity : QudaParity) (dagger : Bool) :
    Quda.ScratchDiscipline (ApplyWilsonCloverHasenbuschTwist E out inp k b x parity dagger) :=
  Quda.ScratchDiscipline.scratch_of_frame _ (fun _ => ⟨rfl, rfl⟩)

/-- The step `ApplyWilsonCloverHasenbuschTwistPCClovInv` leaves the scratch pointers alone. -/
theorem scratch_ApplyWilsonCloverHasenbuschTwistPCClovInv (E : External K F) (out inp :
    ColorSpinorField) (k b : K) (x : ColorSpinorField) (parity : QudaParity) (dagger : Bool) :
    Quda.ScratchDiscipline (ApplyWilsonCloverHasenbuschTwistPCClovInv E out inp k b x parity
    dagger) :=
  Quda.ScratchDiscipline.scratch_of_frame _ (fun _ => ⟨rfl, rfl⟩)

/-- The step `ApplyWilsonCloverHasenbuschTwistPCNoClovInv` leaves the scratch pointers alone. -/
theorem scratch_ApplyWilsonCloverHasenbuschTwistPCNoClovInv (E : External K F) (out inp :
    ColorSpinorField) (k b : K) (x : ColorSpinorField) (parity : QudaParity) (dagger : Bool) :
    Quda.ScratchDiscipline (ApplyWilsonCloverHasenbuschTwistPCNoClovInv E out inp k b x parity
    dagger) :=
  Quda.ScratchDiscipline.scratch_of_frame _ (fun _ => ⟨rfl, rfl⟩)

/-- The dereference of a scratch pointer leaves the scratch pointers alone. -/
theorem scratch_deref (slot : TmpSlot) : Quda.ScratchDiscipline (deref slot : Quda K F _) :=
  Quda.ScratchDiscipline.scratch_of_frame _ (fun s => by
    rw [deref_run]
    cases s.getTmp slot <;> exact ⟨rfl, rfl⟩)

/-- The base-class checks leave the scratch pointers alone. -/
theorem scratch_checkParitySpinor (E : External K F) (out inp : ColorSpinorField) :
    Quda.ScratchDiscipline (Dirac.checkParitySpinor E out inp) :=
  Quda.ScratchDiscipline.scratch_ite _ _ _ (scratch_pure _) (scratch_errorQuda _)

/-- The base-class checks leave the scratch pointers alone. -/
theorem scratch_checkFullSpinor (E : External K F) (out inp : ColorSpinorField) :
    Quda.ScratchDiscipline (Dirac.checkFullSpinor E out inp) :=
  Quda.ScratchDiscipline.scratch_ite _ _ _ (scratch_pure _) (scratch_errorQuda _)

/-- The base-class checks leave the scratch pointers alone. -/
theorem scratch_checkSpinorAlias (a b : ColorSpinorField) :
    Quda.ScratchDiscipline (Dirac.checkSpinorAlias a b : Quda K F Unit) :=
  Quda.ScratchDiscipline.scratch_ite _ _ _ (scratch_errorQuda _) (scratch_pure _)

/-- The method `DiracClover::checkParitySpinor` keeps the scratch discipline. -/
theorem scratch_checkParitySpinor_DiracClover (E : External K F) (out inp : ColorSpinorField) :
    Quda.ScratchDiscipline (DiracClover.checkParitySpinor E out inp) := by
  unfold DiracClover.checkParitySpinor
  repeat (first
    | with_reducible exact scratch_checkParitySpinor _ _ _
    | with_reducible exact scratch_getState
    | with_reducible exact scratch_errorQuda _
    | with_reducible exact scratch_pure _
    | with_reducible refine Quda.ScratchDiscipline.scratch_bind _ _ ?_ (fun _ => ?_)
    | with_reducible refine Quda.ScratchDiscipline.scratch_ite _ _ _ ?_ ?_)

/-- The method `DiracWilson::DslashXpay` keeps the scratch discipline. -/
theorem scratch_DslashXpay_DiracWilson (E : External K F) (out inp : ColorSpinorField) (parity : QudaParity) (x : ColorSpinorField) (k : K) :
    Quda.ScratchDiscipline (DiracWilson.DslashXpay E out inp parity x k) := by
  unfold DiracWilson.DslashXpay
  repeat (first
    | with_reducible exact scratch_getState
    | with_reducible exact scratch_ApplyWilson _ _ _ _ _ _ _
    | with_reducible exact scratch_addFlops _
    | with_reducible refine Quda.ScratchDiscipline.scratch_bind _ _ ?_ (fun _ => ?_))

/-- The method `DiracClover::DslashXpay` keeps the scratch discipline. -/
theorem scratch_DslashXpay_DiracClover (E : External K F) (out inp : ColorSpinorField) (parity : QudaParity) (x : ColorSpinorField) (k : K) :
    Quda.ScratchDiscipline (DiracClover.DslashXpay E out inp parity x k) := by
  unfold DiracClover.DslashXpay
  repeat (first
    | with_reducible exact scratch_checkParitySpinor_DiracClover _ _ _
    | with_reducible exact scratch_checkSpinorAlias _ _
    | with_reducible exact scratch_getState
    | with_reducible exact scratch_ApplyWilsonClover _ _ _ _ _ _ _
    | with_reducible exact scratch_addFlops _
    | with_reducible refine Quda.ScratchDiscipline.scratch_bind _ _ ?_ (fun _ => ?_))

/-- The method `DiracClover::DslashXpay (k, b)` keeps the scratch discipline. -/
theorem scratch_DslashXpay_b_DiracClover (E : External K F) (out inp : ColorSpinorField) (parity : QudaParity) (x : ColorSpinorField) (k b : K) :
    Quda.ScratchDiscipline (DiracClover.DslashXpay_b E out inp parity x k b) := by
  unfold DiracClover.DslashXpay_b
  repeat (first
    | with_reducible exact scratch_checkParitySpinor_DiracClover _ _ _
    | with_reducible exact scratch_checkSpinorAlias _ _
    | with_reducible exact scratch_getState
    | with_reducible exact scratch_ApplyWilsonCloverTwist _ _ _ _ _ _ _ _
    | with_reducible exact scratch_addFlops _
    | with_reducible refine Quda.ScratchDiscipline.scratch_bind _ _ ?_ (fun _ => ?_))

/-- The method `DiracClover::Clover` keeps the scratch discipline. -/
theorem scratch_Clover_DiracClover (E : External K F) (out inp : ColorSpinorField) (parity : QudaParity) :
    Quda.ScratchDiscipline (DiracClover.Clover E out inp parity) := by
  unfold DiracClover.Clover
  repeat (first
    | with_reducible exact scratch_checkParitySpinor_DiracClover _ _ _
    | with_reducible exact scratch_ApplyClover _ _ _ _ _
    | with_reducible exact scratch_addFlops _
    | with_reducible refine Quda.ScratchDiscipline.scratch_bind _ _ ?_ (fun _ => ?_))

/-- The method `Dirac::Mdag` keeps the scratch discipline. -/
theorem scratch_Mdag (M : ColorSpinorField → ColorSpinorField → Quda K F Unit)
    (hM : ∀ a b, Quda.ScratchDiscipline (M a b)) (out inp : ColorSpinorField) :
    Quda.ScratchDiscipline (Dirac.Mdag M out inp) := by
  unfold Dirac.Mdag
  repeat (first
    | with_reducible exact hM _ _
    | with_reducible exact scratch_flipDagger
    | with_reducible refine Quda.ScratchDiscipline.scratch_bind _ _ ?_ (fun _ => ?_))

/-- The method `DiracClover::prepare` keeps the scratch discipline. -/
theorem scratch_prepare_DiracClover (x b : ColorSpinorField) (solType : QudaSolutionType) :
    Quda.ScratchDiscipline ((DiracClover.prepare x b solType : Quda K F _)) := by
  unfold DiracClover.prepare
  repeat (first
    | with_reducible exact scratch_errorQuda _
    | with_reducible exact scratch_pure _
    | with_reducible refine Quda.ScratchDiscipline.scratch_bind _ _ ?_ (fun _ => ?_)
    | with_reducible refine Quda.ScratchDiscipline.scratch_ite _ _ _ ?_ ?_)

/-- The method `DiracClover::reconstruct` keeps the scratch discipline. -/
theorem scratch_reconstruct_DiracClover (x b : ColorSpinorField) (solType : QudaSolutionType) :
    Quda.ScratchDiscipline ((DiracClover.reconstruct x b solType : Quda K F _)) := by
  unfold DiracClover.reconstruct
  repeat (first
    | with_reducible exact scratch_pure _)

/-- The method `DiracCloverPC::CloverInv` keeps the scratch discipline. -/
theorem scratch_CloverInv_DiracCloverPC (E : External K F) (out inp : ColorSpinorField) (parity : QudaParity) :
    Quda.ScratchDiscipline (DiracCloverPC.CloverInv E out inp parity) := by
  unfold DiracCloverPC.CloverInv
  repeat (first
    | with_reducible exact scratch_checkParitySpinor_DiracClover _ _ _
    | with_reducible exact scratch_ApplyClover _ _ _ _ _
    | with_reducible exact scratch_addFlops _
    | with_reducible refine Quda.ScratchDiscipline.scratch_bind _ _ ?_ (fun _ => ?_))

/-- The method `DiracCloverPC::DslashXpay` keeps the scratch discipline. -/
theorem scratch_DslashXpay_DiracCloverPC (E : External K F) (out inp : ColorSpinorField) (parity : QudaParity) (x : ColorSpinorField) (k : K) :
    Quda.ScratchDiscipline (DiracCloverPC.DslashXpay E out inp parity x k) := by
  unfold DiracCloverPC.DslashXpay
  repeat (first
    | with_reducible exact scratch_checkParitySpinor_DiracClover _ _ _
    | with_reducible exact scratch_checkSpinorAlias _ _
    | with_reducible exact scratch_getState
    | with_reducible exact scratch_ApplyWilsonCloverPreconditioned _ _ _ _ _ _ _
    | with_reducible exact scratch_addFlops _
    | with_reducible refine Quda.ScratchDiscipline.scratch_bind _ _ ?_ (fun _ => ?_))

/-- The method `DiracCloverPC::prepare` keeps the scratch discipline. -/
theorem scratch_prepare_DiracCloverPC (E : External K F) (x b : ColorSpinorField) (solType : QudaSolutionType) :
    Quda.ScratchDiscipline (DiracCloverPC.prepare E x b solType) := by
  unfold DiracCloverPC.prepare
  repeat (first
    | with_reducible exact scratch_pure _
    | with_reducible exact scratch_errorQuda _
    | with_reducible exact scratch_getState
    | with_reducible exact scratch_deref _
    | with_reducible exact scratch_CloverInv_DiracCloverPC _ _ _ _
    | with_reducible exact scratch_DslashXpay_DiracWilson _ _ _ _ _ _
    | with_reducible refine Quda.ReleasesScratch.release_then_pure _ _ _ _ ?_
    | with_reducible refine Quda.ScratchDiscipline.scratch_newTmp _ _ _ (fun _ => ?_)
    | with_reducible refine Quda.ScratchDiscipline.scratch_bind _ _ ?_ (fun _ => ?_)
    | with_reducible refine Quda.ScratchDiscipline.scratch_ite _ _ _ ?_ ?_
    | with_reducible exact Quda.ReleasesScratch.release_deleteTmp _ _
    | with_reducible refine Quda.ReleasesScratch.release_bind _ _ _ _ ?_ (fun _ => ?_)
    | with_reducible refine Quda.ReleasesScratch.release_ite _ _ _ _ _ ?_ ?_)

/-- The method `DiracCloverPC::reconstruct` keeps the scratch discipline. -/
theorem scratch_reconstruct_DiracCloverPC (E : External K F) (x b : ColorSpinorField) (solType : QudaSolutionType) :
    Quda.ScratchDiscipline (DiracCloverPC.reconstruct E x b solType) := by
  unfold DiracCloverPC.reconstruct
  repeat (first
    | with_reducible exact scratch_pure _
    | with_reducible exact scratch_errorQuda _
    | with_reducible exact scratch_checkFullSpinor _ _ _
    | with_reducible exact scratch_getState
    | with_reducible exact scratch_deref _
    | with_reducible exact scratch_CloverInv_DiracCloverPC _ _ _ _
    | with_reducible exact scratch_DslashXpay_DiracWilson _ _ _ _ _ _
    | with_reducible refine Quda.ScratchDiscipline.scratch_newTmp _ _ _ (fun _ => ?_)
    | with_reducible refine Quda.ScratchDiscipline.scratch_bind _ _ ?_ (fun _ => ?_)
    | with_reducible refine Quda.ScratchDiscipline.scratch_ite _ _ _ ?_ ?_
    | with_reducible exact Quda.ReleasesScratch.release_deleteTmp _ _
    | with_reducible refine Quda.ReleasesScratch.release_bind _ _ _ _ ?_ (fun _ => ?_)
    | with_reducible refine Quda.ReleasesScratch.release_ite _ _ _ _ _ ?_ ?_)

/-- The method `DiracCloverHasenbuschTwistPC::DslashXpayTwistClovInv` keeps the scratch discipline. -/
theorem scratch_DslashXpayTwistClovInv_TwistPC (E : External K F) (out inp : ColorSpinorField) (parity : QudaParity) (x : ColorSpinorField) (k b : K) :
    Quda.ScratchDiscipline (DiracCloverHasenbuschTwistPC.DslashXpayTwistClovInv E out inp parity x k b) := by
  unfold DiracCloverHasenbuschTwistPC.DslashXpayTwistClovInv
  repeat (first
    | with_reducible exact scratch_checkParitySpinor_DiracClover _ _ _
    | with_reducible exact scratch_checkSpinorAlias _ _
    | with_reducible exact scratch_getState
    | with_reducible exact scratch_ApplyWilsonCloverHasenbuschTwistPCClovInv _ _ _ _ _ _ _ _
    | with_reducible exact scratch_addFlops _
    | with_reducible refine Quda.ScratchDiscipline.scratch_bind _ _ ?_ (fun _ => ?_))

/-- The method `DiracCloverHasenbuschTwistPC::DslashXpayTwistNoClovInv` keeps the scratch discipline. -/
theorem scratch_DslashXpayTwistNoClovInv_TwistPC (E : External K F) (out inp : ColorSpinorField) (parity : QudaParity) (x : ColorSpinorField) (k b : K) :
    Quda.ScratchDiscipline (DiracCloverHasenbuschTwistPC.DslashXpayTwistNoClovInv E out inp parity x k b) := by
  unfold DiracCloverHasenbuschTwistPC.DslashXpayTwistNoClovInv
  repeat (first
    | with_reducible exact scratch_checkParitySpinor_DiracClover _ _ _
    | with_reducible exact scratch_checkSpinorAlias _ _
    | with_reducible exact scratch_getState
    | with_reducible exact scratch_ApplyWilsonCloverHasenbuschTwistPCNoClovInv _ _ _ _ _ _ _ _
    | with_reducible exact scratch_addFlops _
    | with_reducible refine Quda.ScratchDiscipline.scratch_bind _ _ ?_ (fun _ => ?_))

/-- The method `DiracCloverHasenbuschTwistPC::DslashXpay` keeps the scratch discipline. -/
theorem scratch_DslashXpay_TwistPC (E : External K F) (out inp : ColorSpinorField) (parity : QudaParity) (x : ColorSpinorField) (k : K) :
    Quda.ScratchDiscipline (DiracCloverHasenbuschTwistPC.DslashXpay E out inp parity x k) := by
  unfold DiracCloverHasenbuschTwistPC.DslashXpay
  repeat (first
    | with_reducible exact scratch_checkParitySpinor_DiracClover _ _ _
    | with_reducible exact scratch_checkSpinorAlias _ _
    | with_reducible exact scratch_getState
    | with_reducible exact scratch_pure _
    | with_reducible exact scratch_DslashXpay_DiracCloverPC _ _ _ _ _ _
    | with_reducible exact scratch_DslashXpayTwistClovInv_TwistPC _ _ _ _ _ _ _
    | with_reducible exact scratch_addFlops _
    | with_reducible refine Quda.ScratchDiscipline.scratch_bind _ _ ?_ (fun _ => ?_)
    | with_reducible refine Quda.ScratchDiscipline.scratch_ite _ _ _ ?_ ?_)

variable [Field K]

/-- The method `DiracClover::M` keeps the scratch discipline. -/
theorem scratch_M_DiracClover (E : External K F) (out inp : ColorSpinorField) :
    Quda.ScratchDiscipline (DiracClover.M E out inp) := by
  unfold DiracClover.M
  repeat (first
    | with_reducible exact scratch_getState
    | with_reducible exact scratch_ApplyWilsonClover _ _ _ _ _ _ _
    | with_reducible exact scratch_addFlops _
    | with_reducible refine Quda.ScratchDiscipline.scratch_bind _ _ ?_ (fun _ => ?_))

/-- The method `DiracClover::MdagM` keeps the scratch discipline. -/
theorem scratch_MdagM_DiracClover (E : External K F) (out inp : ColorSpinorField) :
    Quda.ScratchDiscipline (DiracClover.MdagM E out inp) := by
  unfold DiracClover.MdagM
  repeat (first
    | with_reducible exact scratch_checkFullSpinor _ _ _
    | with_reducible exact scratch_deref _
    | with_reducible exact scratch_M_DiracClover _ _ _
    | with_reducible refine scratch_Mdag _ (fun _ _ => ?_) _ _
    | with_reducible refine Quda.ScratchDiscipline.scratch_newTmp _ _ _ (fun _ => ?_)
    | with_reducible refine Quda.ScratchDiscipline.scratch_bind _ _ ?_ (fun _ => ?_)
    | with_reducible refine Quda.ScratchDiscipline.scratch_ite _ _ _ ?_ ?_
    | with_reducible exact Quda.ReleasesScratch.release_deleteTmp _ _
    | with_reducible refine Quda.ReleasesScratch.release_bind _ _ _ _ ?_ (fun _ => ?_)
    | with_reducible refine Quda.ReleasesScratch.release_ite _ _ _ _ _ ?_ ?_)

/-- The method `DiracCloverPC::Dslash` keeps the scratch discipline. -/
theorem scratch_Dslash_DiracCloverPC (E : External K F) (out inp : ColorSpinorField) (parity : QudaParity) :
    Quda.ScratchDiscipline (DiracCloverPC.Dslash E out inp parity) := by
  unfold DiracCloverPC.Dslash
  repeat (first
    | with_reducible exact scratch_checkParitySpinor_DiracClover _ _ _
    | with_reducible exact scratch_checkSpinorAlias _ _
    | with_reducible exact scratch_getState
    | with_reducible exact scratch_ApplyWilsonCloverPreconditioned _ _ _ _ _ _ _
    | with_reducible exact scratch_addFlops _
    | with_reducible refine Quda.ScratchDiscipline.scratch_bind _ _ ?_ (fun _ => ?_))

/-- The method `DiracCloverPC::M` keeps the scratch discipline. -/
theorem scratch_M_DiracCloverPC (E : External K F) (out inp : ColorSpinorField) :
    Quda.ScratchDiscipline (DiracCloverPC.M E out inp) := by
  unfold DiracCloverPC.M
  repeat (first
    | with_reducible exact scratch_getState
    | with_reducible exact scratch_deref _
    | with_reducible exact scratch_Dslash_DiracCloverPC _ _ _ _
    | with_reducible exact scratch_DslashXpay_DiracClover _ _ _ _ _ _
    | with_reducible exact scratch_DslashXpay_DiracCloverPC _ _ _ _ _ _
    | with_reducible exact scratch_CloverInv_DiracCloverPC _ _ _ _
    | with_reducible exact scratch_DslashXpay_DiracWilson _ _ _ _ _ _
    | with_reducible refine Quda.ScratchDiscipline.scratch_newTmp _ _ _ (fun _ => ?_)
    | with_reducible refine Quda.ScratchDiscipline.scratch_bind _ _ ?_ (fun _ => ?_)
    | with_reducible refine Quda.ScratchDiscipline.scratch_ite _ _ _ ?_ ?_
    | with_reducible exact Quda.ReleasesScratch.release_deleteTmp _ _
    | with_reducible refine Quda.ReleasesScratch.release_bind _ _ _ _ ?_ (fun _ => ?_)
    | with_reducible refine Quda.ReleasesScratch.release_ite _ _ _ _ _ ?_ ?_)

/-- The method `DiracCloverPC::MdagM` keeps the scratch discipline. -/
theorem scratch_MdagM_DiracCloverPC (E : External K F) (out inp : ColorSpinorField) :
    Quda.ScratchDiscipline (DiracCloverPC.MdagM E out inp) := by
  unfold DiracCloverPC.MdagM
  repeat (first
    | with_reducible exact scratch_deref _
    | with_reducible exact scratch_M_DiracCloverPC _ _ _
    | with_reducible refine scratch_Mdag _ (fun _ _ => ?_) _ _
    | with_reducible refine Quda.ScratchDiscipline.scratch_newTmp _ _ _ (fun _ => ?_)
    | with_reducible refine Quda.ScratchDiscipline.scratch_bind _ _ ?_ (fun _ => ?_)
    | with_reducible refine Quda.ScratchDiscipline.scratch_ite _ _ _ ?_ ?_
    | with_reducible exact Quda.ReleasesScratch.release_deleteTmp _ _
    | with_reducible refine Quda.ReleasesScratch.release_bind _ _ _ _ ?_ (fun _ => ?_)
    | with_reducible refine Quda.ReleasesScratch.release_ite _ _ _ _ _ ?_ ?_)

/-- The method `DiracCloverHasenbuschTwist::M` keeps the scratch discipline. -/
theorem scratch_M_HasenbuschTwist (E : External K F) (out inp : ColorSpinorField) :
    Quda.ScratchDiscipline (DiracCloverHasenbuschTwist.M E out inp) := by
  unfold DiracCloverHasenbuschTwist.M
  repeat (first
    | with_reducible exact scratch_getState
    | with_reducible exact scratch_ApplyWilsonClover _ _ _ _ _ _ _
    | with_reducible exact scratch_ApplyWilsonCloverTwist _ _ _ _ _ _ _ _
    | with_reducible exact scratch_ApplyWilsonCloverHasenbuschTwist _ _ _ _ _ _ _ _
    | with_reducible exact scratch_addFlops _
    | with_reducible refine Quda.ScratchDiscipline.scratch_bind _ _ ?_ (fun _ => ?_)
    | with_reducible refine Quda.ScratchDiscipline.scratch_ite _ _ _ ?_ ?_)

/-- The method `DiracCloverHasenbuschTwist::MdagM` keeps the scratch discipline. -/
theorem scratch_MdagM_HasenbuschTwist (E : External K F) (out inp : ColorSpinorField) :
    Quda.ScratchDiscipline (DiracCloverHasenbuschTwist.MdagM E out inp) := by
  unfold DiracCloverHasenbuschTwist.MdagM
  repeat (first
    | with_reducible exact scratch_checkFullSpinor _ _ _
    | with_reducible exact scratch_deref _
    | with_reducible exact scratch_M_HasenbuschTwist _ _ _
    | with_reducible refine scratch_Mdag _ (fun _ _ => ?_) _ _
    | with_reducible refine Quda.ScratchDiscipline.scratch_newTmp _ _ _ (fun _ => ?_)
    | with_reducible refine Quda.ScratchDiscipline.scratch_bind _ _ ?_ (fun _ => ?_)
    | with_reducible refine Quda.ScratchDiscipline.scratch_ite _ _ _ ?_ ?_
    | with_reducible exact Quda.ReleasesScratch.release_deleteTmp _ _
    | with_reducible refine Quda.ReleasesScratch.release_bind _ _ _ _ ?_ (fun _ => ?_)
    | with_reducible refine Quda.ReleasesScratch.release_ite _ _ _ _ _ ?_ ?_)

/-- The method `DiracCloverHasenbuschTwistPC::M` keeps the scratch discipline. -/
theorem scratch_M_TwistPC (E : External K F) (out inp : ColorSpinorField) :
    Quda.ScratchDiscipline (DiracCloverHasenbuschTwistPC.M E out inp) := by
  unfold DiracCloverHasenbuschTwistPC.M
  repeat (first
    | with_reducible exact scratch_getState
    | with_reducible exact scratch_deref _
    | with_reducible exact scratch_Dslash_DiracCloverPC _ _ _ _
    | with_reducible exact scratch_DslashXpay_b_DiracClover _ _ _ _ _ _ _
    | with_reducible exact scratch_DslashXpayTwistClovInv_TwistPC _ _ _ _ _ _ _
    | with_reducible exact scratch_DslashXpayTwistNoClovInv_TwistPC _ _ _ _ _ _ _
    | with_reducible exact scratch_CloverInv_DiracCloverPC _ _ _ _
    | with_reducible refine Quda.ScratchDiscipline.scratch_newTmp _ _ _ (fun _ => ?_)
    | with_reducible refine Quda.ScratchDiscipline.scratch_bind _ _ ?_ (fun _ => ?_)
    | with_reducible refine Quda.ScratchDiscipline.scratch_ite _ _ _ ?_ ?_
    | with_reducible exact Quda.ReleasesScratch.release_deleteTmp _ _
    | with_reducible refine Quda.ReleasesScratch.release_bind _ _ _ _ ?_ (fun _ => ?_)
    | with_reducible refine Quda.ReleasesScratch.release_ite _ _ _ _ _ ?_ ?_)

/-- The method `DiracCloverHasenbuschTwistPC::MdagM` keeps the scratch discipline. -/
theorem scratch_MdagM_TwistPC (E : External K F) (out inp : ColorSpinorField) :
    Quda.ScratchDiscipline (DiracCloverHasenbuschTwistPC.MdagM E out inp) := by
  unfold DiracCloverHasenbuschTwistPC.MdagM
  repeat (first
    | with_reducible exact scratch_deref _
    | with_reducible exact scratch_M_TwistPC _ _ _
    | with_reducible refine scratch_Mdag _ (fun _ _ => ?_) _ _
    | with_reducible refine Quda.ScratchDiscipline.scratch_newTmp _ _ _ (fun _ => ?_)
    | with_reducible refine Quda.ScratchDiscipline.scratch_bind _ _ ?_ (fun _ => ?_)
    | with_reducible refine Quda.ScratchDiscipline.scratch_ite _ _ _ ?_ ?_
    | with_reducible exact Quda.ReleasesScratch.release_deleteTmp _ _
    | with_reducible refine Quda.ReleasesScratch.release_bind _ _ _ _ ?_ (fun _ => ?_)
    | with_reducible refine Quda.ReleasesScratch.release_ite _ _ _ _ _ ?_ ?_)

/-- C19 (amended): every method that acquires a scratch field (`MdagM` of each class, `M`
of the two preconditioned classes, `DiracCloverPC::prepare` and
`DiracCloverPC::reconstruct`), and `M` of the two unpreconditioned classes, which acquires
none, keeps the scratch discipline for all arguments and in every state: when the method
returns (the early return for a preconditioned solution type included) both scratch
pointers are what they were at entry, and a scratch field present at entry is still present
when the method returns or aborts.  At the error exit for an invalid tag nothing is
released: `prepare` and `reconstruct` asked for a full-system solution type with tag INVALID
and no scratch field held abort with `tmp1` still pointing to the field that was
acquired. -/
theorem C19_scratch_lifecycle (E : External K F) (out inp x b : ColorSpinorField)
    (solType : QudaSolutionType) :
    Quda.ScratchDiscipline (DiracClover.M E out inp) ∧
    Quda.ScratchDiscipline (DiracClover.MdagM E out inp) ∧
    Quda.ScratchDiscipline (DiracCloverPC.M E out inp) ∧
    Quda.ScratchDiscipline (DiracCloverPC.MdagM E out inp) ∧
    Quda.ScratchDiscipline (DiracCloverPC.prepare E x b solType) ∧
    Quda.ScratchDiscipline (DiracCloverPC.reconstruct E x b solType) ∧
    Quda.ScratchDiscipline (DiracCloverHasenbuschTwist.M E out inp) ∧
    Quda.ScratchDiscipline (DiracCloverHasenbuschTwist.MdagM E out inp) ∧
    Quda.ScratchDiscipline (DiracCloverHasenbuschTwistPC.M E out inp) ∧
    Quda.ScratchDiscipline (DiracCloverHasenbuschTwistPC.MdagM E out inp) ∧
    (∀ s : State K F, s.matpcType = QUDA_MATPC_INVALID → solType.Full → s.tmp1 = none →
      (DiracCloverPC.prepare E x b solType s).isOk = false ∧
      (DiracCloverPC.prepare E x b solType s).state.tmp1 =
        some { siteSubset := b.Even.siteSubset, volume := b.Even.volume, v := s.brk,
               vOdd := s.brk + 1 } ∧
      (DiracCloverPC.reconstruct E x b solType s).isOk = false ∧
      (E.checkFullSpinor x b = true →
        (DiracCloverPC.reconstruct E x b solType s).state.tmp1 =
          some { siteSubset := b.Even.siteSubset, volume := b.Even.volume, v := s.brk,
                 vOdd := s.brk + 1 })) := by
  refine ⟨scratch_M_DiracClover E out inp, scratch_MdagM_DiracClover E out inp,
    scratch_M_DiracCloverPC E out inp, scratch_MdagM_DiracCloverPC E out inp,
    scratch_prepare_DiracCloverPC E x b solType, scratch_reconstruct_DiracCloverPC E x b solType,
    scratch_M_HasenbuschTwist E out inp, scratch_MdagM_HasenbuschTwist E out inp,
    scratch_M_TwistPC E out inp, scratch_MdagM_TwistPC E out inp, ?_⟩
  intro s ht hf h1
  have c : ¬ (solType = QUDA_MATPC_SOLUTION ∨ solType = QUDA_MATPCDAG_MATPC_SOLUTION) :=
    fun h => h.elim hf.1 hf.2
  refine ⟨?_, ?_, ?_, fun hc => ?_⟩
  · simp only [DiracCloverPC.prepare, Quda.bind_run, Quda.ite_run, Quda.pure_run,
      errorQuda_run, getState_run, newTmp_run, State.getTmp, State.setTmp, h1, ht, c,
      ↓reduceIte, reduceCtorEq, Result.isOk]
  · simp only [DiracCloverPC.prepare, Quda.bind_run, Quda.ite_run, Quda.pure_run,
      errorQuda_run, getState_run, newTmp_run, State.getTmp, State.setTmp, h1, ht, c,
      ↓reduceIte, reduceCtorEq, Result.state]
  · rcases Classical.propComplete (E.checkFullSpinor x b = true) with hc | hc <;>
      simp only [DiracCloverPC.reconstruct, Dirac.checkFullSpinor, Quda.bind_run,
        Quda.ite_run, Quda.pure_run, errorQuda_run, getState_run, newTmp_run, State.getTmp,
        State.setTmp, h1, ht, c, hc, ↓reduceIte, reduceCtorEq, Result.isOk, or_self]
  · simp only [DiracCloverPC.reconstruct, Dirac.checkFullSpinor, Quda.bind_run,
      Quda.ite_run, Quda.pure_run, errorQuda_run, getState_run, newTmp_run, State.getTmp,
      State.setTmp, h1, ht, c, hc, ↓reduceIte, reduceCtorEq, Result.state, or_self]

end Scratch

section ScratchExample

/-- C19, as stated, fails on the example (tag INVALID, `QUDA_MAT_SOLUTION`, no scratch
field held at entry): `DiracCloverPC::prepare` and `DiracCloverPC::reconstruct` abort at the
error exit for the invalid tag with `tmp1` allocated, so the scratch state at the exit is
not the one at entry. -/
theorem C19_scratch_counterexample :
    (Example.state ℚ QUDA_MATPC_INVALID false (1 / 8)).tmp1 = none ∧
    (DiracCloverPC.prepare (Example.kernels ℚ) (fullField 8 0 1) (fullField 8 2 3)
        QUDA_MAT_SOLUTION (Example.state ℚ QUDA_MATPC_INVALID false (1 / 8))) =
      .error QudaError.ConfigurationError
        { Example.state ℚ QUDA_MATPC_INVALID false (1 / 8) with
          tmp1 := some { siteSubset := QUDA_PARITY_SITE_SUBSET, volume := 8, v := 6, vOdd := 7 }
          brk := 8 } ∧
    (DiracCloverPC.reconstruct (Example.kernels ℚ) (fullField 8 0 1) (fullField 8 2 3)
        QUDA_MAT_SOLUTION (Example.state ℚ QUDA_MATPC_INVALID false (1 / 8))) =
      .error QudaError.ConfigurationError
        { Example.state ℚ QUDA_MATPC_INVALID false (1 / 8) with
          tmp1 := some { siteSubset := QUDA_PARITY_SITE_SUBSET, volume := 8, v := 6, vOdd := 7 }
          brk := 8 } ∧
    (DiracCloverPC.prepare (Example.kernels ℚ) (fullField 8 0 1) (fullField 8 2 3)
        QUDA_MAT_SOLUTION (Example.state ℚ QUDA_MATPC_INVALID false (1 / 8))).state.tmp1 ≠
      (Example.state ℚ QUDA_MATPC_INVALID false (1 / 8)).tmp1 := by
  refine ⟨rfl, rfl, rfl, ?_⟩
  intro h
  cases h

/-- C19 (amended), on the example: `DiracCloverPC::M` with tag EVEN_EVEN and no scratch
field held returns with both scratch pointers null again, after having acquired the
buffers 6 and 7; and `prepare` with tag INVALID aborts with `tmp1` set. -/
theorem C19_scratch_lifecycle_witness :
    ((DiracCloverPC.M (Example.kernels ℚ) (parityField 8 1) (parityField 8 0)
        (Example.state ℚ QUDA_MATPC_EVEN_EVEN false (1 / 8))).state.tmp1 = none ∧
      (DiracCloverPC.M (Example.kernels ℚ) (parityField 8 1) (parityField 8 0)
        (Example.state ℚ QUDA_MATPC_EVEN_EVEN false (1 / 8))).state.tmp2 = none) ∧
    (DiracCloverPC.prepare (Example.kernels ℚ) (fullField 8 0 1) (fullField 8 2 3)
        QUDA_MAT_SOLUTION (Example.state ℚ QUDA_MATPC_INVALID false (1 / 8))).state.tmp1 =
      some { siteSubset := QUDA_PARITY_SITE_SUBSET, volume := 8, v := 6, vOdd := 7 } :=
  ⟨((C19_scratch_lifecycle (Example.kernels ℚ) (parityField 8 1) (parityField 8 0)
      (fullField 8 0 1) (fullField 8 2 3) QUDA_MAT_SOLUTION).2.2.1
      (Example.state ℚ QUDA_MATPC_EVEN_EVEN false (1 / 8))).1
      (by rw [DiracCloverPC.M_run _ _ _ _ (Example.acceptsParity ℚ 8) ⟨rfl, rfl, by decide⟩
            ⟨rfl, rfl, by decide⟩ (by decide) rfl]; rfl),
    ((C19_scratch_lifecycle (Example.kernels ℚ) (parityField 8 1) (parityField 8 0)
      (fullField 8 0 1) (fullField 8 2 3) QUDA_MAT_SOLUTION).2.2.2.2.2.2.2.2.2.2
      (Example.state ℚ QUDA_MATPC_INVALID false (1 / 8)) rfl ⟨by decide, by decide⟩ rfl).2.1⟩

end ScratchExample

end quda

/-! ## Flop accounting -/

namespace quda

open QudaParity QudaMatPCType QudaSolutionType QudaDiracType QudaSiteSubset

section Flops

variable {K F α β : Type}

/-- A method that leaves the flop counter alone, whether it returns or aborts, never
decreases it. -/
theorem Quda.FlopsMonotone.flops_of_frame (m : Quda K F α) (h : ∀ s, (m s).state.flops = s.flops) :
    Quda.FlopsMonotone m :=
  fun s => le_of_eq (h s).symm

/-- Sequencing keeps the flop counter from decreasing. -/
theorem Quda.FlopsMonotone.flops_bind (x : Quda K F α) (f : α → Quda K F β)
    (hx : Quda.FlopsMonotone x) (hf : ∀ a, Quda.FlopsMonotone (f a)) :
    Quda.FlopsMonotone (x >>= f) := by
  intro s
  rw [Quda.bind_run]
  have h0 := hx s
  cases hxs : x s with
  | error e s1 =>
    rw [hxs] at h0
    exact h0
  | ok a s1 =>
    rw [hxs] at h0
    exact le_trans h0 (hf a s1)

/-- A conditional keeps the flop counter from decreasing. -/
theorem Quda.FlopsMonotone.flops_ite (c : Prop) [Decidable c] (x y : Quda K F α)
    (hx : Quda.FlopsMonotone x) (hy : Quda.FlopsMonotone y) :
    Quda.FlopsMonotone (if c then x else y) := by
  split
  · exact hx
  · exact hy

/-- The step `pure` leaves the flop counter alone. -/
theorem flops_pure (a : α) : Quda.FlopsMonotone (pure a : Quda K F α) :=
  Quda.FlopsMonotone.flops_of_frame _ (fun _ => rfl)

/-- The step `errorQuda` leaves the flop counter alone. -/
theorem flops_errorQuda (e : QudaError) : Quda.FlopsMonotone (errorQuda e : Quda K F α) :=
  Quda.FlopsMonotone.flops_of_frame _ (fun _ => rfl)

/-- The step `getState` leaves the flop counter alone. -/
theorem flops_getState : Quda.FlopsMonotone (getState : Quda K F (State K F)) :=
  Quda.FlopsMonotone.flops_of_frame _ (fun _ => rfl)

/-- The step `flipDagger` leaves the flop counter alone. -/
theorem flops_flipDagger : Quda.FlopsMonotone (Dirac.flipDagger : Quda K F Unit) :=
  Quda.FlopsMonotone.flops_of_frame _ (fun _ => rfl)

/-- The step `ApplyClover` leaves the flop counter alone. -/
theorem flops_ApplyClover (E : External K F) (out inp : ColorSpinorField) (inverse : Bool)
    (parity : QudaParity) : Quda.FlopsMonotone (ApplyClover E out inp inverse parity) :=
  Quda.FlopsMonotone.flops_of_frame _ (fun _ => rfl)

/-- The step `ApplyWilson` leaves the flop counter alone. -/
theorem flops_ApplyWilson (E : External K F) (out inp : ColorSpinorField) (k : K) (x :
    ColorSpinorField) (parity : QudaParity) (dagger : Bool) : Quda.FlopsMonotone (ApplyWilson E
    out inp k x parity dagger) :=
  Quda.FlopsMonotone.flops_of_frame _ (fun _ => rfl)

/-- The step `ApplyWilsonClover` leaves the flop counter alone. -/
theorem flops_ApplyWilsonClover (E : External K F) (out inp : ColorSpinorField) (k : K) (x :
    ColorSpinorField) (parity : QudaParity) (dagger : Bool) : Quda.FlopsMonotone
    (ApplyWilsonClover E out inp k x parity dagger) :=
  Quda.FlopsMonotone.flops_of_frame _ (fun _ => by cases parity <;> rfl)

/-- The step `ApplyWilsonCloverTwist` leaves the flop counter alone. -/
theorem flops_ApplyWilsonCloverTwist (E : External K F) (out inp : ColorSpinorField) (k b : K) (x
    : ColorSpinorField) (parity : QudaParity) (dagger : Bool) : Quda.FlopsMonotone
    (ApplyWilsonCloverTwist E out inp k b x parity dagger) :=
  Quda.FlopsMonotone.flops_of_frame _ (fun _ => rfl)

/-- The step `ApplyWilsonCloverPreconditioned` leaves the flop counter alone. -/
theorem flops_ApplyWilsonCloverPreconditioned (E : External K F) (out inp : ColorSpinorField) (k
    : K) (x : ColorSpinorField) (parity : QudaParity) (dagger : Bool) : Quda.FlopsMonotone
    (ApplyWilsonCloverPreconditioned E out inp k x parity dagger) :=
  Quda.FlopsMonotone.flops_of_frame _ (fun _ => rfl)

/-- The step `ApplyWilsonCloverHasenbuschTwist` leaves the flop counter alone. -/
theorem flops_ApplyWilsonCloverHasenbuschTwist (E : External K F) (out inp : ColorSpinorField) (k
    b : K) (x : ColorSpinorField) (parity : QudaParity) (dagger : Bool) : Quda.FlopsMonotone
    (ApplyWilsonCloverHasenbuschTwist E out inp k b x parity dagger) :=
  Quda.FlopsMonotone.flops_of_frame _ (fun _ => rfl)

/-- The step `ApplyWilsonCloverHasenbuschTwistPCClovInv` leaves the flop counter alone. -/
theorem flops_ApplyWilsonCloverHasenbuschTwistPCClovInv (E : External K F) (out inp :
    ColorSpinorField) (k b : K) (x : ColorSpinorField) (parity : QudaParity) (dagger : Bool) :
    Quda.FlopsMonotone (ApplyWilsonCloverHasenbuschTwistPCClovInv E out inp k b x parity dagger)
    :=
  Quda.FlopsMonotone.flops_of_frame _ (fun _ => rfl)

/-- The step `ApplyWilsonCloverHasenbuschTwistPCNoClovInv` leaves the flop counter alone. -/
theorem flops_ApplyWilsonCloverHasenbuschTwistPCNoClovInv (E : External K F) (out inp :
    ColorSpinorField) (k b : K) (x : ColorSpinorField) (parity : QudaParity) (dagger : Bool) :
    Quda.FlopsMonotone (ApplyWilsonCloverHasenbuschTwistPCNoClovInv E out inp k b x parity
    dagger) :=
  Quda.FlopsMonotone.flops_of_frame _ (fun _ => rfl)

/-- The statement `flops += n` does not decrease the flop counter. -/
theorem flops_addFlops (n : Nat) : Quda.FlopsMonotone (addFlops n : Quda K F Unit) :=
  fun s => Nat.le_add_right s.flops n

/-- The dereference of a scratch pointer leaves the flop counter alone. -/
theorem flops_deref (slot : TmpSlot) : Quda.FlopsMonotone (deref slot : Quda K F _) :=
  Quda.FlopsMonotone.flops_of_frame _ (fun s => by
    rw [deref_run]
    cases s.getTmp slot <;> rfl)

/-- The allocation of a scratch field leaves the flop counter alone. -/
theorem flops_newTmp (slot : TmpSlot) (a : ColorSpinorField) :
    Quda.FlopsMonotone (newTmp slot a : Quda K F _) :=
  Quda.FlopsMonotone.flops_of_frame _ (fun s => by
    rw [newTmp_run]
    cases slot <;> cases h : s.getTmp _ <;> rfl)

/-- The release of a scratch field leaves the flop counter alone. -/
theorem flops_deleteTmp (slot : TmpSlot) (reset : Bool) :
    Quda.FlopsMonotone (deleteTmp slot reset : Quda K F _) :=
  Quda.FlopsMonotone.flops_of_frame _ (fun s => by
    rw [deleteTmp_run]
    cases slot <;> cases reset <;> rfl)

/-- The base-class checks leave the flop counter alone. -/
theorem flops_checkParitySpinor (E : External K F) (out inp : ColorSpinorField) :
    Quda.FlopsMonotone (Dirac.checkParitySpinor E out inp) :=
  Quda.FlopsMonotone.flops_ite _ _ _ (flops_pure _) (flops_errorQuda _)

/-- The base-class checks leave the flop counter alone. -/
theorem flops_checkFullSpinor (E : External K F) (out inp : ColorSpinorField) :
    Quda.FlopsMonotone (Dirac.checkFullSpinor E out inp) :=
  Quda.FlopsMonotone.flops_ite _ _ _ (flops_pure _) (flops_errorQuda _)

/-- The base-class checks leave the flop counter alone. -/
theorem flops_checkSpinorAlias (a b : ColorSpinorField) :
    Quda.FlopsMonotone (Dirac.checkSpinorAlias a b : Quda K F Unit) :=
  Quda.FlopsMonotone.flops_ite _ _ _ (flops_errorQuda _) (flops_pure _)

/-- The method `DiracClover::checkParitySpinor` never decreases the flop counter. -/
theorem flops_checkParitySpinor_DiracClover (E : External K F) (out inp : ColorSpinorField) :
    Quda.FlopsMonotone (DiracClover.checkParitySpinor E out inp) := by
  unfold DiracClover.checkParitySpinor
  repeat (first
    | with_reducible exact flops_checkParitySpinor _ _ _
    | with_reducible exact flops_getState
    | with_reducible exact flops_errorQuda _
    | with_reducible exact flops_pure _
    | with_reducible refine Quda.FlopsMonotone.flops_bind _ _ ?_ (fun _ => ?_)
    | with_reducible refine Quda.FlopsMonotone.flops_ite _ _ _ ?_ ?_)

/-- The method `DiracWilson::DslashXpay` never decreases the flop counter. -/
theorem flops_DslashXpay_DiracWilson (E : External K F) (out inp : ColorSpinorField) (parity : QudaParity) (x : ColorSpinorField) (k : K) :
    Quda.FlopsMonotone (DiracWilson.DslashXpay E out inp parity x k) := by
  unfold DiracWilson.DslashXpay
  repeat (first
    | with_reducible exact flops_getState
    | with_reducible exact flops_ApplyWilson _ _ _ _ _ _ _
    | with_reducible exact flops_addFlops _
    | with_reducible refine Quda.FlopsMonotone.flops_bind _ _ ?_ (fun _ => ?_))

/-- The method `DiracClover::DslashXpay` never decreases the flop counter. -/
theorem flops_DslashXpay_DiracClover (E : External K F) (out inp : ColorSpinorField) (parity : QudaParity) (x : ColorSpinorField) (k : K) :
    Quda.FlopsMonotone (DiracClover.DslashXpay E out inp parity x k) := by
  unfold DiracClover.DslashXpay
  repeat (first
    | with_reducible exact flops_checkParitySpinor_DiracClover _ _ _
    | with_reducible exact flops_checkSpinorAlias _ _
    | with_reducible exact flops_getState
    | with_reducible exact flops_ApplyWilsonClover _ _ _ _ _ _ _
    | with_reducible exact flops_addFlops _
    | with_reducible refine Quda.FlopsMonotone.flops_bind _ _ ?_ (fun _ => ?_))

/-- The method `DiracClover::DslashXpay (k, b)` never decreases the flop counter. -/
theorem flops_DslashXpay_b_DiracClover (E : External K F) (out inp : ColorSpinorField) (parity : QudaParity) (x : ColorSpinorField) (k b : K) :
    Quda.FlopsMonotone (DiracClover.DslashXpay_b E out inp parity x k b) := by
  unfold DiracClover.DslashXpay_b
  repeat (first
    | with_reducible exact flops_checkParitySpinor_DiracClover _ _ _
    | with_reducible exact flops_checkSpinorAlias _ _
    | with_reducible exact flops_getState
    | with_reducible exact flops_ApplyWilsonCloverTwist _ _ _ _ _ _ _ _
    | with_reducible exact flops_addFlops _
    | with_reducible refine Quda.FlopsMonotone.flops_bind _ _ ?_ (fun _ => ?_))

/-- The method `DiracClover::Clover` never decreases the flop counter. -/
theorem flops_Clover_DiracClover (E : External K F) (out inp : ColorSpinorField) (parity : QudaParity) :
    Quda.FlopsMonotone (DiracClover.Clover E out inp parity) := by
  unfold DiracClover.Clover
  repeat (first
    | with_reducible exact flops_checkParitySpinor_DiracClover _ _ _
    | with_reducible exact flops_ApplyClover _ _ _ _ _
    | with_reducible exact flops_addFlops _
    | with_reducible refine Quda.FlopsMonotone.flops_bind _ _ ?_ (fun _ => ?_))

/-- The method `Dirac::Mdag` never decreases the flop counter. -/
theorem flops_Mdag (M : ColorSpinorField → ColorSpinorField → Quda K F Unit)
    (hM : ∀ a b, Quda.FlopsMonotone (M a b)) (out inp : ColorSpinorField) :
    Quda.FlopsMonotone (Dirac.Mdag M out inp) := by
  unfold Dirac.Mdag
  repeat (first
    | with_reducible exact hM _ _
    | with_reducible exact flops_flipDagger
    | with_reducible refine Quda.FlopsMonotone.flops_bind _ _ ?_ (fun _ => ?_))

/-- The method `DiracClover::prepare` never decreases the flop counter. -/
theorem flops_prepare_DiracClover (x b : ColorSpinorField) (solType : QudaSolutionType) :
    Quda.FlopsMonotone ((DiracClover.prepare x b solType : Quda K F _)) := by
  unfold DiracClover.prepare
  repeat (first
    | with_reducible exact flops_errorQuda _
    | with_reducible exact flops_pure _
    | with_reducible refine Quda.FlopsMonotone.flops_bind _ _ ?_ (fun _ => ?_)
    | with_reducible refine Quda.FlopsMonotone.flops_ite _ _ _ ?_ ?_)

/-- The method `DiracClover::reconstruct` never decreases the flop counter. -/
theorem flops_reconstruct_DiracClover (x b : ColorSpinorField) (solType : QudaSolutionType) :
    Quda.FlopsMonotone ((DiracClover.reconstruct x b solType : Quda K F _)) := by
  unfold DiracClover.reconstruct
  repeat (first
    | with_reducible exact flops_pure _)

/-- The method `DiracCloverPC::CloverInv` never decreases the flop counter. -/
theorem flops_CloverInv_DiracCloverPC (E : External K F) (out inp : ColorSpinorField) (parity : QudaParity) :
    Quda.FlopsMonotone (DiracCloverPC.CloverInv E out inp parity) := by
  unfold DiracCloverPC.CloverInv
  repeat (first
    | with_reducible exact flops_checkParitySpinor_DiracClover _ _ _
    | with_reducible exact flops_ApplyClover _ _ _ _ _
    | with_reducible exact flops_addFlops _
    | with_reducible refine Quda.FlopsMonotone.flops_bind _ _ ?_ (fun _ => ?_))

/-- The method `DiracCloverPC::DslashXpay` never decreases the flop counter. -/
theorem flops_DslashXpay_DiracCloverPC (E : External K F) (out inp : ColorSpinorField) (parity : QudaParity) (x : ColorSpinorField) (k : K) :
    Quda.FlopsMonotone (DiracCloverPC.DslashXpay E out inp parity x k) := by
  unfold DiracCloverPC.DslashXpay
  repeat (first
    | with_reducible exact flops_checkParitySpinor_DiracClover _ _ _
    | with_reducible exact flops_checkSpinorAlias _ _
    | with_reducible exact flops_getState
    | with_reducible exact flops_ApplyWilsonCloverPreconditioned _ _ _ _ _ _ _
    | with_reducible exact flops_addFlops _
    | with_reducible refine Quda.FlopsMonotone.flops_bind _ _ ?_ (fun _ => ?_))

/-- The method `DiracCloverPC::prepare` never decreases the flop counter. -/
theorem flops_prepare_DiracCloverPC (E : External K F) (x b : ColorSpinorField) (solType : QudaSolutionType) :
    Quda.FlopsMonotone (DiracCloverPC.prepare E x b solType) := by
  unfold DiracCloverPC.prepare
  repeat (first
    | with_reducible exact flops_pure _
    | with_reducible exact flops_errorQuda _
    | with_reducible exact flops_getState
    | with_reducible exact flops_deref _
    | with_reducible exact flops_CloverInv_DiracCloverPC _ _ _ _
    | with_reducible exact flops_DslashXpay_DiracWilson _ _ _ _ _ _
    | with_reducible exact flops_newTmp _ _
    | with_reducible refine Quda.FlopsMonotone.flops_bind _ _ ?_ (fun _ => ?_)
    | with_reducible refine Quda.FlopsMonotone.flops_ite _ _ _ ?_ ?_
    | with_reducible exact flops_deleteTmp _ _)

/-- The method `DiracCloverPC::reconstruct` never decreases the flop counter. -/
theorem flops_reconstruct_DiracCloverPC (E : External K F) (x b : ColorSpinorField) (solType : QudaSolutionType) :
    Quda.FlopsMonotone (DiracCloverPC.reconstruct E x b solType) := by
  unfold DiracCloverPC.reconstruct
  repeat (first
    | with_reducible exact flops_pure _
    | with_reducible exact flops_errorQuda _
    | with_reducible exact flops_checkFullSpinor _ _ _
    | with_reducible exact flops_getState
    | with_reducible exact flops_deref _
    | with_reducible exact flops_CloverInv_DiracCloverPC _ _ _ _
    | with_reducible exact flops_DslashXpay_DiracWilson _ _ _ _ _ _
    | with_reducible exact flops_newTmp _ _
    | with_reducible refine Quda.FlopsMonotone.flops_bind _ _ ?_ (fun _ => ?_)
    | with_reducible refine Quda.FlopsMonotone.flops_ite _ _ _ ?_ ?_
    | with_reducible exact flops_deleteTmp _ _)

/-- The method `DiracCloverHasenbuschTwistPC::DslashXpayTwistClovInv` never decreases the flop counter. -/
theorem flops_DslashXpayTwistClovInv_TwistPC (E : External K F) (out inp : ColorSpinorField) (parity : QudaParity) (x : ColorSpinorField) (k b : K) :
    Quda.FlopsMonotone (DiracCloverHasenbuschTwistPC.DslashXpayTwistClovInv E out inp parity x k b) := by
  unfold DiracCloverHasenbuschTwistPC.DslashXpayTwistClovInv
  repeat (first
    | with_reducible exact flops_checkParitySpinor_DiracClover _ _ _
    | with_reducible exact flops_checkSpinorAlias _ _
    | with_reducible exact flops_getState
    | with_reducible exact flops_ApplyWilsonCloverHasenbuschTwistPCClovInv _ _ _ _ _ _ _ _
    | with_reducible exact flops_addFlops _
    | with_reducible refine Quda.FlopsMonotone.flops_bind _ _ ?_ (fun _ => ?_))

/-- The method `DiracCloverHasenbuschTwistPC::DslashXpayTwistNoClovInv` never decreases the flop counter. -/
theorem flops_DslashXpayTwistNoClovInv_TwistPC (E : External K F) (out inp : ColorSpinorField) (parity : QudaParity) (x : ColorSpinorField) (k b : K) :
    Quda.FlopsMonotone (DiracCloverHasenbuschTwistPC.DslashXpayTwistNoClovInv E out inp parity x k b) := by
  unfold DiracCloverHasenbuschTwistPC.DslashXpayTwistNoClovInv
  repeat (first
    | with_reducible exact flops_checkParitySpinor_DiracClover _ _ _
    | with_reducible exact flops_checkSpinorAlias _ _
    | with_reducible exact flops_getState
    | with_reducible exact flops_ApplyWilsonCloverHasenbuschTwistPCNoClovInv _ _ _ _ _ _ _ _
    | with_reducible exact flops_addFlops _
    | with_reducible refine Quda.FlopsMonotone.flops_bind _ _ ?_ (fun _ => ?_))

/-- The method `DiracCloverHasenbuschTwistPC::DslashXpay` never decreases the flop counter. -/
theorem flops_DslashXpay_TwistPC (E : External K F) (out inp : ColorSpinorField) (parity : QudaParity) (x : ColorSpinorField) (k : K) :
    Quda.FlopsMonotone (DiracCloverHasenbuschTwistPC.DslashXpay E out inp parity x k) := by
  unfold DiracCloverHasenbuschTwistPC.DslashXpay
  repeat (first
    | with_reducible exact flops_checkParitySpinor_DiracClover _ _ _
    | with_reducible exact flops_checkSpinorAlias _ _
    | with_reducible exact flops_getState
    | with_reducible exact flops_pure _
    | with_reducible exact flops_DslashXpay_DiracCloverPC _ _ _ _ _ _
    | with_reducible exact flops_DslashXpayTwistClovInv_TwistPC _ _ _ _ _ _ _
    | with_reducible exact flops_addFlops _
    | with_reducible refine Quda.FlopsMonotone.flops_bind _ _ ?_ (fun _ => ?_)
    | with_reducible refine Quda.FlopsMonotone.flops_ite _ _ _ ?_ ?_)

/-- A call that returns with the counter grown by `c * clover.VolumeCB()` has added `c`
flops per site. -/
theorem Quda.FlopsPerSite.of_run (m : Quda K F α) (s s1 : State K F) (a : α) (c : Nat)
    (h : m s = .ok a s1) (hf : s1.flops = s.flops + c * s.clover.VolumeCB) :
    Quda.FlopsPerSite m s c := by
  refine ⟨a, s1, h, hf, fun hc hv => ?_⟩
  rw [hf]
  exact Nat.lt_add_of_pos_right (Nat.mul_pos hc (Nat.pos_of_ne_zero hv))

/-- A call that returns with the counter grown by `c * clover.VolumeCB()` has added `c`
flops per site. -/
theorem Quda.FlopsPerSite.of_exists (m : Quda K F α) (s : State K F) (a : α) (c : Nat)
    (h : ∃ s1, m s = .ok a s1 ∧ s1.flops = s.flops + c * s.clover.VolumeCB) :
    Quda.FlopsPerSite m s c := by
  obtain ⟨s1, e, f⟩ := h
  exact Quda.FlopsPerSite.of_run m s s1 a c e f

/-- Two calls that add the same number of flops per site, the second on a lattice of twice
the volume: the increment of the second is twice that of the first. -/
theorem Quda.FlopsPerSite.double (m m2 : Quda K F α) (s s2 : State K F) (c : Nat)
    (h : Quda.FlopsPerSite m s c) (h2 : Quda.FlopsPerSite m2 s2 c)
    (hv : s2.clover.VolumeCB = 2 * s.clover.VolumeCB) :
    (m2 s2).state.flops - s2.flops = 2 * ((m s).state.flops - s.flops) := by
  obtain ⟨a, s1, e, f, _⟩ := h
  obtain ⟨a2, t1, e2, f2, _⟩ := h2
  rw [e, e2]
  simp only [Result.state, f, f2, hv, Nat.add_sub_cancel_left]
  ring

/-- Outcome of `DiracCloverHasenbuschTwistPC::DslashXpayTwistNoClovInv` in every state. -/
theorem DiracCloverHasenbuschTwistPC.DslashXpayTwistNoClovInv_run (E : External K F)
    (out inp : ColorSpinorField) (parity : QudaParity) (x : ColorSpinorField) (k b : K)
    (s : State K F) :
    DiracCloverHasenbuschTwistPC.DslashXpayTwistNoClovInv E out inp parity x k b s =
      (if E.checkParitySpinor inp out = true then
        (if inp.volume = s.clover.VolumeCB then
          (if inp.v = out.v then .error QudaError.AliasError s
           else .ok () { s with
            store := Function.update s.store out.v
              (E.ApplyWilsonCloverHasenbuschTwistPCNoClovInv (s.store inp.v) k b (s.store x.v)
                parity s.dagger)
            flops := s.flops + (1872 + 48) * inp.volume
            trace := s.trace ++
              [KernelCall.ApplyWilsonCloverHasenbuschTwistPCNoClovInv out inp k b x parity
                s.dagger] })
         else .error QudaError.VolumeMismatch s)
      else .error QudaError.FieldMismatch s) := by
  rcases Classical.propComplete (E.checkParitySpinor inp out = true) with c | c <;>
  rcases Classical.propComplete (inp.volume = s.clover.VolumeCB) with d | d <;>
  rcases Classical.propComplete (inp.v = out.v) with a | a <;>
    simp only [DiracCloverHasenbuschTwistPC.DslashXpayTwistNoClovInv,
      DiracClover.checkParitySpinor_run, Dirac.checkSpinorAlias,
      ApplyWilsonCloverHasenbuschTwistPCNoClovInv, Quda.bind_run, Quda.ite_run,
      Quda.pure_run, errorQuda_run, getState_run, addFlops_run, c, d, a, ↓reduceIte]

/-- Flops per site of the methods that launch one kernel on a parity field, when the checks
pass. -/
theorem flopsPerSite_single (E : External K F) (out inp x : ColorSpinorField)
    (parity : QudaParity) (k b : K) (s : State K F)
    (c : E.checkParitySpinor inp out = true) (d : inp.volume = s.clover.VolumeCB)
    (a : inp.v ≠ out.v) :
    Quda.FlopsPerSite (DiracClover.Clover E out inp parity) s 504 ∧
    Quda.FlopsPerSite (DiracClover.DslashXpay E out inp parity x k) s 1872 ∧
    Quda.FlopsPerSite (DiracClover.DslashXpay_b E out inp parity x k b) s 1872 ∧
    Quda.FlopsPerSite (DiracCloverPC.CloverInv E out inp parity) s 504 ∧
    Quda.FlopsPerSite (DiracCloverPC.DslashXpay E out inp parity x k) s 1872 ∧
    Quda.FlopsPerSite
      (DiracCloverHasenbuschTwistPC.DslashXpayTwistClovInv E out inp parity x k b) s
      (1872 + 48 + 504) ∧
    Quda.FlopsPerSite
      (DiracCloverHasenbuschTwistPC.DslashXpayTwistNoClovInv E out inp parity x k b) s
      (1872 + 48) ∧
    Quda.FlopsPerSite (DiracCloverHasenbuschTwistPC.DslashXpay E out inp parity x k) s
      (match parity with
        | QUDA_EVEN_PARITY => 1872 + 1872
        | QUDA_ODD_PARITY => 1872 + 48 + 504 + 1872
        | QUDA_INVALID_PARITY => 1872) := by
  refine ⟨?_, ?_, ?_, ?_, ?_, ?_, ?_, ?_⟩
  · exact Quda.FlopsPerSite.of_run _ _ _ () _
      (by rw [DiracClover.Clover_run, if_pos c, if_pos d]) (by rw [d])
  · exact Quda.FlopsPerSite.of_run _ _ _ () _
      (by rw [DiracClover.DslashXpay_run, if_pos c, if_pos d, if_neg a]) (by rw [d])
  · exact Quda.FlopsPerSite.of_run _ _ _ () _
      (by rw [DiracClover.DslashXpay_b_run, if_pos c, if_pos d, if_neg a]) (by rw [d])
  · exact Quda.FlopsPerSite.of_run _ _ _ () _
      (by rw [DiracCloverPC.CloverInv_run, if_pos c, if_pos d]) (by rw [d])
  · exact Quda.FlopsPerSite.of_run _ _ _ () _
      (by rw [DiracCloverPC.DslashXpay_pc_run, if_pos c, if_pos d, if_neg a]) (by rw [d])
  · exact Quda.FlopsPerSite.of_run _ _ _ () _
      (by rw [DiracCloverHasenbuschTwistPC.DslashXpayTwistClovInv_run, if_pos c, if_pos d,
        if_neg a]) (by rw [d])
  · exact Quda.FlopsPerSite.of_run _ _ _ () _
      (by rw [DiracCloverHasenbuschTwistPC.DslashXpayTwistNoClovInv_run, if_pos c, if_pos d,
        if_neg a]) (by rw [d])
  · refine Quda.FlopsPerSite.of_run _ _ _ () _
      (by rw [DiracCloverHasenbuschTwistPC.DslashXpay_twisted_run, if_pos c, if_pos d,
        if_neg a]) ?_
    cases parity <;> simp only [d] <;> ring

/-- Flops per site of `DiracCloverPC::prepare` and `DiracCloverPC::reconstruct` asked for a
full-system solution type, on valid disjoint full fields with no scratch field held and a
valid tag. -/
theorem flopsPerSite_prepare (E : External K F) (x b : ColorSpinorField)
    (solType : QudaSolutionType) (s : State K F) (hE : E.AcceptsParity s.clover.VolumeCB)
    (hF : E.checkFullSpinor x b = true) (hx : s.FullField x) (hb : s.FullField b)
    (hxb : x.Disjoint b) (h1 : s.tmp1 = none) (hsol : solType.Full)
    (ht : s.matpcType ≠ QUDA_MATPC_INVALID) :
    Quda.FlopsPerSite (DiracCloverPC.prepare E x b solType) s
      (if DiracCloverPC.symmetric s.matpcType = true then 504 + E.wilsonXpayFlops + 504
        else 504 + E.wilsonXpayFlops) ∧
    Quda.FlopsPerSite (DiracCloverPC.reconstruct E x b solType) s
      (E.wilsonXpayFlops + 504) := by
  have vx := hx.2.1
  have vb := hb.2.1
  cases hm : s.matpcType with
  | QUDA_MATPC_INVALID => exact absurd hm ht
  | QUDA_MATPC_EVEN_EVEN =>
    exact ⟨Quda.FlopsPerSite.of_run _ _ _ _ _
        (DiracCloverPC.prepare_run_EVEN_EVEN E x b solType s hE hx hb hxb h1 hsol hm)
        (by simp only [DiracCloverPC.symmetric_cases, ↓reduceIte, vb]; ring),
      Quda.FlopsPerSite.of_run _ _ _ _ _
        (DiracCloverPC.reconstruct_run_EVEN E x b solType s hE hF hx hb hxb h1 hsol
          (Or.inl hm))
        (by simp only [vx, vb]; ring)⟩
  | QUDA_MATPC_ODD_ODD =>
    exact ⟨Quda.FlopsPerSite.of_run _ _ _ _ _
        (DiracCloverPC.prepare_run_ODD_ODD E x b solType s hE hx hb hxb h1 hsol hm)
        (by simp only [DiracCloverPC.symmetric_cases, ↓reduceIte, vb]; ring),
      Quda.FlopsPerSite.of_run _ _ _ _ _
        (DiracCloverPC.reconstruct_run_ODD E x b solType s hE hF hx hb hxb h1 hsol
          (Or.inl hm))
        (by simp only [vx, vb]; ring)⟩
  | QUDA_MATPC_EVEN_EVEN_ASYMMETRIC =>
    exact ⟨Quda.FlopsPerSite.of_run _ _ _ _ _
        (DiracCloverPC.prepare_run_EVEN_EVEN_ASYMMETRIC E x b solType s hE hx hb hxb h1 hsol
          hm)
        (by simp only [DiracCloverPC.symmetric_cases, ↓reduceIte, Bool.false_eq_true, vb]
            ring),
      Quda.FlopsPerSite.of_run _ _ _ _ _
        (DiracCloverPC.reconstruct_run_EVEN E x b solType s hE hF hx hb hxb h1 hsol
          (Or.inr hm))
        (by simp only [vx, vb]; ring)⟩
  | QUDA_MATPC_ODD_ODD_ASYMMETRIC =>
    exact ⟨Quda.FlopsPerSite.of_run _ _ _ _ _
        (DiracCloverPC.prepare_run_ODD_ODD_ASYMMETRIC E x b solType s hE hx hb hxb h1 hsol
          hm)
        (by simp only [DiracCloverPC.symmetric_cases, ↓reduceIte, Bool.false_eq_true, vb]
            ring),
      Quda.FlopsPerSite.of_run _ _ _ _ _
        (DiracCloverPC.reconstruct_run_ODD E x b solType s hE hF hx hb hxb h1 hsol
          (Or.inr hm))
        (by simp only [vx, vb]; ring)⟩


variable [Field K]

/-- The method `DiracClover::M` never decreases the flop counter. -/
theorem flops_M_DiracClover (E : External K F) (out inp : ColorSpinorField) :
    Quda.FlopsMonotone (DiracClover.M E out inp) := by
  unfold DiracClover.M
  repeat (first
    | with_reducible exact flops_getState
    | with_reducible exact flops_ApplyWilsonClover _ _ _ _ _ _ _
    | with_reducible exact flops_addFlops _
    | with_reducible refine Quda.FlopsMonotone.flops_bind _ _ ?_ (fun _ => ?_))

/-- The method `DiracClover::MdagM` never decreases the flop counter. -/
theorem flops_MdagM_DiracClover (E : External K F) (out inp : ColorSpinorField) :
    Quda.FlopsMonotone (DiracClover.MdagM E out inp) := by
  unfold DiracClover.MdagM
  repeat (first
    | with_reducible exact flops_checkFullSpinor _ _ _
    | with_reducible exact flops_deref _
    | with_reducible exact flops_M_DiracClover _ _ _
    | with_reducible refine flops_Mdag _ (fun _ _ => ?_) _ _
    | with_reducible exact flops_newTmp _ _
    | with_reducible refine Quda.FlopsMonotone.flops_bind _ _ ?_ (fun _ => ?_)
    | with_reducible refine Quda.FlopsMonotone.flops_ite _ _ _ ?_ ?_
    | with_reducible exact flops_deleteTmp _ _)

/-- The method `DiracCloverPC::Dslash` never decreases the flop counter. -/
theorem flops_Dslash_DiracCloverPC (E : External K F) (out inp : ColorSpinorField) (parity : QudaParity) :
    Quda.FlopsMonotone (DiracCloverPC.Dslash E out inp parity) := by
  unfold DiracCloverPC.Dslash
  repeat (first
    | with_reducible exact flops_checkParitySpinor_DiracClover _ _ _
    | with_reducible exact flops_checkSpinorAlias _ _
    | with_reducible exact flops_getState
    | with_reducible exact flops_ApplyWilsonCloverPreconditioned _ _ _ _ _ _ _
    | with_reducible exact flops_addFlops _
    | with_reducible refine Quda.FlopsMonotone.flops_bind _ _ ?_ (fun _ => ?_))

/-- The method `DiracCloverPC::M` never decreases the flop counter. -/
theorem flops_M_DiracCloverPC (E : External K F) (out inp : ColorSpinorField) :
    Quda.FlopsMonotone (DiracCloverPC.M E out inp) := by
  unfold DiracCloverPC.M
  repeat (first
    | with_reducible exact flops_getState
    | with_reducible exact flops_deref _
    | with_reducible exact flops_Dslash_DiracCloverPC _ _ _ _
    | with_reducible exact flops_DslashXpay_DiracClover _ _ _ _ _ _
    | with_reducible exact flops_DslashXpay_DiracCloverPC _ _ _ _ _ _
    | with_reducible exact flops_CloverInv_DiracCloverPC _ _ _ _
    | with_reducible exact flops_DslashXpay_DiracWilson _ _ _ _ _ _
    | with_reducible exact flops_newTmp _ _
    | with_reducible refine Quda.FlopsMonotone.flops_bind _ _ ?_ (fun _ => ?_)
    | with_reducible refine Quda.FlopsMonotone.flops_ite _ _ _ ?_ ?_
    | with_reducible exact flops_deleteTmp _ _)

/-- The method `DiracCloverPC::MdagM` never decreases the flop counter. -/
theorem flops_MdagM_DiracCloverPC (E : External K F) (out inp : ColorSpinorField) :
    Quda.FlopsMonotone (DiracCloverPC.MdagM E out inp) := by
  unfold DiracCloverPC.MdagM
  repeat (first
    | with_reducible exact flops_deref _
    | with_reducible exact flops_M_DiracCloverPC _ _ _
    | with_reducible refine flops_Mdag _ (fun _ _ => ?_) _ _
    | with_reducible exact flops_newTmp _ _
    | with_reducible refine Quda.FlopsMonotone.flops_bind _ _ ?_ (fun _ => ?_)
    | with_reducible refine Quda.FlopsMonotone.flops_ite _ _ _ ?_ ?_
    | with_reducible exact flops_deleteTmp _ _)

/-- The method `DiracCloverHasenbuschTwist::M` never decreases the flop counter. -/
theorem flops_M_HasenbuschTwist (E : External K F) (out inp : ColorSpinorField) :
    Quda.FlopsMonotone (DiracCloverHasenbuschTwist.M E out inp) := by
  unfold DiracCloverHasenbuschTwist.M
  repeat (first
    | with_reducible exact flops_getState
    | with_reducible exact flops_ApplyWilsonClover _ _ _ _ _ _ _
    | with_reducible exact flops_ApplyWilsonCloverTwist _ _ _ _ _ _ _ _
    | with_reducible exact flops_ApplyWilsonCloverHasenbuschTwist _ _ _ _ _ _ _ _
    | with_reducible exact flops_addFlops _
    | with_reducible refine Quda.FlopsMonotone.flops_bind _ _ ?_ (fun _ => ?_)
    | with_reducible refine Quda.FlopsMonotone.flops_ite _ _ _ ?_ ?_)

/-- The method `DiracCloverHasenbuschTwist::MdagM` never decreases the flop counter. -/
theorem flops_MdagM_HasenbuschTwist (E : External K F) (out inp : ColorSpinorField) :
    Quda.FlopsMonotone (DiracCloverHasenbuschTwist.MdagM E out inp) := by
  unfold DiracCloverHasenbuschTwist.MdagM
  repeat (first
    | with_reducible exact flops_checkFullSpinor _ _ _
    | with_reducible exact flops_deref _
    | with_reducible exact flops_M_HasenbuschTwist _ _ _
    | with_reducible refine flops_Mdag _ (fun _ _ => ?_) _ _
    | with_reducible exact flops_newTmp _ _
    | with_reducible refine Quda.FlopsMonotone.flops_bind _ _ ?_ (fun _ => ?_)
    | with_reducible refine Quda.FlopsMonotone.flops_ite _ _ _ ?_ ?_
    | with_reducible exact flops_deleteTmp _ _)

/-- The method `DiracCloverHasenbuschTwistPC::M` never decreases the flop counter. -/
theorem flops_M_TwistPC (E : External K F) (out inp : ColorSpinorField) :
    Quda.FlopsMonotone (DiracCloverHasenbuschTwistPC.M E out inp) := by
  unfold DiracCloverHasenbuschTwistPC.M
  repeat (first
    | with_reducible exact flops_getState
    | with_reducible exact flops_deref _
    | with_reducible exact flops_Dslash_DiracCloverPC _ _ _ _
    | with_reducible exact flops_DslashXpay_b_DiracClover _ _ _ _ _ _ _
    | with_reducible exact flops_DslashXpayTwistClovInv_TwistPC _ _ _ _ _ _ _
    | with_reducible exact flops_DslashXpayTwistNoClovInv_TwistPC _ _ _ _ _ _ _
    | with_reducible exact flops_CloverInv_DiracCloverPC _ _ _ _
    | with_reducible exact flops_newTmp _ _
    | with_reducible refine Quda.FlopsMonotone.flops_bind _ _ ?_ (fun _ => ?_)
    | with_reducible refine Quda.FlopsMonotone.flops_ite _ _ _ ?_ ?_
    | with_reducible exact flops_deleteTmp _ _)

/-- The method `DiracCloverHasenbuschTwistPC::MdagM` never decreases the flop counter. -/
theorem flops_MdagM_TwistPC (E : External K F) (out inp : ColorSpinorField) :
    Quda.FlopsMonotone (DiracCloverHasenbuschTwistPC.MdagM E out inp) := by
  unfold DiracCloverHasenbuschTwistPC.MdagM
  repeat (first
    | with_reducible exact flops_deref _
    | with_reducible exact flops_M_TwistPC _ _ _
    | with_reducible refine flops_Mdag _ (fun _ _ => ?_) _ _
    | with_reducible exact flops_newTmp _ _
    | with_reducible refine Quda.FlopsMonotone.flops_bind _ _ ?_ (fun _ => ?_)
    | with_reducible refine Quda.FlopsMonotone.flops_ite _ _ _ ?_ ?_
    | with_reducible exact flops_deleteTmp _ _)

/-- Flops per site of `DiracCloverPC::Dslash` when the checks pass. -/
theorem flopsPerSite_Dslash (E : External K F) (out inp : ColorSpinorField)
    (parity : QudaParity) (s : State K F)
    (c : E.checkParitySpinor inp out = true) (d : inp.volume = s.clover.VolumeCB)
    (a : inp.v ≠ out.v) :
    Quda.FlopsPerSite (DiracCloverPC.Dslash E out inp parity) s 1824 :=
  Quda.FlopsPerSite.of_run _ _ _ () _
    (by rw [DiracCloverPC.Dslash_run, if_pos c, if_pos d, if_neg a]) (by rw [d])

/-- Flops per site of `M` of the two preconditioned classes, on valid fields with no scratch
field held. -/
theorem flopsPerSite_M_parity (E : External K F) (out inp : ColorSpinorField) (s : State K F)
    (hE : E.AcceptsParity s.clover.VolumeCB) (hin : s.ParityField inp)
    (hout : s.ParityField out) (hne : inp.v ≠ out.v) (h1 : s.tmp1 = none) :
    Quda.FlopsPerSite (DiracCloverPC.M E out inp) s
      (if DiracCloverPC.symmetric s.matpcType = false ∨ s.dagger = false then 1824 + 1872
        else 504 + 1824 + E.wilsonXpayFlops) ∧
    Quda.FlopsPerSite (DiracCloverHasenbuschTwistPC.M E out inp) s
      (if DiracCloverPC.symmetric s.matpcType = false then 1824 + 1872
        else if s.dagger = false then 1824 + (1872 + 48 + 504)
        else 504 + 1824 + (1872 + 48)) := by
  have d := hin.2.1
  constructor
  · refine Quda.FlopsPerSite.of_run _ _ _ () _
      (DiracCloverPC.M_run E out inp s hE hin hout hne h1) ?_
    cases hs : DiracCloverPC.symmetric s.matpcType <;> cases hd : s.dagger <;>
      simp only [↓reduceIte, Bool.true_eq_false, Bool.false_eq_true, or_self, or_true,
        true_or, or_false, d] <;> ring
  · refine Quda.FlopsPerSite.of_run _ _ _ () _
      (DiracCloverHasenbuschTwistPC.M_twisted_run E out inp s hE hin hout hne h1) ?_
    cases hs : DiracCloverPC.symmetric s.matpcType <;> cases hd : s.dagger <;>
      simp only [↓reduceIte, Bool.true_eq_false, Bool.false_eq_true, d] <;> ring

/-- On valid fields with no scratch field held `DiracCloverPC::MdagM` returns; the flops it
has counted. -/
theorem DiracCloverPC.MdagM_flops (E : External K F) (out inp : ColorSpinorField)
    (s : State K F) (hE : E.AcceptsParity s.clover.VolumeCB) (hin : s.ParityField inp)
    (hout : s.ParityField out) (hs : s.ScratchFree) :
    ∃ s1, DiracCloverPC.MdagM E out inp s = .ok () s1 ∧
      s1.flops = s.flops +
        (if DiracCloverPC.symmetric s.matpcType = false then 1824 + 1872 + (1824 + 1872)
          else 1824 + 1872 + (504 + 1824 + E.wilsonXpayFlops)) * s.clover.VolumeCB := by
  obtain ⟨h1, h2⟩ := hs
  obtain ⟨hi1, hi2, hi3⟩ := hin
  obtain ⟨ho1, ho2, ho3⟩ := hout
  cases ht : s.matpcType <;> cases hd : s.dagger <;>
  · simp only [DiracCloverPC.MdagM, State.getTmp, State.setTmp, h2, Quda.bind_run, deref_run,
      newTmp_run]
    rw [DiracCloverPC.M_run E _ _ _ ?_ ?_ ?_ ?_ ?_]
    rotate_left
    · exact hE
    · exact ⟨hi1, hi2, by dsimp only; omega⟩
    · exact ⟨hi1, hi2, by dsimp only; omega⟩
    · dsimp only; omega
    · exact h1
    simp only [ht, hd, DiracCloverPC.symmetric_cases, DiracCloverPC.parity_cases, ↓reduceIte,
      Bool.true_eq_false, Bool.false_eq_true, Dirac.Mdag, Dirac.flipDagger_run, Quda.bind_run,
      deref_run, State.getTmp, Bool.not_false, Bool.not_true]
    rw [DiracCloverPC.M_run E _ _ _ ?_ ?_ ?_ ?_ ?_]
    rotate_left
    · exact hE
    · exact ⟨hi1, hi2, by dsimp only; omega⟩
    · exact ⟨ho1, ho2, by dsimp only; omega⟩
    · dsimp only; omega
    · exact h1
    simp only [ht, hd, DiracCloverPC.symmetric_cases, DiracCloverPC.parity_cases, ↓reduceIte,
      Bool.true_eq_false, Bool.false_eq_true, deleteTmp_run, State.setTmp]
    refine ⟨_, rfl, ?_⟩
    simp only [hi2]
    ring

/-- On valid fields with no scratch field held `DiracCloverHasenbuschTwistPC::MdagM`
returns; the flops it has counted. -/
theorem DiracCloverHasenbuschTwistPC.MdagM_twisted_flops (E : External K F)
    (out inp : ColorSpinorField) (s : State K F) (hE : E.AcceptsParity s.clover.VolumeCB)
    (hin : s.ParityField inp) (hout : s.ParityField out) (hs : s.ScratchFree) :
    ∃ s1, DiracCloverHasenbuschTwistPC.MdagM E out inp s = .ok () s1 ∧
      s1.flops = s.flops +
        (if DiracCloverPC.symmetric s.matpcType = false then 1824 + 1872 + (1824 + 1872)
          else 1824 + (1872 + 48 + 504) + (504 + 1824 + (1872 + 48))) *
          s.clover.VolumeCB := by
  obtain ⟨h1, h2⟩ := hs
  obtain ⟨hi1, hi2, hi3⟩ := hin
  obtain ⟨ho1, ho2, ho3⟩ := hout
  cases ht : s.matpcType <;> cases hd : s.dagger <;>
  · simp only [DiracCloverHasenbuschTwistPC.MdagM, State.getTmp, State.setTmp, h2,
      Quda.bind_run, deref_run, newTmp_run]
    rw [DiracCloverHasenbuschTwistPC.M_twisted_run E _ _ _ ?_ ?_ ?_ ?_ ?_]
    rotate_left
    · exact hE
    · exact ⟨hi1, hi2, by dsimp only; omega⟩
    · exact ⟨hi1, hi2, by dsimp only; omega⟩
    · dsimp only; omega
    · exact h1
    simp only [ht, hd, DiracCloverPC.symmetric_cases, DiracCloverPC.parity_cases, ↓reduceIte,
      Bool.true_eq_false, Bool.false_eq_true, Dirac.Mdag, Dirac.flipDagger_run, Quda.bind_run,
      deref_run, State.getTmp, Bool.not_false, Bool.not_true]
    rw [DiracCloverHasenbuschTwistPC.M_twisted_run E _ _ _ ?_ ?_ ?_ ?_ ?_]
    rotate_left
    · exact hE
    · exact ⟨hi1, hi2, by dsimp only; omega⟩
    · exact ⟨ho1, ho2, by dsimp only; omega⟩
    · dsimp only; omega
    · exact h1
    simp only [ht, hd, DiracCloverPC.symmetric_cases, DiracCloverPC.parity_cases, ↓reduceIte,
      Bool.true_eq_false, Bool.false_eq_true, deleteTmp_run, State.setTmp]
    refine ⟨_, rfl, ?_⟩
    simp only [hi2]
    ring

/-- Flops per site of `M` and `MdagM` of the two unpreconditioned classes, on full fields of
even volume that pass the base-class check, with no scratch field held. -/
theorem flopsPerSite_M_full (E : External K F) (out inp : ColorSpinorField) (s : State K F)
    (hF : E.AcceptsFull s.clover.VolumeCB) (hin : s.FullField inp) (hout : s.FullField out)
    (hv : inp.volume = 2 * s.clover.VolumeCB) (h1 : s.tmp1 = none) :
    Quda.FlopsPerSite (DiracClover.M E out inp) s (2 * 1872) ∧
    Quda.FlopsPerSite (DiracClover.MdagM E out inp) s (2 * 1872 + 2 * 1872) ∧
    Quda.FlopsPerSite (DiracCloverHasenbuschTwist.M E out inp) s
      (if s.matpcType = QUDA_MATPC_ODD_ODD_ASYMMETRIC ∨
          s.matpcType = QUDA_MATPC_EVEN_EVEN_ASYMMETRIC then 2 * (2 * 1872) + 48
        else 2 * (2 * 1872) + (48 + 504)) ∧
    Quda.FlopsPerSite (DiracCloverHasenbuschTwist.MdagM E out inp) s
      (if s.matpcType = QUDA_MATPC_ODD_ODD_ASYMMETRIC ∨
          s.matpcType = QUDA_MATPC_EVEN_EVEN_ASYMMETRIC then
        2 * (2 * 1872) + 48 + (2 * (2 * 1872) + 48)
        else 2 * (2 * 1872) + (48 + 504) + (2 * (2 * 1872) + (48 + 504))) := by
  obtain ⟨hi1, hi2, -⟩ := hin
  obtain ⟨ho1, ho2, -⟩ := hout
  have c1 : E.checkFullSpinor out inp = true := hF out inp ho1 hi1 ho2 hi2
  have c2 : E.checkFullSpinor
      { siteSubset := inp.siteSubset, volume := inp.volume, v := s.brk, vOdd := s.brk + 1 }
      inp = true := hF _ inp hi1 hi1 hi2 hi2
  have hcb : inp.VolumeCB = s.clover.VolumeCB := by
    simp only [ColorSpinorField.VolumeCB, hi1, hi2]
  refine ⟨?_, ?_, ?_, ?_⟩
  · refine Quda.FlopsPerSite.of_exists _ _ () _ ?_
    simp only [DiracClover.M, ApplyWilsonClover, Quda.bind_run, getState_run, addFlops_run]
    exact ⟨_, rfl, by simp only [hv]; ring⟩
  · refine Quda.FlopsPerSite.of_exists _ _ () _ ?_
    simp only [DiracClover.MdagM, DiracClover.M, Dirac.Mdag, Dirac.checkFullSpinor,
      ApplyWilsonClover, State.getTmp, State.setTmp, h1, c1, c2, Quda.bind_run,
      Quda.pure_run, Quda.ite_run, getState_run, addFlops_run, deref_run, deleteTmp_run,
      newTmp_run, Dirac.flipDagger_run, ↓reduceIte]
    exact ⟨_, rfl, by simp only [hv]; ring⟩
  · refine Quda.FlopsPerSite.of_exists _ _ () _ ?_
    cases ht : s.matpcType <;>
    · simp only [DiracCloverHasenbuschTwist.M, ApplyWilsonClover, ApplyWilsonCloverTwist,
        ApplyWilsonCloverHasenbuschTwist, ht, Quda.bind_run, Quda.ite_run, getState_run,
        addFlops_run, reduceCtorEq, decide_False, decide_True, Bool.or_true, Bool.true_or,
        Bool.or_false, Bool.or_self, Bool.not_true, Bool.not_false, ↓reduceIte,
        Bool.false_eq_true, or_self, or_true, true_or]
      exact ⟨_, rfl, by simp only [hv, hcb]; ring⟩
  · refine Quda.FlopsPerSite.of_exists _ _ () _ ?_
    cases ht : s.matpcType <;>
    · simp only [DiracCloverHasenbuschTwist.MdagM, DiracCloverHasenbuschTwist.M,
        Dirac.Mdag, Dirac.checkFullSpinor, ApplyWilsonClover, ApplyWilsonCloverTwist,
        ApplyWilsonCloverHasenbuschTwist, State.getTmp, State.setTmp, h1, c1, c2, ht,
        Quda.bind_run, Quda.pure_run, Quda.ite_run, getState_run, addFlops_run, deref_run,
        deleteTmp_run, newTmp_run, Dirac.flipDagger_run, reduceCtorEq, decide_False,
        decide_True, Bool.or_true, Bool.true_or, Bool.or_false, Bool.or_self,
        Bool.not_true, Bool.not_false, ↓reduceIte, Bool.false_eq_true, or_self, or_true,
        true_or]
      exact ⟨_, rfl, by simp only [hv, hi1, ColorSpinorField.VolumeCB]; omega⟩

/-- C20 (amended): flop accounting with the counter as a natural number.  (1) No method ever
decreases the counter, whether it returns or aborts.  (2) A call that returns adds a fixed
number of flops per site of a checkerboard, given here for each method on valid fields (for
`M` and `MdagM` of the unpreconditioned classes on full fields of even volume
`2 * VolumeCB`): the increment is that number times `clover.VolumeCB()`, so the counter is
strictly larger after the call when the volume is not zero and the number is not zero.  It
is not zero for `Clover`, `CloverInv`, `Dslash`, `DslashXpay`, `M`, `MdagM`, and for
`prepare` and `reconstruct` of the preconditioned classes asked for a full-system solution
type.  (3) It is zero, and the counter unchanged, for `DiracClover::prepare`,
`DiracClover::reconstruct` and for `prepare` and `reconstruct` of the preconditioned
classes asked for a preconditioned solution type.  (4) Two calls with the same number of
flops per site, the second on a lattice of twice the volume: the increment of the second is
twice that of the first. -/
theorem C20_flop_accounting (E : External K F) (out inp x b : ColorSpinorField)
    (parity : QudaParity) (k mu : K) (solType : QudaSolutionType) (s : State K F) :
    (Quda.FlopsMonotone (DiracClover.Clover E out inp parity) ∧
      Quda.FlopsMonotone (DiracClover.DslashXpay E out inp parity x k) ∧
      Quda.FlopsMonotone (DiracClover.DslashXpay_b E out inp parity x k mu) ∧
      Quda.FlopsMonotone (DiracClover.M E out inp) ∧
      Quda.FlopsMonotone (DiracClover.MdagM E out inp) ∧
      Quda.FlopsMonotone (DiracClover.prepare x b solType : Quda K F _) ∧
      Quda.FlopsMonotone (DiracClover.reconstruct x b solType : Quda K F _) ∧
      Quda.FlopsMonotone (DiracCloverPC.CloverInv E out inp parity) ∧
      Quda.FlopsMonotone (DiracCloverPC.Dslash E out inp parity) ∧
      Quda.FlopsMonotone (DiracCloverPC.DslashXpay E out inp parity x k) ∧
      Quda.FlopsMonotone (DiracCloverPC.M E out inp) ∧
      Quda.FlopsMonotone (DiracCloverPC.MdagM E out inp) ∧
      Quda.FlopsMonotone (DiracCloverPC.prepare E x b solType) ∧
      Quda.FlopsMonotone (DiracCloverPC.reconstruct E x b solType) ∧
      Quda.FlopsMonotone (DiracCloverHasenbuschTwist.M E out inp) ∧
      Quda.FlopsMonotone (DiracCloverHasenbuschTwist.MdagM E out inp) ∧
      Quda.FlopsMonotone
        (DiracCloverHasenbuschTwistPC.DslashXpayTwistClovInv E out inp parity x k mu) ∧
      Quda.FlopsMonotone
        (DiracCloverHasenbuschTwistPC.DslashXpayTwistNoClovInv E out inp parity x k mu) ∧
      Quda.FlopsMonotone (DiracCloverHasenbuschTwistPC.DslashXpay E out inp parity x k) ∧
      Quda.FlopsMonotone (DiracCloverHasenbuschTwistPC.M E out inp) ∧
      Quda.FlopsMonotone (DiracCloverHasenbuschTwistPC.MdagM E out inp)) ∧
    (E.AcceptsParity s.clover.VolumeCB → s.ParityField inp → s.ParityField out →
      inp.v ≠ out.v →
      Quda.FlopsPerSite (DiracClover.Clover E out inp parity) s 504 ∧
      Quda.FlopsPerSite (DiracClover.DslashXpay E out inp parity x k) s 1872 ∧
      Quda.FlopsPerSite (DiracClover.DslashXpay_b E out inp parity x k mu) s 1872 ∧
      Quda.FlopsPerSite (DiracCloverPC.CloverInv E out inp parity) s 504 ∧
      Quda.FlopsPerSite (DiracCloverPC.Dslash E out inp parity) s 1824 ∧
      Quda.FlopsPerSite (DiracCloverPC.DslashXpay E out inp parity x k) s 1872 ∧
      Quda.FlopsPerSite
        (DiracCloverHasenbuschTwistPC.DslashXpayTwistClovInv E out inp parity x k mu) s
        (1872 + 48 + 504) ∧
      Quda.FlopsPerSite
        (DiracCloverHasenbuschTwistPC.DslashXpayTwistNoClovInv E out inp parity x k mu) s
        (1872 + 48) ∧
      Quda.FlopsPerSite (DiracCloverHasenbuschTwistPC.DslashXpay E out inp parity x k) s
        (match parity with
          | QUDA_EVEN_PARITY => 1872 + 1872
          | QUDA_ODD_PARITY => 1872 + 48 + 504 + 1872
          | QUDA_INVALID_PARITY => 1872) ∧
      (s.ScratchFree →
        Quda.FlopsPerSite (DiracCloverPC.M E out inp) s
          (if DiracCloverPC.symmetric s.matpcType = false ∨ s.dagger = false then 1824 + 1872
            else 504 + 1824 + E.wilsonXpayFlops) ∧
        Quda.FlopsPerSite (DiracCloverPC.MdagM E out inp) s
          (if DiracCloverPC.symmetric s.matpcType = false then 1824 + 1872 + (1824 + 1872)
            else 1824 + 1872 + (504 + 1824 + E.wilsonXpayFlops)) ∧
        Quda.FlopsPerSite (DiracCloverHasenbuschTwistPC.M E out inp) s
          (if DiracCloverPC.symmetric s.matpcType = false then 1824 + 1872
            else if s.dagger = false then 1824 + (1872 + 48 + 504)
            else 504 + 1824 + (1872 + 48)) ∧
        Quda.FlopsPerSite (DiracCloverHasenbuschTwistPC.MdagM E out inp) s
          (if DiracCloverPC.symmetric s.matpcType = false then 1824 + 1872 + (1824 + 1872)
            else 1824 + (1872 + 48 + 504) + (504 + 1824 + (1872 + 48))))) ∧
    (E.AcceptsFull s.clover.VolumeCB → s.FullField inp → s.FullField out →
      inp.volume = 2 * s.clover.VolumeCB → s.tmp1 = none →
      Quda.FlopsPerSite (DiracClover.M E out inp) s (2 * 1872) ∧
      Quda.FlopsPerSite (DiracClover.MdagM E out inp) s (2 * 1872 + 2 * 1872) ∧
      Quda.FlopsPerSite (DiracCloverHasenbuschTwist.M E out inp) s
        (if s.matpcType = QUDA_MATPC_ODD_ODD_ASYMMETRIC ∨
            s.matpcType = QUDA_MATPC_EVEN_EVEN_ASYMMETRIC then 2 * (2 * 1872) + 48
          else 2 * (2 * 1872) + (48 + 504)) ∧
      Quda.FlopsPerSite (DiracCloverHasenbuschTwist.MdagM E out inp) s
        (if s.matpcType = QUDA_MATPC_ODD_ODD_ASYMMETRIC ∨
            s.matpcType = QUDA_MATPC_EVEN_EVEN_ASYMMETRIC then
          2 * (2 * 1872) + 48 + (2 * (2 * 1872) + 48)
          else 2 * (2 * 1872) + (48 + 504) + (2 * (2 * 1872) + (48 + 504)))) ∧
    (E.AcceptsParity s.clover.VolumeCB → E.checkFullSpinor x b = true → s.FullField x →
      s.FullField b → x.Disjoint b → s.tmp1 = none → solType.Full →
      s.matpcType ≠ QUDA_MATPC_INVALID →
      Quda.FlopsPerSite (DiracCloverPC.prepare E x b solType) s
        (if DiracCloverPC.symmetric s.matpcType = true then 504 + E.wilsonXpayFlops + 504
          else 504 + E.wilsonXpayFlops) ∧
      Quda.FlopsPerSite (DiracCloverPC.reconstruct E x b solType) s
        (E.wilsonXpayFlops + 504)) ∧
    (¬ solType.Full →
      Quda.FlopsPerSite (DiracCloverPC.prepare E x b solType) s 0 ∧
      Quda.FlopsPerSite (DiracCloverPC.reconstruct E x b solType) s 0 ∧
      (DiracCloverPC.prepare E x b solType s).state.flops = s.flops ∧
      (DiracCloverPC.reconstruct E x b solType s).state.flops = s.flops) ∧
    (solType.Full → Quda.FlopsPerSite (DiracClover.prepare x b solType) s 0) ∧
    Quda.FlopsPerSite (DiracClover.reconstruct x b solType) s 0 ∧
    (DiracClover.prepare x b solType s).state.flops = s.flops ∧
    (DiracClover.reconstruct x b solType s).state.flops = s.flops ∧
    (∀ (β : Type) (m m2 : Quda K F β) (s2 : State K F) (c : Nat),
      Quda.FlopsPerSite m s c → Quda.FlopsPerSite m2 s2 c →
      s2.clover.VolumeCB = 2 * s.clover.VolumeCB →
      (m2 s2).state.flops - s2.flops = 2 * ((m s).state.flops - s.flops)) := by
  refine ⟨⟨flops_Clover_DiracClover E out inp parity,
      flops_DslashXpay_DiracClover E out inp parity x k,
      flops_DslashXpay_b_DiracClover E out inp parity x k mu,
      flops_M_DiracClover E out inp, flops_MdagM_DiracClover E out inp,
      flops_prepare_DiracClover x b solType, flops_reconstruct_DiracClover x b solType,
      flops_CloverInv_DiracCloverPC E out inp parity, flops_Dslash_DiracCloverPC E out inp parity,
      flops_DslashXpay_DiracCloverPC E out inp parity x k, flops_M_DiracCloverPC E out inp,
      flops_MdagM_DiracCloverPC E out inp, flops_prepare_DiracCloverPC E x b solType,
      flops_reconstruct_DiracCloverPC E x b solType, flops_M_HasenbuschTwist E out inp,
      flops_MdagM_HasenbuschTwist E out inp,
      flops_DslashXpayTwistClovInv_TwistPC E out inp parity x k mu,
      flops_DslashXpayTwistNoClovInv_TwistPC E out inp parity x k mu,
      flops_DslashXpay_TwistPC E out inp parity x k, flops_M_TwistPC E out inp,
      flops_MdagM_TwistPC E out inp⟩, ?_, ?_, ?_, ?_, ?_, ?_, ?_, ?_, ?_⟩
  · intro hE hin hout hne
    have c : E.checkParitySpinor inp out = true :=
      hE inp out hin.1 hout.1 hin.2.1 hout.2.1
    obtain ⟨g1, g2, g3, g4, g5, g6, g7, g8⟩ :=
      flopsPerSite_single E out inp x parity k mu s c hin.2.1 hne
    refine ⟨g1, g2, g3, g4, flopsPerSite_Dslash E out inp parity s c hin.2.1 hne, g5, g6, g7,
      g8, fun hs => ?_⟩
    obtain ⟨m1, m2⟩ := flopsPerSite_M_parity E out inp s hE hin hout hne hs.1
    exact ⟨m1, Quda.FlopsPerSite.of_exists _ _ () _
        (DiracCloverPC.MdagM_flops E out inp s hE hin hout hs), m2,
      Quda.FlopsPerSite.of_exists _ _ () _
        (DiracCloverHasenbuschTwistPC.MdagM_twisted_flops E out inp s hE hin hout hs)⟩
  · intro hF hin hout hv h1
    exact flopsPerSite_M_full E out inp s hF hin hout hv h1
  · intro hE hF hx hb hxb h1 hsol ht
    exact flopsPerSite_prepare E x b solType s hE hF hx hb hxb h1 hsol ht
  · intro hf
    have c : solType = QUDA_MATPC_SOLUTION ∨ solType = QUDA_MATPCDAG_MATPC_SOLUTION := by
      by_contra h
      exact hf ⟨fun h1 => h (Or.inl h1), fun h2 => h (Or.inr h2)⟩
    have e1 : DiracCloverPC.prepare E x b solType s = .ok (b, x) s := by
      simp only [DiracCloverPC.prepare, Quda.ite_run, Quda.pure_run, if_pos c]
    have e2 : DiracCloverPC.reconstruct E x b solType s = .ok () s := by
      simp only [DiracCloverPC.reconstruct, Quda.ite_run, Quda.pure_run, if_pos c]
    refine ⟨Quda.FlopsPerSite.of_run _ _ _ _ _ e1 (by omega),
      Quda.FlopsPerSite.of_run _ _ _ _ _ e2 (by omega), ?_, ?_⟩
    · rw [e1]; rfl
    · rw [e2]; rfl
  · intro hf
    have c : ¬ (solType = QUDA_MATPC_SOLUTION ∨ solType = QUDA_MATPCDAG_MATPC_SOLUTION) :=
      fun h => h.elim hf.1 hf.2
    have e1 : DiracClover.prepare x b solType s = .ok (b, x) s := by
      simp only [DiracClover.prepare, Quda.bind_run, Quda.ite_run, Quda.pure_run, if_neg c]
    exact Quda.FlopsPerSite.of_run _ _ _ _ _ e1 (by omega)
  · exact Quda.FlopsPerSite.of_run _ _ s () _ rfl (by omega)
  · by_cases c : solType = QUDA_MATPC_SOLUTION ∨ solType = QUDA_MATPCDAG_MATPC_SOLUTION
    · simp only [DiracClover.prepare, Quda.bind_run, Quda.ite_run, errorQuda_run, if_pos c,
        Result.state]
    · simp only [DiracClover.prepare, Quda.bind_run, Quda.ite_run, Quda.pure_run, if_neg c,
        Result.state]
  · rfl
  · intro β m m2 s2 c h h2 hv
    exact Quda.FlopsPerSite.double m m2 s s2 c h h2 hv

end Flops

section FlopsExample

/-- C20, as stated, fails on the example (full fields of 16 sites): `DiracClover::reconstruct`
and `DiracClover::prepare` return with the flop counter unchanged, and so do
`DiracCloverPC::prepare` and `DiracCloverPC::reconstruct` asked for `QUDA_MATPC_SOLUTION`;
the counter is not strictly larger after these calls. -/
theorem C20_flops_counterexample :
    (fullField 8 0 1).volume = 16 ∧ (fullField 8 2 3).volume = 16 ∧
    DiracClover.reconstruct (fullField 8 0 1) (fullField 8 2 3) QUDA_MAT_SOLUTION
        (Example.state ℚ QUDA_MATPC_EVEN_EVEN false (1 / 8)) =
      .ok () (Example.state ℚ QUDA_MATPC_EVEN_EVEN false (1 / 8)) ∧
    ¬ ((Example.state ℚ QUDA_MATPC_EVEN_EVEN false (1 / 8)).flops <
      (DiracClover.reconstruct (fullField 8 0 1) (fullField 8 2 3) QUDA_MAT_SOLUTION
        (Example.state ℚ QUDA_MATPC_EVEN_EVEN false (1 / 8))).state.flops) ∧
    ¬ ((Example.state ℚ QUDA_MATPC_EVEN_EVEN false (1 / 8)).flops <
      (DiracClover.prepare (fullField 8 0 1) (fullField 8 2 3) QUDA_MAT_SOLUTION
        (Example.state ℚ QUDA_MATPC_EVEN_EVEN false (1 / 8))).state.flops) ∧
    ¬ ((Example.state ℚ QUDA_MATPC_EVEN_EVEN false (1 / 8)).flops <
      (DiracCloverPC.prepare (Example.kernels ℚ) (fullField 8 0 1) (fullField 8 2 3)
        QUDA_MATPC_SOLUTION (Example.state ℚ QUDA_MATPC_EVEN_EVEN false (1 / 8))).state.flops) ∧
    ¬ ((Example.state ℚ QUDA_MATPC_EVEN_EVEN false (1 / 8)).flops <
      (DiracCloverPC.reconstruct (Example.kernels ℚ) (fullField 8 0 1) (fullField 8 2 3)
        QUDA_MATPC_SOLUTION (Example.state ℚ QUDA_MATPC_EVEN_EVEN false (1 / 8))).state.flops) :=
  ⟨rfl, rfl, rfl, by decide, by decide, by decide, by decide⟩

/-- C20 (amended), on the example: `DiracCloverPC::M` with tag EVEN_EVEN on parity fields of
8 sites returns with the counter at `(1824 + 1872) * 8`, strictly above 0. -/
theorem C20_flop_accounting_witness :
    ∃ s1, DiracCloverPC.M (Example.kernels ℚ) (parityField 8 1) (parityField 8 0)
        (Example.state ℚ QUDA_MATPC_EVEN_EVEN false (1 / 8)) = .ok () s1 ∧
      s1.flops = 29568 ∧
      (Example.state ℚ QUDA_MATPC_EVEN_EVEN false (1 / 8)).flops < s1.flops := by
  obtain ⟨_, s1, h1, h2, h3⟩ :=
    ((C20_flop_accounting (Example.kernels ℚ) (parityField 8 1) (parityField 8 0)
      (parityField 8 2) (parityField 8 2) QUDA_EVEN_PARITY (1 / 8) (1 / 3) QUDA_MAT_SOLUTION
      (Example.state ℚ QUDA_MATPC_EVEN_EVEN false (1 / 8))).2.1
      (Example.acceptsParity ℚ 8) ⟨rfl, rfl, by decide⟩ ⟨rfl, rfl, by decide⟩
      (by decide)).2.2.2.2.2.2.2.2.2 ⟨rfl, rfl⟩ |>.1
  exact ⟨s1, h1, h2, h3 (by decide) (by decide)⟩

end FlopsExample

end quda
